import Mathlib

/-!
# Contacts and the revolute joint of the box2d simulation core

A shallow embedding of `src/src/contact.c` (the contact registry, `b2CreateContact`,
`b2DestroyContact`, `b2GetContactSim`, `b2GetContactFullId`, `b2Contact_GetData`,
`b2UpdateContact`) and of `src/src/revolute_joint.c` (the limit and motor setters,
`b2PrepareRevoluteJoint`, `b2WarmStartRevoluteJoint`, `b2SolveRevoluteJoint`), with the
types of `src/src/joint.h`, followed by the properties proved about them.

Conventions of the embedding
* C `int` values (ids, indices, keys, counts) are `Int`; `uint32_t` flag words are `Nat`
  with the bitwise operators of `Nat`; the generation counter wraps modulo
  `2 ^ generationBits`.
* `float` values are rationals (exact arithmetic); `b2RevoluteJoint_SetLimits`, which only
  compares and copies its arguments, is embedded also over `b2Float`, with infinities and NaN.
* Arrays are lists.  A pointer into an array is the index of its element and every
  dereference reads the current world, so aliasing between pointers is preserved.
* Reading or writing outside an array is undefined behaviour in C; the embedding
  returns `none` there.  `B2_ASSERT` is compiled out (release build) and has no effect.
* Functions, constants and types that the two files use but that live in files outside
  `src/` are either fields of `b2Env` and `b2MathEnv` (parameters) or carry a doc comment
  that starts with "Modelled from the spec:".
-/

namespace Box2D

/-! ## Constants and small helpers -/

/-- Modelled from the spec: the null index of `core.h` (absent). Public handles wrap
`index1 = id + 1` so that `0` is the null handle, hence the null id is `-1`. -/
def B2_NULL_INDEX : Int := -1

/-- Modelled from the spec: solver set ids of `solver_set.h` (absent): `staticSet (0)`. -/
def b2_staticSet : Int := 0

/-- Modelled from the spec: solver set ids of `solver_set.h` (absent): `disabledSet (1)`. -/
def b2_disabledSet : Int := 1

/-- Modelled from the spec: solver set ids of `solver_set.h` (absent): `awakeSet (2)`. -/
def b2_awakeSet : Int := 2

/-- Modelled from the spec: `b2XxxArray_Get` of `array.h` (absent): the element at `index`;
an index outside `0 .. count-1` is an out-of-bounds access. -/
def b2Array_Get {α : Type} (a : List α) (index : Int) : Option α :=
  if 0 ≤ index then a[index.toNat]? else none

/-- Store through a pointer obtained from `b2Array_Get`. -/
def b2Array_Set {α : Type} (a : List α) (index : Int) (v : α) : List α :=
  a.set index.toNat v

/-- Modelled from the spec: `b2XxxArray_RemoveSwap` of `array.h` (absent): swap-remove.
The last element is moved into `index` and its old index is returned; when the removed
element is the last one nothing moves and the result is `B2_NULL_INDEX`. -/
def b2Array_RemoveSwap {α : Type} (a : List α) (index : Int) : Option (Int × List α) :=
  match b2Array_Get a index, a.getLast? with
  | some _, some last =>
    if index ≠ (a.length : Int) - 1 then
      some ((a.length : Int) - 1, (b2Array_Set a index last).dropLast)
    else
      some (B2_NULL_INDEX, a.dropLast)
  | _, _ => none

/-- The C expression `~x` stored into a `uint32_t`. -/
def b2Not32 (x : Nat) : Nat := 4294967295 - x

/-- The C expression `( contactId << 1 ) | side`. -/
def b2EdgeKey (contactId side : Int) : Int := Int.lor (contactId <<< (1 : Int)) side

/-- The C expression `key >> 1`: the contact a key belongs to. -/
def b2KeyContact (key : Int) : Int := key >>> (1 : Nat)

/-- The C expression `key & 1`: the side of the contact a key belongs to. -/
def b2KeySide (key : Int) : Int := Int.land key 1

/-! ## Id pool and pair set -/

/-- Modelled from the spec: the id pool of `id_pool.h` (absent). -/
structure b2IdPool where
  freeArray : List Int
  nextIndex : Int
deriving DecidableEq, Repr

/-- Modelled from the spec: `b2AllocId` of `id_pool.c` (absent): "reuses the smallest freed
id; else appends". -/
def b2AllocId (pool : b2IdPool) : Int × b2IdPool :=
  match pool.freeArray.min? with
  | some id => (id, { pool with freeArray := pool.freeArray.erase id })
  | none => (pool.nextIndex, { pool with nextIndex := pool.nextIndex + 1 })

/-- Modelled from the spec: `b2FreeId` of `id_pool.c` (absent): the id joins the freed ids. -/
def b2FreeId (pool : b2IdPool) (id : Int) : b2IdPool :=
  { pool with freeArray := pool.freeArray ++ [id] }

/-- Modelled from the spec: `B2_SHAPE_PAIR_KEY` of `table.h` (absent): the `uint64` key
`(min(idA,idB)<<32) | max`. -/
def B2_SHAPE_PAIR_KEY (k1 k2 : Int) : Nat :=
  if k1 < k2 then (k1.toNat <<< 32) ||| k2.toNat else (k2.toNat <<< 32) ||| k1.toNat

/-- Modelled from the spec: `b2AddKey` of `table.c` (absent) on the set of `uint64` keys. -/
def b2AddKey (set : Finset Nat) (key : Nat) : Finset Nat := insert key set

/-- Modelled from the spec: `b2RemoveKey` of `table.c` (absent) on the set of `uint64` keys. -/
def b2RemoveKey (set : Finset Nat) (key : Nat) : Finset Nat := set.erase key

/-! ## Data model -/

structure b2Vec2 where
  x : ℚ
  y : ℚ
deriving DecidableEq, Repr

def b2Vec2_zero : b2Vec2 := ⟨0, 0⟩

/-- Modelled from the spec: `b2Sub` of the math library (absent): component-wise difference. -/
def b2Sub (a b : b2Vec2) : b2Vec2 := ⟨a.x - b.x, a.y - b.y⟩

/-- Modelled from the spec: `b2Add` of the math library (absent): component-wise sum. -/
def b2Add (a b : b2Vec2) : b2Vec2 := ⟨a.x + b.x, a.y + b.y⟩

/-- Modelled from the spec: `b2MulSV` of the math library (absent): scalar times vector. -/
def b2MulSV (s : ℚ) (v : b2Vec2) : b2Vec2 := ⟨s * v.x, s * v.y⟩

/-- Modelled from the spec: `b2MulAdd` of the math library (absent): `a + s * b`, as in
"vB' = vB + invMassB*L". -/
def b2MulAdd (a : b2Vec2) (s : ℚ) (b : b2Vec2) : b2Vec2 := ⟨a.x + s * b.x, a.y + s * b.y⟩

/-- Modelled from the spec: `b2MulSub` of the math library (absent): `a - s * b`, as in
"vA' = vA - invMassA*L". -/
def b2MulSub (a : b2Vec2) (s : ℚ) (b : b2Vec2) : b2Vec2 := ⟨a.x - s * b.x, a.y - s * b.y⟩

/-- Modelled from the spec: `b2Cross` of the math library (absent): the 2D cross product
of two vectors, a scalar. -/
def b2Cross (a b : b2Vec2) : ℚ := a.x * b.y - a.y * b.x

/-- Modelled from the spec: `b2CrossSV` of the math library (absent): the cross product
of a scalar and a vector; revolute_joint.c states the identity used,
`w k % (rx i + ry j) = w * (-ry i + rx j)`. -/
def b2CrossSV (s : ℚ) (v : b2Vec2) : b2Vec2 := ⟨-s * v.y, s * v.x⟩

/-- Modelled from the spec: `b2MinFloat` of the math library (absent): the smaller value. -/
def b2MinFloat (a b : ℚ) : ℚ := if a < b then a else b

/-- Modelled from the spec: `b2MaxFloat` of the math library (absent): the larger value
("each clamped to `≥ 0`"). -/
def b2MaxFloat (a b : ℚ) : ℚ := if a > b then a else b

/-- Modelled from the spec: `b2ClampFloat` of the math library (absent): `a` clamped to
the interval from `lower` to `upper` ("clamped accumulated impulse to `h · maxMotorTorque`"). -/
def b2ClampFloat (a lower upper : ℚ) : ℚ :=
  if a < lower then lower else if a > upper then upper else a

structure b2Rot where
  c : ℚ
  s : ℚ
deriving DecidableEq, Repr

structure b2Transform where
  p : b2Vec2
  q : b2Rot
deriving DecidableEq, Repr

inductive b2ShapeType where
  | b2_circleShape
  | b2_capsuleShape
  | b2_segmentShape
  | b2_polygonShape
  | b2_chainSegmentShape
deriving DecidableEq, Repr

open b2ShapeType

structure b2ShapeId where
  index1 : Int
  world0 : Nat
  generation : Nat
deriving DecidableEq, Repr

structure b2ContactId where
  index1 : Int
  world0 : Nat
  padding : Int
  generation : Nat
deriving DecidableEq, Repr

/-- The fields of `b2Shape` (shape.h, absent) that contact.c reads; `geometry` stands for
the shape union that only the manifold functions look at. -/
structure b2Shape where
  id : Int
  bodyId : Int
  type : b2ShapeType
  friction : ℚ
  restitution : ℚ
  rollingResistance : ℚ
  tangentSpeed : ℚ
  userMaterialId : Nat
  sensorIndex : Int
  generation : Nat
  enableContactEvents : Bool
  enableHitEvents : Bool
  enablePreSolveEvents : Bool
  geometry : List ℚ
deriving DecidableEq, Repr

/-- The fields of `b2Body` (body.h, absent) that contact.c and revolute_joint.c read or
write. -/
structure b2Body where
  setIndex : Int
  localIndex : Int
  headContactKey : Int
  contactCount : Int
deriving DecidableEq, Repr

structure b2ContactEdge where
  bodyId : Int
  prevKey : Int
  nextKey : Int
deriving DecidableEq, Repr

/-- The contact record of contact.h (absent); `edges0`, `edges1` are `edges[0]`, `edges[1]`. -/
structure b2Contact where
  edges0 : b2ContactEdge
  edges1 : b2ContactEdge
  islandId : Int
  islandPrev : Int
  islandNext : Int
  setIndex : Int
  colorIndex : Int
  localIndex : Int
  shapeIdA : Int
  shapeIdB : Int
  contactId : Int
  flags : Nat
  generation : Nat
  isMarked : Bool
deriving DecidableEq, Repr

/-- The C value `(b2Contact){ 0 }`. -/
def b2Contact_zero : b2Contact :=
  { edges0 := ⟨0, 0, 0⟩, edges1 := ⟨0, 0, 0⟩, islandId := 0, islandPrev := 0, islandNext := 0,
    setIndex := 0, colorIndex := 0, localIndex := 0, shapeIdA := 0, shapeIdB := 0,
    contactId := 0, flags := 0, generation := 0, isMarked := false }

/-- The C expression `contact->edges[side]` (read). -/
def b2Contact.edges (c : b2Contact) (side : Int) : Option b2ContactEdge :=
  if side = 0 then some c.edges0 else if side = 1 then some c.edges1 else none

/-- The C expression `contact->edges[side] = e` (write). -/
def b2Contact.setEdge (c : b2Contact) (side : Int) (e : b2ContactEdge) : Option b2Contact :=
  if side = 0 then some { c with edges0 := e }
  else if side = 1 then some { c with edges1 := e } else none

structure b2ManifoldPoint where
  point : b2Vec2
  anchorA : b2Vec2
  anchorB : b2Vec2
  separation : ℚ
  normalImpulse : ℚ
  tangentImpulse : ℚ
  totalNormalImpulse : ℚ
  normalVelocity : ℚ
  id : Nat
  persisted : Bool
deriving DecidableEq, Repr

def b2ManifoldPoint_zero : b2ManifoldPoint :=
  { point := b2Vec2_zero, anchorA := b2Vec2_zero, anchorB := b2Vec2_zero, separation := 0,
    normalImpulse := 0, tangentImpulse := 0, totalNormalImpulse := 0, normalVelocity := 0,
    id := 0, persisted := false }

/-- The manifold of collision.h (absent): `points0`, `points1` are `points[0]`, `points[1]`
("points[≤2]"). -/
structure b2Manifold where
  normal : b2Vec2
  rollingImpulse : ℚ
  points0 : b2ManifoldPoint
  points1 : b2ManifoldPoint
  pointCount : Int
deriving DecidableEq, Repr

/-- The C value `(b2Manifold){ 0 }`. -/
def b2Manifold_zero : b2Manifold :=
  { normal := b2Vec2_zero, rollingImpulse := 0, points0 := b2ManifoldPoint_zero,
    points1 := b2ManifoldPoint_zero, pointCount := 0 }

/-- The C expression `manifold.points[i]` (read). -/
def b2Manifold.getPoint (m : b2Manifold) (i : Int) : Option b2ManifoldPoint :=
  if i = 0 then some m.points0 else if i = 1 then some m.points1 else none

/-- The C expression `manifold.points[i] = p` (write). -/
def b2Manifold.setPoint (m : b2Manifold) (i : Int) (p : b2ManifoldPoint) : Option b2Manifold :=
  if i = 0 then some { m with points0 := p }
  else if i = 1 then some { m with points1 := p } else none

structure b2SimplexCache where
  count : Nat
  indexA : List Nat
  indexB : List Nat
deriving DecidableEq, Repr

/-- Modelled from the spec: `b2_emptySimplexCache` of the collision library (absent):
"cache = empty". -/
def b2_emptySimplexCache : b2SimplexCache := { count := 0, indexA := [0, 0, 0], indexB := [0, 0, 0] }

structure b2ContactSim where
  contactId : Int
  bodyIdA : Int
  bodyIdB : Int
  bodySimIndexA : Int
  bodySimIndexB : Int
  shapeIdA : Int
  shapeIdB : Int
  invMassA : ℚ
  invIA : ℚ
  invMassB : ℚ
  invIB : ℚ
  manifold : b2Manifold
  friction : ℚ
  restitution : ℚ
  rollingResistance : ℚ
  tangentSpeed : ℚ
  simFlags : Nat
  cache : b2SimplexCache
deriving DecidableEq, Repr

/-- The fields of `b2BodySim` (body.h, absent) that revolute_joint.c reads. -/
structure b2BodySim where
  transform : b2Transform
  center : b2Vec2
  localCenter : b2Vec2
  invMass : ℚ
  invInertia : ℚ
deriving DecidableEq, Repr

/-- The fields of `b2SolverSet` (solver_set.h, absent) that contact.c and revolute_joint.c
read or write. -/
structure b2SolverSet where
  bodySims : List b2BodySim
  contactSims : List b2ContactSim
deriving DecidableEq, Repr

structure b2GraphColor where
  contactSims : List b2ContactSim
deriving DecidableEq, Repr

structure b2ConstraintGraph where
  colors : List b2GraphColor
deriving DecidableEq, Repr

structure b2BroadPhase where
  pairSet : Finset Nat
deriving DecidableEq

structure b2ContactEndTouchEvent where
  shapeIdA : b2ShapeId
  shapeIdB : b2ShapeId
  contactId : b2ContactId
deriving DecidableEq, Repr

/-- The fields of `b2World` (physics_world.h, absent) that contact.c reads or writes. -/
structure b2World where
  worldId : Nat
  bodies : List b2Body
  shapes : List b2Shape
  contacts : List b2Contact
  contactIdPool : b2IdPool
  solverSets : List b2SolverSet
  constraintGraph : b2ConstraintGraph
  broadPhase : b2BroadPhase
  contactEndEvents : List (List b2ContactEndTouchEvent)
  endEventArrayIndex : Int
  enableSpeculative : Bool
  frictionCallback : ℚ → Nat → ℚ → Nat → ℚ
  restitutionCallback : ℚ → Nat → ℚ → Nat → ℚ
  preSolveFcn : Option (b2ShapeId → b2ShapeId → b2Vec2 → b2Vec2 → Bool)

/-! ## The contact registry -/

/-- The twelve `static b2Manifold b2XxxManifold(...)` wrappers of contact.c. -/
inductive b2ManifoldFcn where
  | b2CircleManifold
  | b2CapsuleAndCircleManifold
  | b2CapsuleManifold
  | b2PolygonAndCircleManifold
  | b2PolygonAndCapsuleManifold
  | b2PolygonManifold
  | b2SegmentAndCircleManifold
  | b2SegmentAndCapsuleManifold
  | b2SegmentAndPolygonManifold
  | b2ChainSegmentAndCircleManifold
  | b2ChainSegmentAndCapsuleManifold
  | b2ChainSegmentAndPolygonManifold
deriving DecidableEq, Repr

open b2ManifoldFcn

/-- An entry of `s_registers`; a NULL `fcn` is `none`. -/
structure b2ContactRegister where
  fcn : Option b2ManifoldFcn
  primary : Bool
deriving DecidableEq, Repr

/-- The file-level statics `s_registers` and `s_initialized`. -/
structure b2RegisterState where
  s_registers : b2ShapeType → b2ShapeType → b2ContactRegister
  s_initialized : Bool

/-- The statics before any call: zero-initialised storage. -/
def b2RegisterState_zero : b2RegisterState :=
  { s_registers := fun _ _ => { fcn := none, primary := false }, s_initialized := false }

def b2SetRegister (regs : b2ShapeType → b2ShapeType → b2ContactRegister) (t1 t2 : b2ShapeType)
    (upd : b2ContactRegister → b2ContactRegister) : b2ShapeType → b2ShapeType → b2ContactRegister :=
  fun a b => if a = t1 ∧ b = t2 then upd (regs a b) else regs a b

def b2AddType (regs : b2ShapeType → b2ShapeType → b2ContactRegister) (fcn : b2ManifoldFcn)
    (type1 type2 : b2ShapeType) : b2ShapeType → b2ShapeType → b2ContactRegister :=
  let regs := b2SetRegister regs type1 type2 (fun r => { r with fcn := some fcn })
  let regs := b2SetRegister regs type1 type2 (fun r => { r with primary := true })
  if type1 ≠ type2 then
    let regs := b2SetRegister regs type2 type1 (fun r => { r with fcn := some fcn })
    b2SetRegister regs type2 type1 (fun r => { r with primary := false })
  else regs

def b2InitializeContactRegisters (st : b2RegisterState) : b2RegisterState :=
  if st.s_initialized = false then
    let r := st.s_registers
    let r := b2AddType r b2CircleManifold b2_circleShape b2_circleShape
    let r := b2AddType r b2CapsuleAndCircleManifold b2_capsuleShape b2_circleShape
    let r := b2AddType r b2CapsuleManifold b2_capsuleShape b2_capsuleShape
    let r := b2AddType r b2PolygonAndCircleManifold b2_polygonShape b2_circleShape
    let r := b2AddType r b2PolygonAndCapsuleManifold b2_polygonShape b2_capsuleShape
    let r := b2AddType r b2PolygonManifold b2_polygonShape b2_polygonShape
    let r := b2AddType r b2SegmentAndCircleManifold b2_segmentShape b2_circleShape
    let r := b2AddType r b2SegmentAndCapsuleManifold b2_segmentShape b2_capsuleShape
    let r := b2AddType r b2SegmentAndPolygonManifold b2_segmentShape b2_polygonShape
    let r := b2AddType r b2ChainSegmentAndCircleManifold b2_chainSegmentShape b2_circleShape
    let r := b2AddType r b2ChainSegmentAndCapsuleManifold b2_chainSegmentShape b2_capsuleShape
    let r := b2AddType r b2ChainSegmentAndPolygonManifold b2_chainSegmentShape b2_polygonShape
    { s_registers := r, s_initialized := true }
  else st

/-- The registry as every world sees it: the statics after `b2InitializeContactRegisters`. -/
def s_registers : b2ShapeType → b2ShapeType → b2ContactRegister :=
  (b2InitializeContactRegisters b2RegisterState_zero).s_registers

/-! ## Collaborators outside src/ -/

/-- What contact.c takes from files outside `src/`: bit masks and sizes declared in absent
headers, and the functions it calls whose bodies are absent.  A `b2Contact*` or `b2Body*`
argument is passed as the index of the element in its world array. -/
structure b2Env where
  B2_VALIDATE : Bool
  generationBits : Nat
  b2_contactTouchingFlag : Nat
  b2_contactEnableContactEvents : Nat
  b2_simTouchingFlag : Nat
  b2_simEnableHitEvent : Nat
  b2_simEnablePreSolveEvents : Nat
  B2_LINEAR_SLOP : ℚ
  uninitializedSim : b2ContactSim
  b2GetShapeRadius : b2Shape → ℚ
  collide : b2ManifoldFcn → b2Shape → b2Transform → b2Shape → b2Transform → b2SimplexCache →
    b2Manifold × b2SimplexCache
  b2UnlinkContact : b2World → Int → b2World
  b2RemoveContactFromGraph : b2World → Int → Int → Int → Int → b2World
  b2WakeBody : b2World → Int → b2World

/-! ## b2GetContactFullId, b2GetContactSim -/

/-- The condition of the `B2_ASSERT` in `b2GetContactFullId`, evaluated on the slot the
handle points at: `contact->contactId == id && contact->generation == contactId.generation`. -/
def b2GetContactFullId_check (world : b2World) (contactId : b2ContactId) : Option Bool := do
  let id := contactId.index1 - 1
  let contact ← b2Array_Get world.contacts id
  pure (decide (contact.contactId = id ∧ contact.generation = contactId.generation))

/-- `b2GetContactFullId` with assertions compiled out: the pointer (index) of the slot. -/
def b2GetContactFullId (world : b2World) (contactId : b2ContactId) : Option Int := do
  let id := contactId.index1 - 1
  let _ ← b2Array_Get world.contacts id
  pure id

def b2GetContactSim (world : b2World) (contact : b2Contact) : Option b2ContactSim :=
  if contact.setIndex = b2_awakeSet ∧ contact.colorIndex ≠ B2_NULL_INDEX then do
    -- contact lives in constraint graph
    let color ← b2Array_Get world.constraintGraph.colors contact.colorIndex
    b2Array_Get color.contactSims contact.localIndex
  else do
    let set ← b2Array_Get world.solverSets contact.setIndex
    b2Array_Get set.contactSims contact.localIndex

/-! ## b2CreateContact -/

/-- The blocks "Connect to body A" (`side = 0`, `bodyId = shapeA->bodyId`) and "Connect to
body B" (`side = 1`, `bodyId = shapeB->bodyId`) of `b2CreateContact`; the two blocks are the
same statements up to the side.  `contact`, `body` and `headContact` are pointers into the
world arrays. -/
def b2ConnectToBody (world : b2World) (contactId side bodyId : Int) : Option b2World := do
  let body ← b2Array_Get world.bodies bodyId
  let contact ← b2Array_Get world.contacts contactId
  -- contact->edges[side].bodyId / prevKey / nextKey
  let contact ← contact.setEdge side
    { bodyId := bodyId, prevKey := B2_NULL_INDEX, nextKey := body.headContactKey }
  let world := { world with contacts := b2Array_Set world.contacts contactId contact }
  let key := b2EdgeKey contactId side
  let headContactKey := body.headContactKey
  let world ←
    (if headContactKey ≠ B2_NULL_INDEX then do
      let headContact ← b2Array_Get world.contacts (b2KeyContact headContactKey)
      let headEdge ← headContact.edges (b2KeySide headContactKey)
      let headContact ← headContact.setEdge (b2KeySide headContactKey) { headEdge with prevKey := key }
      pure { world with
        contacts := b2Array_Set world.contacts (b2KeyContact headContactKey) headContact }
    else pure world)
  -- bodyA->headContactKey = keyA; bodyA->contactCount += 1;
  let body := { body with headContactKey := key, contactCount := body.contactCount + 1 }
  pure { world with bodies := b2Array_Set world.bodies bodyId body }

/-- The initialisation of the contact record in `b2CreateContact`, from
`contact->contactId = contactId` to the `b2_contactEnableContactEvents` flag; `contact` is
the record found in the slot. -/
def b2CreateContact_contact (env : b2Env) (contact : b2Contact)
    (contactId setIndex localIndex : Int) (shapeA shapeB : b2Shape) : b2Contact :=
  let contact := { contact with
    contactId := contactId
    generation := (contact.generation + 1) % 2 ^ env.generationBits
    setIndex := setIndex
    colorIndex := B2_NULL_INDEX
    localIndex := localIndex
    islandId := B2_NULL_INDEX
    islandPrev := B2_NULL_INDEX
    islandNext := B2_NULL_INDEX
    shapeIdA := shapeA.id
    shapeIdB := shapeB.id
    isMarked := false
    flags := 0 }
  if shapeA.enableContactEvents = true ∨ shapeB.enableContactEvents = true then
    { contact with flags := contact.flags ||| env.b2_contactEnableContactEvents }
  else contact

/-- The initialisation of the contact sim in `b2CreateContact`, from
`contactSim->contactId = contactId` to the `b2_simEnablePreSolveEvents` flag;
`env.uninitializedSim` is the new array element before any store (`rollingResistance` and,
without `B2_VALIDATE`, `bodyIdA`, `bodyIdB` are never assigned). -/
def b2CreateContact_sim (env : b2Env) (world : b2World) (contactId : Int)
    (shapeA shapeB : b2Shape) : b2ContactSim :=
  let contactSim := env.uninitializedSim
  let contactSim := { contactSim with contactId := contactId }
  let contactSim :=
    if env.B2_VALIDATE = true then
      { contactSim with bodyIdA := shapeA.bodyId, bodyIdB := shapeB.bodyId }
    else contactSim
  let contactSim := { contactSim with
    bodySimIndexA := B2_NULL_INDEX
    bodySimIndexB := B2_NULL_INDEX
    invMassA := 0
    invIA := 0
    invMassB := 0
    invIB := 0
    shapeIdA := shapeA.id
    shapeIdB := shapeB.id
    cache := b2_emptySimplexCache
    manifold := b2Manifold_zero
    -- These also get updated in the narrow phase
    friction := world.frictionCallback shapeA.friction shapeA.userMaterialId shapeB.friction
      shapeB.userMaterialId
    restitution := world.restitutionCallback shapeA.restitution shapeA.userMaterialId
      shapeB.restitution shapeB.userMaterialId
    tangentSpeed := 0
    simFlags := 0 }
  if shapeA.enablePreSolveEvents = true ∨ shapeB.enablePreSolveEvents = true then
    { contactSim with simFlags := contactSim.simFlags ||| env.b2_simEnablePreSolveEvents }
  else contactSim

/-- The set a new contact goes to: `b2_awakeSet` if either body is awake, else
`b2_disabledSet` ("sleeping and non-touching contacts live in the disabled set"). -/
def b2CreateContact_setIndex (bodyA bodyB : b2Body) : Int :=
  if bodyA.setIndex = b2_awakeSet ∨ bodyB.setIndex = b2_awakeSet then b2_awakeSet
  else
    -- sleeping and non-touching contacts live in the disabled set
    b2_disabledSet

/-- The body of `b2CreateContact` after the two early returns (registered pair, primary
orientation). -/
def b2CreateContactPrimary (env : b2Env) (world : b2World) (shapeA shapeB : b2Shape) :
    Option b2World := do
  let bodyA ← b2Array_Get world.bodies shapeA.bodyId
  let bodyB ← b2Array_Get world.bodies shapeB.bodyId
  let setIndex := b2CreateContact_setIndex bodyA bodyB
  let set ← b2Array_Get world.solverSets setIndex
  -- Create contact key and contact
  let contactId := (b2AllocId world.contactIdPool).1
  let contacts :=
    if contactId = (world.contacts.length : Int) then world.contacts ++ [b2Contact_zero]
    else world.contacts
  let contact ← b2Array_Get contacts contactId
  let contact := b2CreateContact_contact env contact contactId setIndex
    (set.contactSims.length : Int) shapeA shapeB
  let world := { world with
    contactIdPool := (b2AllocId world.contactIdPool).2
    contacts := b2Array_Set contacts contactId contact }
  -- Connect to body A
  let world ← b2ConnectToBody world contactId 0 shapeA.bodyId
  -- Connect to body B
  let world ← b2ConnectToBody world contactId 1 shapeB.bodyId
  -- Add to pair set for fast lookup
  let pairKey := B2_SHAPE_PAIR_KEY shapeA.id shapeB.id
  let world := { world with
    broadPhase := { world.broadPhase with pairSet := b2AddKey world.broadPhase.pairSet pairKey } }
  -- Contacts are created as non-touching.
  let set ← b2Array_Get world.solverSets setIndex
  let contactSim := b2CreateContact_sim env world contactId shapeA shapeB
  pure { world with
    solverSets := b2Array_Set world.solverSets setIndex
      { set with contactSims := set.contactSims ++ [contactSim] } }

/-- `b2CreateContact`.  The function calls itself with the shapes swapped when the
registry entry is not primary; `fuel` bounds the depth of that recursion and `none` is
also the result when the fuel runs out. -/
def b2CreateContact (env : b2Env) (regs : b2ShapeType → b2ShapeType → b2ContactRegister) :
    Nat → b2World → b2Shape → b2Shape → Option b2World
  | 0, _, _, _ => none
  | fuel + 1, world, shapeA, shapeB =>
    let type1 := shapeA.type
    let type2 := shapeB.type
    if (regs type1 type2).fcn = none then
      -- For example, no segment vs segment collision
      some world
    else if (regs type1 type2).primary = false then
      -- flip order
      b2CreateContact env regs fuel world shapeB shapeA
    else b2CreateContactPrimary env world shapeA shapeB

/-! ## b2DestroyContact -/

/-- The blocks "Remove from body A" (`side = 0`) and "Remove from body B" (`side = 1`) of
`b2DestroyContact`; the two blocks are the same statements up to the side.  `contact` is
the pointer (index) of the contact, `edge = contact->edges + side` is read again at every
use because `prevEdge` and `nextEdge` may alias it. -/
def b2DisconnectFromBody (world : b2World) (contact side bodyId : Int) : Option b2World := do
  let c ← b2Array_Get world.contacts contact
  let edge ← c.edges side
  let world ←
    (if edge.prevKey ≠ B2_NULL_INDEX then do
      let prevContact ← b2Array_Get world.contacts (b2KeyContact edge.prevKey)
      let prevEdge ← prevContact.edges (b2KeySide edge.prevKey)
      let prevContact ← prevContact.setEdge (b2KeySide edge.prevKey)
        { prevEdge with nextKey := edge.nextKey }
      pure { world with
        contacts := b2Array_Set world.contacts (b2KeyContact edge.prevKey) prevContact }
    else pure world)
  let c ← b2Array_Get world.contacts contact
  let edge ← c.edges side
  let world ←
    (if edge.nextKey ≠ B2_NULL_INDEX then do
      let nextContact ← b2Array_Get world.contacts (b2KeyContact edge.nextKey)
      let nextEdge ← nextContact.edges (b2KeySide edge.nextKey)
      let nextContact ← nextContact.setEdge (b2KeySide edge.nextKey)
        { nextEdge with prevKey := edge.prevKey }
      pure { world with
        contacts := b2Array_Set world.contacts (b2KeyContact edge.nextKey) nextContact }
    else pure world)
  let c ← b2Array_Get world.contacts contact
  let edge ← c.edges side
  let contactId := c.contactId
  let edgeKey := b2EdgeKey contactId side
  let body ← b2Array_Get world.bodies bodyId
  let body :=
    if body.headContactKey = edgeKey then { body with headContactKey := edge.nextKey } else body
  let body := { body with contactCount := body.contactCount - 1 }
  pure { world with bodies := b2Array_Set world.bodies bodyId body }

/-- The block "End touch event" of `b2DestroyContact`; `c` is `*contact` on entry. -/
def b2DestroyContact_event (env : b2Env) (world : b2World) (c : b2Contact) : Option b2World :=
  let flags := c.flags
  let touching : Bool := decide ((flags &&& env.b2_contactTouchingFlag) ≠ 0)
  if touching = true ∧ (flags &&& env.b2_contactEnableContactEvents) ≠ 0 then do
    let worldId := world.worldId
    let shapeA ← b2Array_Get world.shapes c.shapeIdA
    let shapeB ← b2Array_Get world.shapes c.shapeIdB
    let shapeIdA : b2ShapeId := ⟨shapeA.id + 1, worldId, shapeA.generation⟩
    let shapeIdB : b2ShapeId := ⟨shapeB.id + 1, worldId, shapeB.generation⟩
    let contactId : b2ContactId :=
      { index1 := c.contactId + 1, world0 := world.worldId, padding := 0,
        generation := c.generation }
    let event : b2ContactEndTouchEvent :=
      { shapeIdA := shapeIdA, shapeIdB := shapeIdB, contactId := contactId }
    let events ← b2Array_Get world.contactEndEvents world.endEventArrayIndex
    pure { world with
      contactEndEvents :=
        b2Array_Set world.contactEndEvents world.endEventArrayIndex (events ++ [event]) }
  else pure world

/-- The block "Remove contact from the array that owns it" of `b2DestroyContact`, from the
test of `islandId` to the end of the swap-remove. -/
def b2DestroyContact_remove (env : b2Env) (world : b2World) (contact bodyIdA bodyIdB : Int) :
    Option b2World := do
  let c ← b2Array_Get world.contacts contact
  let world := if c.islandId ≠ B2_NULL_INDEX then env.b2UnlinkContact world contact else world
  let c ← b2Array_Get world.contacts contact
  if c.colorIndex ≠ B2_NULL_INDEX then
    -- contact is an active constraint
    pure (env.b2RemoveContactFromGraph world bodyIdA bodyIdB c.colorIndex c.localIndex)
  else do
    -- contact is non-touching or is sleeping
    let set ← b2Array_Get world.solverSets c.setIndex
    let (movedIndex, contactSims) ← b2Array_RemoveSwap set.contactSims c.localIndex
    let world := { world with
      solverSets := b2Array_Set world.solverSets c.setIndex { set with contactSims := contactSims } }
    if movedIndex ≠ B2_NULL_INDEX then do
      let movedContactSim ← b2Array_Get contactSims c.localIndex
      let movedContact ← b2Array_Get world.contacts movedContactSim.contactId
      pure { world with
        contacts := b2Array_Set world.contacts movedContactSim.contactId
          { movedContact with localIndex := c.localIndex } }
    else pure world

/-- The block "Free contact and id (preserve generation)" of `b2DestroyContact`;
`contactId` is the id read before the removal. -/
def b2DestroyContact_free (world : b2World) (contact contactId : Int) : Option b2World := do
  let c ← b2Array_Get world.contacts contact
  let c := { c with
    contactId := B2_NULL_INDEX
    setIndex := B2_NULL_INDEX
    colorIndex := B2_NULL_INDEX
    localIndex := B2_NULL_INDEX }
  let world := { world with contacts := b2Array_Set world.contacts contact c }
  pure { world with contactIdPool := b2FreeId world.contactIdPool contactId }

/-- `b2DestroyContact( world, contact, wakeBodies )`; `contact` is the pointer (index) of
the contact in `world->contacts`. -/
def b2DestroyContact (env : b2Env) (world : b2World) (contact : Int) (wakeBodies : Bool) :
    Option b2World := do
  let c ← b2Array_Get world.contacts contact
  -- Remove pair from set
  let pairKey := B2_SHAPE_PAIR_KEY c.shapeIdA c.shapeIdB
  let world := { world with
    broadPhase := { world.broadPhase with pairSet := b2RemoveKey world.broadPhase.pairSet pairKey } }
  let bodyIdA := c.edges0.bodyId
  let bodyIdB := c.edges1.bodyId
  let _ ← b2Array_Get world.bodies bodyIdA
  let _ ← b2Array_Get world.bodies bodyIdB
  let flags := c.flags
  let touching : Bool := decide ((flags &&& env.b2_contactTouchingFlag) ≠ 0)
  -- End touch event
  let world ← b2DestroyContact_event env world c
  -- Remove from body A
  let world ← b2DisconnectFromBody world contact 0 bodyIdA
  -- Remove from body B
  let world ← b2DisconnectFromBody world contact 1 bodyIdB
  let c ← b2Array_Get world.contacts contact
  let contactId := c.contactId
  -- Remove contact from the array that owns it
  let world ← b2DestroyContact_remove env world contact bodyIdA bodyIdB
  -- Free contact and id (preserve generation)
  let world ← b2DestroyContact_free world contact contactId
  if wakeBodies = true ∧ touching = true then
    let world := env.b2WakeBody world bodyIdA
    pure (env.b2WakeBody world bodyIdB)
  else pure world

/-! ## b2Contact_GetData -/

/-- The fields of the public `b2ContactData` (types.h, absent) that `b2Contact_GetData`
initialises. -/
structure b2ContactData where
  contactId : b2ContactId
  shapeIdA : b2ShapeId
  shapeIdB : b2ShapeId
  manifold : b2Manifold
deriving DecidableEq, Repr

/-- The C value `(b2ContactData){ 0 }`. -/
def b2ContactData_zero : b2ContactData :=
  { contactId := ⟨0, 0, 0, 0⟩, shapeIdA := ⟨0, 0, 0⟩, shapeIdB := ⟨0, 0, 0⟩,
    manifold := b2Manifold_zero }

/-- `b2Contact_GetData( contactId )` with assertions compiled out; `world` is the world
that `b2GetWorld( contactId.world0 )` returns. -/
def b2Contact_GetData (world : b2World) (contactId : b2ContactId) : Option b2ContactData := do
  let contact ← b2GetContactFullId world contactId
  let c ← b2Array_Get world.contacts contact
  let contactSim ← b2GetContactSim world c
  let shapeA ← b2Array_Get world.shapes c.shapeIdA
  let shapeB ← b2Array_Get world.shapes c.shapeIdB
  pure
    { contactId := contactId
      shapeIdA :=
        { index1 := shapeA.id + 1, world0 := contactId.world0 % 65536,
          generation := shapeA.generation }
      shapeIdB :=
        { index1 := shapeB.id + 1, world0 := contactId.world0 % 65536,
          generation := shapeB.generation }
      manifold := contactSim.manifold }

/-! ## b2UpdateContact -/

/-- The loop "Get deepest point" of `b2UpdateContact`:
`for ( int i = 1; i < manifold->pointCount; ++i )`, entered at index `i` with `n`
iterations left; the state is `(bestSeparation, bestPoint)`. -/
def b2UpdateContact_deepest (manifold : b2Manifold) : Nat → Int → ℚ × b2Vec2 → Option (ℚ × b2Vec2)
  | 0, _, best => some best
  | n + 1, i, best => do
    let p ← manifold.getPoint i
    let separation := p.separation
    let best := if separation < best.1 then (separation, p.point) else best
    b2UpdateContact_deepest manifold n (i + 1) best

/-- The inner loop of the warm-start matching of `b2UpdateContact`:
`for ( int j = 0; j < oldManifold.pointCount; ++j )`, entered at index `j` with `n`
iterations left; the state is the local `oldManifold` and the new point `*mp2`. -/
def b2UpdateContact_match : Nat → Int → b2Manifold → b2ManifoldPoint →
    Option (b2Manifold × b2ManifoldPoint)
  | 0, _, oldManifold, mp2 => some (oldManifold, mp2)
  | n + 1, j, oldManifold, mp2 => do
    let mp1 ← oldManifold.getPoint j
    if mp1.id = mp2.id then
      let mp2 := { mp2 with
        normalImpulse := mp1.normalImpulse
        tangentImpulse := mp1.tangentImpulse
        persisted := true }
      -- clear old impulse
      let mp1 := { mp1 with normalImpulse := 0, tangentImpulse := 0 }
      let oldManifold ← oldManifold.setPoint j mp1
      some (oldManifold, mp2)
    else b2UpdateContact_match n (j + 1) oldManifold mp2

/-- The outer loop of the warm-start matching of `b2UpdateContact`:
`for ( int i = 0; i < pointCount; ++i )`, entered at index `i` with `n` iterations left;
the state is the local `oldManifold` and `contactSim->manifold`. -/
def b2UpdateContact_warmStart (centerOffsetA centerOffsetB : b2Vec2) :
    Nat → Int → b2Manifold → b2Manifold → Option (b2Manifold × b2Manifold)
  | 0, _, oldManifold, manifold => some (oldManifold, manifold)
  | n + 1, i, oldManifold, manifold => do
    let mp2 ← manifold.getPoint i
    -- shift anchors to be center of mass relative
    let mp2 := { mp2 with
      anchorA := b2Sub mp2.anchorA centerOffsetA
      anchorB := b2Sub mp2.anchorB centerOffsetB
      normalImpulse := 0
      tangentImpulse := 0
      totalNormalImpulse := 0
      normalVelocity := 0
      persisted := false }
    let r ← b2UpdateContact_match oldManifold.pointCount.toNat 0 oldManifold mp2
    let manifold ← manifold.setPoint i r.2
    b2UpdateContact_warmStart centerOffsetA centerOffsetB n (i + 1) r.1 manifold

/-- The block of `b2UpdateContact` from "Compute new manifold" to the store of
`tangentSpeed`; `fcn` is the registry entry of the two shape types. -/
def b2UpdateContact_refresh (env : b2Env) (world : b2World) (fcn : b2ManifoldFcn)
    (contactSim : b2ContactSim) (shapeA : b2Shape) (transformA : b2Transform) (shapeB : b2Shape)
    (transformB : b2Transform) : b2ContactSim :=
  -- Compute new manifold
  let r := env.collide fcn shapeA transformA shapeB transformB contactSim.cache
  let contactSim := { contactSim with manifold := r.1, cache := r.2 }
  -- Keep these updated in case the values on the shapes are modified
  let contactSim := { contactSim with
    friction := world.frictionCallback shapeA.friction shapeA.userMaterialId shapeB.friction
      shapeB.userMaterialId
    restitution := world.restitutionCallback shapeA.restitution shapeA.userMaterialId
      shapeB.restitution shapeB.userMaterialId }
  let contactSim :=
    if shapeA.rollingResistance > 0 ∨ shapeB.rollingResistance > 0 then
      let radiusA := env.b2GetShapeRadius shapeA
      let radiusB := env.b2GetShapeRadius shapeB
      let maxRadius := b2MaxFloat radiusA radiusB
      { contactSim with
        rollingResistance := b2MaxFloat shapeA.rollingResistance shapeB.rollingResistance * maxRadius }
    else { contactSim with rollingResistance := 0 }
  { contactSim with tangentSpeed := shapeA.tangentSpeed + shapeB.tangentSpeed }

/-- The pre-solve block of `b2UpdateContact`; the state is
`(touching, pointCount, *contactSim)`. -/
def b2UpdateContact_preSolve (env : b2Env) (world : b2World) (contactSim : b2ContactSim)
    (shapeA shapeB : b2Shape) (touching : Bool) (pointCount : Int) :
    Option (Bool × Int × b2ContactSim) :=
  if touching = true ∧ world.preSolveFcn.isSome = true ∧
      (contactSim.simFlags &&& env.b2_simEnablePreSolveEvents) ≠ 0 then do
    let preSolveFcn ← world.preSolveFcn
    let shapeIdA : b2ShapeId := ⟨shapeA.id + 1, world.worldId, shapeA.generation⟩
    let shapeIdB : b2ShapeId := ⟨shapeB.id + 1, world.worldId, shapeB.generation⟩
    let manifold := contactSim.manifold
    -- Get deepest point
    let best ← b2UpdateContact_deepest manifold (manifold.pointCount - 1).toNat 1
      (manifold.points0.separation, manifold.points0.point)
    let bestPoint := best.2
    -- this call assumes thread safety
    let touching := preSolveFcn shapeIdA shapeIdB bestPoint manifold.normal
    if touching = false then
      -- disable contact
      pure (touching, (0 : Int), { contactSim with manifold := { manifold with pointCount := 0 } })
    else pure (touching, pointCount, contactSim)
  else pure (touching, pointCount, contactSim)

/-- The block "This flag is for testing" of `b2UpdateContact`; the state is
`(pointCount, *contactSim)`. -/
def b2UpdateContact_speculative (env : b2Env) (world : b2World) (pointCount : Int)
    (contactSim : b2ContactSim) : Int × b2ContactSim :=
  if world.enableSpeculative = false ∧ pointCount = 2 then
    let contactSim :=
      if contactSim.manifold.points0.separation > 3 / 2 * env.B2_LINEAR_SLOP then
        { contactSim with
          manifold := { contactSim.manifold with
            points0 := contactSim.manifold.points1, pointCount := 1 } }
      else if contactSim.manifold.points0.separation > 3 / 2 * env.B2_LINEAR_SLOP then
        { contactSim with manifold := { contactSim.manifold with pointCount := 1 } }
      else contactSim
    (contactSim.manifold.pointCount, contactSim)
  else (pointCount, contactSim)

/-- The stores to `simFlags` and `rollingImpulse` between the speculative block and the
matching loop of `b2UpdateContact`. -/
def b2UpdateContact_hitFlag (env : b2Env) (touching : Bool) (pointCount : Int)
    (oldManifold : b2Manifold) (shapeA shapeB : b2Shape) (contactSim : b2ContactSim) :
    b2ContactSim :=
  let contactSim :=
    if touching = true ∧ (shapeA.enableHitEvents = true ∨ shapeB.enableHitEvents = true) then
      { contactSim with simFlags := contactSim.simFlags ||| env.b2_simEnableHitEvent }
    else { contactSim with simFlags := contactSim.simFlags &&& b2Not32 env.b2_simEnableHitEvent }
  if pointCount > 0 then
    { contactSim with
      manifold := { contactSim.manifold with rollingImpulse := oldManifold.rollingImpulse } }
  else contactSim

/-- The store to `b2_simTouchingFlag` that ends `b2UpdateContact`. -/
def b2UpdateContact_touchingFlag (env : b2Env) (touching : Bool) (contactSim : b2ContactSim) :
    b2ContactSim :=
  if touching = true then
    { contactSim with simFlags := contactSim.simFlags ||| env.b2_simTouchingFlag }
  else { contactSim with simFlags := contactSim.simFlags &&& b2Not32 env.b2_simTouchingFlag }

/-- `b2UpdateContact`: the result is the returned `touching` and the updated `*contactSim`.
A NULL entry of the registry makes the call through `fcn` undefined. -/
def b2UpdateContact (env : b2Env) (regs : b2ShapeType → b2ShapeType → b2ContactRegister)
    (world : b2World) (contactSim : b2ContactSim) (shapeA : b2Shape) (transformA : b2Transform)
    (centerOffsetA : b2Vec2) (shapeB : b2Shape) (transformB : b2Transform)
    (centerOffsetB : b2Vec2) : Option (Bool × b2ContactSim) := do
  -- Save old manifold
  let oldManifold := contactSim.manifold
  let fcn ← (regs shapeA.type shapeB.type).fcn
  let contactSim := b2UpdateContact_refresh env world fcn contactSim shapeA transformA shapeB
    transformB
  let pointCount := contactSim.manifold.pointCount
  let touching : Bool := decide (pointCount > 0)
  let r ← b2UpdateContact_preSolve env world contactSim shapeA shapeB touching pointCount
  let touching := r.1
  let s := b2UpdateContact_speculative env world r.2.1 r.2.2
  let pointCount := s.1
  let contactSim := b2UpdateContact_hitFlag env touching pointCount oldManifold shapeA shapeB s.2
  -- Match old contact ids to new contact ids and copy the
  -- stored impulses to warm start the solver.
  let m ← b2UpdateContact_warmStart centerOffsetA centerOffsetB pointCount.toNat 0
    oldManifold contactSim.manifold
  let contactSim := { contactSim with manifold := m.2 }
  pure (touching, b2UpdateContact_touchingFlag env touching contactSim)

/-! ## The revolute joint: types of joint.h -/

/-- The softness triple of solver.h (absent): "the triple `(biasRate, massScale,
impulseScale)`". -/
structure b2Softness where
  biasRate : ℚ
  massScale : ℚ
  impulseScale : ℚ
deriving DecidableEq, Repr

/-- The 2-by-2 matrix of the math library (absent), stored by columns `cx`, `cy`. -/
structure b2Mat22 where
  cx : b2Vec2
  cy : b2Vec2
deriving DecidableEq, Repr

/-- The body state of solver.h (absent): "`BodyState {linearVelocity, angularVelocity,
deltaPosition = 0, deltaRotation = identity, flags}`". -/
structure b2BodyState where
  linearVelocity : b2Vec2
  angularVelocity : ℚ
  flags : Nat
  deltaPosition : b2Vec2
  deltaRotation : b2Rot
deriving DecidableEq, Repr

/-- Modelled from the spec: `b2_identityBodyState` of solver.h (absent): zero velocities,
`deltaPosition = 0`, `deltaRotation = identity`. -/
def b2_identityBodyState : b2BodyState :=
  { linearVelocity := b2Vec2_zero, angularVelocity := 0, flags := 0,
    deltaPosition := b2Vec2_zero, deltaRotation := ⟨1, 0⟩ }

structure b2RevoluteJoint where
  linearImpulse : b2Vec2
  springImpulse : ℚ
  motorImpulse : ℚ
  lowerImpulse : ℚ
  upperImpulse : ℚ
  hertz : ℚ
  dampingRatio : ℚ
  targetAngle : ℚ
  maxMotorTorque : ℚ
  motorSpeed : ℚ
  lowerAngle : ℚ
  upperAngle : ℚ
  indexA : Int
  indexB : Int
  frameA : b2Transform
  frameB : b2Transform
  deltaCenter : b2Vec2
  axialMass : ℚ
  springSoftness : b2Softness
  enableSpring : Bool
  enableMotor : Bool
  enableLimit : Bool
deriving DecidableEq, Repr

/-- The joint base of joint.h; of the union only the member `revoluteJoint` is kept and
the tag `type`, which the revolute functions only assert, is left out. -/
structure b2JointSim where
  jointId : Int
  bodyIdA : Int
  bodyIdB : Int
  localFrameA : b2Transform
  localFrameB : b2Transform
  invMassA : ℚ
  invMassB : ℚ
  invIA : ℚ
  invIB : ℚ
  constraintHertz : ℚ
  constraintDampingRatio : ℚ
  constraintSoftness : b2Softness
  forceThreshold : ℚ
  torqueThreshold : ℚ
  revoluteJoint : b2RevoluteJoint
deriving DecidableEq, Repr

/-- The fields of `b2StepContext` (solver.h, absent) that revolute_joint.c reads or writes;
`states` is the array of the awake bodies' states. -/
structure b2StepContext where
  world : b2World
  h : ℚ
  inv_h : ℚ
  enableWarmStarting : Bool
  states : List b2BodyState

/-- What revolute_joint.c takes from the math library and solver.h (absent) beyond the
component-wise vector operations: rotations, the angle of a rotation, the 2-by-2 solve and
the softness formula. -/
structure b2MathEnv where
  b2MulRot : b2Rot → b2Rot → b2Rot
  b2InvMulRot : b2Rot → b2Rot → b2Rot
  b2RotateVector : b2Rot → b2Vec2 → b2Vec2
  b2Rot_GetAngle : b2Rot → ℚ
  b2UnwindAngle : ℚ → ℚ
  b2Solve22 : b2Mat22 → b2Vec2 → b2Vec2
  b2MakeSoft : ℚ → ℚ → ℚ → b2Softness

/-! ## The revolute joint: setters and getters of the limit -/

/-- `b2RevoluteJoint_EnableLimit`, on the joint sim that `b2GetJointSimCheckType` returns
for the handle. -/
def b2RevoluteJoint_EnableLimit (joint : b2JointSim) (enableLimit : Bool) : b2JointSim :=
  if enableLimit ≠ joint.revoluteJoint.enableLimit then
    { joint with revoluteJoint := { joint.revoluteJoint with
        enableLimit := enableLimit
        lowerImpulse := 0
        upperImpulse := 0 } }
  else joint

/-- `b2RevoluteJoint_GetLowerLimit`, on the joint sim of the handle. -/
def b2RevoluteJoint_GetLowerLimit (joint : b2JointSim) : ℚ := joint.revoluteJoint.lowerAngle

/-- `b2RevoluteJoint_GetUpperLimit`, on the joint sim of the handle. -/
def b2RevoluteJoint_GetUpperLimit (joint : b2JointSim) : ℚ := joint.revoluteJoint.upperAngle

/-- `b2RevoluteJoint_SetLimits` with assertions compiled out, on the joint sim of the
handle. -/
def b2RevoluteJoint_SetLimits (joint : b2JointSim) (lower upper : ℚ) : b2JointSim :=
  if lower ≠ joint.revoluteJoint.lowerAngle ∨ upper ≠ joint.revoluteJoint.upperAngle then
    { joint with revoluteJoint := { joint.revoluteJoint with
        lowerAngle := b2MinFloat lower upper
        upperAngle := b2MaxFloat lower upper
        lowerImpulse := 0
        upperImpulse := 0 } }
  else joint

/-- A value of the C type `float`: NaN, an infinity, or a finite number.  The finite values
are rationals; the two zeros, which compare equal, are one value. -/
inductive b2Float where
  | nan : b2Float
  | negInf : b2Float
  | num (q : ℚ) : b2Float
  | posInf : b2Float
deriving DecidableEq

/-- The C expression `a < b` on floats. -/
def b2Float.lt : b2Float → b2Float → Bool
  | b2Float.nan, _ => false
  | _, b2Float.nan => false
  | b2Float.negInf, b2Float.negInf => false
  | b2Float.negInf, _ => true
  | b2Float.num _, b2Float.negInf => false
  | b2Float.num a, b2Float.num b => decide (a < b)
  | b2Float.num _, b2Float.posInf => true
  | b2Float.posInf, _ => false

/-- The C expression `a <= b` on floats. -/
def b2Float.le : b2Float → b2Float → Bool
  | b2Float.nan, _ => false
  | _, b2Float.nan => false
  | a, b => !(b2Float.lt b a)

/-- The C expression `a != b` on floats. -/
def b2Float.ne : b2Float → b2Float → Bool
  | b2Float.nan, _ => true
  | _, b2Float.nan => true
  | a, b => decide (a ≠ b)

/-- Modelled from the spec: `b2MinFloat` of the math library (absent) on floats, the
smaller value by one comparison: `a < b ? a : b`. -/
def b2MinFloat_ieee (a b : b2Float) : b2Float := if b2Float.lt a b = true then a else b

/-- Modelled from the spec: `b2MaxFloat` of the math library (absent) on floats, the larger
value by one comparison: `a > b ? a : b`. -/
def b2MaxFloat_ieee (a b : b2Float) : b2Float := if b2Float.lt b a = true then a else b

/-- The fields of `b2RevoluteJoint` (joint.h) that `b2RevoluteJoint_SetLimits` and the two
limit getters read or write, as float values. -/
structure b2RevoluteJointLimits where
  lowerAngle : b2Float
  upperAngle : b2Float
  lowerImpulse : b2Float
  upperImpulse : b2Float
deriving DecidableEq

/-- `b2RevoluteJoint_GetLowerLimit` on float values. -/
def b2RevoluteJoint_GetLowerLimit_ieee (joint : b2RevoluteJointLimits) : b2Float :=
  joint.lowerAngle

/-- `b2RevoluteJoint_GetUpperLimit` on float values. -/
def b2RevoluteJoint_GetUpperLimit_ieee (joint : b2RevoluteJointLimits) : b2Float :=
  joint.upperAngle

/-- `b2RevoluteJoint_SetLimits` with assertions compiled out, on float values. -/
def b2RevoluteJoint_SetLimits_ieee (joint : b2RevoluteJointLimits) (lower upper : b2Float) :
    b2RevoluteJointLimits :=
  if b2Float.ne lower joint.lowerAngle = true ∨ b2Float.ne upper joint.upperAngle = true then
    { joint with
      lowerAngle := b2MinFloat_ieee lower upper
      upperAngle := b2MaxFloat_ieee lower upper
      lowerImpulse := b2Float.num 0
      upperImpulse := b2Float.num 0 }
  else joint

/-! ## b2PrepareRevoluteJoint -/

/-- `b2PrepareRevoluteJoint( base, context )`: the result is the updated `*base`. -/
def b2PrepareRevoluteJoint (m : b2MathEnv) (base : b2JointSim) (context : b2StepContext) :
    Option b2JointSim := do
  -- chase body id to the solver set where the body lives
  let idA := base.bodyIdA
  let idB := base.bodyIdB
  let world := context.world
  let bodyA ← b2Array_Get world.bodies idA
  let bodyB ← b2Array_Get world.bodies idB
  let setA ← b2Array_Get world.solverSets bodyA.setIndex
  let setB ← b2Array_Get world.solverSets bodyB.setIndex
  let localIndexA := bodyA.localIndex
  let localIndexB := bodyB.localIndex
  let bodySimA ← b2Array_Get setA.bodySims localIndexA
  let bodySimB ← b2Array_Get setB.bodySims localIndexB
  let mA := bodySimA.invMass
  let iA := bodySimA.invInertia
  let mB := bodySimB.invMass
  let iB := bodySimB.invInertia
  let base := { base with invMassA := mA, invMassB := mB, invIA := iA, invIB := iB }
  let joint := base.revoluteJoint
  let joint := { joint with
    indexA := if bodyA.setIndex = b2_awakeSet then localIndexA else B2_NULL_INDEX
    indexB := if bodyB.setIndex = b2_awakeSet then localIndexB else B2_NULL_INDEX }
  -- Compute joint anchor frames with world space rotation, relative to center of mass.
  let joint := { joint with
    frameA :=
      { q := m.b2MulRot bodySimA.transform.q base.localFrameA.q
        p := m.b2RotateVector bodySimA.transform.q (b2Sub base.localFrameA.p bodySimA.localCenter) }
    frameB :=
      { q := m.b2MulRot bodySimB.transform.q base.localFrameB.q
        p := m.b2RotateVector bodySimB.transform.q (b2Sub base.localFrameB.p bodySimB.localCenter) } }
  -- Compute the initial center delta. Incremental position updates are relative to this.
  let joint := { joint with deltaCenter := b2Sub bodySimB.center bodySimA.center }
  let k := iA + iB
  let joint := { joint with axialMass := if k > 0 then 1 / k else 0 }
  let joint := { joint with springSoftness := m.b2MakeSoft joint.hertz joint.dampingRatio context.h }
  let joint :=
    if context.enableWarmStarting = false then
      { joint with
        linearImpulse := b2Vec2_zero
        springImpulse := 0
        motorImpulse := 0
        lowerImpulse := 0
        upperImpulse := 0 }
    else joint
  pure { base with revoluteJoint := joint }

/-! ## b2WarmStartRevoluteJoint, b2SolveRevoluteJoint -/

/-- The body states the two solver functions can point at: the local `dummyState` and the
array `context->states`.  A `b2BodyState*` is an index, `B2_NULL_INDEX` standing for
`&dummyState`, so `stateA` and `stateB` alias exactly when they do in C. -/
structure b2StateMem where
  dummyState : b2BodyState
  states : List b2BodyState
deriving DecidableEq, Repr

/-- The C expression `*state` (read), for
`state = index == B2_NULL_INDEX ? &dummyState : context->states + index`. -/
def b2StateMem.get (mem : b2StateMem) (index : Int) : Option b2BodyState :=
  if index = B2_NULL_INDEX then some mem.dummyState else b2Array_Get mem.states index

/-- The C expression `*state = s` (write). -/
def b2StateMem.set (mem : b2StateMem) (index : Int) (s : b2BodyState) : b2StateMem :=
  if index = B2_NULL_INDEX then { mem with dummyState := s }
  else { mem with states := b2Array_Set mem.states index s }

/-- An assignment to one field through a state pointer: `state->field = f( *state )`. -/
def b2StateMem.modify (mem : b2StateMem) (index : Int) (f : b2BodyState → b2BodyState) :
    Option b2StateMem := do
  let s ← mem.get index
  pure (mem.set index (f s))

/-- The body of `b2WarmStartRevoluteJoint` on the memory of body states. -/
def b2WarmStartRevoluteJoint_mem (m : b2MathEnv) (base : b2JointSim) (mem : b2StateMem) :
    Option b2StateMem := do
  let mA := base.invMassA
  let mB := base.invMassB
  let iA := base.invIA
  let iB := base.invIB
  let joint := base.revoluteJoint
  let stateA := joint.indexA
  let stateB := joint.indexB
  let sA ← mem.get stateA
  let sB ← mem.get stateB
  let rA := m.b2RotateVector sA.deltaRotation joint.frameA.p
  let rB := m.b2RotateVector sB.deltaRotation joint.frameB.p
  let axialImpulse :=
    joint.springImpulse + joint.motorImpulse + joint.lowerImpulse - joint.upperImpulse
  let mem ← mem.modify stateA fun s =>
    { s with linearVelocity := b2MulSub s.linearVelocity mA joint.linearImpulse }
  let mem ← mem.modify stateA fun s =>
    { s with angularVelocity :=
        s.angularVelocity - iA * (b2Cross rA joint.linearImpulse + axialImpulse) }
  let mem ← mem.modify stateB fun s =>
    { s with linearVelocity := b2MulAdd s.linearVelocity mB joint.linearImpulse }
  mem.modify stateB fun s =>
    { s with angularVelocity :=
        s.angularVelocity + iB * (b2Cross rB joint.linearImpulse + axialImpulse) }

/-- `b2WarmStartRevoluteJoint( base, context )`: the result is the updated
`context->states`; the dummy state is a local of the call. -/
def b2WarmStartRevoluteJoint (m : b2MathEnv) (base : b2JointSim) (context : b2StepContext) :
    Option b2StepContext := do
  -- dummy state for static bodies
  let mem ← b2WarmStartRevoluteJoint_mem m base
    { dummyState := b2_identityBodyState, states := context.states }
  pure { context with states := mem.states }

/-- The block "Solve spring." of `b2SolveRevoluteJoint`; the state is `(joint, wA, wB)`. -/
def b2SolveRevoluteJoint_spring (m : b2MathEnv) (joint : b2RevoluteJoint) (iA iB : ℚ)
    (relQ : b2Rot) (wA wB : ℚ) : b2RevoluteJoint × ℚ × ℚ :=
  let jointAngle := m.b2Rot_GetAngle relQ
  let jointAngleDelta := m.b2UnwindAngle (jointAngle - joint.targetAngle)
  let C := jointAngleDelta
  let bias := joint.springSoftness.biasRate * C
  let massScale := joint.springSoftness.massScale
  let impulseScale := joint.springSoftness.impulseScale
  let Cdot := wB - wA
  let impulse := -massScale * joint.axialMass * (Cdot + bias) - impulseScale * joint.springImpulse
  let joint := { joint with springImpulse := joint.springImpulse + impulse }
  (joint, wA - iA * impulse, wB + iB * impulse)

/-- The block "Solve motor constraint." of `b2SolveRevoluteJoint`. -/
def b2SolveRevoluteJoint_motor (joint : b2RevoluteJoint) (iA iB h wA wB : ℚ) :
    b2RevoluteJoint × ℚ × ℚ :=
  let Cdot := wB - wA - joint.motorSpeed
  let impulse := -joint.axialMass * Cdot
  let oldImpulse := joint.motorImpulse
  let maxImpulse := h * joint.maxMotorTorque
  let joint := { joint with
    motorImpulse := b2ClampFloat (joint.motorImpulse + impulse) (-maxImpulse) maxImpulse }
  let impulse := joint.motorImpulse - oldImpulse
  (joint, wA - iA * impulse, wB + iB * impulse)

/-- The block "Lower limit" of `b2SolveRevoluteJoint`. -/
def b2SolveRevoluteJoint_lower (joint : b2RevoluteJoint) (constraintSoftness : b2Softness)
    (iA iB inv_h : ℚ) (useBias : Bool) (jointAngle wA wB : ℚ) : b2RevoluteJoint × ℚ × ℚ :=
  let C := jointAngle - joint.lowerAngle
  let (bias, massScale, impulseScale) : ℚ × ℚ × ℚ :=
    if C > 0 then
      -- speculation
      (C * inv_h, 1, 0)
    else if useBias = true then
      (constraintSoftness.biasRate * C, constraintSoftness.massScale,
        constraintSoftness.impulseScale)
    else (0, 1, 0)
  let Cdot := wB - wA
  let oldImpulse := joint.lowerImpulse
  let impulse := -massScale * joint.axialMass * (Cdot + bias) - impulseScale * oldImpulse
  let joint := { joint with lowerImpulse := b2MaxFloat (oldImpulse + impulse) 0 }
  let impulse := joint.lowerImpulse - oldImpulse
  (joint, wA - iA * impulse, wB + iB * impulse)

/-- The block "Upper limit" of `b2SolveRevoluteJoint`. -/
def b2SolveRevoluteJoint_upper (joint : b2RevoluteJoint) (constraintSoftness : b2Softness)
    (iA iB inv_h : ℚ) (useBias : Bool) (jointAngle wA wB : ℚ) : b2RevoluteJoint × ℚ × ℚ :=
  let C := joint.upperAngle - jointAngle
  let (bias, massScale, impulseScale) : ℚ × ℚ × ℚ :=
    if C > 0 then
      -- speculation
      (C * inv_h, 1, 0)
    else if useBias = true then
      (constraintSoftness.biasRate * C, constraintSoftness.massScale,
        constraintSoftness.impulseScale)
    else (0, 1, 0)
  -- sign flipped on Cdot
  let Cdot := wA - wB
  let oldImpulse := joint.upperImpulse
  let impulse := -massScale * joint.axialMass * (Cdot + bias) - impulseScale * oldImpulse
  let joint := { joint with upperImpulse := b2MaxFloat (oldImpulse + impulse) 0 }
  let impulse := joint.upperImpulse - oldImpulse
  -- sign flipped on applied impulse
  (joint, wA + iA * impulse, wB - iB * impulse)

/-- The matrix `K` assembled in the block "Solve point-to-point constraint". -/
def b2SolveRevoluteJoint_K (mA mB iA iB : ℚ) (rA rB : b2Vec2) : b2Mat22 :=
  let cxx := mA + mB + rA.y * rA.y * iA + rB.y * rB.y * iB
  let cyx := -rA.y * rA.x * iA - rB.y * rB.x * iB
  let cxy := cyx
  let cyy := mA + mB + rA.x * rA.x * iA + rB.x * rB.x * iB
  { cx := ⟨cxx, cxy⟩, cy := ⟨cyx, cyy⟩ }

/-- The block "Solve point-to-point constraint" of `b2SolveRevoluteJoint`; `dcA`, `dcB`
are `stateA->deltaPosition`, `stateB->deltaPosition` and the state is
`(joint, vA, wA, vB, wB)`. -/
def b2SolveRevoluteJoint_point (m : b2MathEnv) (joint : b2RevoluteJoint)
    (constraintSoftness : b2Softness) (mA mB iA iB : ℚ) (useBias : Bool) (rA rB dcA dcB : b2Vec2)
    (vA : b2Vec2) (wA : ℚ) (vB : b2Vec2) (wB : ℚ) : b2RevoluteJoint × b2Vec2 × ℚ × b2Vec2 × ℚ :=
  let Cdot := b2Sub (b2Add vB (b2CrossSV wB rB)) (b2Add vA (b2CrossSV wA rA))
  let (bias, massScale, impulseScale) : b2Vec2 × ℚ × ℚ :=
    if useBias = true then
      let separation := b2Add (b2Add (b2Sub dcB dcA) (b2Sub rB rA)) joint.deltaCenter
      (b2MulSV constraintSoftness.biasRate separation, constraintSoftness.massScale,
        constraintSoftness.impulseScale)
    else (b2Vec2_zero, 1, 0)
  let K := b2SolveRevoluteJoint_K mA mB iA iB rA rB
  let b := m.b2Solve22 K (b2Add Cdot bias)
  let impulse : b2Vec2 :=
    ⟨-massScale * b.x - impulseScale * joint.linearImpulse.x,
      -massScale * b.y - impulseScale * joint.linearImpulse.y⟩
  let joint := { joint with
    linearImpulse := ⟨joint.linearImpulse.x + impulse.x, joint.linearImpulse.y + impulse.y⟩ }
  (joint, b2MulSub vA mA impulse, wA - iA * b2Cross rA impulse, b2MulAdd vB mB impulse,
    wB + iB * b2Cross rB impulse)

/-- The four stores that end `b2SolveRevoluteJoint`. -/
def b2SolveRevoluteJoint_store (mem : b2StateMem) (stateA stateB : Int) (vA : b2Vec2) (wA : ℚ)
    (vB : b2Vec2) (wB : ℚ) : Option b2StateMem := do
  let mem ← mem.modify stateA fun s => { s with linearVelocity := vA }
  let mem ← mem.modify stateA fun s => { s with angularVelocity := wA }
  let mem ← mem.modify stateB fun s => { s with linearVelocity := vB }
  mem.modify stateB fun s => { s with angularVelocity := wB }

/-- The values `(joint, vA, wA, vB, wB)` that `b2SolveRevoluteJoint` holds when it reaches
its four stores, computed from the states `sA = *stateA`, `sB = *stateB` read on entry. -/
def b2SolveRevoluteJoint_compute (m : b2MathEnv) (base : b2JointSim) (h inv_h : ℚ)
    (useBias : Bool) (sA sB : b2BodyState) : b2RevoluteJoint × b2Vec2 × ℚ × b2Vec2 × ℚ :=
  let mA := base.invMassA
  let mB := base.invMassB
  let iA := base.invIA
  let iB := base.invIB
  let joint := base.revoluteJoint
  let vA := sA.linearVelocity
  let wA := sA.angularVelocity
  let vB := sB.linearVelocity
  let wB := sB.angularVelocity
  let qA := m.b2MulRot sA.deltaRotation joint.frameA.q
  let qB := m.b2MulRot sB.deltaRotation joint.frameB.q
  let relQ := m.b2InvMulRot qA qB
  let fixedRotation : Bool := decide (iA + iB = 0)
  -- Solve spring.
  let (joint, wA, wB) :=
    if joint.enableSpring = true ∧ fixedRotation = false then
      b2SolveRevoluteJoint_spring m joint iA iB relQ wA wB
    else (joint, wA, wB)
  -- Solve motor constraint.
  let (joint, wA, wB) :=
    if joint.enableMotor = true ∧ fixedRotation = false then
      b2SolveRevoluteJoint_motor joint iA iB h wA wB
    else (joint, wA, wB)
  let (joint, wA, wB) :=
    if joint.enableLimit = true ∧ fixedRotation = false then
      let jointAngle := m.b2Rot_GetAngle relQ
      let (joint, wA, wB) :=
        b2SolveRevoluteJoint_lower joint base.constraintSoftness iA iB inv_h useBias jointAngle wA wB
      b2SolveRevoluteJoint_upper joint base.constraintSoftness iA iB inv_h useBias jointAngle wA wB
    else (joint, wA, wB)
  -- Solve point-to-point constraint
  -- current anchors
  let rA := m.b2RotateVector sA.deltaRotation joint.frameA.p
  let rB := m.b2RotateVector sB.deltaRotation joint.frameB.p
  b2SolveRevoluteJoint_point m joint base.constraintSoftness mA mB iA iB useBias rA rB
    sA.deltaPosition sB.deltaPosition vA wA vB wB

/-- The body of `b2SolveRevoluteJoint` on the memory of body states: the states are read
through `stateA`, `stateB`, nothing is stored before the four final stores. -/
def b2SolveRevoluteJoint_mem (m : b2MathEnv) (base : b2JointSim) (h inv_h : ℚ) (useBias : Bool)
    (mem : b2StateMem) : Option (b2JointSim × b2StateMem) := do
  let stateA := base.revoluteJoint.indexA
  let stateB := base.revoluteJoint.indexB
  let sA ← mem.get stateA
  let sB ← mem.get stateB
  let (joint, vA, wA, vB, wB) := b2SolveRevoluteJoint_compute m base h inv_h useBias sA sB
  let mem ← b2SolveRevoluteJoint_store mem stateA stateB vA wA vB wB
  pure ({ base with revoluteJoint := joint }, mem)

/-- `b2SolveRevoluteJoint( base, context, useBias )`: the result is the updated `*base`
and `context->states`; the dummy state is a local of the call. -/
def b2SolveRevoluteJoint (m : b2MathEnv) (base : b2JointSim) (context : b2StepContext)
    (useBias : Bool) : Option (b2JointSim × b2StepContext) := do
  -- dummy state for static bodies
  let (base, mem) ← b2SolveRevoluteJoint_mem m base context.h context.inv_h useBias
    { dummyState := b2_identityBodyState, states := context.states }
  pure (base, { context with states := mem.states })

/-! ## Specification predicates and sample inputs -/

/-- A state pointer of a joint is usable: the dummy state or an entry of the array. -/
def b2ValidStateIndex (states : List b2BodyState) (index : Int) : Prop :=
  index = B2_NULL_INDEX ∨ (0 ≤ index ∧ index < (states.length : Int))

/-- The state `(joint, wA, wB)` of `b2SolveRevoluteJoint` after the spring block. -/
def b2SolveRevoluteJoint_stage1 (m : b2MathEnv) (base : b2JointSim) (sA sB : b2BodyState) :
    b2RevoluteJoint × ℚ × ℚ :=
  if base.revoluteJoint.enableSpring = true ∧ decide (base.invIA + base.invIB = 0) = false then
    b2SolveRevoluteJoint_spring m base.revoluteJoint base.invIA base.invIB
      (m.b2InvMulRot (m.b2MulRot sA.deltaRotation base.revoluteJoint.frameA.q)
        (m.b2MulRot sB.deltaRotation base.revoluteJoint.frameB.q))
      sA.angularVelocity sB.angularVelocity
  else (base.revoluteJoint, sA.angularVelocity, sB.angularVelocity)

/-- The state `(joint, wA, wB)` of `b2SolveRevoluteJoint` after the motor block. -/
def b2SolveRevoluteJoint_stage2 (m : b2MathEnv) (base : b2JointSim) (h : ℚ)
    (sA sB : b2BodyState) : b2RevoluteJoint × ℚ × ℚ :=
  let s := b2SolveRevoluteJoint_stage1 m base sA sB
  if s.1.enableMotor = true ∧ decide (base.invIA + base.invIB = 0) = false then
    b2SolveRevoluteJoint_motor s.1 base.invIA base.invIB h s.2.1 s.2.2
  else s

/-- The state `(joint, wA, wB)` of `b2SolveRevoluteJoint` after the two limit blocks. -/
def b2SolveRevoluteJoint_stage3 (m : b2MathEnv) (base : b2JointSim) (h inv_h : ℚ)
    (useBias : Bool) (sA sB : b2BodyState) : b2RevoluteJoint × ℚ × ℚ :=
  let s := b2SolveRevoluteJoint_stage2 m base h sA sB
  if s.1.enableLimit = true ∧ decide (base.invIA + base.invIB = 0) = false then
    let jointAngle := m.b2Rot_GetAngle
      (m.b2InvMulRot (m.b2MulRot sA.deltaRotation base.revoluteJoint.frameA.q)
        (m.b2MulRot sB.deltaRotation base.revoluteJoint.frameB.q))
    let l := b2SolveRevoluteJoint_lower s.1 base.constraintSoftness base.invIA base.invIB inv_h
      useBias jointAngle s.2.1 s.2.2
    b2SolveRevoluteJoint_upper l.1 base.constraintSoftness base.invIA base.invIB inv_h
      useBias jointAngle l.2.1 l.2.2
  else s

/-- The invariant "limit impulses are one-sided". -/
def b2LimitImpulsesOneSided (joint : b2JointSim) : Prop :=
  0 ≤ joint.revoluteJoint.lowerImpulse ∧ 0 ≤ joint.revoluteJoint.upperImpulse

/-- What a joint function may do to `context->states`: the count is kept, every entry keeps
its `deltaPosition` and `deltaRotation`, and an entry whose index is neither `indexA` nor
`indexB` is unchanged. -/
def b2StatesFrame (indexA indexB : Int) (states states' : List b2BodyState) : Prop :=
  states'.length = states.length ∧
  ∀ (k : Nat) (s : b2BodyState), states[k]? = some s →
    ∃ s', states'[k]? = some s' ∧ s'.deltaPosition = s.deltaPosition ∧
      s'.deltaRotation = s.deltaRotation ∧
      ((k : Int) ≠ indexA → (k : Int) ≠ indexB → s' = s)

/-- A sample math library: exact rotations and Cramer's rule for `b2Solve22`; the angle of
a rotation is sampled by its sine and the softness is rigid. -/
def b2MathEnv_sample : b2MathEnv :=
  { b2MulRot := fun q r => ⟨q.c * r.c - q.s * r.s, q.s * r.c + q.c * r.s⟩
    b2InvMulRot := fun a b => ⟨a.c * b.c + a.s * b.s, a.c * b.s - a.s * b.c⟩
    b2RotateVector := fun q v => ⟨q.c * v.x - q.s * v.y, q.s * v.x + q.c * v.y⟩
    b2Rot_GetAngle := fun q => q.s
    b2UnwindAngle := fun a => a
    b2Solve22 := fun A b =>
      let det := A.cx.x * A.cy.y - A.cy.x * A.cx.y
      let det := if det ≠ 0 then 1 / det else det
      ⟨det * (A.cy.y * b.x - A.cy.x * b.y), det * (A.cx.x * b.y - A.cx.y * b.x)⟩
    b2MakeSoft := fun _ _ _ => ⟨0, 1, 0⟩ }

/-- A sample world for the joint functions: body 0 is awake, body 1 is static. -/
def b2World_jointSample : b2World :=
  { worldId := 0
    bodies := [⟨2, 0, -1, 0⟩, ⟨0, 0, -1, 0⟩]
    shapes := []
    contacts := []
    contactIdPool := ⟨[], 0⟩
    solverSets :=
      [⟨[⟨⟨⟨0, 0⟩, ⟨1, 0⟩⟩, ⟨0, 0⟩, ⟨0, 0⟩, 0, 0⟩], []⟩, ⟨[], []⟩,
        ⟨[⟨⟨⟨0, 0⟩, ⟨1, 0⟩⟩, ⟨0, 0⟩, ⟨0, 0⟩, 1, 1⟩], []⟩]
    constraintGraph := ⟨[]⟩
    broadPhase := ⟨∅⟩
    contactEndEvents := [[], []]
    endEventArrayIndex := 0
    enableSpeculative := true
    frictionCallback := fun _ _ _ _ => 0
    restitutionCallback := fun _ _ _ _ => 0
    preSolveFcn := none }

/-- A sample step context with one awake body state. -/
def b2StepContext_sample : b2StepContext :=
  { world := b2World_jointSample, h := 1, inv_h := 1, enableWarmStarting := true,
    states := [⟨⟨1, 0⟩, 3, 0, ⟨0, 0⟩, ⟨1, 0⟩⟩] }

/-- A sample revolute joint between the awake body 0 and the static body 1, with motor and
limit enabled and accumulated impulses from an earlier step. -/
def b2JointSim_sample : b2JointSim :=
  { jointId := 0, bodyIdA := 0, bodyIdB := 1
    localFrameA := ⟨⟨1, 0⟩, ⟨1, 0⟩⟩, localFrameB := ⟨⟨0, 0⟩, ⟨1, 0⟩⟩
    invMassA := 1, invMassB := 0, invIA := 1, invIB := 0
    constraintHertz := 60, constraintDampingRatio := 2
    constraintSoftness := ⟨0, 1, 0⟩
    forceThreshold := 0, torqueThreshold := 0
    revoluteJoint :=
      { linearImpulse := ⟨0, 0⟩, springImpulse := 0, motorImpulse := 5, lowerImpulse := 1,
        upperImpulse := 2, hertz := 0, dampingRatio := 0, targetAngle := 0,
        maxMotorTorque := 2, motorSpeed := 1, lowerAngle := 0, upperAngle := 0
        indexA := 0, indexB := -1
        frameA := ⟨⟨1, 0⟩, ⟨1, 0⟩⟩, frameB := ⟨⟨0, 0⟩, ⟨1, 0⟩⟩
        deltaCenter := ⟨0, 0⟩, axialMass := 1, springSoftness := ⟨0, 1, 0⟩
        enableSpring := false, enableMotor := true, enableLimit := true } }

/-- A contact record without its two edges: the part that linking into and unlinking from
the body lists never writes. -/
def b2Contact.core (c : b2Contact) : b2Contact :=
  { c with edges0 := ⟨0, 0, 0⟩, edges1 := ⟨0, 0, 0⟩ }

/-- The contact array after the `b2ContactArray_Push` of `b2CreateContact`: a zeroed record
is appended when the allocated id is the array count. -/
def b2CreateContact_slots (world : b2World) : List b2Contact :=
  if (b2AllocId world.contactIdPool).1 = (world.contacts.length : Int) then
    world.contacts ++ [b2Contact_zero]
  else world.contacts

/-- A zeroed contact sim, used for the sample inputs. -/
def b2ContactSim_zero : b2ContactSim :=
  { contactId := 0, bodyIdA := 0, bodyIdB := 0, bodySimIndexA := 0, bodySimIndexB := 0,
    shapeIdA := 0, shapeIdB := 0, invMassA := 0, invIA := 0, invMassB := 0, invIB := 0,
    manifold := b2Manifold_zero, friction := 0, restitution := 0, rollingResistance := 0,
    tangentSpeed := 0, simFlags := 0, cache := b2_emptySimplexCache }

/-- Sample collaborators: flag bits as in a 32-bit build, a manifold function that finds
no point, and island, graph and wake functions that leave the world alone. -/
def b2Env_sample : b2Env :=
  { B2_VALIDATE := false
    generationBits := 32
    b2_contactTouchingFlag := 1
    b2_contactEnableContactEvents := 4
    b2_simTouchingFlag := 65536
    b2_simEnableHitEvent := 1048576
    b2_simEnablePreSolveEvents := 2097152
    B2_LINEAR_SLOP := 1 / 200
    uninitializedSim := b2ContactSim_zero
    b2GetShapeRadius := fun _ => 0
    collide := fun _ _ _ _ _ cache => (b2Manifold_zero, cache)
    b2UnlinkContact := fun w _ => w
    b2RemoveContactFromGraph := fun w _ _ _ _ => w
    b2WakeBody := fun w _ => w }

/-- A sample circle on body 0, with contact events and pre-solve events enabled. -/
def b2Shape_circle : b2Shape :=
  { id := 0, bodyId := 0, type := b2ShapeType.b2_circleShape, friction := 0, restitution := 0,
    rollingResistance := 0, tangentSpeed := 0, userMaterialId := 0, sensorIndex := -1,
    generation := 1, enableContactEvents := true, enableHitEvents := false,
    enablePreSolveEvents := true, geometry := [] }

/-- A sample polygon on body 1. -/
def b2Shape_polygon : b2Shape :=
  { id := 1, bodyId := 1, type := b2ShapeType.b2_polygonShape, friction := 0, restitution := 0,
    rollingResistance := 0, tangentSpeed := 0, userMaterialId := 0, sensorIndex := -1,
    generation := 1, enableContactEvents := false, enableHitEvents := false,
    enablePreSolveEvents := false, geometry := [] }

/-- A sample world without contacts: body 0 is awake, body 1 is static, the circle is on
body 0 and the polygon on body 1. -/
def b2World_sample : b2World :=
  { b2World_jointSample with shapes := [b2Shape_circle, b2Shape_polygon] }

/-- The part of a contact record that identifies it to the outside: edges, shapes, id,
flags and generation. -/
def b2Contact.identity (c : b2Contact) :
    b2ContactEdge × b2ContactEdge × Int × Int × Int × Nat × Nat :=
  (c.edges0, c.edges1, c.shapeIdA, c.shapeIdB, c.contactId, c.flags, c.generation)

/-- The world `w'` differs from `w` in nothing that belongs to the contact lifecycle: the
world id, the shapes, the contact id pool, the pair set, the end-event buffers, every body's
contact list head and count, and every contact's edges, shapes, id, flags and generation
are the same. -/
def b2LifecycleKept (w w' : b2World) : Prop :=
  w'.worldId = w.worldId ∧ w'.shapes = w.shapes ∧
  w'.contactIdPool = w.contactIdPool ∧ w'.broadPhase = w.broadPhase ∧
  w'.contactEndEvents = w.contactEndEvents ∧
  w'.endEventArrayIndex = w.endEventArrayIndex ∧
  w'.bodies.map (fun b => (b.headContactKey, b.contactCount)) =
    w.bodies.map (fun b => (b.headContactKey, b.contactCount)) ∧
  w'.contacts.map b2Contact.identity = w.contacts.map b2Contact.identity

/-- The island, constraint-graph and wake functions (absent) stay out of the contact
lifecycle. -/
def b2EnvFrame (env : b2Env) : Prop :=
  (∀ w contact, b2LifecycleKept w (env.b2UnlinkContact w contact)) ∧
  (∀ w bodyIdA bodyIdB colorIndex localIndex, b2LifecycleKept w
    (env.b2RemoveContactFromGraph w bodyIdA bodyIdB colorIndex localIndex)) ∧
  (∀ w body, b2LifecycleKept w (env.b2WakeBody w body))

/-- The relation between the worlds before and after a step of `b2DestroyContact` that every
step satisfies: world id and shapes are kept and every contact keeps its generation. -/
def b2KeepsGenerations (w w' : b2World) : Prop :=
  w'.contacts.map (fun c => c.generation) = w.contacts.map (fun c => c.generation)

/-- A sample world with one touching contact between the circle and the polygon, with
contact events enabled, stored in the constraint graph. -/
def b2World_touching : b2World :=
  { b2World_sample with
    bodies := [⟨2, 0, 1, 1⟩, ⟨0, 0, 0, 1⟩]
    contacts :=
      [{ edges0 := ⟨1, -1, -1⟩, edges1 := ⟨0, -1, -1⟩, islandId := -1, islandPrev := -1,
         islandNext := -1, setIndex := 2, colorIndex := 0, localIndex := 0, shapeIdA := 1,
         shapeIdB := 0, contactId := 0, flags := 5, generation := 1, isMarked := false }]
    contactIdPool := ⟨[], 1⟩
    constraintGraph := ⟨[⟨[{ b2ContactSim_zero with shapeIdA := 1, shapeIdB := 0 }]⟩]⟩
    broadPhase := ⟨{1}⟩ }

/-- A sample world whose contact slot 0 was created, destroyed and created again: the slot
holds a live contact of generation 2 with a one-point manifold. -/
def b2World_reused : b2World :=
  { b2World_sample with
    bodies := [⟨2, 0, 1, 1⟩, ⟨0, 0, 0, 1⟩]
    contacts :=
      [{ edges0 := ⟨1, -1, -1⟩, edges1 := ⟨0, -1, -1⟩, islandId := -1, islandPrev := -1,
         islandNext := -1, setIndex := 2, colorIndex := -1, localIndex := 0, shapeIdA := 1,
         shapeIdB := 0, contactId := 0, flags := 4, generation := 2, isMarked := false }]
    contactIdPool := ⟨[], 1⟩
    solverSets :=
      [⟨[⟨⟨⟨0, 0⟩, ⟨1, 0⟩⟩, ⟨0, 0⟩, ⟨0, 0⟩, 0, 0⟩], []⟩, ⟨[], []⟩,
        ⟨[⟨⟨⟨0, 0⟩, ⟨1, 0⟩⟩, ⟨0, 0⟩, ⟨0, 0⟩, 1, 1⟩],
          [{ b2ContactSim_zero with
              shapeIdA := 1, shapeIdB := 0
              manifold := { b2Manifold_zero with pointCount := 1 } }]⟩]
    broadPhase := ⟨{1}⟩ }

/-- A sample segment on body 0. -/
def b2Shape_segment : b2Shape :=
  { b2Shape_circle with id := 2, type := b2ShapeType.b2_segmentShape }

/-- A sample chain segment on body 1. -/
def b2Shape_chainSegment : b2Shape :=
  { b2Shape_polygon with id := 3, type := b2ShapeType.b2_chainSegmentShape }

/-- The bodies the two edges of a contact belong to. -/
def b2Contact.edgeBodies (c : b2Contact) : Int × Int := (c.edges0.bodyId, c.edges1.bodyId)

/-- A second sample circle, on body 1. -/
def b2Shape_circle2 : b2Shape :=
  { b2Shape_polygon with id := 4, type := b2ShapeType.b2_circleShape }

/-- The first point of the old manifold whose id is `id`, if any: the point that the
inner matching loop of `b2UpdateContact` stops at. -/
def b2FirstOldMatch (old : b2Manifold) (id : Nat) : Option b2ManifoldPoint :=
  if 1 ≤ old.pointCount ∧ old.points0.id = id then some old.points0
  else if 2 ≤ old.pointCount ∧ old.points1.id = id then some old.points1
  else none

/-- The inner matching loop as one step: the old manifold with the matched point's impulses
cleared, and the new point with the matched point's impulses. -/
def b2MatchStep (old : b2Manifold) (mp2 : b2ManifoldPoint) : b2Manifold × b2ManifoldPoint :=
  if 1 ≤ old.pointCount ∧ old.points0.id = mp2.id then
    ({ old with points0 := { old.points0 with normalImpulse := 0, tangentImpulse := 0 } },
      { mp2 with normalImpulse := old.points0.normalImpulse,
                 tangentImpulse := old.points0.tangentImpulse, persisted := true })
  else if 2 ≤ old.pointCount ∧ old.points1.id = mp2.id then
    ({ old with points1 := { old.points1 with normalImpulse := 0, tangentImpulse := 0 } },
      { mp2 with normalImpulse := old.points1.normalImpulse,
                 tangentImpulse := old.points1.tangentImpulse, persisted := true })
  else (old, mp2)

/-- The fields of a new manifold point on entry to the matching: anchors shifted, impulses
and velocity cleared. -/
def b2ResetPoint (centerOffsetA centerOffsetB : b2Vec2) (mp2 : b2ManifoldPoint) :
    b2ManifoldPoint :=
  { mp2 with
    anchorA := b2Sub mp2.anchorA centerOffsetA
    anchorB := b2Sub mp2.anchorB centerOffsetB
    normalImpulse := 0
    tangentImpulse := 0
    totalNormalImpulse := 0
    normalVelocity := 0
    persisted := false }

/-- What the matching of `b2UpdateContact` leaves in a new point `p`, given the old
manifold on entry and the id of an earlier new point (if any): totals cleared; persisted
with the impulses of the first old point of the same id, or, when the earlier new point has
the same id and has taken them, with zero impulses; not persisted with zero impulses when
no old point has the id. -/
def b2WarmStarted (old : b2Manifold) (earlier : Option Nat) (p : b2ManifoldPoint) : Prop :=
  p.totalNormalImpulse = 0 ∧ p.normalVelocity = 0 ∧
  match b2FirstOldMatch old p.id with
  | some mp1 =>
    p.persisted = true ∧
    (if earlier = some p.id then p.normalImpulse = 0 ∧ p.tangentImpulse = 0
     else p.normalImpulse = mp1.normalImpulse ∧ p.tangentImpulse = mp1.tangentImpulse)
  | none => p.persisted = false ∧ p.normalImpulse = 0 ∧ p.tangentImpulse = 0

/-- A sample manifold point with id 7. -/
def b2ManifoldPoint_seven : b2ManifoldPoint :=
  { b2ManifoldPoint_zero with id := 7, separation := -1 / 100 }

/-- Sample collaborators whose manifold function returns two points that carry the same
id 7. -/
def b2Env_twoPoints : b2Env :=
  { b2Env_sample with
    collide := fun _ _ _ _ _ cache =>
      ({ b2Manifold_zero with
          points0 := b2ManifoldPoint_seven, points1 := b2ManifoldPoint_seven, pointCount := 2 },
        cache) }

/-- A sample contact sim whose stored manifold has one point of id 7 with accumulated
impulses 3 and 1; pre-solve events are enabled. -/
def b2ContactSim_warm : b2ContactSim :=
  { b2ContactSim_zero with
    simFlags := 2097152
    manifold := { b2Manifold_zero with
      points0 := { b2ManifoldPoint_seven with normalImpulse := 3, tangentImpulse := 1 }
      pointCount := 1 } }

/-- A sample world whose pre-solve callback rejects every contact. -/
def b2World_veto : b2World :=
  { b2World_sample with preSolveFcn := some (fun _ _ _ _ => false) }

/-- The identity transform. -/
def b2Transform_identity : b2Transform := ⟨⟨0, 0⟩, ⟨1, 0⟩⟩

/-- The axial impulse a revolute joint has accumulated:
`springImpulse + motorImpulse + lowerImpulse - upperImpulse`, the sum
`b2WarmStartRevoluteJoint` applies. -/
def b2AxialImpulse (joint : b2RevoluteJoint) : ℚ :=
  joint.springImpulse + joint.motorImpulse + joint.lowerImpulse - joint.upperImpulse

/-- An angular block of the solver accounts for its velocity change: from `(j, wA, wB)` to
`r` the angular velocities move by the change of the axial impulse and the linear impulse
stays. -/
def b2AxialAccounted (iA iB : ℚ) (j : b2RevoluteJoint) (wA wB : ℚ)
    (r : b2RevoluteJoint × ℚ × ℚ) : Prop :=
  r.2.1 = wA - iA * (b2AxialImpulse r.1 - b2AxialImpulse j) ∧
  r.2.2 = wB + iB * (b2AxialImpulse r.1 - b2AxialImpulse j) ∧
  r.1.linearImpulse = j.linearImpulse

/-- The impulse `(L, a)` applied to body A: `v - invMassA * L` and
`w - invIA * (rA x L + a)`. -/
def b2ImpulseOnA (base : b2JointSim) (rA L : b2Vec2) (a : ℚ) (s : b2BodyState) : b2BodyState :=
  { s with
    linearVelocity := ⟨s.linearVelocity.x - base.invMassA * L.x,
      s.linearVelocity.y - base.invMassA * L.y⟩
    angularVelocity := s.angularVelocity - base.invIA * ((rA.x * L.y - rA.y * L.x) + a) }

/-- The opposite impulse applied to body B: `v + invMassB * L` and
`w + invIB * (rB x L + a)`. -/
def b2ImpulseOnB (base : b2JointSim) (rB L : b2Vec2) (a : ℚ) (s : b2BodyState) : b2BodyState :=
  { s with
    linearVelocity := ⟨s.linearVelocity.x + base.invMassB * L.x,
      s.linearVelocity.y + base.invMassB * L.y⟩
    angularVelocity := s.angularVelocity + base.invIB * ((rB.x * L.y - rB.y * L.x) + a) }

/-- A joint whose accumulated impulses are the changes from `old` to `new`. -/
def b2ImpulseDelta (old new : b2RevoluteJoint) : b2RevoluteJoint :=
  { old with
    linearImpulse := ⟨new.linearImpulse.x - old.linearImpulse.x,
      new.linearImpulse.y - old.linearImpulse.y⟩
    springImpulse := new.springImpulse - old.springImpulse
    motorImpulse := new.motorImpulse - old.motorImpulse
    lowerImpulse := new.lowerImpulse - old.lowerImpulse
    upperImpulse := new.upperImpulse - old.upperImpulse }

/-- A sample step context with two awake body states. -/
def b2StepContext_twoAwake : b2StepContext :=
  { b2StepContext_sample with
    states := [⟨⟨1, 0⟩, 3, 0, ⟨0, 0⟩, ⟨1, 0⟩⟩, ⟨⟨0, 2⟩, -1, 0, ⟨0, 0⟩, ⟨1, 0⟩⟩] }

/-- A sample revolute joint between two awake bodies with states 0 and 1. -/
def b2JointSim_twoAwake : b2JointSim :=
  { b2JointSim_sample with
    invMassB := 2, invIB := 3
    revoluteJoint := { b2JointSim_sample.revoluteJoint with indexA := 0, indexB := 1 } }

/-- The value of `simFlags` after the store that ends `b2UpdateContact`. -/
def b2UpdateContact_touchingFlag_flags (env : b2Env) (touching : Bool) (simFlags : Nat) : Nat :=
  if touching = true then simFlags ||| env.b2_simTouchingFlag
  else simFlags &&& b2Not32 env.b2_simTouchingFlag

/-- A sample world with speculative contact points switched off. -/
def b2World_noSpeculative : b2World :=
  { b2World_sample with enableSpeculative := false }

/-- The manifold that leaves the block "This flag is for testing" of `b2UpdateContact`. -/
def b2TrimmedManifold (env : b2Env) (world : b2World) (m : b2Manifold) : b2Manifold :=
  if world.enableSpeculative = false ∧ m.pointCount = 2 ∧
      m.points0.separation > 3 / 2 * env.B2_LINEAR_SLOP then
    { m with points0 := m.points1, pointCount := 1 }
  else m

/-- The manifold that the stores after the speculative block and the matching loop of
`b2UpdateContact` make of the manifold `ms`, for the old manifold `old`. -/
def b2WarmStartedManifold (cA cB : b2Vec2) (old ms : b2Manifold) : b2Manifold :=
  if ms.pointCount ≤ 0 then ms
  else if ms.pointCount = 1 then
    { ms with
      rollingImpulse := old.rollingImpulse
      points0 := (b2MatchStep old (b2ResetPoint cA cB ms.points0)).2 }
  else
    { ms with
      rollingImpulse := old.rollingImpulse
      points0 := (b2MatchStep old (b2ResetPoint cA cB ms.points0)).2
      points1 := (b2MatchStep (b2MatchStep old (b2ResetPoint cA cB ms.points0)).1
        (b2ResetPoint cA cB ms.points1)).2 }

/-- Sample collaborators whose manifold function returns two speculative points: point 0
with id 1 and separation 1, point 1 with id 2 and separation 2. -/
def b2Env_speculative : b2Env :=
  { b2Env_sample with
    collide := fun _ _ _ _ _ cache =>
      ({ b2Manifold_zero with
          points0 := { b2ManifoldPoint_zero with id := 1, separation := 1 }
          points1 := { b2ManifoldPoint_zero with id := 2, separation := 2 }
          pointCount := 2 },
        cache) }

/-- The sum of the normal impulses of the points of a manifold. -/
def b2NormalImpulseSum (m : b2Manifold) : ℚ :=
  (if 1 ≤ m.pointCount then m.points0.normalImpulse else 0) +
    (if 2 ≤ m.pointCount then m.points1.normalImpulse else 0)

/-- The index of the first point of the old manifold whose id is `id`, if any: where the
inner matching loop of `b2UpdateContact` stops. -/
def b2MatchIndex (old : b2Manifold) (id : Nat) : Option Int :=
  if 1 ≤ old.pointCount ∧ old.points0.id = id then some 0
  else if 2 ≤ old.pointCount ∧ old.points1.id = id then some 1
  else none

/-- The new point `p` holds the impulses that the old point of index `j` held on entry
(`s = some j`), or zero impulses (`s = none`). -/
def b2InheritsFrom (old : b2Manifold) (s : Option Int) (p : b2ManifoldPoint) : Prop :=
  match s with
  | some j =>
    0 ≤ j ∧ j < old.pointCount ∧
      ∃ mp1, old.getPoint j = some mp1 ∧ mp1.id = p.id ∧ p.persisted = true ∧
        p.normalImpulse = mp1.normalImpulse ∧ p.tangentImpulse = mp1.tangentImpulse
  | none => p.normalImpulse = 0 ∧ p.tangentImpulse = 0

/-- The world `w'` is reached from `w` by calls of `b2DestroyContact` and of
`b2CreateContact` on registered pairs, `k` of which took the slot `slot`. -/
inductive b2SlotReused (env : b2Env) (slot : Int) : Nat → b2World → b2World → Prop
  | start (w : b2World) : b2SlotReused env slot 0 w w
  | destroy (k : Nat) (w w1 w2 : b2World) (contact : Int) ( wake : Bool) :
      b2SlotReused env slot k w w1 → b2DestroyContact env w1 contact wake = some w2 →
      b2SlotReused env slot k w w2
  | createOther (k : Nat) (w w1 w2 : b2World) (a b : b2Shape) (fuel : Nat) :
      b2SlotReused env slot k w w1 → (s_registers a.type b.type).fcn ≠ none →
      b2CreateContact env s_registers (fuel + 2) w1 a b = some w2 →
      (b2AllocId w1.contactIdPool).1 ≠ slot → b2SlotReused env slot k w w2
  | createSlot (k : Nat) (w w1 w2 : b2World) (a b : b2Shape) (fuel : Nat) :
      b2SlotReused env slot k w w1 → (s_registers a.type b.type).fcn ≠ none →
      b2CreateContact env s_registers (fuel + 2) w1 a b = some w2 →
      (b2AllocId w1.contactIdPool).1 = slot → b2SlotReused env slot (k + 1) w w2

/-- The sample world after the circle-polygon contact was created in slot 0 with
generation `g`. -/
def b2World_cycleLive (g : Nat) : b2World :=
  { b2World_sample with
    bodies := [⟨2, 0, 1, 1⟩, ⟨0, 0, 0, 1⟩]
    contacts :=
      [{ edges0 := ⟨1, -1, -1⟩, edges1 := ⟨0, -1, -1⟩, islandId := -1, islandPrev := -1,
         islandNext := -1, setIndex := 2, colorIndex := -1, localIndex := 0, shapeIdA := 1,
         shapeIdB := 0, contactId := 0, flags := 0 ||| 4, generation := g, isMarked := false }]
    contactIdPool := ⟨[], 1⟩
    solverSets :=
      [⟨[⟨⟨⟨0, 0⟩, ⟨1, 0⟩⟩, ⟨0, 0⟩, ⟨0, 0⟩, 0, 0⟩], []⟩, ⟨[], []⟩,
        ⟨[⟨⟨⟨0, 0⟩, ⟨1, 0⟩⟩, ⟨0, 0⟩, ⟨0, 0⟩, 1, 1⟩],
          [b2CreateContact_sim b2Env_sample b2World_sample 0 b2Shape_polygon b2Shape_circle]⟩]
    broadPhase := ⟨b2AddKey ∅ (B2_SHAPE_PAIR_KEY 1 0)⟩ }

/-- The sample world after that contact was destroyed: slot 0 is free and keeps the
generation `g`. -/
def b2World_cycleFree (g : Nat) : b2World :=
  { b2World_sample with
    contacts :=
      [{ edges0 := ⟨1, -1, -1⟩, edges1 := ⟨0, -1, -1⟩, islandId := -1, islandPrev := -1,
         islandNext := -1, setIndex := -1, colorIndex := -1, localIndex := -1, shapeIdA := 1,
         shapeIdB := 0, contactId := -1, flags := 0 ||| 4, generation := g, isMarked := false }]
    contactIdPool := ⟨[0], 1⟩ }

/-- One reuse of a slot: the circle-polygon contact is created and destroyed again. -/
def b2ReuseCycle (w : b2World) : Option b2World :=
  (b2CreateContact b2Env_sample s_registers 2 w b2Shape_circle b2Shape_polygon).bind
    (fun w1 => b2DestroyContact b2Env_sample w1 0 false)

/-- The edge a key names: `contacts[key >> 1].edges[key & 1]`. -/
def b2EdgeAt (contacts : List b2Contact) (key : Int) : Option b2ContactEdge :=
  (b2Array_Get contacts (b2KeyContact key)).bind (fun c => c.edges (b2KeySide key))

/-- The keys `ks` are consecutive edges of the contact list of `body`, in list order: every
key is non-negative and names an edge of that body, the first edge has `prevKey = prev`,
every other edge has the key before it as `prevKey`, every edge has the key after it as
`nextKey`, and the last edge has `nextKey = nxt`. -/
def b2Chain (contacts : List b2Contact) (body : Int) : Int → List Int → Int → Prop
  | _, [], _ => True
  | prev, k :: ks, nxt =>
    0 ≤ k ∧ ∃ e, b2EdgeAt contacts k = some e ∧ e.bodyId = body ∧ e.prevKey = prev ∧
      e.nextKey = ks.headD nxt ∧ b2Chain contacts body k ks nxt

/-- The slot `i` of the contact array holds a live contact: its `contactId` is its index. -/
def b2LiveAt (contacts : List b2Contact) (i : Int) : Prop :=
  ∃ c, b2Array_Get contacts i = some c ∧ c.contactId = i

/-- The contact list of the body `b` is well formed and visits the keys `L` in this order:
following `nextKey` from `headContactKey` visits each key once, every visited edge has the
body's id, `prevKey` mirrors `nextKey` (the head's `prevKey` is null) and `contactCount` is
the number of visited edges. -/
def b2BodyList (bodies : List b2Body) (contacts : List b2Contact) (b : Int) (L : List Int) :
    Prop :=
  ∃ body, b2Array_Get bodies b = some body ∧
    body.headContactKey = L.headD B2_NULL_INDEX ∧ body.contactCount = (L.length : Int) ∧
    L.Nodup ∧ b2Chain contacts b B2_NULL_INDEX L B2_NULL_INDEX

/-- The body contact lists are well formed, `L b` being the list of body `b`, up to the keys
`P` that are being linked or unlinked: every body has the list `L b`; every key of a live
contact is in `P` or in the list of the body its edge names; and every key in a list is
outside `P` and belongs to a live contact. -/
def b2ListsInv (bodies : List b2Body) (contacts : List b2Contact) (L : Int → List Int)
    (P : Int → Prop) : Prop :=
  (∀ b body, b2Array_Get bodies b = some body → b2BodyList bodies contacts b (L b)) ∧
  (∀ b, b2Array_Get bodies b = none → L b = []) ∧
  (∀ k e, 0 ≤ k → b2LiveAt contacts (b2KeyContact k) → b2EdgeAt contacts k = some e →
    P k ∨ k ∈ L e.bodyId) ∧
  (∀ b k, k ∈ L b → ¬ P k ∧ b2LiveAt contacts (b2KeyContact k))

/-- The id pool agrees with the contact array: the freed ids are distinct slots of the array
that hold no live contact, and the next fresh id is the array count. -/
def b2PoolInv (contacts : List b2Contact) (pool : b2IdPool) : Prop :=
  pool.freeArray.Nodup ∧ pool.nextIndex = (contacts.length : Int) ∧
  ∀ id, id ∈ pool.freeArray → ∃ c, b2Array_Get contacts id = some c ∧ c.contactId ≠ id

/-- The body contact lists of a world are well formed, with `L b` the keys that following
`nextKey` from the head of body `b` visits: every list has no key twice, every listed edge
names its body, `prevKey` mirrors `nextKey`, the count is the length, the keys of live
contacts are listed in the list of the body their edge names and only keys of live contacts
are listed; the id pool agrees with the contact array. -/
def b2ContactListsInv (w : b2World) (L : Int → List Int) : Prop :=
  b2ListsInv w.bodies w.contacts L (fun _ => False) ∧ b2PoolInv w.contacts w.contactIdPool

/-- The lists after the two head insertions of `b2CreateContact`. -/
def b2CreateContact_lists (w : b2World) (shapeA shapeB : b2Shape) (L : Int → List Int) :
    Int → List Int :=
  let contactId := (b2AllocId w.contactIdPool).1
  let L1 := Function.update L shapeA.bodyId (b2EdgeKey contactId 0 :: L shapeA.bodyId)
  Function.update L1 shapeB.bodyId (b2EdgeKey contactId 1 :: L1 shapeB.bodyId)

/-- The lists after the two unlinks of `b2DestroyContact`; `c` is the destroyed contact as
it was on entry. -/
def b2DestroyContact_lists (c : b2Contact) (contact : Int) (L : Int → List Int) :
    Int → List Int :=
  let L1 := Function.update L c.edges0.bodyId ((L c.edges0.bodyId).erase (b2EdgeKey contact 0))
  Function.update L1 c.edges1.bodyId ((L1 c.edges1.bodyId).erase (b2EdgeKey contact 1))

/-- A sample world whose contact slot 0 is free: it was last used by a contact between the
shapes 1 and 4, with contact events disabled, and its generation counter is at its maximum. -/
def b2World_usedSlot : b2World :=
  { b2World_sample with
    contacts :=
      [{ edges0 := ⟨1, -1, -1⟩, edges1 := ⟨1, -1, -1⟩, islandId := -1, islandPrev := -1,
         islandNext := -1, setIndex := -1, colorIndex := -1, localIndex := -1, shapeIdA := 1,
         shapeIdB := 4, contactId := -1, flags := 0, generation := 4294967295,
         isMarked := false }]
    contactIdPool := ⟨[0], 1⟩ }

/-- The sim at position `j` of solver set `s`: `solverSets[s].contactSims[j]`. -/
def b2SimAt (solverSets : List b2SolverSet) (s j : Int) : Option b2ContactSim :=
  (b2Array_Get solverSets s).bind (fun set => b2Array_Get set.contactSims j)

/-- The contact locator: every live contact `c` with `colorIndex == B2_NULL_INDEX` satisfies
`solverSets[c.setIndex].contactSims[c.localIndex].contactId == c.contactId`. -/
def b2Located (contacts : List b2Contact) (solverSets : List b2SolverSet) : Prop :=
  ∀ i c, b2Array_Get contacts i = some c → c.contactId = i → c.colorIndex = B2_NULL_INDEX →
    ∃ sim, b2SimAt solverSets c.setIndex c.localIndex = some sim ∧ sim.contactId = c.contactId

/-- Every sim of a solver set belongs to the live contact that points at it. -/
def b2SimsOwned (contacts : List b2Contact) (solverSets : List b2SolverSet) : Prop :=
  ∀ s j sim, b2SimAt solverSets s j = some sim →
    ∃ c, b2Array_Get contacts sim.contactId = some c ∧ c.contactId = sim.contactId ∧
      c.colorIndex = B2_NULL_INDEX ∧ c.setIndex = s ∧ c.localIndex = j

/-- The locator fields of a contact record. -/
def b2Contact.locator (c : b2Contact) : Int × Int × Int × Int :=
  (c.contactId, c.setIndex, c.colorIndex, c.localIndex)

/-- The function `b2UnlinkContact` (absent) leaves the solver sets, the contact id pool and
the locator fields of every contact alone. -/
def b2UnlinkKeepsLocator (env : b2Env) : Prop :=
  ∀ w contact, (env.b2UnlinkContact w contact).solverSets = w.solverSets ∧
    (env.b2UnlinkContact w contact).contactIdPool = w.contactIdPool ∧
    (env.b2UnlinkContact w contact).contacts.map b2Contact.locator =
      w.contacts.map b2Contact.locator

/-- The world has a sound contact locator: the claim's condition on live contacts outside
the graph, every sim of a solver set belongs to the live contact that points at it, and the
id pool agrees with the contact array. -/
def b2LocatorInv (w : b2World) : Prop :=
  b2Located w.contacts w.solverSets ∧ b2SimsOwned w.contacts w.solverSets ∧
    b2PoolInv w.contacts w.contactIdPool

/-- The sample world after two contacts between the polygon and the circle were created:
both sims are in the awake set, the sim of contact 0 first. -/
def b2World_twoContacts : b2World :=
  { b2World_sample with
    bodies := [⟨2, 0, 3, 2⟩, ⟨0, 0, 2, 2⟩]
    contacts :=
      [{ edges0 := ⟨1, 2, -1⟩, edges1 := ⟨0, 3, -1⟩, islandId := -1, islandPrev := -1,
         islandNext := -1, setIndex := 2, colorIndex := -1, localIndex := 0, shapeIdA := 1,
         shapeIdB := 0, contactId := 0, flags := 4, generation := 1, isMarked := false },
       { edges0 := ⟨1, -1, 0⟩, edges1 := ⟨0, -1, 1⟩, islandId := -1, islandPrev := -1,
         islandNext := -1, setIndex := 2, colorIndex := -1, localIndex := 1, shapeIdA := 1,
         shapeIdB := 0, contactId := 1, flags := 4, generation := 1, isMarked := false }]
    contactIdPool := ⟨[], 2⟩
    solverSets :=
      [⟨[⟨⟨⟨0, 0⟩, ⟨1, 0⟩⟩, ⟨0, 0⟩, ⟨0, 0⟩, 0, 0⟩], []⟩, ⟨[], []⟩,
        ⟨[⟨⟨⟨0, 0⟩, ⟨1, 0⟩⟩, ⟨0, 0⟩, ⟨0, 0⟩, 1, 1⟩],
          [b2CreateContact_sim b2Env_sample b2World_sample 0 b2Shape_polygon b2Shape_circle,
           b2CreateContact_sim b2Env_sample b2World_sample 1 b2Shape_polygon b2Shape_circle]⟩]
    broadPhase := ⟨b2AddKey (b2AddKey ∅ (B2_SHAPE_PAIR_KEY 1 0)) (B2_SHAPE_PAIR_KEY 1 0)⟩ }

/-- A sample of the limit fields: stored limits 0 and 0, accumulated limit impulses 1 and 2. -/
def b2RevoluteJointLimits_sample : b2RevoluteJointLimits :=
  { lowerAngle := b2Float.num 0, upperAngle := b2Float.num 0,
    lowerImpulse := b2Float.num 1, upperImpulse := b2Float.num 2 }

/-! ## Theorems -/

theorem b2Array_Get_eq_some_of_lt {α : Type} (a : List α) (i : Int) (h0 : 0 ≤ i)
    (h1 : i < (a.length : Int)) : ∃ v, b2Array_Get a i = some v := by
  have hlt : i.toNat < a.length := by omega
  exact ⟨a[i.toNat], by simp [b2Array_Get, h0, List.getElem?_eq_getElem hlt]⟩

theorem b2StateMem_get_of_valid (mem : b2StateMem) (i : Int)
    (h : b2ValidStateIndex mem.states i) : ∃ s, mem.get i = some s := by
  unfold b2StateMem.get
  by_cases hn : i = B2_NULL_INDEX
  · exact ⟨mem.dummyState, by simp [hn]⟩
  · rcases h with h | ⟨h0, h1⟩
    · exact absurd h hn
    · obtain ⟨v, hv⟩ := b2Array_Get_eq_some_of_lt mem.states i h0 h1
      exact ⟨v, by simp [hn, hv]⟩

theorem b2StateMem_set_states_length (mem : b2StateMem) (i : Int) (s : b2BodyState) :
    (mem.set i s).states.length = mem.states.length := by
  unfold b2StateMem.set
  split <;> simp [b2Array_Set]

theorem b2StateMem_modify_of_valid (mem : b2StateMem) (i : Int) (f : b2BodyState → b2BodyState)
    (h : b2ValidStateIndex mem.states i) :
    ∃ s, mem.get i = some s ∧ mem.modify i f = some (mem.set i (f s)) := by
  obtain ⟨s, hs⟩ := b2StateMem_get_of_valid mem i h
  exact ⟨s, hs, by simp [b2StateMem.modify, hs]⟩

theorem b2ValidStateIndex_set (mem : b2StateMem) (i j : Int) (s : b2BodyState)
    (h : b2ValidStateIndex mem.states j) : b2ValidStateIndex (mem.set i s).states j := by
  unfold b2ValidStateIndex at *
  rw [b2StateMem_set_states_length]
  exact h

theorem b2ValidStateIndex_of_length (states states' : List b2BodyState) (i : Int)
    (hl : states'.length = states.length) (h : b2ValidStateIndex states i) :
    b2ValidStateIndex states' i := by
  unfold b2ValidStateIndex at *
  rw [hl]
  exact h

theorem b2StateMem_modify_bind_of_valid {β : Type} (mem : b2StateMem) (i : Int)
    (f : b2BodyState → b2BodyState) (g : b2StateMem → Option β)
    (h : b2ValidStateIndex mem.states i)
    (hg : ∀ mem1 : b2StateMem, mem1.states.length = mem.states.length → ∃ r, g mem1 = some r) :
    ∃ r, (mem.modify i f).bind g = some r := by
  obtain ⟨s, -, hs⟩ := b2StateMem_modify_of_valid mem i f h
  rw [hs]
  exact hg _ (b2StateMem_set_states_length mem i (f s))

theorem b2SolveRevoluteJoint_store_of_valid (mem : b2StateMem) (stateA stateB : Int)
    (vA : b2Vec2) (wA : ℚ) (vB : b2Vec2) (wB : ℚ)
    (hA : b2ValidStateIndex mem.states stateA) (hB : b2ValidStateIndex mem.states stateB) :
    ∃ mem', b2SolveRevoluteJoint_store mem stateA stateB vA wA vB wB = some mem' := by
  unfold b2SolveRevoluteJoint_store
  simp only [Option.bind_eq_bind]
  refine b2StateMem_modify_bind_of_valid _ _ _ _ hA fun m1 l1 => ?_
  refine b2StateMem_modify_bind_of_valid _ _ _ _
    (b2ValidStateIndex_of_length _ _ _ l1 hA) fun m2 l2 => ?_
  refine b2StateMem_modify_bind_of_valid _ _ _ _
    (b2ValidStateIndex_of_length _ _ _ (l2.trans l1) hB) fun m3 l3 => ?_
  obtain ⟨s, -, hs⟩ := b2StateMem_modify_of_valid m3 stateB
    (fun s => { s with angularVelocity := wB })
    (b2ValidStateIndex_of_length _ _ _ (l3.trans (l2.trans l1)) hB)
  exact ⟨_, hs⟩

/-- Under usable state pointers `b2SolveRevoluteJoint` returns, and the joint it leaves
is the one computed from the two states read on entry. -/
theorem b2SolveRevoluteJoint_returns (m : b2MathEnv) (base : b2JointSim) (context : b2StepContext)
    (useBias : Bool)
    (hA : b2ValidStateIndex context.states base.revoluteJoint.indexA)
    (hB : b2ValidStateIndex context.states base.revoluteJoint.indexB) :
    ∃ sA sB mem',
      (b2StateMem.mk b2_identityBodyState context.states).get base.revoluteJoint.indexA = some sA ∧
      (b2StateMem.mk b2_identityBodyState context.states).get base.revoluteJoint.indexB = some sB ∧
      b2SolveRevoluteJoint_store (b2StateMem.mk b2_identityBodyState context.states)
        base.revoluteJoint.indexA base.revoluteJoint.indexB
        (b2SolveRevoluteJoint_compute m base context.h context.inv_h useBias sA sB).2.1
        (b2SolveRevoluteJoint_compute m base context.h context.inv_h useBias sA sB).2.2.1
        (b2SolveRevoluteJoint_compute m base context.h context.inv_h useBias sA sB).2.2.2.1
        (b2SolveRevoluteJoint_compute m base context.h context.inv_h useBias sA sB).2.2.2.2
        = some mem' ∧
      b2SolveRevoluteJoint m base context useBias =
        some ({ base with revoluteJoint :=
                  (b2SolveRevoluteJoint_compute m base context.h context.inv_h useBias sA sB).1 },
              { context with states := mem'.states }) := by
  obtain ⟨sA, hsA⟩ := b2StateMem_get_of_valid ⟨b2_identityBodyState, context.states⟩ _ hA
  obtain ⟨sB, hsB⟩ := b2StateMem_get_of_valid ⟨b2_identityBodyState, context.states⟩ _ hB
  obtain ⟨mem', hmem⟩ := b2SolveRevoluteJoint_store_of_valid
    ⟨b2_identityBodyState, context.states⟩ base.revoluteJoint.indexA base.revoluteJoint.indexB
    (b2SolveRevoluteJoint_compute m base context.h context.inv_h useBias sA sB).2.1
    (b2SolveRevoluteJoint_compute m base context.h context.inv_h useBias sA sB).2.2.1
    (b2SolveRevoluteJoint_compute m base context.h context.inv_h useBias sA sB).2.2.2.1
    (b2SolveRevoluteJoint_compute m base context.h context.inv_h useBias sA sB).2.2.2.2 hA hB
  refine ⟨sA, sB, mem', hsA, hsB, hmem, ?_⟩
  simp only [b2SolveRevoluteJoint, b2SolveRevoluteJoint_mem, hsA, hsB, hmem,
    Option.bind_eq_bind, Option.some_bind, Option.pure_def]

theorem b2ClampFloat_abs_le (a M : ℚ) (hM : 0 ≤ M) : |b2ClampFloat a (-M) M| ≤ M := by
  unfold b2ClampFloat
  split_ifs with h1 h2
  · rw [abs_neg, abs_of_nonneg hM]
  · rw [abs_of_nonneg hM]
  · rw [abs_le]; constructor <;> linarith

theorem b2MaxFloat_zero_nonneg (a : ℚ) : 0 ≤ b2MaxFloat a 0 := by
  unfold b2MaxFloat
  split_ifs with h
  · exact le_of_lt h
  · exact le_refl 0

theorem b2SolveRevoluteJoint_compute_eq (m : b2MathEnv) (base : b2JointSim)
    (h inv_h : ℚ) (useBias : Bool) (sA sB : b2BodyState) :
    b2SolveRevoluteJoint_compute m base h inv_h useBias sA sB =
      b2SolveRevoluteJoint_point m (b2SolveRevoluteJoint_stage3 m base h inv_h useBias sA sB).1
        base.constraintSoftness base.invMassA base.invMassB base.invIA base.invIB useBias
        (m.b2RotateVector sA.deltaRotation
          (b2SolveRevoluteJoint_stage3 m base h inv_h useBias sA sB).1.frameA.p)
        (m.b2RotateVector sB.deltaRotation
          (b2SolveRevoluteJoint_stage3 m base h inv_h useBias sA sB).1.frameB.p)
        sA.deltaPosition sB.deltaPosition sA.linearVelocity
        (b2SolveRevoluteJoint_stage3 m base h inv_h useBias sA sB).2.1 sB.linearVelocity
        (b2SolveRevoluteJoint_stage3 m base h inv_h useBias sA sB).2.2 := by
  rfl

theorem b2SolveRevoluteJoint_lower_fst (joint : b2RevoluteJoint) (cs : b2Softness)
    (iA iB inv_h : ℚ) (useBias : Bool) (jointAngle wA wB : ℚ) :
    ∃ x, (b2SolveRevoluteJoint_lower joint cs iA iB inv_h useBias jointAngle wA wB).1 =
      { joint with lowerImpulse := b2MaxFloat x 0 } := by
  unfold b2SolveRevoluteJoint_lower
  split_ifs <;> exact ⟨_, rfl⟩

theorem b2SolveRevoluteJoint_upper_fst (joint : b2RevoluteJoint) (cs : b2Softness)
    (iA iB inv_h : ℚ) (useBias : Bool) (jointAngle wA wB : ℚ) :
    ∃ x, (b2SolveRevoluteJoint_upper joint cs iA iB inv_h useBias jointAngle wA wB).1 =
      { joint with upperImpulse := b2MaxFloat x 0 } := by
  unfold b2SolveRevoluteJoint_upper
  split_ifs <;> exact ⟨_, rfl⟩

theorem b2SolveRevoluteJoint_point_fst (m : b2MathEnv) (joint : b2RevoluteJoint)
    (cs : b2Softness) (mA mB iA iB : ℚ) (useBias : Bool) (rA rB dcA dcB : b2Vec2)
    (vA : b2Vec2) (wA : ℚ) (vB : b2Vec2) (wB : ℚ) :
    ∃ L, (b2SolveRevoluteJoint_point m joint cs mA mB iA iB useBias rA rB dcA dcB vA wA vB wB).1 =
      { joint with linearImpulse := L } := by
  unfold b2SolveRevoluteJoint_point
  split_ifs <;> exact ⟨_, rfl⟩

theorem b2SolveRevoluteJoint_stage1_fst (m : b2MathEnv) (base : b2JointSim)
    (sA sB : b2BodyState) :
    ∃ x, (b2SolveRevoluteJoint_stage1 m base sA sB).1 =
      { base.revoluteJoint with springImpulse := x } := by
  unfold b2SolveRevoluteJoint_stage1
  split_ifs
  · exact ⟨_, rfl⟩
  · exact ⟨base.revoluteJoint.springImpulse, rfl⟩

theorem b2SolveRevoluteJoint_stage2_motorImpulse (m : b2MathEnv) (base : b2JointSim) (h : ℚ)
    (sA sB : b2BodyState)
    (hmotor : base.revoluteJoint.enableMotor = true) (hI : base.invIA + base.invIB ≠ 0)
    (hmax : 0 ≤ h * base.revoluteJoint.maxMotorTorque) :
    |(b2SolveRevoluteJoint_stage2 m base h sA sB).1.motorImpulse| ≤
      h * base.revoluteJoint.maxMotorTorque := by
  obtain ⟨x, hx⟩ := b2SolveRevoluteJoint_stage1_fst m base sA sB
  unfold b2SolveRevoluteJoint_stage2
  simp only [hx, hmotor, hI, decide_False, and_self, if_true]
  simp only [b2SolveRevoluteJoint_motor]
  exact b2ClampFloat_abs_le _ _ hmax

theorem b2SolveRevoluteJoint_stage3_motorImpulse (m : b2MathEnv) (base : b2JointSim)
    (h inv_h : ℚ) (useBias : Bool) (sA sB : b2BodyState) :
    (b2SolveRevoluteJoint_stage3 m base h inv_h useBias sA sB).1.motorImpulse =
      (b2SolveRevoluteJoint_stage2 m base h sA sB).1.motorImpulse := by
  unfold b2SolveRevoluteJoint_stage3
  simp only
  split_ifs
  · obtain ⟨x, hx⟩ := b2SolveRevoluteJoint_lower_fst (b2SolveRevoluteJoint_stage2 m base h sA sB).1
      base.constraintSoftness base.invIA base.invIB inv_h useBias
      (m.b2Rot_GetAngle (m.b2InvMulRot (m.b2MulRot sA.deltaRotation base.revoluteJoint.frameA.q)
        (m.b2MulRot sB.deltaRotation base.revoluteJoint.frameB.q)))
      (b2SolveRevoluteJoint_stage2 m base h sA sB).2.1 (b2SolveRevoluteJoint_stage2 m base h sA sB).2.2
    obtain ⟨y, hy⟩ := b2SolveRevoluteJoint_upper_fst
      (b2SolveRevoluteJoint_lower (b2SolveRevoluteJoint_stage2 m base h sA sB).1
        base.constraintSoftness base.invIA base.invIB inv_h useBias
        (m.b2Rot_GetAngle (m.b2InvMulRot (m.b2MulRot sA.deltaRotation base.revoluteJoint.frameA.q)
          (m.b2MulRot sB.deltaRotation base.revoluteJoint.frameB.q)))
        (b2SolveRevoluteJoint_stage2 m base h sA sB).2.1
        (b2SolveRevoluteJoint_stage2 m base h sA sB).2.2).1
      base.constraintSoftness base.invIA base.invIB inv_h useBias
      (m.b2Rot_GetAngle (m.b2InvMulRot (m.b2MulRot sA.deltaRotation base.revoluteJoint.frameA.q)
        (m.b2MulRot sB.deltaRotation base.revoluteJoint.frameB.q)))
      (b2SolveRevoluteJoint_lower (b2SolveRevoluteJoint_stage2 m base h sA sB).1
        base.constraintSoftness base.invIA base.invIB inv_h useBias
        (m.b2Rot_GetAngle (m.b2InvMulRot (m.b2MulRot sA.deltaRotation base.revoluteJoint.frameA.q)
          (m.b2MulRot sB.deltaRotation base.revoluteJoint.frameB.q)))
        (b2SolveRevoluteJoint_stage2 m base h sA sB).2.1
        (b2SolveRevoluteJoint_stage2 m base h sA sB).2.2).2.1
      (b2SolveRevoluteJoint_lower (b2SolveRevoluteJoint_stage2 m base h sA sB).1
        base.constraintSoftness base.invIA base.invIB inv_h useBias
        (m.b2Rot_GetAngle (m.b2InvMulRot (m.b2MulRot sA.deltaRotation base.revoluteJoint.frameA.q)
          (m.b2MulRot sB.deltaRotation base.revoluteJoint.frameB.q)))
        (b2SolveRevoluteJoint_stage2 m base h sA sB).2.1
        (b2SolveRevoluteJoint_stage2 m base h sA sB).2.2).2.2
    rw [hy, hx]
  · rfl

theorem b2SolveRevoluteJoint_compute_motorImpulse (m : b2MathEnv) (base : b2JointSim)
    (h inv_h : ℚ) (useBias : Bool) (sA sB : b2BodyState)
    (hmotor : base.revoluteJoint.enableMotor = true) (hI : base.invIA + base.invIB ≠ 0)
    (hmax : 0 ≤ h * base.revoluteJoint.maxMotorTorque) :
    |(b2SolveRevoluteJoint_compute m base h inv_h useBias sA sB).1.motorImpulse| ≤
      h * base.revoluteJoint.maxMotorTorque := by
  rw [b2SolveRevoluteJoint_compute_eq]
  obtain ⟨L, hL⟩ := b2SolveRevoluteJoint_point_fst m
    (b2SolveRevoluteJoint_stage3 m base h inv_h useBias sA sB).1
    base.constraintSoftness base.invMassA base.invMassB base.invIA base.invIB useBias
    (m.b2RotateVector sA.deltaRotation
      (b2SolveRevoluteJoint_stage3 m base h inv_h useBias sA sB).1.frameA.p)
    (m.b2RotateVector sB.deltaRotation
      (b2SolveRevoluteJoint_stage3 m base h inv_h useBias sA sB).1.frameB.p)
    sA.deltaPosition sB.deltaPosition sA.linearVelocity
    (b2SolveRevoluteJoint_stage3 m base h inv_h useBias sA sB).2.1 sB.linearVelocity
    (b2SolveRevoluteJoint_stage3 m base h inv_h useBias sA sB).2.2
  rw [hL]
  show |(b2SolveRevoluteJoint_stage3 m base h inv_h useBias sA sB).1.motorImpulse| ≤ _
  rw [b2SolveRevoluteJoint_stage3_motorImpulse]
  exact b2SolveRevoluteJoint_stage2_motorImpulse m base h sA sB hmotor hI hmax

theorem b2SolveRevoluteJoint_stage2_limit (m : b2MathEnv) (base : b2JointSim) (h : ℚ)
    (sA sB : b2BodyState) :
    (b2SolveRevoluteJoint_stage2 m base h sA sB).1.enableLimit = base.revoluteJoint.enableLimit ∧
    (b2SolveRevoluteJoint_stage2 m base h sA sB).1.lowerImpulse = base.revoluteJoint.lowerImpulse ∧
    (b2SolveRevoluteJoint_stage2 m base h sA sB).1.upperImpulse = base.revoluteJoint.upperImpulse := by
  obtain ⟨x, hx⟩ := b2SolveRevoluteJoint_stage1_fst m base sA sB
  unfold b2SolveRevoluteJoint_stage2
  simp only
  split_ifs
  · simp only [b2SolveRevoluteJoint_motor, hx, and_self]
  · simp only [hx, and_self]

theorem b2SolveRevoluteJoint_upper_limits (joint : b2RevoluteJoint) (cs : b2Softness)
    (iA iB inv_h : ℚ) (useBias : Bool) (jointAngle wA wB : ℚ) :
    (b2SolveRevoluteJoint_upper joint cs iA iB inv_h useBias jointAngle wA wB).1.lowerImpulse =
      joint.lowerImpulse ∧
    0 ≤ (b2SolveRevoluteJoint_upper joint cs iA iB inv_h useBias jointAngle wA wB).1.upperImpulse := by
  obtain ⟨x, hx⟩ := b2SolveRevoluteJoint_upper_fst joint cs iA iB inv_h useBias jointAngle wA wB
  rw [hx]
  exact ⟨rfl, b2MaxFloat_zero_nonneg x⟩

theorem b2SolveRevoluteJoint_lower_limits (joint : b2RevoluteJoint) (cs : b2Softness)
    (iA iB inv_h : ℚ) (useBias : Bool) (jointAngle wA wB : ℚ) :
    0 ≤ (b2SolveRevoluteJoint_lower joint cs iA iB inv_h useBias jointAngle wA wB).1.lowerImpulse := by
  obtain ⟨x, hx⟩ := b2SolveRevoluteJoint_lower_fst joint cs iA iB inv_h useBias jointAngle wA wB
  rw [hx]
  exact b2MaxFloat_zero_nonneg x

theorem b2SolveRevoluteJoint_stage3_limits (m : b2MathEnv) (base : b2JointSim)
    (h inv_h : ℚ) (useBias : Bool) (sA sB : b2BodyState) :
    (base.revoluteJoint.enableLimit = true → base.invIA + base.invIB ≠ 0 →
      0 ≤ (b2SolveRevoluteJoint_stage3 m base h inv_h useBias sA sB).1.lowerImpulse ∧
      0 ≤ (b2SolveRevoluteJoint_stage3 m base h inv_h useBias sA sB).1.upperImpulse) ∧
    (¬ (base.revoluteJoint.enableLimit = true ∧ base.invIA + base.invIB ≠ 0) →
      (b2SolveRevoluteJoint_stage3 m base h inv_h useBias sA sB).1.lowerImpulse =
        base.revoluteJoint.lowerImpulse ∧
      (b2SolveRevoluteJoint_stage3 m base h inv_h useBias sA sB).1.upperImpulse =
        base.revoluteJoint.upperImpulse) := by
  obtain ⟨h1, h2, h3⟩ := b2SolveRevoluteJoint_stage2_limit m base h sA sB
  unfold b2SolveRevoluteJoint_stage3
  simp only [h1]
  constructor
  · intro hl hI
    simp only [hl, hI, decide_False, and_self, if_true]
    refine ⟨?_, (b2SolveRevoluteJoint_upper_limits _ _ _ _ _ _ _ _ _).2⟩
    rw [(b2SolveRevoluteJoint_upper_limits _ _ _ _ _ _ _ _ _).1]
    exact b2SolveRevoluteJoint_lower_limits _ _ _ _ _ _ _ _ _
  · intro hn
    have : ¬ (base.revoluteJoint.enableLimit = true ∧
        decide (base.invIA + base.invIB = 0) = false) := by
      simpa using hn
    rw [if_neg this]
    exact ⟨h2, h3⟩

theorem b2SolveRevoluteJoint_compute_limits (m : b2MathEnv) (base : b2JointSim)
    (h inv_h : ℚ) (useBias : Bool) (sA sB : b2BodyState) :
    (b2SolveRevoluteJoint_compute m base h inv_h useBias sA sB).1.lowerImpulse =
      (b2SolveRevoluteJoint_stage3 m base h inv_h useBias sA sB).1.lowerImpulse ∧
    (b2SolveRevoluteJoint_compute m base h inv_h useBias sA sB).1.upperImpulse =
      (b2SolveRevoluteJoint_stage3 m base h inv_h useBias sA sB).1.upperImpulse := by
  rw [b2SolveRevoluteJoint_compute_eq]
  obtain ⟨L, hL⟩ := b2SolveRevoluteJoint_point_fst m
    (b2SolveRevoluteJoint_stage3 m base h inv_h useBias sA sB).1
    base.constraintSoftness base.invMassA base.invMassB base.invIA base.invIB useBias
    (m.b2RotateVector sA.deltaRotation
      (b2SolveRevoluteJoint_stage3 m base h inv_h useBias sA sB).1.frameA.p)
    (m.b2RotateVector sB.deltaRotation
      (b2SolveRevoluteJoint_stage3 m base h inv_h useBias sA sB).1.frameB.p)
    sA.deltaPosition sB.deltaPosition sA.linearVelocity
    (b2SolveRevoluteJoint_stage3 m base h inv_h useBias sA sB).2.1 sB.linearVelocity
    (b2SolveRevoluteJoint_stage3 m base h inv_h useBias sA sB).2.2
  rw [hL]
  exact ⟨rfl, rfl⟩

theorem b2RevoluteJoint_EnableLimit_oneSided (joint : b2JointSim) (enableLimit : Bool)
    (h : b2LimitImpulsesOneSided joint) :
    b2LimitImpulsesOneSided (b2RevoluteJoint_EnableLimit joint enableLimit) := by
  unfold b2RevoluteJoint_EnableLimit
  split_ifs
  · exact ⟨le_refl 0, le_refl 0⟩
  · exact h

theorem b2RevoluteJoint_SetLimits_oneSided (joint : b2JointSim) (lower upper : ℚ)
    (h : b2LimitImpulsesOneSided joint) :
    b2LimitImpulsesOneSided (b2RevoluteJoint_SetLimits joint lower upper) := by
  unfold b2RevoluteJoint_SetLimits
  split_ifs
  · exact ⟨le_refl 0, le_refl 0⟩
  · exact h

theorem b2PrepareRevoluteJoint_oneSided (m : b2MathEnv) (base base' : b2JointSim)
    (context : b2StepContext) (hp : b2PrepareRevoluteJoint m base context = some base')
    (h : b2LimitImpulsesOneSided base) : b2LimitImpulsesOneSided base' := by
  unfold b2PrepareRevoluteJoint at hp
  simp only [Option.bind_eq_bind, Option.bind_eq_some, Option.pure_def, Option.some.injEq] at hp
  obtain ⟨bodyA, -, bodyB, -, setA, -, setB, -, bsA, -, bsB, -, rfl⟩ := hp
  unfold b2LimitImpulsesOneSided at *
  dsimp only
  split_ifs <;> first | exact ⟨le_refl 0, le_refl 0⟩ | exact h

theorem b2StatesFrame_refl (indexA indexB : Int) (states : List b2BodyState) :
    b2StatesFrame indexA indexB states states :=
  ⟨rfl, fun _ s hs => ⟨s, hs, rfl, rfl, fun _ _ => rfl⟩⟩

theorem b2StatesFrame_trans (indexA indexB : Int) (s1 s2 s3 : List b2BodyState)
    (h12 : b2StatesFrame indexA indexB s1 s2) (h23 : b2StatesFrame indexA indexB s2 s3) :
    b2StatesFrame indexA indexB s1 s3 := by
  refine ⟨h23.1.trans h12.1, fun k s hs => ?_⟩
  obtain ⟨s', hs', hp, hr, hu⟩ := h12.2 k s hs
  obtain ⟨s'', hs'', hp', hr', hu'⟩ := h23.2 k s' hs'
  exact ⟨s'', hs'', hp'.trans hp, hr'.trans hr, fun ha hb => (hu' ha hb).trans (hu ha hb)⟩

theorem b2StateMem_modify_frame (indexA indexB : Int) (mem mem' : b2StateMem) (i : Int)
    (f : b2BodyState → b2BodyState) (hm : mem.modify i f = some mem')
    (hi : i = indexA ∨ i = indexB)
    (hf : ∀ s, (f s).deltaPosition = s.deltaPosition ∧ (f s).deltaRotation = s.deltaRotation) :
    b2StatesFrame indexA indexB mem.states mem'.states := by
  unfold b2StateMem.modify b2StateMem.get b2StateMem.set at hm
  by_cases hn : i = B2_NULL_INDEX
  · simp only [hn, if_true, Option.bind_eq_bind, Option.some_bind, Option.pure_def,
      Option.some.injEq] at hm
    rw [← hm]
    exact b2StatesFrame_refl _ _ _
  · simp only [hn, if_false, Option.bind_eq_bind, Option.bind_eq_some, Option.pure_def,
      Option.some.injEq] at hm
    obtain ⟨s0, hs0, rfl⟩ := hm
    unfold b2Array_Get at hs0
    split_ifs at hs0 with h0
    refine ⟨by simp [b2Array_Set], fun k s hs => ?_⟩
    by_cases hk : i.toNat = k
    · subst hk
      rw [hs0] at hs
      cases hs
      have hlt : i.toNat < mem.states.length := by
        rcases List.getElem?_eq_some.mp hs0 with ⟨hlt, -⟩
        exact hlt
      refine ⟨f s0, by simp [b2Array_Set, List.getElem?_set, hlt], (hf s0).1, (hf s0).2, ?_⟩
      intro ha hb
      have : ((i.toNat : Nat) : Int) = i := Int.toNat_of_nonneg h0
      rcases hi with hi | hi
      · exact absurd (this.trans hi) ha
      · exact absurd (this.trans hi) hb
    · exact ⟨s, by simp [b2Array_Set, List.getElem?_set, hk, hs], rfl, rfl, fun _ _ => rfl⟩

theorem b2SolveRevoluteJoint_store_frame (mem mem' : b2StateMem) (stateA stateB : Int)
    (vA : b2Vec2) (wA : ℚ) (vB : b2Vec2) (wB : ℚ)
    (h : b2SolveRevoluteJoint_store mem stateA stateB vA wA vB wB = some mem') :
    b2StatesFrame stateA stateB mem.states mem'.states := by
  unfold b2SolveRevoluteJoint_store at h
  simp only [Option.bind_eq_bind, Option.bind_eq_some] at h
  obtain ⟨m1, h1, m2, h2, m3, h3, h4⟩ := h
  have f1 := b2StateMem_modify_frame stateA stateB mem m1 stateA _ h1 (Or.inl rfl) (fun s => ⟨rfl, rfl⟩)
  have f2 := b2StateMem_modify_frame stateA stateB m1 m2 stateA _ h2 (Or.inl rfl) (fun s => ⟨rfl, rfl⟩)
  have f3 := b2StateMem_modify_frame stateA stateB m2 m3 stateB _ h3 (Or.inr rfl) (fun s => ⟨rfl, rfl⟩)
  have f4 := b2StateMem_modify_frame stateA stateB m3 mem' stateB _ h4 (Or.inr rfl) (fun s => ⟨rfl, rfl⟩)
  exact b2StatesFrame_trans _ _ _ _ _ (b2StatesFrame_trans _ _ _ _ _
    (b2StatesFrame_trans _ _ _ _ _ f1 f2) f3) f4

theorem b2WarmStartRevoluteJoint_mem_frame (m : b2MathEnv) (base : b2JointSim)
    (mem mem' : b2StateMem) (h : b2WarmStartRevoluteJoint_mem m base mem = some mem') :
    b2StatesFrame base.revoluteJoint.indexA base.revoluteJoint.indexB mem.states mem'.states := by
  unfold b2WarmStartRevoluteJoint_mem at h
  simp only [Option.bind_eq_bind, Option.bind_eq_some] at h
  obtain ⟨sA, -, sB, -, m1, h1, m2, h2, m3, h3, h4⟩ := h
  have f1 := b2StateMem_modify_frame base.revoluteJoint.indexA base.revoluteJoint.indexB
    mem m1 _ _ h1 (Or.inl rfl) (fun s => ⟨rfl, rfl⟩)
  have f2 := b2StateMem_modify_frame base.revoluteJoint.indexA base.revoluteJoint.indexB
    m1 m2 _ _ h2 (Or.inl rfl) (fun s => ⟨rfl, rfl⟩)
  have f3 := b2StateMem_modify_frame base.revoluteJoint.indexA base.revoluteJoint.indexB
    m2 m3 _ _ h3 (Or.inr rfl) (fun s => ⟨rfl, rfl⟩)
  have f4 := b2StateMem_modify_frame base.revoluteJoint.indexA base.revoluteJoint.indexB
    m3 mem' _ _ h4 (Or.inr rfl) (fun s => ⟨rfl, rfl⟩)
  exact b2StatesFrame_trans _ _ _ _ _ (b2StatesFrame_trans _ _ _ _ _
    (b2StatesFrame_trans _ _ _ _ _ f1 f2) f3) f4

theorem b2WarmStartRevoluteJoint_mem_of_valid (m : b2MathEnv) (base : b2JointSim)
    (mem : b2StateMem)
    (hA : b2ValidStateIndex mem.states base.revoluteJoint.indexA)
    (hB : b2ValidStateIndex mem.states base.revoluteJoint.indexB) :
    ∃ mem', b2WarmStartRevoluteJoint_mem m base mem = some mem' := by
  unfold b2WarmStartRevoluteJoint_mem
  obtain ⟨sA, hsA⟩ := b2StateMem_get_of_valid mem _ hA
  obtain ⟨sB, hsB⟩ := b2StateMem_get_of_valid mem _ hB
  simp only [hsA, hsB, Option.bind_eq_bind, Option.some_bind]
  refine b2StateMem_modify_bind_of_valid _ _ _ _ hA fun m1 l1 => ?_
  refine b2StateMem_modify_bind_of_valid _ _ _ _
    (b2ValidStateIndex_of_length _ _ _ l1 hA) fun m2 l2 => ?_
  refine b2StateMem_modify_bind_of_valid _ _ _ _
    (b2ValidStateIndex_of_length _ _ _ (l2.trans l1) hB) fun m3 l3 => ?_
  obtain ⟨s, -, hs⟩ := b2StateMem_modify_of_valid m3 base.revoluteJoint.indexB
    (fun s => { s with angularVelocity := s.angularVelocity + base.invIB *
      (b2Cross (m.b2RotateVector sB.deltaRotation base.revoluteJoint.frameB.p)
        base.revoluteJoint.linearImpulse +
        (base.revoluteJoint.springImpulse + base.revoluteJoint.motorImpulse +
          base.revoluteJoint.lowerImpulse - base.revoluteJoint.upperImpulse)) })
    (b2ValidStateIndex_of_length _ _ _ (l3.trans (l2.trans l1)) hB)
  exact ⟨_, hs⟩

theorem b2ValidStateIndex_of_get (mem : b2StateMem) (i : Int) (s : b2BodyState)
    (h : mem.get i = some s) : b2ValidStateIndex mem.states i := by
  unfold b2StateMem.get at h
  by_cases hn : i = B2_NULL_INDEX
  · exact Or.inl hn
  · rw [if_neg hn] at h
    unfold b2Array_Get at h
    split_ifs at h with h0
    rcases List.getElem?_eq_some.mp h with ⟨hlt, -⟩
    exact Or.inr ⟨h0, by omega⟩

theorem b2StateMem_modify_get (mem mem' : b2StateMem) (i : Int)
    (f : b2BodyState → b2BodyState) (hm : mem.modify i f = some mem') :
    mem'.get i = (mem.get i).map f ∧ ∀ j, j ≠ i → mem'.get j = mem.get j := by
  unfold b2StateMem.modify at hm
  simp only [Option.bind_eq_bind, Option.bind_eq_some, Option.pure_def, Option.some.injEq] at hm
  obtain ⟨s0, hs0, rfl⟩ := hm
  have hv := b2ValidStateIndex_of_get mem i s0 hs0
  rw [hs0]
  unfold b2StateMem.get b2StateMem.set
  by_cases hn : i = B2_NULL_INDEX
  · simp only [hn, if_true, Option.map_some', true_and]
    intro j hj
    simp only [hj, if_false]
  · rcases hv with hv | ⟨h0, h1⟩
    · exact absurd hv hn
    · have hlt : i.toNat < mem.states.length := by omega
      simp only [hn, if_false, Option.map_some']
      constructor
      · simp [b2Array_Get, b2Array_Set, h0, List.getElem?_set, hlt]
      · intro j hj
        by_cases hjn : j = B2_NULL_INDEX
        · simp only [hjn, if_true]
        · simp only [hjn, if_false]
          unfold b2Array_Get b2Array_Set
          by_cases hj0 : 0 ≤ j
          · have : i.toNat ≠ j.toNat := by omega
            simp [hj0, List.getElem?_set, this]
          · simp only [hj0, if_false]

theorem b2SolveRevoluteJoint_stage3_frames (m : b2MathEnv) (base : b2JointSim)
    (h inv_h : ℚ) (useBias : Bool) (sA sB : b2BodyState) :
    (b2SolveRevoluteJoint_stage3 m base h inv_h useBias sA sB).1.frameA =
      base.revoluteJoint.frameA ∧
    (b2SolveRevoluteJoint_stage3 m base h inv_h useBias sA sB).1.frameB =
      base.revoluteJoint.frameB := by
  obtain ⟨x, hx⟩ := b2SolveRevoluteJoint_stage1_fst m base sA sB
  have h2 : (b2SolveRevoluteJoint_stage2 m base h sA sB).1.frameA = base.revoluteJoint.frameA ∧
      (b2SolveRevoluteJoint_stage2 m base h sA sB).1.frameB = base.revoluteJoint.frameB := by
    unfold b2SolveRevoluteJoint_stage2
    simp only
    split_ifs
    · simp only [b2SolveRevoluteJoint_motor, hx, and_self]
    · simp only [hx, and_self]
  unfold b2SolveRevoluteJoint_stage3
  simp only
  split_ifs
  · obtain ⟨y, hy⟩ := b2SolveRevoluteJoint_lower_fst (b2SolveRevoluteJoint_stage2 m base h sA sB).1
      base.constraintSoftness base.invIA base.invIB inv_h useBias
      (m.b2Rot_GetAngle (m.b2InvMulRot (m.b2MulRot sA.deltaRotation base.revoluteJoint.frameA.q)
        (m.b2MulRot sB.deltaRotation base.revoluteJoint.frameB.q)))
      (b2SolveRevoluteJoint_stage2 m base h sA sB).2.1 (b2SolveRevoluteJoint_stage2 m base h sA sB).2.2
    generalize b2SolveRevoluteJoint_lower (b2SolveRevoluteJoint_stage2 m base h sA sB).1
      base.constraintSoftness base.invIA base.invIB inv_h useBias
      (m.b2Rot_GetAngle (m.b2InvMulRot (m.b2MulRot sA.deltaRotation base.revoluteJoint.frameA.q)
        (m.b2MulRot sB.deltaRotation base.revoluteJoint.frameB.q)))
      (b2SolveRevoluteJoint_stage2 m base h sA sB).2.1
      (b2SolveRevoluteJoint_stage2 m base h sA sB).2.2 = l at hy ⊢
    obtain ⟨z, hz⟩ := b2SolveRevoluteJoint_upper_fst l.1
      base.constraintSoftness base.invIA base.invIB inv_h useBias
      (m.b2Rot_GetAngle (m.b2InvMulRot (m.b2MulRot sA.deltaRotation base.revoluteJoint.frameA.q)
        (m.b2MulRot sB.deltaRotation base.revoluteJoint.frameB.q))) l.2.1 l.2.2
    rw [hz, hy]
    exact h2
  · exact h2

/-- C11. Motor saturation bound: under usable state pointers `b2SolveRevoluteJoint` returns,
and with `enableMotor` set, `invIA + invIB ≠ 0` and `h * maxMotorTorque ≥ 0` the accumulated
`motorImpulse` it leaves satisfies `|motorImpulse| ≤ h * maxMotorTorque`, whatever its value
was before the call. -/
theorem b2SolveRevoluteJoint_motor_saturation (m : b2MathEnv) (base : b2JointSim)
    (context : b2StepContext) (useBias : Bool)
    (hA : b2ValidStateIndex context.states base.revoluteJoint.indexA)
    (hB : b2ValidStateIndex context.states base.revoluteJoint.indexB)
    (hmotor : base.revoluteJoint.enableMotor = true)
    (hI : base.invIA + base.invIB ≠ 0)
    (hmax : context.h * base.revoluteJoint.maxMotorTorque ≥ 0) :
    ∃ base' context', b2SolveRevoluteJoint m base context useBias = some (base', context') ∧
      |base'.revoluteJoint.motorImpulse| ≤ context.h * base.revoluteJoint.maxMotorTorque := by
  obtain ⟨sA, sB, mem', -, -, -, hrun⟩ := b2SolveRevoluteJoint_returns m base context useBias hA hB
  exact ⟨_, _, hrun, b2SolveRevoluteJoint_compute_motorImpulse m base context.h context.inv_h
    useBias sA sB hmotor hI hmax⟩

theorem b2SolveRevoluteJoint_motor_saturation_witness :
    ∃ base' context',
      b2SolveRevoluteJoint b2MathEnv_sample b2JointSim_sample b2StepContext_sample true =
        some (base', context') ∧
      |base'.revoluteJoint.motorImpulse| ≤
        b2StepContext_sample.h * b2JointSim_sample.revoluteJoint.maxMotorTorque :=
  b2SolveRevoluteJoint_motor_saturation b2MathEnv_sample b2JointSim_sample b2StepContext_sample
    true (Or.inr (by decide)) (Or.inl rfl) rfl
    (by norm_num [b2JointSim_sample]) (by norm_num [b2JointSim_sample, b2StepContext_sample])

theorem b2StatesFrame_null (states states' : List b2BodyState)
    (h : b2StatesFrame B2_NULL_INDEX B2_NULL_INDEX states states') : states' = states := by
  apply List.ext_getElem? 
  intro k
  cases hk : states[k]? with
  | none =>
    rw [List.getElem?_eq_none_iff] at hk ⊢
    rw [h.1]
    exact hk
  | some s =>
    obtain ⟨s', hs', -, -, hu⟩ := h.2 k s hk
    have hne : (k : Int) ≠ B2_NULL_INDEX := by
      unfold B2_NULL_INDEX
      omega
    rw [hs', hu hne hne]

/-- C12. Limit impulses are one-sided: `lowerImpulse ≥ 0 ∧ upperImpulse ≥ 0` is established
by `b2SolveRevoluteJoint` whenever `enableLimit` is set and `invIA + invIB ≠ 0` (both values
of `useBias`, any joint angle), and it is preserved by `b2SolveRevoluteJoint` in every case
(in particular with the limit disabled), by `b2RevoluteJoint_EnableLimit`, by
`b2RevoluteJoint_SetLimits` and by `b2PrepareRevoluteJoint`. -/
theorem b2RevoluteJoint_limit_impulses_oneSided (m : b2MathEnv) (base : b2JointSim) :
    (∀ (context : b2StepContext) (useBias : Bool),
      b2ValidStateIndex context.states base.revoluteJoint.indexA →
      b2ValidStateIndex context.states base.revoluteJoint.indexB →
      ∃ base' context', b2SolveRevoluteJoint m base context useBias = some (base', context') ∧
        (base.revoluteJoint.enableLimit = true → base.invIA + base.invIB ≠ 0 →
          b2LimitImpulsesOneSided base') ∧
        (b2LimitImpulsesOneSided base → b2LimitImpulsesOneSided base')) ∧
    (∀ enableLimit : Bool, b2LimitImpulsesOneSided base →
      b2LimitImpulsesOneSided (b2RevoluteJoint_EnableLimit base enableLimit)) ∧
    (∀ lower upper : ℚ, b2LimitImpulsesOneSided base →
      b2LimitImpulsesOneSided (b2RevoluteJoint_SetLimits base lower upper)) ∧
    (∀ (context : b2StepContext) (base' : b2JointSim),
      b2PrepareRevoluteJoint m base context = some base' →
      b2LimitImpulsesOneSided base → b2LimitImpulsesOneSided base') := by
  refine ⟨fun context useBias hA hB => ?_,
    fun e h => b2RevoluteJoint_EnableLimit_oneSided base e h,
    fun lo up h => b2RevoluteJoint_SetLimits_oneSided base lo up h,
    fun context base' hp h => b2PrepareRevoluteJoint_oneSided m base base' context hp h⟩
  obtain ⟨sA, sB, mem', -, -, -, hrun⟩ := b2SolveRevoluteJoint_returns m base context useBias hA hB
  obtain ⟨c1, c2⟩ := b2SolveRevoluteJoint_compute_limits m base context.h context.inv_h useBias sA sB
  obtain ⟨e1, e2⟩ := b2SolveRevoluteJoint_stage3_limits m base context.h context.inv_h useBias sA sB
  have est : base.revoluteJoint.enableLimit = true → base.invIA + base.invIB ≠ 0 →
      b2LimitImpulsesOneSided { base with revoluteJoint :=
        (b2SolveRevoluteJoint_compute m base context.h context.inv_h useBias sA sB).1 } := by
    intro hl hI
    unfold b2LimitImpulsesOneSided
    dsimp only
    rw [c1, c2]
    exact e1 hl hI
  refine ⟨_, _, hrun, est, fun hinv => ?_⟩
  by_cases hc : base.revoluteJoint.enableLimit = true ∧ base.invIA + base.invIB ≠ 0
  · exact est hc.1 hc.2
  · unfold b2LimitImpulsesOneSided at hinv ⊢
    dsimp only
    rw [c1, c2, (e2 hc).1, (e2 hc).2]
    exact hinv

theorem b2RevoluteJoint_limit_impulses_oneSided_witness :
    (∃ base' context',
      b2SolveRevoluteJoint b2MathEnv_sample b2JointSim_sample b2StepContext_sample true =
        some (base', context') ∧ b2LimitImpulsesOneSided base') ∧
    b2LimitImpulsesOneSided (b2RevoluteJoint_EnableLimit b2JointSim_sample false) ∧
    b2LimitImpulsesOneSided (b2RevoluteJoint_SetLimits b2JointSim_sample (-1) 1) ∧
    (∃ base', b2PrepareRevoluteJoint b2MathEnv_sample b2JointSim_sample b2StepContext_sample =
      some base' ∧ b2LimitImpulsesOneSided base') := by
  have hinv : b2LimitImpulsesOneSided b2JointSim_sample := by
    norm_num [b2LimitImpulsesOneSided, b2JointSim_sample]
  obtain ⟨h1, h2, h3, h4⟩ :=
    b2RevoluteJoint_limit_impulses_oneSided b2MathEnv_sample b2JointSim_sample
  obtain ⟨b, c, hrun, hest, -⟩ := h1 b2StepContext_sample true (Or.inr (by decide)) (Or.inl rfl)
  refine ⟨⟨b, c, hrun, hest rfl (by norm_num [b2JointSim_sample])⟩, h2 false hinv,
    h3 (-1) 1 hinv, ?_⟩
  have hp : ∃ base', b2PrepareRevoluteJoint b2MathEnv_sample b2JointSim_sample
      b2StepContext_sample = some base' := ⟨_, rfl⟩
  obtain ⟨base', hb⟩ := hp
  exact ⟨base', hb, h4 b2StepContext_sample base' hb hinv⟩

/-- C19. The solver writes only the joint's awake bodies: under usable state pointers
`b2WarmStartRevoluteJoint` and `b2SolveRevoluteJoint` return; the context they leave differs
from the old one in `states` only; `states` keeps its count; every entry whose index is
neither `indexA` nor `indexB` is unchanged; every entry keeps `deltaPosition` and
`deltaRotation`; and when both indices are `B2_NULL_INDEX` (the side then points at the
local identity dummy state) no entry is written at all. -/
theorem b2RevoluteJoint_solver_frame (m : b2MathEnv) (base : b2JointSim)
    (context : b2StepContext) (useBias : Bool)
    (hA : b2ValidStateIndex context.states base.revoluteJoint.indexA)
    (hB : b2ValidStateIndex context.states base.revoluteJoint.indexB) :
    (∃ context', b2WarmStartRevoluteJoint m base context = some context' ∧
      context' = { context with states := context'.states } ∧
      b2StatesFrame base.revoluteJoint.indexA base.revoluteJoint.indexB
        context.states context'.states ∧
      (base.revoluteJoint.indexA = B2_NULL_INDEX → base.revoluteJoint.indexB = B2_NULL_INDEX →
        context'.states = context.states)) ∧
    (∃ base' context', b2SolveRevoluteJoint m base context useBias = some (base', context') ∧
      context' = { context with states := context'.states } ∧
      b2StatesFrame base.revoluteJoint.indexA base.revoluteJoint.indexB
        context.states context'.states ∧
      (base.revoluteJoint.indexA = B2_NULL_INDEX → base.revoluteJoint.indexB = B2_NULL_INDEX →
        context'.states = context.states)) := by
  constructor
  · obtain ⟨mem', hw⟩ := b2WarmStartRevoluteJoint_mem_of_valid m base
      ⟨b2_identityBodyState, context.states⟩ hA hB
    have hf := b2WarmStartRevoluteJoint_mem_frame m base _ mem' hw
    refine ⟨{ context with states := mem'.states }, ?_, rfl, hf, fun ha hb => ?_⟩
    · simp only [b2WarmStartRevoluteJoint, hw, Option.bind_eq_bind, Option.some_bind,
        Option.pure_def]
    · rw [ha, hb] at hf
      exact b2StatesFrame_null _ _ hf
  · obtain ⟨sA, sB, mem', -, -, hst, hrun⟩ :=
      b2SolveRevoluteJoint_returns m base context useBias hA hB
    have hf := b2SolveRevoluteJoint_store_frame _ _ _ _ _ _ _ _ hst
    refine ⟨_, _, hrun, rfl, hf, fun ha hb => ?_⟩
    rw [ha, hb] at hf
    exact b2StatesFrame_null _ _ hf

theorem b2RevoluteJoint_solver_frame_witness :
    (∃ context', b2WarmStartRevoluteJoint b2MathEnv_sample b2JointSim_sample
        b2StepContext_sample = some context' ∧
      context' = { b2StepContext_sample with states := context'.states } ∧
      b2StatesFrame 0 (-1) b2StepContext_sample.states context'.states ∧
      (b2JointSim_sample.revoluteJoint.indexA = B2_NULL_INDEX →
        b2JointSim_sample.revoluteJoint.indexB = B2_NULL_INDEX →
        context'.states = b2StepContext_sample.states)) ∧
    (∃ base' context', b2SolveRevoluteJoint b2MathEnv_sample b2JointSim_sample
        b2StepContext_sample false = some (base', context') ∧
      context' = { b2StepContext_sample with states := context'.states } ∧
      b2StatesFrame 0 (-1) b2StepContext_sample.states context'.states ∧
      (b2JointSim_sample.revoluteJoint.indexA = B2_NULL_INDEX →
        b2JointSim_sample.revoluteJoint.indexB = B2_NULL_INDEX →
        context'.states = b2StepContext_sample.states)) :=
  b2RevoluteJoint_solver_frame b2MathEnv_sample b2JointSim_sample b2StepContext_sample false
    (Or.inr (by decide)) (Or.inl rfl)

theorem b2Contact_setEdge_core (c c' : b2Contact) (side : Int) (e : b2ContactEdge)
    (h : c.setEdge side e = some c') : c'.core = c.core := by
  unfold b2Contact.setEdge at h
  split_ifs at h <;> cases h <;> rfl

theorem b2Array_Get_toNat {α : Type} (a : List α) (i : Int) (v : α)
    (h : b2Array_Get a i = some v) : 0 ≤ i ∧ a[i.toNat]? = some v := by
  unfold b2Array_Get at h
  split_ifs at h with h0
  exact ⟨h0, h⟩

theorem b2Array_Set_map_of_eq {α β : Type} (f : α → β) (a : List α) (i : Int) (v v' : α)
    (hget : b2Array_Get a i = some v) (hf : f v' = f v) :
    (b2Array_Set a i v').map f = a.map f := by
  obtain ⟨-, hv⟩ := b2Array_Get_toNat a i v hget
  unfold b2Array_Set
  rw [List.map_set, hf]
  apply List.ext_getElem?
  intro k
  by_cases hk : i.toNat = k
  · subst hk
    rcases List.getElem?_eq_some.mp hv with ⟨hlt, hv'⟩
    simp [List.getElem?_set, hlt, hv']
  · simp [List.getElem?_set, hk]

theorem b2ConnectToBody_frame (w w' : b2World) (contactId side bodyId : Int)
    (h : b2ConnectToBody w contactId side bodyId = some w') :
    w' = { w with bodies := w'.bodies, contacts := w'.contacts } ∧
    w'.contacts.map b2Contact.core = w.contacts.map b2Contact.core ∧
    ∃ body, b2Array_Get w.bodies bodyId = some body ∧
      w'.bodies = b2Array_Set w.bodies bodyId
        { body with headContactKey := b2EdgeKey contactId side,
                    contactCount := body.contactCount + 1 } := by
  unfold b2ConnectToBody at h
  simp only [Option.bind_eq_bind, Option.bind_eq_some, Option.pure_def, Option.some.injEq] at h
  obtain ⟨body, hbody, c, hc, c1, hc1, w1, hw1, rfl⟩ := h
  have hm1 : (b2Array_Set w.contacts contactId c1).map b2Contact.core =
      w.contacts.map b2Contact.core :=
    b2Array_Set_map_of_eq _ _ _ _ _ hc (b2Contact_setEdge_core _ _ _ _ hc1)
  split_ifs at hw1 with hhead
  · simp only [Option.bind_eq_bind, Option.bind_eq_some, Option.pure_def,
      Option.some.injEq] at hw1
    obtain ⟨hcn, hhc, he, hhe, hc2, hhc2, rfl⟩ := hw1
    refine ⟨rfl, ?_, body, hbody, rfl⟩
    dsimp only
    rw [b2Array_Set_map_of_eq _ _ _ _ _ hhc (b2Contact_setEdge_core _ _ _ _ hhc2)]
    exact hm1
  · simp only [Option.pure_def, Option.some.injEq] at hw1
    subst hw1
    exact ⟨rfl, hm1, body, hbody, rfl⟩

theorem b2DisconnectFromBody_frame (w w' : b2World) (contact side bodyId : Int)
    (h : b2DisconnectFromBody w contact side bodyId = some w') :
    w' = { w with bodies := w'.bodies, contacts := w'.contacts } ∧
    w'.contacts.map b2Contact.core = w.contacts.map b2Contact.core ∧
    w'.bodies.length = w.bodies.length := by
  unfold b2DisconnectFromBody at h
  simp only [Option.bind_eq_bind, Option.bind_eq_some, Option.pure_def, Option.some.injEq] at h
  obtain ⟨c, hc, edge, hedge, w1, hw1, c2, hc2, edge2, hedge2, w2, hw2, c3, hc3, edge3, hedge3,
    body, hbody, rfl⟩ := h
  have h1 : w1 = { w with contacts := w1.contacts } ∧
      w1.contacts.map b2Contact.core = w.contacts.map b2Contact.core := by
    split_ifs at hw1
    · simp only [Option.bind_eq_bind, Option.bind_eq_some, Option.pure_def,
        Option.some.injEq] at hw1
      obtain ⟨pc, hpc, pe, hpe, pc', hpc', rfl⟩ := hw1
      exact ⟨rfl, b2Array_Set_map_of_eq _ _ _ _ _ hpc (b2Contact_setEdge_core _ _ _ _ hpc')⟩
    · simp only [Option.pure_def, Option.some.injEq] at hw1
      subst hw1
      exact ⟨rfl, rfl⟩
  have h2 : w2 = { w1 with contacts := w2.contacts } ∧
      w2.contacts.map b2Contact.core = w1.contacts.map b2Contact.core := by
    split_ifs at hw2
    · simp only [Option.bind_eq_bind, Option.bind_eq_some, Option.pure_def,
        Option.some.injEq] at hw2
      obtain ⟨pc, hpc, pe, hpe, pc', hpc', rfl⟩ := hw2
      exact ⟨rfl, b2Array_Set_map_of_eq _ _ _ _ _ hpc (b2Contact_setEdge_core _ _ _ _ hpc')⟩
    · simp only [Option.pure_def, Option.some.injEq] at hw2
      subst hw2
      exact ⟨rfl, rfl⟩
  refine ⟨?_, ?_, ?_⟩
  · dsimp only
    rw [h2.1, h1.1]
  · dsimp only
    rw [h2.2, h1.2]
  · dsimp only
    rw [h2.1, h1.1]
    simp [b2Array_Set]

theorem b2CreateContact_sim_congr (env : b2Env) (w w' : b2World) (id : Int) (a b : b2Shape)
    (h1 : w'.frictionCallback = w.frictionCallback)
    (h2 : w'.restitutionCallback = w.restitutionCallback) :
    b2CreateContact_sim env w' id a b = b2CreateContact_sim env w id a b := by
  unfold b2CreateContact_sim
  rw [h1, h2]

theorem b2CreateContactPrimary_spec (env : b2Env) (w w' : b2World) (a b : b2Shape)
    (h : b2CreateContactPrimary env w a b = some w') :
    ∃ bodyA bodyB set c0,
      b2Array_Get w.bodies a.bodyId = some bodyA ∧
      b2Array_Get w.bodies b.bodyId = some bodyB ∧
      b2Array_Get w.solverSets (b2CreateContact_setIndex bodyA bodyB) = some set ∧
      b2Array_Get (b2CreateContact_slots w) (b2AllocId w.contactIdPool).1 = some c0 ∧
      w' = { w with
        bodies := w'.bodies
        contacts := w'.contacts
        contactIdPool := (b2AllocId w.contactIdPool).2
        broadPhase := ⟨b2AddKey w.broadPhase.pairSet (B2_SHAPE_PAIR_KEY a.id b.id)⟩
        solverSets := b2Array_Set w.solverSets (b2CreateContact_setIndex bodyA bodyB)
          { set with contactSims := set.contactSims ++
              [b2CreateContact_sim env w (b2AllocId w.contactIdPool).1 a b] } } ∧
      w'.contacts.map b2Contact.core =
        (b2Array_Set (b2CreateContact_slots w) (b2AllocId w.contactIdPool).1
          (b2CreateContact_contact env c0 (b2AllocId w.contactIdPool).1
            (b2CreateContact_setIndex bodyA bodyB) (set.contactSims.length : Int) a b)).map
          b2Contact.core := by
  unfold b2CreateContactPrimary at h
  simp only [Option.bind_eq_bind, Option.bind_eq_some, Option.pure_def, Option.some.injEq] at h
  obtain ⟨bodyA, hA, bodyB, hB, set, hset, c0, hc0, w1, hw1, w2, hw2, set2, hset2, rfl⟩ := h
  obtain ⟨e1, m1, -⟩ := b2ConnectToBody_frame _ _ _ _ _ hw1
  obtain ⟨e2, m2, -⟩ := b2ConnectToBody_frame _ _ _ _ _ hw2
  have hs2 : w2.solverSets = w.solverSets := by rw [e2, e1]
  have hset' : set2 = set := by
    rw [hs2, hset] at hset2
    exact (Option.some.inj hset2).symm
  subst hset'
  refine ⟨bodyA, bodyB, set2, c0, hA, hB, hset, hc0, ?_, ?_⟩
  · dsimp only
    rw [b2CreateContact_sim_congr env w _ _ a b (by rw [e2, e1]) (by rw [e2, e1])]
    rw [hs2]
    rw [e2, e1]
  · dsimp only
    rw [m2, m1]
    rfl

theorem s_registers_flip (t1 t2 : b2ShapeType) (h1 : (s_registers t1 t2).fcn ≠ none)
    (h2 : (s_registers t1 t2).primary = false) :
    (s_registers t2 t1).fcn ≠ none ∧ (s_registers t2 t1).primary = true := by
  revert h1 h2
  cases t1 <;> cases t2 <;> decide

theorem b2CreateContact_registered (env : b2Env) (w : b2World) (a b : b2Shape) (fuel : Nat)
    (hreg : (s_registers a.type b.type).fcn ≠ none) :
    b2CreateContact env s_registers (fuel + 2) w a b =
      if (s_registers a.type b.type).primary = true then b2CreateContactPrimary env w a b
      else b2CreateContactPrimary env w b a := by
  by_cases hp : (s_registers a.type b.type).primary = true
  · rw [if_pos hp]
    unfold b2CreateContact
    simp only [hreg, if_false, hp, Bool.true_eq_false]
  · rw [if_neg hp]
    have hp' : (s_registers a.type b.type).primary = false := by simpa using hp
    obtain ⟨f1, f2⟩ := s_registers_flip _ _ hreg hp'
    unfold b2CreateContact
    simp only [hreg, if_false, hp', if_true]
    unfold b2CreateContact
    simp only [f1, if_false, f2, Bool.true_eq_false]

/-- The two shapes of a registered pair in primary order are the arguments of
`b2CreateContact` in the given or in the swapped order. -/
theorem b2CreateContact_primary_order (env : b2Env) (w : b2World) (a b : b2Shape) (fuel : Nat)
    (hreg : (s_registers a.type b.type).fcn ≠ none) :
    ∃ A B, ((A = a ∧ B = b) ∨ (A = b ∧ B = a)) ∧
      (s_registers A.type B.type).primary = true ∧
      b2CreateContact env s_registers (fuel + 2) w a b = b2CreateContactPrimary env w A B := by
  rw [b2CreateContact_registered env w a b fuel hreg]
  by_cases hp : (s_registers a.type b.type).primary = true
  · exact ⟨a, b, Or.inl ⟨rfl, rfl⟩, hp, by rw [if_pos hp]⟩
  · have hp' : (s_registers a.type b.type).primary = false := by simpa using hp
    exact ⟨b, a, Or.inr ⟨rfl, rfl⟩, (s_registers_flip _ _ hreg hp').2, by rw [if_neg hp]⟩

theorem b2Array_Get_Set_self {α : Type} (a : List α) (i : Int) (v v' : α)
    (h : b2Array_Get a i = some v) : b2Array_Get (b2Array_Set a i v') i = some v' := by
  obtain ⟨h0, hv⟩ := b2Array_Get_toNat a i v h
  rcases List.getElem?_eq_some.mp hv with ⟨hlt, -⟩
  simp [b2Array_Get, b2Array_Set, h0, List.getElem?_set, hlt]

theorem b2Array_Get_Set_other {α : Type} (a : List α) (i j : Int) (v v' : α)
    (h : b2Array_Get a i = some v) (hij : j ≠ i) :
    b2Array_Get (b2Array_Set a i v') j = b2Array_Get a j := by
  obtain ⟨h0, -⟩ := b2Array_Get_toNat a i v h
  unfold b2Array_Get b2Array_Set
  by_cases hj : 0 ≤ j
  · have : i.toNat ≠ j.toNat := by omega
    simp [hj, List.getElem?_set, this]
  · simp only [hj, if_false]

theorem b2Array_Get_map {α β : Type} (f : α → β) (a : List α) (i : Int) :
    b2Array_Get (a.map f) i = (b2Array_Get a i).map f := by
  unfold b2Array_Get
  split_ifs
  · simp
  · rfl

theorem b2Array_Get_of_map_eq {α β : Type} (f : α → β) (a a' : List α) (i : Int) (v : α)
    (hm : a'.map f = a.map f) (h : b2Array_Get a i = some v) :
    ∃ v', b2Array_Get a' i = some v' ∧ f v' = f v := by
  have h1 : b2Array_Get (a'.map f) i = some (f v) := by
    rw [hm, b2Array_Get_map, h]
    rfl
  rw [b2Array_Get_map] at h1
  cases hv : b2Array_Get a' i with
  | none => rw [hv] at h1; cases h1
  | some v' =>
    rw [hv] at h1
    exact ⟨v', rfl, Option.some.inj h1⟩

/-- The created contact and its sim, read off the characterisation of
`b2CreateContactPrimary`. -/
theorem b2CreateContactPrimary_created (env : b2Env) (w w' : b2World) (a b : b2Shape)
    (h : b2CreateContactPrimary env w a b = some w') :
    ∃ bodyA bodyB set c0 c',
      b2Array_Get w.bodies a.bodyId = some bodyA ∧
      b2Array_Get w.bodies b.bodyId = some bodyB ∧
      b2Array_Get w.solverSets (b2CreateContact_setIndex bodyA bodyB) = some set ∧
      b2Array_Get (b2CreateContact_slots w) (b2AllocId w.contactIdPool).1 = some c0 ∧
      b2Array_Get w'.contacts (b2AllocId w.contactIdPool).1 = some c' ∧
      c'.core = (b2CreateContact_contact env c0 (b2AllocId w.contactIdPool).1
        (b2CreateContact_setIndex bodyA bodyB) (set.contactSims.length : Int) a b).core ∧
      b2Array_Get w'.solverSets (b2CreateContact_setIndex bodyA bodyB) =
        some { set with contactSims := set.contactSims ++
          [b2CreateContact_sim env w (b2AllocId w.contactIdPool).1 a b] } ∧
      (∀ i, i ≠ (b2AllocId w.contactIdPool).1 →
        (b2Array_Get w'.contacts i).map b2Contact.core =
          (b2Array_Get (b2CreateContact_slots w) i).map b2Contact.core) := by
  obtain ⟨bodyA, bodyB, set, c0, hA, hB, hset, hc0, hw, hm⟩ :=
    b2CreateContactPrimary_spec env w w' a b h
  obtain ⟨c', hc', hcore⟩ := b2Array_Get_of_map_eq b2Contact.core _ w'.contacts
    (b2AllocId w.contactIdPool).1 _ hm (b2Array_Get_Set_self _ _ _ _ hc0)
  refine ⟨bodyA, bodyB, set, c0, c', hA, hB, hset, hc0, hc', hcore, ?_, ?_⟩
  · rw [hw]
    exact b2Array_Get_Set_self _ _ _ _ hset
  · intro i hi
    rw [← b2Array_Get_map, hm, b2Array_Get_map, b2Array_Get_Set_other _ _ _ _ _ hc0 hi]

theorem b2CreateContact_setIndex_comm (bodyA bodyB : b2Body) :
    b2CreateContact_setIndex bodyA bodyB = b2CreateContact_setIndex bodyB bodyA := by
  unfold b2CreateContact_setIndex
  simp only [or_comm]

theorem b2CreateContact_contact_fields (env : b2Env) (c0 : b2Contact)
    (id setIndex localIndex : Int) (a b : b2Shape) :
    (b2CreateContact_contact env c0 id setIndex localIndex a b).contactId = id ∧
    (b2CreateContact_contact env c0 id setIndex localIndex a b).setIndex = setIndex ∧
    (b2CreateContact_contact env c0 id setIndex localIndex a b).localIndex = localIndex ∧
    (b2CreateContact_contact env c0 id setIndex localIndex a b).colorIndex = B2_NULL_INDEX ∧
    (b2CreateContact_contact env c0 id setIndex localIndex a b).islandId = B2_NULL_INDEX ∧
    (b2CreateContact_contact env c0 id setIndex localIndex a b).shapeIdA = a.id ∧
    (b2CreateContact_contact env c0 id setIndex localIndex a b).shapeIdB = b.id ∧
    (b2CreateContact_contact env c0 id setIndex localIndex a b).generation =
      (c0.generation + 1) % 2 ^ env.generationBits ∧
    (b2CreateContact_contact env c0 id setIndex localIndex a b).flags =
      (if a.enableContactEvents = true ∨ b.enableContactEvents = true then
        env.b2_contactEnableContactEvents else 0) := by
  unfold b2CreateContact_contact
  split_ifs <;> simp

theorem b2Contact_core_fields (c c' : b2Contact) (h : c'.core = c.core) :
    c'.contactId = c.contactId ∧ c'.setIndex = c.setIndex ∧ c'.localIndex = c.localIndex ∧
    c'.colorIndex = c.colorIndex ∧ c'.islandId = c.islandId ∧ c'.shapeIdA = c.shapeIdA ∧
    c'.shapeIdB = c.shapeIdB ∧ c'.generation = c.generation ∧ c'.flags = c.flags := by
  unfold b2Contact.core at h
  simp only [b2Contact.mk.injEq, true_and] at h
  obtain ⟨h1, h2, h3, h4, h5, h6, h7, h8, h9, h10, h11, h12⟩ := h
  exact ⟨h9, h4, h6, h5, h1, h7, h8, h11, h10⟩

/-- C16. Set choice on creation: for two shapes of a registered type pair, the contact that
`b2CreateContact` creates (in the slot of the allocated id) has `setIndex == b2_awakeSet` if
at least one of the two bodies has `setIndex == b2_awakeSet` and `b2_disabledSet` otherwise;
its sim is appended at the end of that set's `contactSims`, `localIndex` is the array's
previous count, and `b2GetContactSim` finds that sim. -/
theorem b2CreateContact_set_choice (env : b2Env) (w w' : b2World) (a b : b2Shape) (fuel : Nat)
    (hreg : (s_registers a.type b.type).fcn ≠ none)
    (h : b2CreateContact env s_registers (fuel + 2) w a b = some w') :
    ∃ bodyA bodyB set c' sim,
      b2Array_Get w.bodies a.bodyId = some bodyA ∧
      b2Array_Get w.bodies b.bodyId = some bodyB ∧
      b2Array_Get w'.contacts (b2AllocId w.contactIdPool).1 = some c' ∧
      c'.contactId = (b2AllocId w.contactIdPool).1 ∧
      c'.setIndex = (if bodyA.setIndex = b2_awakeSet ∨ bodyB.setIndex = b2_awakeSet then
        b2_awakeSet else b2_disabledSet) ∧
      b2Array_Get w.solverSets c'.setIndex = some set ∧
      c'.localIndex = (set.contactSims.length : Int) ∧
      b2Array_Get w'.solverSets c'.setIndex =
        some { set with contactSims := set.contactSims ++ [sim] } ∧
      sim.contactId = c'.contactId ∧
      b2GetContactSim w' c' = some sim := by
  obtain ⟨A, B, hAB, -, hrun⟩ := b2CreateContact_primary_order env w a b fuel hreg
  rw [hrun] at h
  obtain ⟨bodyA, bodyB, set, c0, c', hA, hB, hset, hc0, hc', hcore, hsets, -⟩ :=
    b2CreateContactPrimary_created env w w' A B h
  obtain ⟨f1, f2, f3, f4, -, -, -, -, -⟩ := b2CreateContact_contact_fields env c0
    (b2AllocId w.contactIdPool).1 (b2CreateContact_setIndex bodyA bodyB)
    (set.contactSims.length : Int) A B
  obtain ⟨g1, g2, g3, g4, -, -, -, -, -⟩ := b2Contact_core_fields _ _ hcore
  have hsi : c'.setIndex = b2CreateContact_setIndex bodyA bodyB := g2.trans f2
  have hsimid : (b2CreateContact_sim env w (b2AllocId w.contactIdPool).1 A B).contactId =
      (b2AllocId w.contactIdPool).1 := by
    unfold b2CreateContact_sim
    split_ifs <;> rfl
  have hget : b2GetContactSim w' c' =
      some (b2CreateContact_sim env w (b2AllocId w.contactIdPool).1 A B) := by
    unfold b2GetContactSim
    have hci : c'.colorIndex = B2_NULL_INDEX := g4.trans f4
    simp only [hci, ne_eq, not_true_eq_false, and_false, if_false, hsi, hsets,
      Option.bind_eq_bind, Option.some_bind, g3.trans f3]
    unfold b2Array_Get
    simp
  rcases hAB with ⟨rfl, rfl⟩ | ⟨rfl, rfl⟩
  · refine ⟨bodyA, bodyB, set, c', _, hA, hB, hc', g1.trans f1, hsi, ?_, g3.trans f3, ?_,
      hsimid.trans (g1.trans f1).symm, hget⟩
    · rw [hsi]; exact hset
    · rw [hsi]; exact hsets
  · refine ⟨bodyB, bodyA, set, c', _, hB, hA, hc', g1.trans f1, ?_, ?_, g3.trans f3, ?_,
      hsimid.trans (g1.trans f1).symm, hget⟩
    · rw [hsi, b2CreateContact_setIndex_comm]; rfl
    · rw [hsi]; exact hset
    · rw [hsi]; exact hsets

theorem b2CreateContact_set_choice_witness :
    ∃ w' bodyA bodyB set c' sim,
      b2CreateContact b2Env_sample s_registers 2 b2World_sample b2Shape_circle
        b2Shape_polygon = some w' ∧
      b2Array_Get b2World_sample.bodies b2Shape_circle.bodyId = some bodyA ∧
      b2Array_Get b2World_sample.bodies b2Shape_polygon.bodyId = some bodyB ∧
      b2Array_Get w'.contacts (b2AllocId b2World_sample.contactIdPool).1 = some c' ∧
      c'.contactId = (b2AllocId b2World_sample.contactIdPool).1 ∧
      c'.setIndex = (if bodyA.setIndex = b2_awakeSet ∨ bodyB.setIndex = b2_awakeSet then
        b2_awakeSet else b2_disabledSet) ∧
      b2Array_Get b2World_sample.solverSets c'.setIndex = some set ∧
      c'.localIndex = (set.contactSims.length : Int) ∧
      b2Array_Get w'.solverSets c'.setIndex =
        some { set with contactSims := set.contactSims ++ [sim] } ∧
      sim.contactId = c'.contactId ∧
      b2GetContactSim w' c' = some sim := by
  have hrun : ∃ w', b2CreateContact b2Env_sample s_registers 2 b2World_sample b2Shape_circle
      b2Shape_polygon = some w' := ⟨_, rfl⟩
  obtain ⟨w', hw'⟩ := hrun
  obtain ⟨bodyA, bodyB, set, c', sim, hh⟩ :=
    b2CreateContact_set_choice b2Env_sample b2World_sample w' b2Shape_circle b2Shape_polygon 0
      (by decide) hw'
  exact ⟨w', bodyA, bodyB, set, c', sim, hw', hh⟩

theorem b2CreateContact_sim_fields (env : b2Env) (w : b2World) (id : Int) (a b : b2Shape) :
    (b2CreateContact_sim env w id a b).manifold = b2Manifold_zero ∧
    (b2CreateContact_sim env w id a b).cache = b2_emptySimplexCache ∧
    (b2CreateContact_sim env w id a b).simFlags =
      (if a.enablePreSolveEvents = true ∨ b.enablePreSolveEvents = true then
        env.b2_simEnablePreSolveEvents else 0) := by
  unfold b2CreateContact_sim
  split_ifs <;> simp

/-- C17. Initial state of a created contact: after `b2CreateContact` on a registered pair
the contact's flags have no touching bit, `colorIndex` and `islandId` are `B2_NULL_INDEX`,
its sim has the zero manifold (`pointCount` 0), the empty simplex cache and `simFlags` equal
to zero except for the `b2_simEnablePreSolveEvents` bit, which is set iff either shape has
`enablePreSolveEvents`; the contact's `b2_contactEnableContactEvents` flag is set iff either
shape has `enableContactEvents`.  The two contact flags are distinct non-zero bits. -/
theorem b2CreateContact_initial_state (env : b2Env) (w w' : b2World) (a b : b2Shape) (fuel : Nat)
    (hbits : env.b2_contactEnableContactEvents &&& env.b2_contactTouchingFlag = 0)
    (hece : env.b2_contactEnableContactEvents ≠ 0)
    (hreg : (s_registers a.type b.type).fcn ≠ none)
    (h : b2CreateContact env s_registers (fuel + 2) w a b = some w') :
    ∃ c' sim,
      b2Array_Get w'.contacts (b2AllocId w.contactIdPool).1 = some c' ∧
      b2GetContactSim w' c' = some sim ∧
      c'.flags &&& env.b2_contactTouchingFlag = 0 ∧
      c'.colorIndex = B2_NULL_INDEX ∧
      c'.islandId = B2_NULL_INDEX ∧
      sim.manifold = b2Manifold_zero ∧
      sim.manifold.pointCount = 0 ∧
      sim.cache = b2_emptySimplexCache ∧
      sim.simFlags =
        (if a.enablePreSolveEvents = true ∨ b.enablePreSolveEvents = true then
          env.b2_simEnablePreSolveEvents else 0) ∧
      (c'.flags &&& env.b2_contactEnableContactEvents ≠ 0 ↔
        (a.enableContactEvents = true ∨ b.enableContactEvents = true)) := by
  obtain ⟨A, B, hAB, -, hrun⟩ := b2CreateContact_primary_order env w a b fuel hreg
  rw [hrun] at h
  obtain ⟨bodyA, bodyB, set, c0, c', hA, hB, hset, hc0, hc', hcore, hsets, -⟩ :=
    b2CreateContactPrimary_created env w w' A B h
  obtain ⟨f1, f2, f3, f4, f5, -, -, -, f9⟩ := b2CreateContact_contact_fields env c0
    (b2AllocId w.contactIdPool).1 (b2CreateContact_setIndex bodyA bodyB)
    (set.contactSims.length : Int) A B
  obtain ⟨g1, g2, g3, g4, g5, -, -, -, g9⟩ := b2Contact_core_fields _ _ hcore
  obtain ⟨s1, s2, s3⟩ := b2CreateContact_sim_fields env w (b2AllocId w.contactIdPool).1 A B
  have hget : b2GetContactSim w' c' =
      some (b2CreateContact_sim env w (b2AllocId w.contactIdPool).1 A B) := by
    unfold b2GetContactSim
    have hci : c'.colorIndex = B2_NULL_INDEX := g4.trans f4
    simp only [hci, ne_eq, not_true_eq_false, and_false, if_false, g2.trans f2, hsets,
      Option.bind_eq_bind, Option.some_bind, g3.trans f3]
    unfold b2Array_Get
    simp
  have hflags : c'.flags = (if A.enableContactEvents = true ∨ B.enableContactEvents = true then
      env.b2_contactEnableContactEvents else 0) := g9.trans f9
  have hor : (A.enableContactEvents = true ∨ B.enableContactEvents = true) ↔
      (a.enableContactEvents = true ∨ b.enableContactEvents = true) := by
    rcases hAB with ⟨rfl, rfl⟩ | ⟨rfl, rfl⟩
    · exact Iff.rfl
    · exact or_comm
  have hpre : (A.enablePreSolveEvents = true ∨ B.enablePreSolveEvents = true) ↔
      (a.enablePreSolveEvents = true ∨ b.enablePreSolveEvents = true) := by
    rcases hAB with ⟨rfl, rfl⟩ | ⟨rfl, rfl⟩
    · exact Iff.rfl
    · exact or_comm
  refine ⟨c', _, hc', hget, ?_, g4.trans f4, g5.trans f5, s1, ?_, s2, ?_, ?_⟩
  · rw [hflags]
    split_ifs
    · exact hbits
    · exact Nat.zero_and _
  · rw [s1]; rfl
  · rw [s3]
    simp only [hpre]
  · rw [hflags, ← hor]
    split_ifs with hc
    · simp only [Nat.and_self, ne_eq, hece, not_false_eq_true, hc]
    · simp only [Nat.zero_and, ne_eq, not_true_eq_false, hc]

theorem b2CreateContact_initial_state_witness :
    ∃ w' c' sim,
      b2CreateContact b2Env_sample s_registers 2 b2World_sample b2Shape_circle
        b2Shape_polygon = some w' ∧
      b2Array_Get w'.contacts (b2AllocId b2World_sample.contactIdPool).1 = some c' ∧
      b2GetContactSim w' c' = some sim ∧
      c'.flags &&& b2Env_sample.b2_contactTouchingFlag = 0 ∧
      c'.colorIndex = B2_NULL_INDEX ∧
      c'.islandId = B2_NULL_INDEX ∧
      sim.manifold = b2Manifold_zero ∧
      sim.manifold.pointCount = 0 ∧
      sim.cache = b2_emptySimplexCache ∧
      sim.simFlags =
        (if b2Shape_circle.enablePreSolveEvents = true ∨
            b2Shape_polygon.enablePreSolveEvents = true then
          b2Env_sample.b2_simEnablePreSolveEvents else 0) ∧
      (c'.flags &&& b2Env_sample.b2_contactEnableContactEvents ≠ 0 ↔
        (b2Shape_circle.enableContactEvents = true ∨
          b2Shape_polygon.enableContactEvents = true)) := by
  have hrun : ∃ w', b2CreateContact b2Env_sample s_registers 2 b2World_sample b2Shape_circle
      b2Shape_polygon = some w' := ⟨_, rfl⟩
  obtain ⟨w', hw'⟩ := hrun
  obtain ⟨c', sim, hh⟩ :=
    b2CreateContact_initial_state b2Env_sample b2World_sample w' b2Shape_circle b2Shape_polygon 0
      (by decide) (by decide) (by decide) hw'
  exact ⟨w', c', sim, hw', hh⟩

theorem b2KeepsGenerations_of_kept (w w' : b2World) (h : b2LifecycleKept w w') :
    b2KeepsGenerations w w' := by
  unfold b2KeepsGenerations
  have := congrArg (List.map (fun p : b2ContactEdge × b2ContactEdge × Int × Int × Int × Nat × Nat =>
    p.2.2.2.2.2.2)) h.2.2.2.2.2.2.2
  simpa [List.map_map, Function.comp_def, b2Contact.identity] using this

theorem b2KeepsGenerations_of_core (w w' : b2World)
    (h : w'.contacts.map b2Contact.core = w.contacts.map b2Contact.core) :
    b2KeepsGenerations w w' := by
  unfold b2KeepsGenerations
  have := congrArg (List.map (fun c : b2Contact => c.generation)) h
  simpa [List.map_map, Function.comp_def, b2Contact.core] using this

theorem b2KeepsGenerations_trans (w1 w2 w3 : b2World) (h12 : b2KeepsGenerations w1 w2)
    (h23 : b2KeepsGenerations w2 w3) : b2KeepsGenerations w1 w3 := by
  unfold b2KeepsGenerations at *
  rw [h23, h12]

theorem b2DestroyContact_event_frame (env : b2Env) (w w' : b2World) (c : b2Contact)
    (h : b2DestroyContact_event env w c = some w') :
    w' = { w with contactEndEvents := w'.contactEndEvents } := by
  unfold b2DestroyContact_event at h
  simp only at h
  split_ifs at h
  · simp only [Option.bind_eq_bind, Option.bind_eq_some, Option.pure_def,
      Option.some.injEq] at h
    obtain ⟨sA, -, sB, -, ev, -, rfl⟩ := h
    rfl
  · simp only [Option.pure_def, Option.some.injEq] at h
    subst h
    rfl

theorem b2LifecycleKept_refl (w : b2World) : b2LifecycleKept w w :=
  ⟨rfl, rfl, rfl, rfl, rfl, rfl, rfl, rfl⟩

theorem b2LifecycleKept_trans (w1 w2 w3 : b2World) (h12 : b2LifecycleKept w1 w2)
    (h23 : b2LifecycleKept w2 w3) : b2LifecycleKept w1 w3 := by
  obtain ⟨a1, a2, a3, a4, a5, a6, a7, a8⟩ := h12
  obtain ⟨b1, b2, b3, b4, b5, b6, b7, b8⟩ := h23
  exact ⟨b1.trans a1, b2.trans a2, b3.trans a3, b4.trans a4, b5.trans a5, b6.trans a6,
    b7.trans a7, b8.trans a8⟩

theorem b2DestroyContact_remove_kept (env : b2Env) (henv : b2EnvFrame env)
    (w w' : b2World) (contact bodyIdA bodyIdB : Int)
    (h : b2DestroyContact_remove env w contact bodyIdA bodyIdB = some w') :
    b2LifecycleKept w w' := by
  unfold b2DestroyContact_remove at h
  simp only [Option.bind_eq_bind, Option.bind_eq_some, Option.pure_def, Option.some.injEq] at h
  obtain ⟨c, hc, c2, hc2, h⟩ := h
  have h1 : b2LifecycleKept w
      (if c.islandId ≠ B2_NULL_INDEX then env.b2UnlinkContact w contact else w) := by
    split_ifs
    · exact henv.1 w contact
    · exact b2LifecycleKept_refl w
  generalize (if c.islandId ≠ B2_NULL_INDEX then env.b2UnlinkContact w contact else w) = w1
    at h h1 hc2
  refine b2LifecycleKept_trans _ _ _ h1 ?_
  by_cases hcol : c2.colorIndex ≠ B2_NULL_INDEX
  · rw [if_pos hcol] at h
    simp only [Option.some.injEq] at h
    rw [← h]
    exact henv.2.1 _ _ _ _ _
  · rw [if_neg hcol] at h
    simp only [Option.bind_eq_some] at h
    obtain ⟨set, hset, ⟨mi, sims⟩, hrs, h⟩ := h
    dsimp only at h
    by_cases hmoved : mi ≠ B2_NULL_INDEX
    · rw [if_pos hmoved] at h
      simp only [Option.bind_eq_some, Option.some.injEq] at h
      obtain ⟨ms, hms, mc, hmc, rfl⟩ := h
      exact ⟨rfl, rfl, rfl, rfl, rfl, rfl, rfl, b2Array_Set_map_of_eq _ _ _ _ _ hmc rfl⟩
    · rw [if_neg hmoved] at h
      simp only [Option.some.injEq] at h
      rw [← h]
      exact ⟨rfl, rfl, rfl, rfl, rfl, rfl, rfl, rfl⟩

theorem b2DestroyContact_free_generations (w w' : b2World) (contact contactId : Int)
    (h : b2DestroyContact_free w contact contactId = some w') :
    b2KeepsGenerations w w' := by
  unfold b2DestroyContact_free at h
  simp only [Option.bind_eq_bind, Option.bind_eq_some, Option.pure_def, Option.some.injEq] at h
  obtain ⟨c, hc, rfl⟩ := h
  unfold b2KeepsGenerations
  exact b2Array_Set_map_of_eq _ _ _ _ _ hc rfl

/-- The steps of `b2DestroyContact`: pair key removal, end-touch event, the two unlinks,
removal from the owning array, freeing, waking. -/
theorem b2DestroyContact_steps (env : b2Env) (w w' : b2World) (contact : Int) (wake : Bool)
    (h : b2DestroyContact env w contact wake = some w') :
    ∃ c bodyA bodyB w1 w2 w3 c3 w4 w5,
      b2Array_Get w.contacts contact = some c ∧
      b2Array_Get w.bodies c.edges0.bodyId = some bodyA ∧
      b2Array_Get w.bodies c.edges1.bodyId = some bodyB ∧
      b2DestroyContact_event env
        { w with broadPhase := ⟨b2RemoveKey w.broadPhase.pairSet
            (B2_SHAPE_PAIR_KEY c.shapeIdA c.shapeIdB)⟩ } c = some w1 ∧
      b2DisconnectFromBody w1 contact 0 c.edges0.bodyId = some w2 ∧
      b2DisconnectFromBody w2 contact 1 c.edges1.bodyId = some w3 ∧
      b2Array_Get w3.contacts contact = some c3 ∧
      b2DestroyContact_remove env w3 contact c.edges0.bodyId c.edges1.bodyId = some w4 ∧
      b2DestroyContact_free w4 contact c3.contactId = some w5 ∧
      w' = (if wake = true ∧ decide ((c.flags &&& env.b2_contactTouchingFlag) ≠ 0) = true then
        env.b2WakeBody (env.b2WakeBody w5 c.edges0.bodyId) c.edges1.bodyId else w5) := by
  unfold b2DestroyContact at h
  simp only [Option.bind_eq_bind, Option.bind_eq_some, Option.pure_def] at h
  obtain ⟨c, hc, bodyA, hA, bodyB, hB, w1, hw1, w2, hw2, w3, hw3, c3, hc3, w4, hw4, w5, hw5,
    h⟩ := h
  refine ⟨c, bodyA, bodyB, w1, w2, w3, c3, w4, w5, hc, hA, hB, hw1, hw2, hw3, hc3, hw4, hw5, ?_⟩
  split_ifs at h ⊢ <;> simp only [Option.some.injEq] at h <;> exact h.symm

theorem b2Array_Get_append_of_some {α : Type} (a : List α) (z v : α) (i : Int)
    (h : b2Array_Get a i = some v) : b2Array_Get (a ++ [z]) i = some v := by
  obtain ⟨h0, hv⟩ := b2Array_Get_toNat a i v h
  rcases List.getElem?_eq_some.mp hv with ⟨hlt, hv'⟩
  unfold b2Array_Get
  rw [if_pos h0, List.getElem?_append_left hlt]
  exact hv

theorem b2Array_Get_length {α : Type} (a : List α) (z : α) :
    b2Array_Get a (a.length : Int) = none ∧ b2Array_Get (a ++ [z]) (a.length : Int) = some z := by
  unfold b2Array_Get
  simp

theorem b2CreateContact_slots_get (w : b2World) :
    (∀ c0, b2Array_Get (b2CreateContact_slots w) (b2AllocId w.contactIdPool).1 = some c0 →
      c0.generation =
        ((b2Array_Get w.contacts (b2AllocId w.contactIdPool).1).map
          (fun c => c.generation)).getD 0) ∧
    (∀ i c, b2Array_Get w.contacts i = some c → b2Array_Get (b2CreateContact_slots w) i = some c) := by
  unfold b2CreateContact_slots
  constructor
  · intro c0 h0
    split_ifs at h0 with hid
    · rw [hid] at h0 ⊢
      obtain ⟨n1, n2⟩ := b2Array_Get_length w.contacts b2Contact_zero
      rw [n2] at h0
      rw [n1]
      cases h0
      rfl
    · rw [h0]
      rfl
  · intro i c hc
    split_ifs
    · exact b2Array_Get_append_of_some _ _ _ _ hc
    · exact hc

theorem b2DestroyContact_generations (env : b2Env) (henv : b2EnvFrame env) (w w' : b2World)
    (contact : Int) (wake : Bool) (h : b2DestroyContact env w contact wake = some w') :
    b2KeepsGenerations w w' := by
  obtain ⟨c, bodyA, bodyB, w1, w2, w3, c3, w4, w5, hc, -, -, hw1, hw2, hw3, hc3, hw4, hw5, rfl⟩ :=
    b2DestroyContact_steps env w w' contact wake h
  have e1 := b2DestroyContact_event_frame env _ _ _ hw1
  have k1 : b2KeepsGenerations w w1 := by
    unfold b2KeepsGenerations
    rw [e1]
  have k2 := b2KeepsGenerations_of_core _ _ (b2DisconnectFromBody_frame _ _ _ _ _ hw2).2.1
  have k3 := b2KeepsGenerations_of_core _ _ (b2DisconnectFromBody_frame _ _ _ _ _ hw3).2.1
  have k4 := b2KeepsGenerations_of_kept _ _ (b2DestroyContact_remove_kept env henv _ _ _ _ _ hw4)
  have k5 := b2DestroyContact_free_generations _ _ _ _ hw5
  have k15 := b2KeepsGenerations_trans _ _ _ (b2KeepsGenerations_trans _ _ _
    (b2KeepsGenerations_trans _ _ _ (b2KeepsGenerations_trans _ _ _ k1 k2) k3) k4) k5
  split_ifs
  · exact b2KeepsGenerations_trans _ _ _ k15 (b2KeepsGenerations_of_kept _ _
      (b2LifecycleKept_trans _ _ _ (henv.2.2 _ _) (henv.2.2 _ _)))
  · exact k15

/-- C15. Generation is monotonic across slot reuse: `b2DestroyContact` leaves the generation
of every contact slot, the freed one included, unchanged; `b2CreateContact` on a registered
pair increases the generation of the slot it takes (the slot of the allocated id, a zeroed
record when the slot is new) by exactly one modulo `2 ^ generationBits` and changes no other
slot's generation. -/
theorem b2Contact_generation_monotonic (env : b2Env) (w w' : b2World) :
    (∀ (contact : Int) (wake : Bool), b2EnvFrame env →
      b2DestroyContact env w contact wake = some w' →
      w'.contacts.map (fun c => c.generation) = w.contacts.map (fun c => c.generation)) ∧
    (∀ (a b : b2Shape) (fuel : Nat), (s_registers a.type b.type).fcn ≠ none →
      b2CreateContact env s_registers (fuel + 2) w a b = some w' →
      (∃ c', b2Array_Get w'.contacts (b2AllocId w.contactIdPool).1 = some c' ∧
        c'.generation =
          (((b2Array_Get w.contacts (b2AllocId w.contactIdPool).1).map
            (fun c => c.generation)).getD 0 + 1) % 2 ^ env.generationBits) ∧
      (∀ i c, i ≠ (b2AllocId w.contactIdPool).1 → b2Array_Get w.contacts i = some c →
        ∃ c', b2Array_Get w'.contacts i = some c' ∧ c'.generation = c.generation)) := by
  constructor
  · intro contact wake henv h
    exact b2DestroyContact_generations env henv w w' contact wake h
  · intro a b fuel hreg h
    obtain ⟨A, B, -, -, hrun⟩ := b2CreateContact_primary_order env w a b fuel hreg
    rw [hrun] at h
    obtain ⟨bodyA, bodyB, set, c0, c', -, -, -, hc0, hc', hcore, -, hother⟩ :=
      b2CreateContactPrimary_created env w w' A B h
    obtain ⟨s1, s2⟩ := b2CreateContact_slots_get w
    constructor
    · refine ⟨c', hc', ?_⟩
      rw [(b2Contact_core_fields _ _ hcore).2.2.2.2.2.2.2.1,
        (b2CreateContact_contact_fields env c0 _ _ _ A B).2.2.2.2.2.2.2.1, s1 c0 hc0]
    · intro i c hi hc
      have := hother i hi
      rw [s2 i c hc] at this
      cases hg : b2Array_Get w'.contacts i with
      | none => rw [hg] at this; cases this
      | some c' =>
        rw [hg] at this
        simp only [Option.map_some', Option.some.injEq] at this
        exact ⟨c', rfl, (b2Contact_core_fields _ _ this).2.2.2.2.2.2.2.1⟩

theorem b2Env_sample_frame : b2EnvFrame b2Env_sample :=
  ⟨fun w _ => b2LifecycleKept_refl w, fun w _ _ _ _ => b2LifecycleKept_refl w,
    fun w _ => b2LifecycleKept_refl w⟩

theorem b2Contact_generation_monotonic_witness :
    ∃ w1 w2 w3,
      b2CreateContact b2Env_sample s_registers 2 b2World_sample b2Shape_circle
        b2Shape_polygon = some w1 ∧
      b2DestroyContact b2Env_sample w1 0 true = some w2 ∧
      b2CreateContact b2Env_sample s_registers 2 w2 b2Shape_circle b2Shape_polygon = some w3 ∧
      w2.contacts.map (fun c => c.generation) = w1.contacts.map (fun c => c.generation) ∧
      (∃ c', b2Array_Get w3.contacts (b2AllocId w2.contactIdPool).1 = some c' ∧
        c'.generation =
          (((b2Array_Get w2.contacts (b2AllocId w2.contactIdPool).1).map
            (fun c => c.generation)).getD 0 + 1) % 2 ^ b2Env_sample.generationBits) := by
  have hrun : ∃ w1 w2 w3,
      b2CreateContact b2Env_sample s_registers 2 b2World_sample b2Shape_circle
        b2Shape_polygon = some w1 ∧
      b2DestroyContact b2Env_sample w1 0 true = some w2 ∧
      b2CreateContact b2Env_sample s_registers 2 w2 b2Shape_circle b2Shape_polygon = some w3 :=
    ⟨_, _, _, rfl, rfl, rfl⟩
  obtain ⟨w1, w2, w3, h1, h2, h3⟩ := hrun
  exact ⟨w1, w2, w3, h1, h2, h3,
    (b2Contact_generation_monotonic b2Env_sample w1 w2).1 0 true b2Env_sample_frame h2,
    ((b2Contact_generation_monotonic b2Env_sample w2 w3).2 b2Shape_circle b2Shape_polygon 0
      (by decide) h3).1⟩

theorem b2DestroyContact_free_frame (w w' : b2World) (contact contactId : Int)
    (h : b2DestroyContact_free w contact contactId = some w') :
    ∃ c, b2Array_Get w.contacts contact = some c ∧
      w' = { w with
        contacts := b2Array_Set w.contacts contact
          { c with contactId := B2_NULL_INDEX, setIndex := B2_NULL_INDEX,
                   colorIndex := B2_NULL_INDEX, localIndex := B2_NULL_INDEX }
        contactIdPool := b2FreeId w.contactIdPool contactId } := by
  unfold b2DestroyContact_free at h
  simp only [Option.bind_eq_bind, Option.bind_eq_some, Option.pure_def, Option.some.injEq] at h
  obtain ⟨c, hc, rfl⟩ := h
  exact ⟨c, hc, rfl⟩

/-- The end-event buffers after `b2DestroyContact` are those after its "End touch event"
block. -/
theorem b2DestroyContact_events (env : b2Env) (henv : b2EnvFrame env) (w w' : b2World)
    (contact : Int) (wake : Bool) (h : b2DestroyContact env w contact wake = some w') :
    ∃ c w1, b2Array_Get w.contacts contact = some c ∧
      b2DestroyContact_event env
        { w with broadPhase := ⟨b2RemoveKey w.broadPhase.pairSet
            (B2_SHAPE_PAIR_KEY c.shapeIdA c.shapeIdB)⟩ } c = some w1 ∧
      w'.contactEndEvents = w1.contactEndEvents ∧
      w'.endEventArrayIndex = w.endEventArrayIndex := by
  obtain ⟨c, bodyA, bodyB, w1, w2, w3, c3, w4, w5, hc, -, -, hw1, hw2, hw3, hc3, hw4, hw5, rfl⟩ :=
    b2DestroyContact_steps env w w' contact wake h
  have e1 := b2DestroyContact_event_frame env _ _ _ hw1
  have e2 := (b2DisconnectFromBody_frame _ _ _ _ _ hw2).1
  have e3 := (b2DisconnectFromBody_frame _ _ _ _ _ hw3).1
  have k4 := b2DestroyContact_remove_kept env henv _ _ _ _ _ hw4
  obtain ⟨c4, -, e5⟩ := b2DestroyContact_free_frame _ _ _ _ hw5
  have ev5 : w5.contactEndEvents = w1.contactEndEvents := by
    rw [e5]
    dsimp only
    rw [k4.2.2.2.2.1, e3]
    dsimp only
    rw [e2]
  have ix5 : w5.endEventArrayIndex = w.endEventArrayIndex := by
    rw [e5]
    dsimp only
    rw [k4.2.2.2.2.2.1, e3]
    dsimp only
    rw [e2]
    dsimp only
    rw [e1]
  refine ⟨c, w1, hc, hw1, ?_, ?_⟩
  · split_ifs
    · have k := b2LifecycleKept_trans _ _ _ (henv.2.2 w5 c.edges0.bodyId)
        (henv.2.2 (env.b2WakeBody w5 c.edges0.bodyId) c.edges1.bodyId)
      rw [k.2.2.2.2.1, ev5]
    · exact ev5
  · split_ifs
    · have k := b2LifecycleKept_trans _ _ _ (henv.2.2 w5 c.edges0.bodyId)
        (henv.2.2 (env.b2WakeBody w5 c.edges0.bodyId) c.edges1.bodyId)
      rw [k.2.2.2.2.2.1, ix5]
    · exact ix5

/-- C18. End-touch event on destroy: `b2DestroyContact` of the contact `c` appends exactly
one `b2ContactEndTouchEvent` to `world.contactEndEvents[world.endEventArrayIndex]` if `c.flags`
contains both `b2_contactTouchingFlag` and `b2_contactEnableContactEvents`, and otherwise
leaves the end-event buffers unchanged; the other buffer and `endEventArrayIndex` are
unchanged in both cases.  The event's contact handle has `index1 == contactId + 1` and the
slot's generation, and each shape handle has `index1 == shape.id + 1` and the shape's
generation. -/
theorem b2DestroyContact_end_touch_event (env : b2Env) (w w' : b2World) (contact : Int)
    (wake : Bool) (c : b2Contact) (henv : b2EnvFrame env)
    (hc : b2Array_Get w.contacts contact = some c)
    (h : b2DestroyContact env w contact wake = some w') :
    w'.endEventArrayIndex = w.endEventArrayIndex ∧
    (((c.flags &&& env.b2_contactTouchingFlag) ≠ 0 ∧
        (c.flags &&& env.b2_contactEnableContactEvents) ≠ 0) →
      ∃ shapeA shapeB events,
        b2Array_Get w.shapes c.shapeIdA = some shapeA ∧
        b2Array_Get w.shapes c.shapeIdB = some shapeB ∧
        b2Array_Get w.contactEndEvents w.endEventArrayIndex = some events ∧
        w'.contactEndEvents = b2Array_Set w.contactEndEvents w.endEventArrayIndex
          (events ++
            [{ shapeIdA := ⟨shapeA.id + 1, w.worldId, shapeA.generation⟩
               shapeIdB := ⟨shapeB.id + 1, w.worldId, shapeB.generation⟩
               contactId := ⟨c.contactId + 1, w.worldId, 0, c.generation⟩ }]) ∧
        b2Array_Get w'.contactEndEvents w.endEventArrayIndex =
          some (events ++
            [{ shapeIdA := ⟨shapeA.id + 1, w.worldId, shapeA.generation⟩
               shapeIdB := ⟨shapeB.id + 1, w.worldId, shapeB.generation⟩
               contactId := ⟨c.contactId + 1, w.worldId, 0, c.generation⟩ }]) ∧
        ∀ i, i ≠ w.endEventArrayIndex →
          b2Array_Get w'.contactEndEvents i = b2Array_Get w.contactEndEvents i) ∧
    (¬ ((c.flags &&& env.b2_contactTouchingFlag) ≠ 0 ∧
        (c.flags &&& env.b2_contactEnableContactEvents) ≠ 0) →
      w'.contactEndEvents = w.contactEndEvents) := by
  obtain ⟨c', w1, hc', hw1, hev, hix⟩ := b2DestroyContact_events env henv w w' contact wake h
  rw [hc] at hc'
  cases hc'
  refine ⟨hix, ?_, ?_⟩
  · intro hcond
    unfold b2DestroyContact_event at hw1
    simp only [decide_eq_true_eq] at hw1
    rw [if_pos hcond] at hw1
    simp only [Option.bind_eq_bind, Option.bind_eq_some, Option.pure_def,
      Option.some.injEq] at hw1
    obtain ⟨shapeA, hA, shapeB, hB, events, hevents, rfl⟩ := hw1
    refine ⟨shapeA, shapeB, events, hA, hB, hevents, hev, ?_, ?_⟩
    · rw [hev]
      exact b2Array_Get_Set_self _ _ _ _ hevents
    · intro i hi
      rw [hev]
      exact b2Array_Get_Set_other _ _ _ _ _ hevents hi
  · intro hcond
    unfold b2DestroyContact_event at hw1
    simp only [decide_eq_true_eq] at hw1
    rw [if_neg hcond] at hw1
    simp only [Option.pure_def, Option.some.injEq] at hw1
    rw [hev, ← hw1]

theorem b2DestroyContact_end_touch_event_witness :
    ∃ w' shapeA shapeB events,
      b2DestroyContact b2Env_sample b2World_touching 0 false = some w' ∧
      b2Array_Get b2World_touching.shapes 1 = some shapeA ∧
      b2Array_Get b2World_touching.shapes 0 = some shapeB ∧
      b2Array_Get b2World_touching.contactEndEvents 0 = some events ∧
      b2Array_Get w'.contactEndEvents 0 =
        some (events ++
          [{ shapeIdA := ⟨shapeA.id + 1, 0, shapeA.generation⟩
             shapeIdB := ⟨shapeB.id + 1, 0, shapeB.generation⟩
             contactId := ⟨0 + 1, 0, 0, 1⟩ }]) := by
  have hrun : ∃ w', b2DestroyContact b2Env_sample b2World_touching 0 false = some w' :=
    ⟨_, rfl⟩
  obtain ⟨w', hw'⟩ := hrun
  obtain ⟨-, hpos, -⟩ := b2DestroyContact_end_touch_event b2Env_sample b2World_touching w' 0
    false _ b2Env_sample_frame rfl hw'
  obtain ⟨shapeA, shapeB, events, h1, h2, h3, -, h5, -⟩ := hpos (by decide)
  exact ⟨w', shapeA, shapeB, events, hw', h1, h2, h3, h5⟩

/-- C13 (counterexample). With assertions compiled out, `b2Contact_GetData` called with the
stale handle of generation 1 for slot 0, whose live contact has generation 2 (the check of
`b2GetContactFullId` fails), does not return a zero-initialized `b2ContactData`: it reads the
slot's contact sim and shapes and returns their data, a manifold with one point and the
shape handles with `index1` 2 and 1. -/
theorem b2Contact_GetData_stale_not_sentinel :
    b2GetContactFullId_check b2World_reused ⟨1, 0, 0, 1⟩ = some false ∧
    b2Contact_GetData b2World_reused ⟨1, 0, 0, 1⟩ =
      some { contactId := ⟨1, 0, 0, 1⟩, shapeIdA := ⟨2, 0, 1⟩, shapeIdB := ⟨1, 0, 1⟩,
             manifold := { b2Manifold_zero with pointCount := 1 } } ∧
    b2Contact_GetData b2World_reused ⟨1, 0, 0, 1⟩ ≠ some b2ContactData_zero := by
  refine ⟨by decide, rfl, ?_⟩
  have h : b2Contact_GetData b2World_reused ⟨1, 0, 0, 1⟩ =
      some { contactId := ⟨1, 0, 0, 1⟩, shapeIdA := ⟨2, 0, 1⟩, shapeIdB := ⟨1, 0, 1⟩,
             manifold := { b2Manifold_zero with pointCount := 1 } } := rfl
  rw [h]
  intro hc
  have := congrArg (fun d => d.map (fun x => x.contactId.index1)) hc
  simp [b2ContactData_zero] at this

/-- C13 (amended). With assertions compiled out, `b2Contact_GetData` makes no generation
test and changes nothing: for a handle whose slot holds the contact `c`, whatever the
generation of the handle, it reads the contact sim and the two shapes the slot refers to and
returns the handle itself, the shapes' handles (`index1 == shape.id + 1`, the shape's
generation) and the sim's manifold; when the slot has been freed (`setIndex` is
`B2_NULL_INDEX`) the lookup of the contact sim indexes `solverSets` out of bounds. -/
theorem b2Contact_GetData_release (w : b2World) (contactId : b2ContactId) (c : b2Contact)
    (hc : b2Array_Get w.contacts (contactId.index1 - 1) = some c) :
    (∀ sim shapeA shapeB, b2GetContactSim w c = some sim →
      b2Array_Get w.shapes c.shapeIdA = some shapeA →
      b2Array_Get w.shapes c.shapeIdB = some shapeB →
      b2Contact_GetData w contactId =
        some { contactId := contactId
               shapeIdA := ⟨shapeA.id + 1, contactId.world0 % 65536, shapeA.generation⟩
               shapeIdB := ⟨shapeB.id + 1, contactId.world0 % 65536, shapeB.generation⟩
               manifold := sim.manifold }) ∧
    (c.setIndex = B2_NULL_INDEX → b2GetContactSim w c = none ∧
      b2Contact_GetData w contactId = none) := by
  constructor
  · intro sim shapeA shapeB hsim hA hB
    simp only [b2Contact_GetData, b2GetContactFullId, hc, hsim, hA, hB, Option.bind_eq_bind,
      Option.some_bind, Option.pure_def]
  · intro hfree
    have hsim : b2GetContactSim w c = none := by
      unfold b2GetContactSim
      have h1 : ¬ (c.setIndex = b2_awakeSet ∧ c.colorIndex ≠ B2_NULL_INDEX) := by
        rw [hfree]
        intro h
        exact absurd h.1 (by decide)
      rw [if_neg h1, hfree]
      rfl
    refine ⟨hsim, ?_⟩
    simp only [b2Contact_GetData, b2GetContactFullId, hc, hsim, Option.bind_eq_bind,
      Option.some_bind, Option.pure_def, Option.none_bind]

theorem b2Contact_GetData_release_witness :
    b2Contact_GetData b2World_reused ⟨1, 7, 0, 12345⟩ =
      some { contactId := ⟨1, 7, 0, 12345⟩
             shapeIdA := ⟨b2Shape_polygon.id + 1, 7 % 65536, b2Shape_polygon.generation⟩
             shapeIdB := ⟨b2Shape_circle.id + 1, 7 % 65536, b2Shape_circle.generation⟩
             manifold := { b2Manifold_zero with pointCount := 1 } } :=
  (b2Contact_GetData_release b2World_reused ⟨1, 7, 0, 12345⟩ _ rfl).1 _ _ _ rfl rfl rfl

/-- C6. Incompatible pair is a no-op: for two shapes whose types are both among segment and
chainSegment the registry has no manifold function and `b2CreateContact` returns leaving the
world unchanged (no contact id allocated; contacts, bodies, pair set and solver sets as
before). -/
theorem b2CreateContact_incompatible (env : b2Env) (w : b2World) (a b : b2Shape) (fuel : Nat)
    (ha : a.type = b2ShapeType.b2_segmentShape ∨ a.type = b2ShapeType.b2_chainSegmentShape)
    (hb : b.type = b2ShapeType.b2_segmentShape ∨ b.type = b2ShapeType.b2_chainSegmentShape) :
    (s_registers a.type b.type).fcn = none ∧
    b2CreateContact env s_registers (fuel + 1) w a b = some w := by
  have hreg : (s_registers a.type b.type).fcn = none := by
    rcases ha with ha | ha <;> rcases hb with hb | hb <;> rw [ha, hb] <;> decide
  refine ⟨hreg, ?_⟩
  unfold b2CreateContact
  simp only [hreg, if_true]

theorem b2CreateContact_incompatible_witness :
    (s_registers b2Shape_segment.type b2Shape_chainSegment.type).fcn = none ∧
    b2CreateContact b2Env_sample s_registers 1 b2World_sample b2Shape_segment
      b2Shape_chainSegment = some b2World_sample :=
  b2CreateContact_incompatible b2Env_sample b2World_sample b2Shape_segment b2Shape_chainSegment 0
    (Or.inl rfl) (Or.inr rfl)

theorem b2Contact_setEdge_edgeBodies (c c' : b2Contact) (side : Int) (e e' : b2ContactEdge)
    (he : c.edges side = some e) (h : c.setEdge side e' = some c')
    (hb : e'.bodyId = e.bodyId) : c'.edgeBodies = c.edgeBodies := by
  unfold b2Contact.setEdge at h
  unfold b2Contact.edges at he
  unfold b2Contact.edgeBodies
  split_ifs at h he <;> cases h <;> cases he <;> simp [hb]

theorem b2ConnectToBody_edgeBodies (w w' : b2World) (contactId side bodyId : Int)
    (h : b2ConnectToBody w contactId side bodyId = some w') :
    ∃ c c1 e, b2Array_Get w.contacts contactId = some c ∧
      c.setEdge side e = some c1 ∧ e.bodyId = bodyId ∧
      w'.contacts.map b2Contact.edgeBodies =
        (b2Array_Set w.contacts contactId c1).map b2Contact.edgeBodies := by
  unfold b2ConnectToBody at h
  simp only [Option.bind_eq_bind, Option.bind_eq_some, Option.pure_def, Option.some.injEq] at h
  obtain ⟨body, hbody, c, hc, c1, hc1, w1, hw1, rfl⟩ := h
  refine ⟨c, c1, _, hc, hc1, rfl, ?_⟩
  split_ifs at hw1 with hhead
  · simp only [Option.bind_eq_bind, Option.bind_eq_some, Option.pure_def,
      Option.some.injEq] at hw1
    obtain ⟨hcn, hhc, he, hhe, hc2, hhc2, rfl⟩ := hw1
    dsimp only
    exact b2Array_Set_map_of_eq _ _ _ _ _ hhc
      (b2Contact_setEdge_edgeBodies _ _ _ _ _ hhe hhc2 rfl)
  · simp only [Option.pure_def, Option.some.injEq] at hw1
    subst hw1
    rfl

theorem b2Contact_setEdge_side (c c1 : b2Contact) (side : Int) (e : b2ContactEdge)
    (h : c.setEdge side e = some c1) :
    (side = 0 ∧ c1.edgeBodies = (e.bodyId, c.edges1.bodyId)) ∨
    (side = 1 ∧ c1.edgeBodies = (c.edges0.bodyId, e.bodyId)) := by
  unfold b2Contact.setEdge at h
  split_ifs at h with h0 h1
  · cases h
    exact Or.inl ⟨h0, rfl⟩
  · cases h
    exact Or.inr ⟨h1, rfl⟩

/-- After the two connects of `b2CreateContact` the edges of the contact belong to the
bodies of shape A and shape B. -/
theorem b2ConnectToBody_twice_edgeBodies (w w1 w2 : b2World) (contactId bodyIdA bodyIdB : Int)
    (h1 : b2ConnectToBody w contactId 0 bodyIdA = some w1)
    (h2 : b2ConnectToBody w1 contactId 1 bodyIdB = some w2) :
    ∃ c', b2Array_Get w2.contacts contactId = some c' ∧
      c'.edges0.bodyId = bodyIdA ∧ c'.edges1.bodyId = bodyIdB := by
  obtain ⟨c, c1, e, hc, hc1, he, hm1⟩ := b2ConnectToBody_edgeBodies _ _ _ _ _ h1
  obtain ⟨d, d1, e', hd, hd1, he', hm2⟩ := b2ConnectToBody_edgeBodies _ _ _ _ _ h2
  obtain ⟨x, hx, hxe⟩ := b2Array_Get_of_map_eq b2Contact.edgeBodies _ w1.contacts contactId _
    hm1 (b2Array_Get_Set_self _ _ _ _ hc)
  rw [hd] at hx
  cases hx
  obtain ⟨c', hc', hce⟩ := b2Array_Get_of_map_eq b2Contact.edgeBodies _ w2.contacts contactId _
    hm2 (b2Array_Get_Set_self _ _ _ _ hd)
  refine ⟨c', hc', ?_⟩
  rcases b2Contact_setEdge_side _ _ _ _ hc1 with ⟨-, s1⟩ | ⟨s0, -⟩
  · rcases b2Contact_setEdge_side _ _ _ _ hd1 with ⟨s0, -⟩ | ⟨-, s2⟩
    · exact absurd s0 (by decide)
    · rw [s2] at hce
      rw [s1] at hxe
      unfold b2Contact.edgeBodies at hce hxe
      simp only [Prod.mk.injEq] at hce hxe
      exact ⟨hce.1.trans (hxe.1.trans he), hce.2.trans he'⟩
  · exact absurd s0 (by decide)

theorem b2CreateContactPrimary_edges (env : b2Env) (w w' : b2World) (a b : b2Shape)
    (h : b2CreateContactPrimary env w a b = some w') :
    ∃ c', b2Array_Get w'.contacts (b2AllocId w.contactIdPool).1 = some c' ∧
      c'.edges0.bodyId = a.bodyId ∧ c'.edges1.bodyId = b.bodyId := by
  unfold b2CreateContactPrimary at h
  simp only [Option.bind_eq_bind, Option.bind_eq_some, Option.pure_def, Option.some.injEq] at h
  obtain ⟨bodyA, hA, bodyB, hB, set, hset, c0, hc0, w1, hw1, w2, hw2, set2, hset2, rfl⟩ := h
  exact b2ConnectToBody_twice_edgeBodies _ w1 w2 _ _ _ hw1 hw2

theorem s_registers_offdiag (t1 t2 : b2ShapeType) (hne : t1 ≠ t2)
    (h1 : (s_registers t1 t2).fcn ≠ none) :
    (s_registers t2 t1).fcn ≠ none ∧
    ((s_registers t2 t1).primary = true ↔ (s_registers t1 t2).primary = false) := by
  revert hne h1
  cases t1 <;> cases t2 <;> decide

theorem s_registers_diag (t : b2ShapeType) (h1 : (s_registers t t).fcn ≠ none) :
    (s_registers t t).primary = true := by
  revert h1
  cases t <;> decide

/-- C5 (counterexample). For the two sample circles, shapes of one type whose diagonal
registry entry is primary, `b2CreateContact(world, a, b)` and `b2CreateContact(world, b, a)`
both return but produce different worlds: shape A of the new contact is the first argument
in each case. -/
theorem b2CreateContact_order_matters :
    (b2CreateContact b2Env_sample s_registers 2 b2World_sample b2Shape_circle
        b2Shape_circle2).map (fun w => w.contacts.map (fun c => (c.shapeIdA, c.shapeIdB))) =
      some [(0, 4)] ∧
    (b2CreateContact b2Env_sample s_registers 2 b2World_sample b2Shape_circle2
        b2Shape_circle).map (fun w => w.contacts.map (fun c => (c.shapeIdA, c.shapeIdB))) =
      some [(4, 0)] ∧
    b2CreateContact b2Env_sample s_registers 2 b2World_sample b2Shape_circle b2Shape_circle2 ≠
      b2CreateContact b2Env_sample s_registers 2 b2World_sample b2Shape_circle2 b2Shape_circle := by
  have h1 : (b2CreateContact b2Env_sample s_registers 2 b2World_sample b2Shape_circle
        b2Shape_circle2).map (fun w => w.contacts.map (fun c => (c.shapeIdA, c.shapeIdB))) =
      some [(0, 4)] := rfl
  have h2 : (b2CreateContact b2Env_sample s_registers 2 b2World_sample b2Shape_circle2
        b2Shape_circle).map (fun w => w.contacts.map (fun c => (c.shapeIdA, c.shapeIdB))) =
      some [(4, 0)] := rfl
  refine ⟨h1, h2, fun heq => ?_⟩
  rw [heq, h2] at h1
  exact absurd h1 (by decide)

/-- C5 (amended). Primary orientation: for two shapes `a`, `b` whose type pair has a
registered manifold function, `b2CreateContact` creates the contact of the pair `(A, B)`
that is `(a, b)` or `(b, a)` with `s_registers[type(A)][type(B)].primary` true, and the new
contact has `shapeIdA = A.id`, `shapeIdB = B.id`, `edges[0].bodyId = A.bodyId`,
`edges[1].bodyId = B.bodyId`; when the two types differ, `b2CreateContact(world, a, b)` and
`b2CreateContact(world, b, a)` are the same (for a polygon and a circle shape A is the
polygon); when the types are equal there is no swap and shape A is the first argument.  The
function swaps its arguments at most once: a recursion depth of two suffices. -/
theorem b2CreateContact_primary_orientation (env : b2Env) (w : b2World) (a b : b2Shape)
    (fuel fuel' : Nat) (hreg : (s_registers a.type b.type).fcn ≠ none) :
    (∃ A B, ((A = a ∧ B = b) ∨ (A = b ∧ B = a)) ∧
      (s_registers A.type B.type).primary = true ∧
      b2CreateContact env s_registers (fuel + 2) w a b = b2CreateContactPrimary env w A B ∧
      ∀ w', b2CreateContactPrimary env w A B = some w' →
        ∃ c', b2Array_Get w'.contacts (b2AllocId w.contactIdPool).1 = some c' ∧
          c'.shapeIdA = A.id ∧ c'.shapeIdB = B.id ∧
          c'.edges0.bodyId = A.bodyId ∧ c'.edges1.bodyId = B.bodyId) ∧
    (a.type ≠ b.type →
      b2CreateContact env s_registers (fuel + 2) w a b =
        b2CreateContact env s_registers (fuel' + 2) w b a) ∧
    (a.type = b.type →
      b2CreateContact env s_registers (fuel + 2) w a b = b2CreateContactPrimary env w a b) ∧
    (a.type = b2ShapeType.b2_circleShape → b.type = b2ShapeType.b2_polygonShape →
      b2CreateContact env s_registers (fuel + 2) w a b = b2CreateContactPrimary env w b a) ∧
    b2CreateContact env s_registers (fuel + 2) w a b =
      b2CreateContact env s_registers 2 w a b := by
  refine ⟨?_, ?_, ?_, ?_, ?_⟩
  · obtain ⟨A, B, hAB, hp, hrun⟩ := b2CreateContact_primary_order env w a b fuel hreg
    refine ⟨A, B, hAB, hp, hrun, fun w' hw' => ?_⟩
    obtain ⟨bodyA, bodyB, set, c0, c', -, -, -, -, hc', hcore, -, -⟩ :=
      b2CreateContactPrimary_created env w w' A B hw'
    obtain ⟨c'', hc'', e0, e1⟩ := b2CreateContactPrimary_edges env w w' A B hw'
    rw [hc'] at hc''
    cases hc''
    obtain ⟨-, -, -, -, -, f6, f7, -, -⟩ := b2CreateContact_contact_fields env c0
      (b2AllocId w.contactIdPool).1 (b2CreateContact_setIndex bodyA bodyB)
      (set.contactSims.length : Int) A B
    obtain ⟨-, -, -, -, -, g6, g7, -, -⟩ := b2Contact_core_fields _ _ hcore
    exact ⟨c', hc', g6.trans f6, g7.trans f7, e0, e1⟩
  · intro hne
    obtain ⟨f1, f2⟩ := s_registers_offdiag _ _ hne hreg
    rw [b2CreateContact_registered env w a b fuel hreg,
      b2CreateContact_registered env w b a fuel' f1]
    by_cases hp : (s_registers a.type b.type).primary = true
    · have : ¬ (s_registers b.type a.type).primary = true := by
        rw [f2, hp]
        decide
      rw [if_pos hp, if_neg this]
    · have hp' : (s_registers a.type b.type).primary = false := by simpa using hp
      rw [if_neg hp, if_pos (f2.mpr hp')]
  · intro heq
    rw [b2CreateContact_registered env w a b fuel hreg]
    have hp : (s_registers a.type b.type).primary = true := by
      rw [← heq] at hreg ⊢
      exact s_registers_diag _ hreg
    rw [if_pos hp]
  · intro ha hb
    rw [b2CreateContact_registered env w a b fuel hreg, ha, hb]
    rfl
  · rw [b2CreateContact_registered env w a b fuel hreg,
      b2CreateContact_registered env w a b 0 hreg]

theorem b2CreateContact_primary_orientation_witness :
    b2CreateContact b2Env_sample s_registers 2 b2World_sample b2Shape_circle b2Shape_polygon =
      b2CreateContact b2Env_sample s_registers 5 b2World_sample b2Shape_polygon b2Shape_circle ∧
    b2CreateContact b2Env_sample s_registers 2 b2World_sample b2Shape_circle b2Shape_polygon =
      b2CreateContactPrimary b2Env_sample b2World_sample b2Shape_polygon b2Shape_circle :=
  ⟨(b2CreateContact_primary_orientation b2Env_sample b2World_sample b2Shape_circle
      b2Shape_polygon 0 3 (by decide)).2.1 (by decide),
    (b2CreateContact_primary_orientation b2Env_sample b2World_sample b2Shape_circle
      b2Shape_polygon 0 0 (by decide)).2.2.2.1 rfl rfl⟩

theorem B2_SHAPE_PAIR_KEY_comm (k1 k2 : Int) : B2_SHAPE_PAIR_KEY k1 k2 = B2_SHAPE_PAIR_KEY k2 k1 := by
  unfold B2_SHAPE_PAIR_KEY
  by_cases h1 : k1 < k2
  · have h2 : ¬ k2 < k1 := by omega
    rw [if_pos h1, if_neg h2]
  · by_cases h2 : k2 < k1
    · rw [if_neg h1, if_pos h2]
    · have : k1 = k2 := by omega
      subst this
      rfl

theorem b2DestroyContact_pairSet (env : b2Env) (henv : b2EnvFrame env) (w w' : b2World)
    (contact : Int) (wake : Bool) (c : b2Contact)
    (hc : b2Array_Get w.contacts contact = some c)
    (h : b2DestroyContact env w contact wake = some w') :
    w'.broadPhase.pairSet =
      b2RemoveKey w.broadPhase.pairSet (B2_SHAPE_PAIR_KEY c.shapeIdA c.shapeIdB) := by
  obtain ⟨c', bodyA, bodyB, w1, w2, w3, c3, w4, w5, hc', -, -, hw1, hw2, hw3, hc3, hw4, hw5,
    rfl⟩ := b2DestroyContact_steps env w w' contact wake h
  rw [hc] at hc'
  cases hc'
  have e1 := b2DestroyContact_event_frame env _ _ _ hw1
  have e2 := (b2DisconnectFromBody_frame _ _ _ _ _ hw2).1
  have e3 := (b2DisconnectFromBody_frame _ _ _ _ _ hw3).1
  have k4 := b2DestroyContact_remove_kept env henv _ _ _ _ _ hw4
  obtain ⟨c4, -, e5⟩ := b2DestroyContact_free_frame _ _ _ _ hw5
  have p5 : w5.broadPhase.pairSet =
      b2RemoveKey w.broadPhase.pairSet (B2_SHAPE_PAIR_KEY c.shapeIdA c.shapeIdB) := by
    rw [e5]
    dsimp only
    rw [k4.2.2.2.1, e3]
    dsimp only
    rw [e2]
    dsimp only
    rw [e1]
  split_ifs
  · have k := b2LifecycleKept_trans _ _ _ (henv.2.2 w5 c.edges0.bodyId)
      (henv.2.2 (env.b2WakeBody w5 c.edges0.bodyId) c.edges1.bodyId)
    rw [k.2.2.2.1, p5]
  · exact p5

/-- C4. After `b2DestroyContact(c)` the pair key of `(c.shapeIdA, c.shapeIdB)` is absent
from `world.broadPhase.pairSet` and no other key of the pair set is removed; it is the key
that `b2CreateContact` inserts for the contact, in whichever argument order the two shapes
are passed (the key is symmetric in its arguments). -/
theorem b2Contact_pair_key (env : b2Env) (w w' : b2World) :
    (∀ (contact : Int) (wake : Bool) (c : b2Contact), b2EnvFrame env →
      b2Array_Get w.contacts contact = some c →
      b2DestroyContact env w contact wake = some w' →
      B2_SHAPE_PAIR_KEY c.shapeIdA c.shapeIdB ∉ w'.broadPhase.pairSet ∧
      ∀ k, k ≠ B2_SHAPE_PAIR_KEY c.shapeIdA c.shapeIdB →
        (k ∈ w'.broadPhase.pairSet ↔ k ∈ w.broadPhase.pairSet)) ∧
    (∀ (a b : b2Shape) (fuel : Nat), (s_registers a.type b.type).fcn ≠ none →
      b2CreateContact env s_registers (fuel + 2) w a b = some w' →
      w'.broadPhase.pairSet = insert (B2_SHAPE_PAIR_KEY a.id b.id) w.broadPhase.pairSet ∧
      B2_SHAPE_PAIR_KEY a.id b.id = B2_SHAPE_PAIR_KEY b.id a.id ∧
      ∃ c', b2Array_Get w'.contacts (b2AllocId w.contactIdPool).1 = some c' ∧
        B2_SHAPE_PAIR_KEY c'.shapeIdA c'.shapeIdB = B2_SHAPE_PAIR_KEY a.id b.id) := by
  constructor
  · intro contact wake c henv hc h
    rw [b2DestroyContact_pairSet env henv w w' contact wake c hc h]
    unfold b2RemoveKey
    refine ⟨Finset.not_mem_erase _ _, fun k hk => ?_⟩
    rw [Finset.mem_erase]
    exact ⟨fun h => h.2, fun h => ⟨hk, h⟩⟩
  · intro a b fuel hreg h
    obtain ⟨A, B, hAB, -, hrun⟩ := b2CreateContact_primary_order env w a b fuel hreg
    rw [hrun] at h
    obtain ⟨bodyA, bodyB, set, c0, -, -, -, -, hw, -⟩ := b2CreateContactPrimary_spec env w w' A B h
    obtain ⟨_, _, _, c0', c', -, -, -, -, hc', hcore, -, -⟩ :=
      b2CreateContactPrimary_created env w w' A B h
    obtain ⟨-, -, -, -, -, f6, f7, -, -⟩ := b2CreateContact_contact_fields env c0'
      (b2AllocId w.contactIdPool).1 (b2CreateContact_setIndex _ _)
      (_ : Int) A B
    obtain ⟨-, -, -, -, -, g6, g7, -, -⟩ := b2Contact_core_fields _ _ hcore
    have hkey : B2_SHAPE_PAIR_KEY A.id B.id = B2_SHAPE_PAIR_KEY a.id b.id := by
      rcases hAB with ⟨rfl, rfl⟩ | ⟨rfl, rfl⟩
      · rfl
      · exact B2_SHAPE_PAIR_KEY_comm _ _
    refine ⟨?_, B2_SHAPE_PAIR_KEY_comm _ _, c', hc', ?_⟩
    · rw [hw]
      dsimp only
      rw [hkey]
      rfl
    · rw [g6.trans f6, g7.trans f7, hkey]

theorem b2Contact_pair_key_witness :
    ∃ w1 w2,
      b2CreateContact b2Env_sample s_registers 2 b2World_sample b2Shape_circle
        b2Shape_polygon = some w1 ∧
      b2DestroyContact b2Env_sample w1 0 false = some w2 ∧
      w1.broadPhase.pairSet =
        insert (B2_SHAPE_PAIR_KEY b2Shape_circle.id b2Shape_polygon.id)
          b2World_sample.broadPhase.pairSet ∧
      B2_SHAPE_PAIR_KEY 1 0 ∉ w2.broadPhase.pairSet := by
  have hrun : ∃ w1 w2 c,
      b2CreateContact b2Env_sample s_registers 2 b2World_sample b2Shape_circle
        b2Shape_polygon = some w1 ∧
      b2DestroyContact b2Env_sample w1 0 false = some w2 ∧
      b2Array_Get w1.contacts 0 = some c ∧ c.shapeIdA = 1 ∧ c.shapeIdB = 0 :=
    ⟨_, _, _, rfl, rfl, rfl, rfl, rfl⟩
  obtain ⟨w1, w2, c, h1, h2, hc, ha, hb⟩ := hrun
  have k1 := ((b2Contact_pair_key b2Env_sample b2World_sample w1).2 b2Shape_circle
    b2Shape_polygon 0 (by decide) h1).1
  have k2 := ((b2Contact_pair_key b2Env_sample w1 w2).1 0 false c b2Env_sample_frame hc h2).1
  rw [ha, hb] at k2
  exact ⟨w1, w2, h1, h2, k1, k2⟩

/-- C7 (counterexample). The contact that `b2CreateContact` creates in `b2World_sample`,
whose body 0 is awake, is not touching and has `setIndex == b2_awakeSet`, not
`b2_disabledSet`. -/
theorem b2CreateContact_nontouching_in_awake_set :
    (b2CreateContact b2Env_sample s_registers 2 b2World_sample b2Shape_circle
        b2Shape_polygon).bind (fun w => (b2Array_Get w.contacts 0).map
          (fun c => (c.setIndex, c.flags &&& b2Env_sample.b2_contactTouchingFlag))) =
      some (b2_awakeSet, 0) ∧
    b2_awakeSet ≠ b2_disabledSet :=
  ⟨rfl, by decide⟩

theorem b2Not32_and_self (x : Nat) (hx : x ≤ 4294967295) : b2Not32 x &&& x = 0 := by
  unfold b2Not32
  apply Nat.eq_of_testBit_eq
  intro i
  have h1 : (4294967295 : Nat) - x = 2 ^ 32 - (x + 1) := by omega
  rw [h1, Nat.testBit_and, Nat.testBit_two_pow_sub_succ (by omega : x < 2 ^ 32)]
  simp only [Nat.zero_testBit]
  by_cases hb : x.testBit i = true
  · simp [hb]
  · simp [hb]

theorem b2And_not32_and (s x : Nat) (hx : x ≤ 4294967295) : (s &&& b2Not32 x) &&& x = 0 := by
  rw [Nat.land_assoc, b2Not32_and_self x hx, Nat.and_zero]

theorem b2UpdateContact_deepest_of_le (m : b2Manifold) (h1 : 0 < m.pointCount)
    (h2 : m.pointCount ≤ 2) (init : ℚ × b2Vec2) :
    ∃ best, b2UpdateContact_deepest m (m.pointCount - 1).toNat 1 init = some best := by
  have : m.pointCount = 1 ∨ m.pointCount = 2 := by omega
  rcases this with h | h
  · rw [h]
    exact ⟨init, rfl⟩
  · rw [h]
    exact ⟨_, rfl⟩

/-- C10. Pre-solve veto: when the world has a pre-solve callback, the contact sim has
`b2_simEnablePreSolveEvents` set, the manifold function returns a manifold with one or two
points and the callback, called on the deepest point, returns false, then `b2UpdateContact`
returns false, the stored manifold has `pointCount` 0, and both `b2_simTouchingFlag` and
`b2_simEnableHitEvent` (32-bit masks) are clear in `simFlags`, whatever the shapes' hit event
settings. -/
theorem b2UpdateContact_preSolve_veto (env : b2Env)
    (regs : b2ShapeType → b2ShapeType → b2ContactRegister) (world : b2World)
    (contactSim : b2ContactSim) (shapeA : b2Shape) (transformA : b2Transform)
    (centerOffsetA : b2Vec2) (shapeB : b2Shape) (transformB : b2Transform)
    (centerOffsetB : b2Vec2) (fcn : b2ManifoldFcn)
    (preSolveFcn : b2ShapeId → b2ShapeId → b2Vec2 → b2Vec2 → Bool)
    (hfcn : (regs shapeA.type shapeB.type).fcn = some fcn)
    (hpre : world.preSolveFcn = some preSolveFcn)
    (hflag : (contactSim.simFlags &&& env.b2_simEnablePreSolveEvents) ≠ 0)
    (hpos : 0 < (env.collide fcn shapeA transformA shapeB transformB contactSim.cache).1.pointCount)
    (hle : (env.collide fcn shapeA transformA shapeB transformB contactSim.cache).1.pointCount ≤ 2)
    (hveto : ∀ best,
      b2UpdateContact_deepest
        (env.collide fcn shapeA transformA shapeB transformB contactSim.cache).1
        ((env.collide fcn shapeA transformA shapeB transformB contactSim.cache).1.pointCount - 1).toNat
        1
        ((env.collide fcn shapeA transformA shapeB transformB contactSim.cache).1.points0.separation,
          (env.collide fcn shapeA transformA shapeB transformB contactSim.cache).1.points0.point) =
        some best →
      preSolveFcn ⟨shapeA.id + 1, world.worldId, shapeA.generation⟩
        ⟨shapeB.id + 1, world.worldId, shapeB.generation⟩ best.2
        (env.collide fcn shapeA transformA shapeB transformB contactSim.cache).1.normal = false)
    (htouch : env.b2_simTouchingFlag ≤ 4294967295)
    (hhit : env.b2_simEnableHitEvent ≤ 4294967295) :
    ∃ sim', b2UpdateContact env regs world contactSim shapeA transformA centerOffsetA shapeB
        transformB centerOffsetB = some (false, sim') ∧
      sim'.manifold.pointCount = 0 ∧
      sim'.simFlags &&& env.b2_simTouchingFlag = 0 ∧
      sim'.simFlags &&& env.b2_simEnableHitEvent = 0 := by
  have hm : (b2UpdateContact_refresh env world fcn contactSim shapeA transformA shapeB
      transformB).manifold =
      (env.collide fcn shapeA transformA shapeB transformB contactSim.cache).1 := by
    unfold b2UpdateContact_refresh
    split_ifs <;> rfl
  have hs : (b2UpdateContact_refresh env world fcn contactSim shapeA transformA shapeB
      transformB).simFlags = contactSim.simFlags := by
    unfold b2UpdateContact_refresh
    split_ifs <;> rfl
  obtain ⟨best, hbest⟩ := b2UpdateContact_deepest_of_le _ hpos hle
    ((env.collide fcn shapeA transformA shapeB transformB contactSim.cache).1.points0.separation,
      (env.collide fcn shapeA transformA shapeB transformB contactSim.cache).1.points0.point)
  have hv := hveto best hbest
  have hps : ∃ sim1, b2UpdateContact_preSolve env world
      (b2UpdateContact_refresh env world fcn contactSim shapeA transformA shapeB transformB)
      shapeA shapeB
      (decide ((b2UpdateContact_refresh env world fcn contactSim shapeA transformA shapeB
        transformB).manifold.pointCount > 0))
      (b2UpdateContact_refresh env world fcn contactSim shapeA transformA shapeB
        transformB).manifold.pointCount = some (false, 0, sim1) ∧
      sim1.manifold.pointCount = 0 ∧ sim1.simFlags = contactSim.simFlags := by
    unfold b2UpdateContact_preSolve
    rw [hm, hs]
    have hc : decide ((env.collide fcn shapeA transformA shapeB transformB
            contactSim.cache).1.pointCount > 0) = true ∧
        world.preSolveFcn.isSome = true ∧
        (contactSim.simFlags &&& env.b2_simEnablePreSolveEvents) ≠ 0 := by
      refine ⟨by simpa using hpos, by rw [hpre]; rfl, hflag⟩
    rw [if_pos hc, hpre]
    simp only [Option.bind_eq_bind, Option.some_bind, hbest, hv, if_true, Option.pure_def]
    exact ⟨_, rfl, rfl, rfl⟩
  obtain ⟨sim1, hps1, hpc1, hsf1⟩ := hps
  unfold b2UpdateContact
  simp only [hfcn, Option.bind_eq_bind, Option.some_bind, hps1, Option.pure_def]
  have hsp : ∀ cs : b2ContactSim, b2UpdateContact_speculative env world 0 cs = (0, cs) := by
    intro cs
    unfold b2UpdateContact_speculative
    rw [if_neg]
    intro h
    exact absurd h.2 (by decide)
  rw [hsp]
  simp only [b2UpdateContact_hitFlag, Bool.false_eq_true, false_and, if_false, gt_iff_lt,
    lt_self_iff_false, Int.toNat_zero, b2UpdateContact_warmStart, Option.some_bind,
    b2UpdateContact_touchingFlag]
  refine ⟨_, rfl, hpc1, ?_, ?_⟩
  · exact b2And_not32_and _ _ htouch
  · show ((_ &&& b2Not32 env.b2_simEnableHitEvent) &&& b2Not32 env.b2_simTouchingFlag) &&&
      env.b2_simEnableHitEvent = 0
    rw [Nat.land_assoc, Nat.land_comm (b2Not32 env.b2_simTouchingFlag), ← Nat.land_assoc,
      b2And_not32_and _ _ hhit, Nat.zero_and]

theorem b2UpdateContact_match_eq (old : b2Manifold) (mp2 : b2ManifoldPoint)
    (hle : old.pointCount ≤ 2) :
    b2UpdateContact_match old.pointCount.toNat 0 old mp2 = some (b2MatchStep old mp2) := by
  have hcases : old.pointCount ≤ 0 ∨ old.pointCount = 1 ∨ old.pointCount = 2 := by omega
  unfold b2MatchStep
  rcases hcases with h | h | h
  · have hn : old.pointCount.toNat = 0 := by omega
    rw [hn]
    have h1 : ¬ (1 ≤ old.pointCount ∧ old.points0.id = mp2.id) := fun hh => by omega
    have h2 : ¬ (2 ≤ old.pointCount ∧ old.points1.id = mp2.id) := fun hh => by omega
    rw [if_neg h1, if_neg h2]
    rfl
  · rw [h]
    have h2 : ¬ ((2 : Int) ≤ 1 ∧ old.points1.id = mp2.id) := fun hh => by omega
    by_cases h0 : old.points0.id = mp2.id
    · simp [b2UpdateContact_match, b2Manifold.getPoint, b2Manifold.setPoint, h0, h]
    · simp [b2UpdateContact_match, b2Manifold.getPoint, b2Manifold.setPoint, h0, h]
  · rw [h]
    by_cases h0 : old.points0.id = mp2.id
    · simp [b2UpdateContact_match, b2Manifold.getPoint, b2Manifold.setPoint, h0, h]
    · by_cases h1 : old.points1.id = mp2.id
      · simp [b2UpdateContact_match, b2Manifold.getPoint, b2Manifold.setPoint, h0, h1, h]
      · simp [b2UpdateContact_match, b2Manifold.getPoint, b2Manifold.setPoint, h0, h1, h]

theorem b2MatchStep_pointCount (old : b2Manifold) (mp2 : b2ManifoldPoint) :
    (b2MatchStep old mp2).1.pointCount = old.pointCount := by
  unfold b2MatchStep
  split_ifs <;> rfl

/-- The matching loop of `b2UpdateContact` on manifolds of at most two points, as at most
two steps. -/
theorem b2UpdateContact_warmStart_eq (cA cB : b2Vec2) (old m : b2Manifold)
    (hold : old.pointCount ≤ 2) :
    b2UpdateContact_warmStart cA cB m.pointCount.toNat 0 old m =
      if m.pointCount ≤ 0 then some (old, m)
      else if m.pointCount = 1 then
        some ((b2MatchStep old (b2ResetPoint cA cB m.points0)).1,
          { m with points0 := (b2MatchStep old (b2ResetPoint cA cB m.points0)).2 })
      else if m.pointCount = 2 then
        some ((b2MatchStep (b2MatchStep old (b2ResetPoint cA cB m.points0)).1
            (b2ResetPoint cA cB m.points1)).1,
          { m with
            points0 := (b2MatchStep old (b2ResetPoint cA cB m.points0)).2
            points1 := (b2MatchStep (b2MatchStep old (b2ResetPoint cA cB m.points0)).1
              (b2ResetPoint cA cB m.points1)).2 })
      else none := by
  have hold1 : (b2MatchStep old (b2ResetPoint cA cB m.points0)).1.pointCount ≤ 2 := by
    rw [b2MatchStep_pointCount]; exact hold
  by_cases h0 : m.pointCount ≤ 0
  · rw [if_pos h0]
    have hn : m.pointCount.toNat = 0 := by omega
    rw [hn]
    rfl
  · rw [if_neg h0]
    by_cases h1 : m.pointCount = 1
    · have hn : m.pointCount.toNat = 1 := by omega
      rw [if_pos h1, hn]
      simp only [b2UpdateContact_warmStart, b2Manifold.getPoint, if_true, Option.bind_eq_bind,
        Option.some_bind]
      rw [show ({ m.points0 with
          anchorA := b2Sub m.points0.anchorA cA
          anchorB := b2Sub m.points0.anchorB cB
          normalImpulse := 0
          tangentImpulse := 0
          totalNormalImpulse := 0
          normalVelocity := 0
          persisted := false } : b2ManifoldPoint) = b2ResetPoint cA cB m.points0 from rfl]
      rw [b2UpdateContact_match_eq _ _ hold]
      simp [b2Manifold.setPoint]
    · rw [if_neg h1]
      by_cases h2 : m.pointCount = 2
      · have hn : m.pointCount.toNat = 2 := by omega
        rw [if_pos h2, hn]
        simp only [b2UpdateContact_warmStart, b2Manifold.getPoint, if_true, Option.bind_eq_bind,
          Option.some_bind]
        rw [show ({ m.points0 with
            anchorA := b2Sub m.points0.anchorA cA
            anchorB := b2Sub m.points0.anchorB cB
            normalImpulse := 0
            tangentImpulse := 0
            totalNormalImpulse := 0
            normalVelocity := 0
            persisted := false } : b2ManifoldPoint) = b2ResetPoint cA cB m.points0 from rfl]
        rw [b2UpdateContact_match_eq _ _ hold]
        simp only [b2Manifold.setPoint, if_true, Option.some_bind, zero_add, one_ne_zero,
          if_false]
        rw [show ({ m.points1 with
            anchorA := b2Sub m.points1.anchorA cA
            anchorB := b2Sub m.points1.anchorB cB
            normalImpulse := 0
            tangentImpulse := 0
            totalNormalImpulse := 0
            normalVelocity := 0
            persisted := false } : b2ManifoldPoint) = b2ResetPoint cA cB m.points1 from rfl]
        rw [b2UpdateContact_match_eq _ _ hold1]
        simp
      · rw [if_neg h2]
        have h3 : 3 ≤ m.pointCount := by omega
        obtain ⟨k, hk⟩ : ∃ k, m.pointCount.toNat = k + 3 := ⟨m.pointCount.toNat - 3, by omega⟩
        rw [hk]
        simp only [b2UpdateContact_warmStart, b2Manifold.getPoint, if_true, Option.bind_eq_bind,
          Option.some_bind]
        rw [show ({ m.points0 with
            anchorA := b2Sub m.points0.anchorA cA
            anchorB := b2Sub m.points0.anchorB cB
            normalImpulse := 0
            tangentImpulse := 0
            totalNormalImpulse := 0
            normalVelocity := 0
            persisted := false } : b2ManifoldPoint) = b2ResetPoint cA cB m.points0 from rfl]
        rw [b2UpdateContact_match_eq _ _ hold]
        simp only [b2Manifold.setPoint, if_true, Option.some_bind, zero_add, one_ne_zero,
          if_false]
        rw [show ({ m.points1 with
            anchorA := b2Sub m.points1.anchorA cA
            anchorB := b2Sub m.points1.anchorB cB
            normalImpulse := 0
            tangentImpulse := 0
            totalNormalImpulse := 0
            normalVelocity := 0
            persisted := false } : b2ManifoldPoint) = b2ResetPoint cA cB m.points1 from rfl]
        rw [b2UpdateContact_match_eq _ _ hold1]
        simp

theorem b2MatchStep_first (cA cB : b2Vec2) (old : b2Manifold) (p : b2ManifoldPoint) :
    (b2MatchStep old (b2ResetPoint cA cB p)).2.id = p.id ∧
    b2WarmStarted old none (b2MatchStep old (b2ResetPoint cA cB p)).2 := by
  unfold b2WarmStarted b2MatchStep b2FirstOldMatch b2ResetPoint
  split_ifs <;> simp_all

theorem b2MatchStep_second (cA cB : b2Vec2) (old : b2Manifold) (p0 p : b2ManifoldPoint) :
    b2WarmStarted old (some p0.id)
      (b2MatchStep (b2MatchStep old (b2ResetPoint cA cB p0)).1 (b2ResetPoint cA cB p)).2 := by
  unfold b2WarmStarted b2MatchStep b2FirstOldMatch b2ResetPoint
  split_ifs <;> simp_all

theorem b2UpdateContact_preSolve_sync (env : b2Env) (world : b2World) (cs : b2ContactSim)
    (shapeA shapeB : b2Shape) (touching : Bool) (r : Bool × Int × b2ContactSim)
    (h : b2UpdateContact_preSolve env world cs shapeA shapeB touching cs.manifold.pointCount =
      some r) : r.2.1 = r.2.2.manifold.pointCount := by
  unfold b2UpdateContact_preSolve at h
  split_ifs at h with hc
  · simp only [Option.bind_eq_bind, Option.bind_eq_some, Option.pure_def] at h
    obtain ⟨f, -, best, -, h⟩ := h
    split_ifs at h <;> simp only [Option.some.injEq] at h <;> rw [← h]
  · simp only [Option.pure_def, Option.some.injEq] at h
    rw [← h]

theorem b2UpdateContact_speculative_sync (env : b2Env) (world : b2World) (cs : b2ContactSim) :
    (b2UpdateContact_speculative env world cs.manifold.pointCount cs).1 =
      (b2UpdateContact_speculative env world cs.manifold.pointCount cs).2.manifold.pointCount := by
  unfold b2UpdateContact_speculative
  split_ifs <;> rfl

theorem b2UpdateContact_hitFlag_manifold (env : b2Env) (touching : Bool) (pointCount : Int)
    (old : b2Manifold) (shapeA shapeB : b2Shape) (cs : b2ContactSim) :
    (b2UpdateContact_hitFlag env touching pointCount old shapeA shapeB cs).manifold.pointCount =
      cs.manifold.pointCount := by
  unfold b2UpdateContact_hitFlag
  split_ifs <;> rfl

theorem b2UpdateContact_touchingFlag_manifold (env : b2Env) (touching : Bool)
    (cs : b2ContactSim) :
    (b2UpdateContact_touchingFlag env touching cs).manifold = cs.manifold := by
  unfold b2UpdateContact_touchingFlag
  split_ifs <;> rfl

/-- C9 (amended). Warm-start matching in `b2UpdateContact`, for an old manifold of at most
two points: every point `p` of the manifold left in `contactSim` has `totalNormalImpulse`
and `normalVelocity` zero; if no old point has `p`'s id then `p.persisted` is false and both
impulses are zero; if some old point has `p`'s id then `p.persisted` is true and
`p.normalImpulse`, `p.tangentImpulse` equal the impulses that the first such old point held
on entry, except that the second new point, when it carries the same id as the first new
point, gets zero impulses (the first has taken them). -/
theorem b2UpdateContact_warm_start_matching (env : b2Env)
    (regs : b2ShapeType → b2ShapeType → b2ContactRegister) (world : b2World)
    (contactSim : b2ContactSim) (shapeA : b2Shape) (transformA : b2Transform)
    (centerOffsetA : b2Vec2) (shapeB : b2Shape) (transformB : b2Transform)
    (centerOffsetB : b2Vec2) (touching : Bool) (sim' : b2ContactSim)
    (hold : contactSim.manifold.pointCount ≤ 2)
    (h : b2UpdateContact env regs world contactSim shapeA transformA centerOffsetA shapeB
      transformB centerOffsetB = some (touching, sim')) :
    sim'.manifold.pointCount ≤ 2 ∧
    (1 ≤ sim'.manifold.pointCount →
      b2WarmStarted contactSim.manifold none sim'.manifold.points0) ∧
    (2 ≤ sim'.manifold.pointCount →
      b2WarmStarted contactSim.manifold (some sim'.manifold.points0.id)
        sim'.manifold.points1) := by
  unfold b2UpdateContact at h
  simp only [Option.bind_eq_bind, Option.bind_eq_some, Option.pure_def, Option.some.injEq,
    Prod.mk.injEq] at h
  obtain ⟨fcn, hfcn, r, hr, m, hm, -, hsim⟩ := h
  have hsync1 := b2UpdateContact_preSolve_sync env world _ shapeA shapeB _ r hr
  have hsync2 := b2UpdateContact_speculative_sync env world r.2.2
  rw [← hsync1] at hsync2
  have hsync3 := b2UpdateContact_hitFlag_manifold env r.1
    (b2UpdateContact_speculative env world r.2.1 r.2.2).1 contactSim.manifold shapeA shapeB
    (b2UpdateContact_speculative env world r.2.1 r.2.2).2
  have hman : sim'.manifold = m.2 := by
    rw [← hsim, b2UpdateContact_touchingFlag_manifold]
  rw [hman]
  generalize (b2UpdateContact_hitFlag env r.1 (b2UpdateContact_speculative env world r.2.1 r.2.2).1
    contactSim.manifold shapeA shapeB
    (b2UpdateContact_speculative env world r.2.1 r.2.2).2).manifold = m1 at hm hsync3
  have e : (b2UpdateContact_speculative env world r.2.1 r.2.2).1 = m1.pointCount :=
    hsync2.trans hsync3.symm
  rw [e, b2UpdateContact_warmStart_eq _ _ _ _ hold] at hm
  split_ifs at hm with h0 h1 h2
  · simp only [Option.some.injEq] at hm
    rw [← hm]
    dsimp only
    exact ⟨by omega, fun hh => by omega, fun hh => by omega⟩
  · simp only [Option.some.injEq] at hm
    rw [← hm]
    refine ⟨by dsimp only; omega, fun _ => ?_, fun hh => by dsimp only at hh; omega⟩
    exact (b2MatchStep_first _ _ _ _).2
  · simp only [Option.some.injEq] at hm
    rw [← hm]
    refine ⟨by dsimp only; omega, fun _ => ?_, fun _ => ?_⟩
    · exact (b2MatchStep_first _ _ _ _).2
    · dsimp only
      rw [(b2MatchStep_first _ _ _ _).1]
      exact b2MatchStep_second _ _ _ _ _

/-- C9 (counterexample). The stored manifold holds one point of id 7 with impulses 3 and 1
and the manifold function returns two points of id 7: after `b2UpdateContact` the second
point of the manifold is persisted, some old point has its id, yet its impulses are 0 and
0, not the impulses 3 and 1 that the old point held on entry. -/
theorem b2UpdateContact_duplicate_id_not_inherited :
    (b2UpdateContact b2Env_twoPoints s_registers b2World_sample b2ContactSim_warm
        b2Shape_polygon b2Transform_identity ⟨0, 0⟩ b2Shape_circle b2Transform_identity
        ⟨0, 0⟩).map
      (fun r => (r.2.manifold.pointCount, r.2.manifold.points1.id,
        r.2.manifold.points1.persisted, r.2.manifold.points1.normalImpulse,
        r.2.manifold.points1.tangentImpulse)) = some (2, 7, true, 0, 0) ∧
    b2ContactSim_warm.manifold.pointCount = 1 ∧
    b2ContactSim_warm.manifold.points0.id = 7 ∧
    b2ContactSim_warm.manifold.points0.normalImpulse = 3 ∧
    b2ContactSim_warm.manifold.points0.tangentImpulse = 1 := by
  refine ⟨?_, rfl, rfl, rfl, rfl⟩
  rfl

theorem b2UpdateContact_warm_start_matching_witness :
    ∃ touching sim',
      b2UpdateContact b2Env_twoPoints s_registers b2World_sample b2ContactSim_warm
        b2Shape_polygon b2Transform_identity ⟨0, 0⟩ b2Shape_circle b2Transform_identity
        ⟨0, 0⟩ = some (touching, sim') ∧
      sim'.manifold.pointCount ≤ 2 ∧
      (1 ≤ sim'.manifold.pointCount →
        b2WarmStarted b2ContactSim_warm.manifold none sim'.manifold.points0) ∧
      (2 ≤ sim'.manifold.pointCount →
        b2WarmStarted b2ContactSim_warm.manifold (some sim'.manifold.points0.id)
          sim'.manifold.points1) := by
  have hrun : ∃ r, b2UpdateContact b2Env_twoPoints s_registers b2World_sample b2ContactSim_warm
      b2Shape_polygon b2Transform_identity ⟨0, 0⟩ b2Shape_circle b2Transform_identity
      ⟨0, 0⟩ = some r := ⟨_, rfl⟩
  obtain ⟨⟨touching, sim'⟩, hr⟩ := hrun
  exact ⟨touching, sim', hr,
    b2UpdateContact_warm_start_matching b2Env_twoPoints s_registers b2World_sample
      b2ContactSim_warm b2Shape_polygon b2Transform_identity ⟨0, 0⟩ b2Shape_circle
      b2Transform_identity ⟨0, 0⟩ touching sim' (by decide) hr⟩

theorem b2UpdateContact_preSolve_veto_witness :
    ∃ sim', b2UpdateContact b2Env_twoPoints s_registers b2World_veto b2ContactSim_warm
        b2Shape_polygon b2Transform_identity ⟨0, 0⟩ b2Shape_circle b2Transform_identity
        ⟨0, 0⟩ = some (false, sim') ∧
      sim'.manifold.pointCount = 0 ∧
      sim'.simFlags &&& b2Env_twoPoints.b2_simTouchingFlag = 0 ∧
      sim'.simFlags &&& b2Env_twoPoints.b2_simEnableHitEvent = 0 :=
  b2UpdateContact_preSolve_veto b2Env_twoPoints s_registers b2World_veto b2ContactSim_warm
    b2Shape_polygon b2Transform_identity ⟨0, 0⟩ b2Shape_circle b2Transform_identity ⟨0, 0⟩
    b2ManifoldFcn.b2PolygonAndCircleManifold (fun _ _ _ _ => false) rfl rfl (by decide)
    (by decide) (by decide) (fun _ _ => rfl) (by decide) (by decide)

theorem b2InitializeContactRegisters_idem (st : b2RegisterState) :
    b2InitializeContactRegisters (b2InitializeContactRegisters st) =
      b2InitializeContactRegisters st := by
  by_cases h : st.s_initialized = false
  · unfold b2InitializeContactRegisters
    rw [if_pos h]
    rfl
  · have e : b2InitializeContactRegisters st = st := by
      unfold b2InitializeContactRegisters
      rw [if_neg h]
    rw [e, e]

theorem b2InitializeContactRegisters_iterate (n : Nat) :
    Nat.iterate b2InitializeContactRegisters (n + 1) b2RegisterState_zero =
      b2InitializeContactRegisters b2RegisterState_zero := by
  induction n with
  | zero => rfl
  | succ k ih =>
    rw [Function.iterate_succ_apply', ih, b2InitializeContactRegisters_idem]

/-- C23. The registry after one or more calls of `b2InitializeContactRegisters` on the
zero-initialised statics: for all shape types `t1`, `t2` the function of `[t1][t2]` is that
of `[t2][t1]`; it is null exactly when both types are among segment and chain segment; a
diagonal entry is null or primary; and off the diagonal a non-null pair has exactly one
primary entry.  A second call of the initializer changes nothing, whatever the state. -/
theorem b2InitializeContactRegisters_table (n : Nat) (t1 t2 : b2ShapeType) :
    ((Nat.iterate b2InitializeContactRegisters (n + 1) b2RegisterState_zero).s_registers
        t1 t2).fcn =
      ((Nat.iterate b2InitializeContactRegisters (n + 1) b2RegisterState_zero).s_registers
        t2 t1).fcn ∧
    (((Nat.iterate b2InitializeContactRegisters (n + 1) b2RegisterState_zero).s_registers
        t1 t2).fcn = none ↔
      ((t1 = b2ShapeType.b2_segmentShape ∨ t1 = b2ShapeType.b2_chainSegmentShape) ∧
        (t2 = b2ShapeType.b2_segmentShape ∨ t2 = b2ShapeType.b2_chainSegmentShape))) ∧
    (((Nat.iterate b2InitializeContactRegisters (n + 1) b2RegisterState_zero).s_registers
        t1 t1).fcn = none ∨
      ((Nat.iterate b2InitializeContactRegisters (n + 1) b2RegisterState_zero).s_registers
        t1 t1).primary = true) ∧
    (t1 = t2 ∨
      ((Nat.iterate b2InitializeContactRegisters (n + 1) b2RegisterState_zero).s_registers
        t1 t2).fcn = none ∨
      ((Nat.iterate b2InitializeContactRegisters (n + 1) b2RegisterState_zero).s_registers
        t1 t2).primary ≠
      ((Nat.iterate b2InitializeContactRegisters (n + 1) b2RegisterState_zero).s_registers
        t2 t1).primary) ∧
    (Nat.iterate b2InitializeContactRegisters (n + 1) b2RegisterState_zero).s_initialized
      = true ∧
    (∀ st : b2RegisterState,
      b2InitializeContactRegisters (b2InitializeContactRegisters st) =
        b2InitializeContactRegisters st) := by
  rw [b2InitializeContactRegisters_iterate]
  refine ⟨?_, ?_, ?_, ?_, rfl, b2InitializeContactRegisters_idem⟩
  · cases t1 <;> cases t2 <;> rfl
  · cases t1 <;> cases t2 <;> decide
  · cases t1 <;> decide
  · cases t1 <;> cases t2 <;> decide

/-- C26. Warm start replays the accumulated impulses: for states `sA = *stateA`,
`sB = *stateB` behind two different state pointers, with `L = linearImpulse`,
`a = springImpulse + motorImpulse + lowerImpulse - upperImpulse` and `rA`, `rB` the frame
anchors rotated by each state's `deltaRotation`, `b2WarmStartRevoluteJoint` returns and
leaves `vA - invMassA * L`, `wA - invIA * (rA x L + a)` in state A and `vB + invMassB * L`,
`wB + invIB * (rB x L + a)` in state B, every other field of the two states being kept.
The function has no store through `joint`: it returns the states only. -/
theorem b2WarmStartRevoluteJoint_replays (m : b2MathEnv) (base : b2JointSim)
    (context : b2StepContext) (sA sB : b2BodyState)
    (hsA : (b2StateMem.mk b2_identityBodyState context.states).get base.revoluteJoint.indexA =
      some sA)
    (hsB : (b2StateMem.mk b2_identityBodyState context.states).get base.revoluteJoint.indexB =
      some sB)
    (hne : base.revoluteJoint.indexA ≠ base.revoluteJoint.indexB) :
    ∃ context' mem',
      b2WarmStartRevoluteJoint m base context = some context' ∧
      b2WarmStartRevoluteJoint_mem m base (b2StateMem.mk b2_identityBodyState context.states) =
        some mem' ∧
      context'.states = mem'.states ∧
      mem'.get base.revoluteJoint.indexA = some { sA with
        linearVelocity :=
          ⟨sA.linearVelocity.x - base.invMassA * base.revoluteJoint.linearImpulse.x,
            sA.linearVelocity.y - base.invMassA * base.revoluteJoint.linearImpulse.y⟩
        angularVelocity := sA.angularVelocity - base.invIA *
          (((m.b2RotateVector sA.deltaRotation base.revoluteJoint.frameA.p).x *
              base.revoluteJoint.linearImpulse.y -
            (m.b2RotateVector sA.deltaRotation base.revoluteJoint.frameA.p).y *
              base.revoluteJoint.linearImpulse.x) +
            (base.revoluteJoint.springImpulse + base.revoluteJoint.motorImpulse +
              base.revoluteJoint.lowerImpulse - base.revoluteJoint.upperImpulse)) } ∧
      mem'.get base.revoluteJoint.indexB = some { sB with
        linearVelocity :=
          ⟨sB.linearVelocity.x + base.invMassB * base.revoluteJoint.linearImpulse.x,
            sB.linearVelocity.y + base.invMassB * base.revoluteJoint.linearImpulse.y⟩
        angularVelocity := sB.angularVelocity + base.invIB *
          (((m.b2RotateVector sB.deltaRotation base.revoluteJoint.frameB.p).x *
              base.revoluteJoint.linearImpulse.y -
            (m.b2RotateVector sB.deltaRotation base.revoluteJoint.frameB.p).y *
              base.revoluteJoint.linearImpulse.x) +
            (base.revoluteJoint.springImpulse + base.revoluteJoint.motorImpulse +
              base.revoluteJoint.lowerImpulse - base.revoluteJoint.upperImpulse)) } := by
  have hA := b2ValidStateIndex_of_get _ _ _ hsA
  have hB := b2ValidStateIndex_of_get _ _ _ hsB
  obtain ⟨mem', hw⟩ := b2WarmStartRevoluteJoint_mem_of_valid m base
    ⟨b2_identityBodyState, context.states⟩ hA hB
  refine ⟨{ context with states := mem'.states }, mem', ?_, hw, rfl, ?_, ?_⟩
  · simp only [b2WarmStartRevoluteJoint, hw, Option.bind_eq_bind, Option.some_bind,
      Option.pure_def]
  all_goals
    unfold b2WarmStartRevoluteJoint_mem at hw
    simp only [Option.bind_eq_bind, Option.bind_eq_some] at hw
    obtain ⟨sA', hsA', sB', hsB', m1, h1, m2, h2, m3, h3, h4⟩ := hw
    rw [hsA] at hsA'
    rw [hsB] at hsB'
    cases hsA'
    cases hsB'
    obtain ⟨g1, o1⟩ := b2StateMem_modify_get _ _ _ _ h1
    obtain ⟨g2, o2⟩ := b2StateMem_modify_get _ _ _ _ h2
    obtain ⟨g3, o3⟩ := b2StateMem_modify_get _ _ _ _ h3
    obtain ⟨g4, o4⟩ := b2StateMem_modify_get _ _ _ _ h4
  · rw [o4 _ hne, o3 _ hne, g2, g1, hsA]
    rfl
  · rw [g4, g3, o2 _ (Ne.symm hne), o1 _ (Ne.symm hne), hsB]
    rfl

theorem b2WarmStartRevoluteJoint_replays_witness :
    ∃ context' mem',
      b2WarmStartRevoluteJoint b2MathEnv_sample b2JointSim_sample b2StepContext_sample =
        some context' ∧
      b2WarmStartRevoluteJoint_mem b2MathEnv_sample b2JointSim_sample
        (b2StateMem.mk b2_identityBodyState b2StepContext_sample.states) = some mem' ∧
      context'.states = mem'.states ∧
      mem'.get 0 = some ⟨⟨1, 0⟩, -1, 0, ⟨0, 0⟩, ⟨1, 0⟩⟩ := by
  obtain ⟨c, mem', h1, h2, h3, h4, -⟩ :=
    b2WarmStartRevoluteJoint_replays b2MathEnv_sample b2JointSim_sample b2StepContext_sample
      ⟨⟨1, 0⟩, 3, 0, ⟨0, 0⟩, ⟨1, 0⟩⟩ b2_identityBodyState rfl rfl (by decide)
  exact ⟨c, mem', h1, h2, h3, h4.trans (by norm_num [b2JointSim_sample, b2MathEnv_sample])⟩

theorem b2AxialAccounted_refl (iA iB : ℚ) (j : b2RevoluteJoint) (wA wB : ℚ) :
    b2AxialAccounted iA iB j wA wB (j, wA, wB) := by
  unfold b2AxialAccounted
  refine ⟨?_, ?_, rfl⟩ <;> simp

theorem b2AxialAccounted_trans (iA iB : ℚ) (j : b2RevoluteJoint) (wA wB : ℚ)
    (r s : b2RevoluteJoint × ℚ × ℚ) (h1 : b2AxialAccounted iA iB j wA wB r)
    (h2 : b2AxialAccounted iA iB r.1 r.2.1 r.2.2 s) : b2AxialAccounted iA iB j wA wB s := by
  unfold b2AxialAccounted at *
  obtain ⟨a1, b1, c1⟩ := h1
  obtain ⟨a2, b2, c2⟩ := h2
  refine ⟨?_, ?_, c2.trans c1⟩
  · rw [a2, a1]; ring
  · rw [b2, b1]; ring

theorem b2SolveRevoluteJoint_spring_accounted (m : b2MathEnv) (joint : b2RevoluteJoint)
    (iA iB : ℚ) (relQ : b2Rot) (wA wB : ℚ) :
    b2AxialAccounted iA iB joint wA wB
      (b2SolveRevoluteJoint_spring m joint iA iB relQ wA wB) := by
  unfold b2AxialAccounted b2SolveRevoluteJoint_spring b2AxialImpulse
  refine ⟨?_, ?_, rfl⟩ <;> dsimp only <;> ring

theorem b2SolveRevoluteJoint_motor_accounted (joint : b2RevoluteJoint) (iA iB h wA wB : ℚ) :
    b2AxialAccounted iA iB joint wA wB (b2SolveRevoluteJoint_motor joint iA iB h wA wB) := by
  unfold b2AxialAccounted b2SolveRevoluteJoint_motor b2AxialImpulse
  refine ⟨?_, ?_, rfl⟩ <;> dsimp only <;> ring

theorem b2SolveRevoluteJoint_lower_accounted (joint : b2RevoluteJoint) (cs : b2Softness)
    (iA iB inv_h : ℚ) (useBias : Bool) (jointAngle wA wB : ℚ) :
    b2AxialAccounted iA iB joint wA wB
      (b2SolveRevoluteJoint_lower joint cs iA iB inv_h useBias jointAngle wA wB) := by
  unfold b2AxialAccounted b2SolveRevoluteJoint_lower b2AxialImpulse
  split_ifs <;> refine ⟨?_, ?_, rfl⟩ <;> dsimp only <;> ring

theorem b2SolveRevoluteJoint_upper_accounted (joint : b2RevoluteJoint) (cs : b2Softness)
    (iA iB inv_h : ℚ) (useBias : Bool) (jointAngle wA wB : ℚ) :
    b2AxialAccounted iA iB joint wA wB
      (b2SolveRevoluteJoint_upper joint cs iA iB inv_h useBias jointAngle wA wB) := by
  unfold b2AxialAccounted b2SolveRevoluteJoint_upper b2AxialImpulse
  split_ifs <;> refine ⟨?_, ?_, rfl⟩ <;> dsimp only <;> ring

theorem b2SolveRevoluteJoint_stage3_accounted (m : b2MathEnv) (base : b2JointSim)
    (h inv_h : ℚ) (useBias : Bool) (sA sB : b2BodyState) :
    b2AxialAccounted base.invIA base.invIB base.revoluteJoint sA.angularVelocity
      sB.angularVelocity (b2SolveRevoluteJoint_stage3 m base h inv_h useBias sA sB) := by
  have h1 : b2AxialAccounted base.invIA base.invIB base.revoluteJoint sA.angularVelocity
      sB.angularVelocity (b2SolveRevoluteJoint_stage1 m base sA sB) := by
    unfold b2SolveRevoluteJoint_stage1
    split_ifs
    · exact b2SolveRevoluteJoint_spring_accounted _ _ _ _ _ _ _
    · exact b2AxialAccounted_refl _ _ _ _ _
  have h2 : b2AxialAccounted base.invIA base.invIB base.revoluteJoint sA.angularVelocity
      sB.angularVelocity (b2SolveRevoluteJoint_stage2 m base h sA sB) := by
    unfold b2SolveRevoluteJoint_stage2
    dsimp only
    split_ifs
    · exact b2AxialAccounted_trans _ _ _ _ _ _ _ h1
        (b2SolveRevoluteJoint_motor_accounted _ _ _ _ _ _)
    · exact h1
  unfold b2SolveRevoluteJoint_stage3
  dsimp only
  split_ifs
  · exact b2AxialAccounted_trans _ _ _ _ _ _ _
      (b2AxialAccounted_trans _ _ _ _ _ _ _ h2
        (b2SolveRevoluteJoint_lower_accounted _ _ _ _ _ _ _ _ _))
      (b2SolveRevoluteJoint_upper_accounted _ _ _ _ _ _ _ _ _)
  · exact h2

theorem b2SolveRevoluteJoint_point_accounted (m : b2MathEnv) (joint : b2RevoluteJoint)
    (cs : b2Softness) (mA mB iA iB : ℚ) (useBias : Bool) (rA rB dcA dcB : b2Vec2)
    (vA : b2Vec2) (wA : ℚ) (vB : b2Vec2) (wB : ℚ) :
    let r := b2SolveRevoluteJoint_point m joint cs mA mB iA iB useBias rA rB dcA dcB vA wA vB wB
    b2AxialImpulse r.1 = b2AxialImpulse joint ∧
    r.2.1 = b2MulSub vA mA (b2Sub r.1.linearImpulse joint.linearImpulse) ∧
    r.2.2.1 = wA - iA * b2Cross rA (b2Sub r.1.linearImpulse joint.linearImpulse) ∧
    r.2.2.2.1 = b2MulAdd vB mB (b2Sub r.1.linearImpulse joint.linearImpulse) ∧
    r.2.2.2.2 = wB + iB * b2Cross rB (b2Sub r.1.linearImpulse joint.linearImpulse) := by
  intro r
  have hL : ∀ (L : b2Vec2) (ix iy : ℚ), b2Sub ⟨L.x + ix, L.y + iy⟩ L = ⟨ix, iy⟩ := by
    intro L ix iy
    simp [b2Sub]
  simp only [r]
  unfold b2SolveRevoluteJoint_point
  split_ifs <;> dsimp only <;> rw [hL] <;> exact ⟨rfl, rfl, rfl, rfl, rfl⟩

theorem b2WarmStartRevoluteJoint_mem_get (m : b2MathEnv) (base : b2JointSim)
    (mem : b2StateMem) (sA sB : b2BodyState)
    (hsA : mem.get base.revoluteJoint.indexA = some sA)
    (hsB : mem.get base.revoluteJoint.indexB = some sB)
    (hne : base.revoluteJoint.indexA ≠ base.revoluteJoint.indexB) :
    ∃ mem', b2WarmStartRevoluteJoint_mem m base mem = some mem' ∧
      mem'.get base.revoluteJoint.indexA = some (b2ImpulseOnA base
        (m.b2RotateVector sA.deltaRotation base.revoluteJoint.frameA.p)
        base.revoluteJoint.linearImpulse (b2AxialImpulse base.revoluteJoint) sA) ∧
      mem'.get base.revoluteJoint.indexB = some (b2ImpulseOnB base
        (m.b2RotateVector sB.deltaRotation base.revoluteJoint.frameB.p)
        base.revoluteJoint.linearImpulse (b2AxialImpulse base.revoluteJoint) sB) := by
  have hA := b2ValidStateIndex_of_get _ _ _ hsA
  have hB := b2ValidStateIndex_of_get _ _ _ hsB
  obtain ⟨mem', hw⟩ := b2WarmStartRevoluteJoint_mem_of_valid m base mem hA hB
  refine ⟨mem', hw, ?_, ?_⟩
  all_goals
    unfold b2WarmStartRevoluteJoint_mem at hw
    simp only [Option.bind_eq_bind, Option.bind_eq_some] at hw
    obtain ⟨sA', hsA', sB', hsB', m1, h1, m2, h2, m3, h3, h4⟩ := hw
    rw [hsA] at hsA'
    rw [hsB] at hsB'
    cases hsA'
    cases hsB'
    obtain ⟨g1, o1⟩ := b2StateMem_modify_get _ _ _ _ h1
    obtain ⟨g2, o2⟩ := b2StateMem_modify_get _ _ _ _ h2
    obtain ⟨g3, o3⟩ := b2StateMem_modify_get _ _ _ _ h3
    obtain ⟨g4, o4⟩ := b2StateMem_modify_get _ _ _ _ h4
  · rw [o4 _ hne, o3 _ hne, g2, g1, hsA]
    rfl
  · rw [g4, g3, o2 _ (Ne.symm hne), o1 _ (Ne.symm hne), hsB]
    rfl

theorem b2SolveRevoluteJoint_store_get_exact (mem mem' : b2StateMem) (stateA stateB : Int)
    (vA : b2Vec2) (wA : ℚ) (vB : b2Vec2) (wB : ℚ) (sA sB : b2BodyState)
    (hsA : mem.get stateA = some sA) (hsB : mem.get stateB = some sB)
    (hne : stateA ≠ stateB)
    (h : b2SolveRevoluteJoint_store mem stateA stateB vA wA vB wB = some mem') :
    mem'.get stateA = some { sA with linearVelocity := vA, angularVelocity := wA } ∧
    mem'.get stateB = some { sB with linearVelocity := vB, angularVelocity := wB } := by
  unfold b2SolveRevoluteJoint_store at h
  simp only [Option.bind_eq_bind, Option.bind_eq_some] at h
  obtain ⟨m1, h1, m2, h2, m3, h3, h4⟩ := h
  obtain ⟨g1, o1⟩ := b2StateMem_modify_get _ _ _ _ h1
  obtain ⟨g2, o2⟩ := b2StateMem_modify_get _ _ _ _ h2
  obtain ⟨g3, o3⟩ := b2StateMem_modify_get _ _ _ _ h3
  obtain ⟨g4, o4⟩ := b2StateMem_modify_get _ _ _ _ h4
  constructor
  · rw [o4 _ hne, o3 _ hne, g2, g1, hsA]
    rfl
  · rw [g4, g3, o2 _ (Ne.symm hne), o1 _ (Ne.symm hne), hsB]
    rfl

theorem b2SolveRevoluteJoint_compute_accounted (m : b2MathEnv) (base : b2JointSim)
    (h inv_h : ℚ) (useBias : Bool) (sA sB : b2BodyState) :
    let r := b2SolveRevoluteJoint_compute m base h inv_h useBias sA sB
    ({ sA with linearVelocity := r.2.1, angularVelocity := r.2.2.1 } : b2BodyState) =
      b2ImpulseOnA base (m.b2RotateVector sA.deltaRotation base.revoluteJoint.frameA.p)
        (b2ImpulseDelta base.revoluteJoint r.1).linearImpulse
        (b2AxialImpulse (b2ImpulseDelta base.revoluteJoint r.1)) sA ∧
    ({ sB with linearVelocity := r.2.2.2.1, angularVelocity := r.2.2.2.2 } : b2BodyState) =
      b2ImpulseOnB base (m.b2RotateVector sB.deltaRotation base.revoluteJoint.frameB.p)
        (b2ImpulseDelta base.revoluteJoint r.1).linearImpulse
        (b2AxialImpulse (b2ImpulseDelta base.revoluteJoint r.1)) sB := by
  intro r
  have hr : r = b2SolveRevoluteJoint_compute m base h inv_h useBias sA sB := rfl
  rw [b2SolveRevoluteJoint_compute_eq] at hr
  obtain ⟨fa, fb⟩ := b2SolveRevoluteJoint_stage3_frames m base h inv_h useBias sA sB
  obtain ⟨a3, b3, l3⟩ := b2SolveRevoluteJoint_stage3_accounted m base h inv_h useBias sA sB
  rw [fa, fb] at hr
  obtain ⟨p0, p1, p2, p3, p4⟩ := b2SolveRevoluteJoint_point_accounted m
    (b2SolveRevoluteJoint_stage3 m base h inv_h useBias sA sB).1
    base.constraintSoftness base.invMassA base.invMassB base.invIA base.invIB useBias
    (m.b2RotateVector sA.deltaRotation base.revoluteJoint.frameA.p)
    (m.b2RotateVector sB.deltaRotation base.revoluteJoint.frameB.p)
    sA.deltaPosition sB.deltaPosition sA.linearVelocity
    (b2SolveRevoluteJoint_stage3 m base h inv_h useBias sA sB).2.1 sB.linearVelocity
    (b2SolveRevoluteJoint_stage3 m base h inv_h useBias sA sB).2.2
  rw [← hr] at p0 p1 p2 p3 p4
  rw [l3] at p1 p2 p3 p4
  rw [a3] at p2
  rw [b3] at p4
  rw [← p0] at p2 p4
  unfold b2ImpulseOnA b2ImpulseOnB
  rw [p1, p2, p3, p4]
  simp only [b2ImpulseDelta, b2AxialImpulse, b2MulSub, b2MulAdd, b2Sub, b2Cross]
  constructor
  · congr 1
    ring
  · congr 1
    ring

theorem b2StateMem_get_of_array (mem : b2StateMem) (i : Int) (s : b2BodyState)
    (h : b2Array_Get mem.states i = some s) :
    i ≠ B2_NULL_INDEX ∧ mem.get i = some s ∧
      ∀ mem' : b2StateMem, mem'.get i = b2Array_Get mem'.states i := by
  obtain ⟨h0, -⟩ := b2Array_Get_toNat _ _ _ h
  have hn : i ≠ B2_NULL_INDEX := by
    unfold B2_NULL_INDEX
    omega
  refine ⟨hn, ?_, fun mem' => ?_⟩
  · unfold b2StateMem.get
    rw [if_neg hn, h]
  · unfold b2StateMem.get
    rw [if_neg hn]

/-- C29. Accumulated impulses account for every velocity change of the solver: for a joint
whose two bodies are awake (`indexA`, `indexB` are two different entries of
`context->states`, holding `sA` and `sB`), `b2SolveRevoluteJoint` returns and, with `dL` the
change of `linearImpulse`, `da` the change of
`springImpulse + motorImpulse + lowerImpulse - upperImpulse` and `rA`, `rB` the frame
anchors rotated by the states' `deltaRotation`, leaves state A with `vA - invMassA * dL`,
`wA - invIA * (rA x dL + da)` and state B with `vB + invMassB * dL`,
`wB + invIB * (rB x dL + da)`, all other fields of the two states kept; these are the states
`b2WarmStartRevoluteJoint` leaves at the two entries for a joint whose accumulated impulses
are those changes. -/
theorem b2SolveRevoluteJoint_impulses_account (m : b2MathEnv) (base : b2JointSim)
    (context : b2StepContext) (useBias : Bool) (sA sB : b2BodyState)
    (hsA : b2Array_Get context.states base.revoluteJoint.indexA = some sA)
    (hsB : b2Array_Get context.states base.revoluteJoint.indexB = some sB)
    (hne : base.revoluteJoint.indexA ≠ base.revoluteJoint.indexB) :
    ∃ base' context',
      b2SolveRevoluteJoint m base context useBias = some (base', context') ∧
      b2Array_Get context'.states base.revoluteJoint.indexA = some (b2ImpulseOnA base
        (m.b2RotateVector sA.deltaRotation base.revoluteJoint.frameA.p)
        (b2ImpulseDelta base.revoluteJoint base'.revoluteJoint).linearImpulse
        (b2AxialImpulse (b2ImpulseDelta base.revoluteJoint base'.revoluteJoint)) sA) ∧
      b2Array_Get context'.states base.revoluteJoint.indexB = some (b2ImpulseOnB base
        (m.b2RotateVector sB.deltaRotation base.revoluteJoint.frameB.p)
        (b2ImpulseDelta base.revoluteJoint base'.revoluteJoint).linearImpulse
        (b2AxialImpulse (b2ImpulseDelta base.revoluteJoint base'.revoluteJoint)) sB) ∧
      ∃ contextW,
        b2WarmStartRevoluteJoint m
          { base with revoluteJoint := b2ImpulseDelta base.revoluteJoint base'.revoluteJoint }
          context = some contextW ∧
        b2Array_Get contextW.states base.revoluteJoint.indexA =
          b2Array_Get context'.states base.revoluteJoint.indexA ∧
        b2Array_Get contextW.states base.revoluteJoint.indexB =
          b2Array_Get context'.states base.revoluteJoint.indexB := by
  obtain ⟨nA, gA, aA⟩ := b2StateMem_get_of_array ⟨b2_identityBodyState, context.states⟩ _ _ hsA
  obtain ⟨nB, gB, aB⟩ := b2StateMem_get_of_array ⟨b2_identityBodyState, context.states⟩ _ _ hsB
  have hA := b2ValidStateIndex_of_get _ _ _ gA
  have hB := b2ValidStateIndex_of_get _ _ _ gB
  obtain ⟨sA', sB', mem', hsA', hsB', hst, hrun⟩ :=
    b2SolveRevoluteJoint_returns m base context useBias hA hB
  rw [gA] at hsA'
  rw [gB] at hsB'
  cases hsA'
  cases hsB'
  obtain ⟨e1, e2⟩ := b2SolveRevoluteJoint_store_get_exact _ _ _ _ _ _ _ _ sA sB gA gB hne hst
  obtain ⟨c1, c2⟩ := b2SolveRevoluteJoint_compute_accounted m base context.h context.inv_h
    useBias sA sB
  rw [c1] at e1
  rw [c2] at e2
  rw [aA mem'] at e1
  rw [aB mem'] at e2
  refine ⟨_, _, hrun, e1, e2, ?_⟩
  obtain ⟨memW, hw, w1, w2⟩ := b2WarmStartRevoluteJoint_mem_get m
    { base with revoluteJoint := (b2ImpulseDelta base.revoluteJoint
        (b2SolveRevoluteJoint_compute m base context.h context.inv_h useBias sA sB).1) }
    ⟨b2_identityBodyState, context.states⟩ sA sB gA gB hne
  refine ⟨{ context with states := memW.states }, ?_, ?_, ?_⟩
  · simp only [b2WarmStartRevoluteJoint, hw, Option.bind_eq_bind, Option.some_bind,
      Option.pure_def]
  · rw [e1, ← aA memW]
    exact w1
  · rw [e2, ← aB memW]
    exact w2

theorem b2SolveRevoluteJoint_impulses_account_witness :
    ∃ base' context',
      b2SolveRevoluteJoint b2MathEnv_sample b2JointSim_twoAwake b2StepContext_twoAwake true =
        some (base', context') ∧
      b2Array_Get context'.states 0 = some (b2ImpulseOnA b2JointSim_twoAwake
        (b2MathEnv_sample.b2RotateVector ⟨1, 0⟩ ⟨1, 0⟩)
        (b2ImpulseDelta b2JointSim_twoAwake.revoluteJoint base'.revoluteJoint).linearImpulse
        (b2AxialImpulse (b2ImpulseDelta b2JointSim_twoAwake.revoluteJoint base'.revoluteJoint))
        ⟨⟨1, 0⟩, 3, 0, ⟨0, 0⟩, ⟨1, 0⟩⟩) ∧
      b2Array_Get context'.states 1 = some (b2ImpulseOnB b2JointSim_twoAwake
        (b2MathEnv_sample.b2RotateVector ⟨1, 0⟩ ⟨0, 0⟩)
        (b2ImpulseDelta b2JointSim_twoAwake.revoluteJoint base'.revoluteJoint).linearImpulse
        (b2AxialImpulse (b2ImpulseDelta b2JointSim_twoAwake.revoluteJoint base'.revoluteJoint))
        ⟨⟨0, 2⟩, -1, 0, ⟨0, 0⟩, ⟨1, 0⟩⟩) := by
  obtain ⟨b, c, h1, h2, h3, -⟩ :=
    b2SolveRevoluteJoint_impulses_account b2MathEnv_sample b2JointSim_twoAwake
      b2StepContext_twoAwake true ⟨⟨1, 0⟩, 3, 0, ⟨0, 0⟩, ⟨1, 0⟩⟩
      ⟨⟨0, 2⟩, -1, 0, ⟨0, 0⟩, ⟨1, 0⟩⟩ rfl rfl (by decide)
  exact ⟨b, c, h1, h2, h3⟩

theorem b2Manifold_setPoint_pointCount (m m' : b2Manifold) (i : Int) (p : b2ManifoldPoint)
    (h : m.setPoint i p = some m') : m'.pointCount = m.pointCount := by
  unfold b2Manifold.setPoint at h
  split_ifs at h <;> cases h <;> rfl

theorem b2UpdateContact_warmStart_pointCount (cA cB : b2Vec2) :
    ∀ (n : Nat) (i : Int) (old m : b2Manifold) (r : b2Manifold × b2Manifold),
      b2UpdateContact_warmStart cA cB n i old m = some r → r.2.pointCount = m.pointCount := by
  intro n
  induction n with
  | zero =>
    intro i old m r h
    unfold b2UpdateContact_warmStart at h
    cases h
    rfl
  | succ k ih =>
    intro i old m r h
    unfold b2UpdateContact_warmStart at h
    simp only [Option.bind_eq_bind, Option.bind_eq_some] at h
    obtain ⟨mp2, -, q, -, m2, hm2, h⟩ := h
    rw [ih _ _ _ _ h]
    exact b2Manifold_setPoint_pointCount _ _ _ _ hm2

/-- The steps of `b2UpdateContact`: refresh, pre-solve, speculative trimming, the flag
stores, the matching loop and the touching flag. -/
theorem b2UpdateContact_steps (env : b2Env)
    (regs : b2ShapeType → b2ShapeType → b2ContactRegister) (world : b2World)
    (contactSim : b2ContactSim) (shapeA : b2Shape) (transformA : b2Transform)
    (centerOffsetA : b2Vec2) (shapeB : b2Shape) (transformB : b2Transform)
    (centerOffsetB : b2Vec2) (touching : Bool) (sim' : b2ContactSim)
    (h : b2UpdateContact env regs world contactSim shapeA transformA centerOffsetA shapeB
      transformB centerOffsetB = some (touching, sim')) :
    ∃ fcn r m,
      (regs shapeA.type shapeB.type).fcn = some fcn ∧
      b2UpdateContact_preSolve env world
        (b2UpdateContact_refresh env world fcn contactSim shapeA transformA shapeB transformB)
        shapeA shapeB
        (decide ((b2UpdateContact_refresh env world fcn contactSim shapeA transformA shapeB
          transformB).manifold.pointCount > 0))
        (b2UpdateContact_refresh env world fcn contactSim shapeA transformA shapeB
          transformB).manifold.pointCount = some r ∧
      b2UpdateContact_warmStart centerOffsetA centerOffsetB
        (b2UpdateContact_speculative env world r.2.1 r.2.2).1.toNat 0 contactSim.manifold
        (b2UpdateContact_hitFlag env r.1 (b2UpdateContact_speculative env world r.2.1 r.2.2).1
          contactSim.manifold shapeA shapeB
          (b2UpdateContact_speculative env world r.2.1 r.2.2).2).manifold = some m ∧
      touching = r.1 ∧
      sim' = b2UpdateContact_touchingFlag env r.1
        { b2UpdateContact_hitFlag env r.1 (b2UpdateContact_speculative env world r.2.1 r.2.2).1
            contactSim.manifold shapeA shapeB
            (b2UpdateContact_speculative env world r.2.1 r.2.2).2 with manifold := m.2 } := by
  unfold b2UpdateContact at h
  simp only [Option.bind_eq_bind, Option.bind_eq_some, Option.pure_def, Option.some.injEq,
    Prod.mk.injEq] at h
  obtain ⟨fcn, hfcn, r, hr, m, hm, ht, hsim⟩ := h
  exact ⟨fcn, r, m, hfcn, hr, hm, ht.symm, hsim.symm⟩

theorem b2UpdateContact_refresh_manifold (env : b2Env) (world : b2World) (fcn : b2ManifoldFcn)
    (contactSim : b2ContactSim) (shapeA : b2Shape) (transformA : b2Transform) (shapeB : b2Shape)
    (transformB : b2Transform) :
    (b2UpdateContact_refresh env world fcn contactSim shapeA transformA shapeB
      transformB).manifold =
      (env.collide fcn shapeA transformA shapeB transformB contactSim.cache).1 ∧
    (b2UpdateContact_refresh env world fcn contactSim shapeA transformA shapeB
      transformB).simFlags = contactSim.simFlags := by
  unfold b2UpdateContact_refresh
  split_ifs <;> exact ⟨rfl, rfl⟩

/-- The two outcomes of the pre-solve block: nothing changes (and the result keeps
`touching`), or the callback vetoes a touching contact and the point count becomes 0. -/
theorem b2UpdateContact_preSolve_cases (env : b2Env) (world : b2World) (cs : b2ContactSim)
    (shapeA shapeB : b2Shape) (touching : Bool) (pointCount : Int)
    (r : Bool × Int × b2ContactSim)
    (h : b2UpdateContact_preSolve env world cs shapeA shapeB touching pointCount = some r) :
    r = (touching, pointCount, cs) ∨
    (touching = true ∧
      r = (false, 0, { cs with manifold := { cs.manifold with pointCount := 0 } })) := by
  unfold b2UpdateContact_preSolve at h
  split_ifs at h with hc
  · simp only [Option.bind_eq_bind, Option.bind_eq_some, Option.pure_def] at h
    obtain ⟨f, -, best, -, h⟩ := h
    split_ifs at h with hv
    · simp only [Option.some.injEq] at h
      right
      refine ⟨hc.1, ?_⟩
      rw [← h, hv]
    · simp only [Option.some.injEq] at h
      left
      rw [← h]
      have : f ⟨shapeA.id + 1, world.worldId, shapeA.generation⟩
          ⟨shapeB.id + 1, world.worldId, shapeB.generation⟩ best.2 cs.manifold.normal = true := by
        simpa using hv
      rw [this, hc.1]
  · simp only [Option.pure_def, Option.some.injEq] at h
    exact Or.inl h.symm

theorem b2Nat_or_and_self (a m : Nat) : (a ||| m) &&& m = m := by
  apply Nat.eq_of_testBit_eq
  intro i
  rw [Nat.testBit_and, Nat.testBit_or]
  cases a.testBit i <;> cases m.testBit i <;> rfl

theorem b2Nat_or_and_disjoint (a t m : Nat) (h : t &&& m = 0) : (a ||| t) &&& m = a &&& m := by
  apply Nat.eq_of_testBit_eq
  intro i
  have hi : (t &&& m).testBit i = false := by rw [h]; exact Nat.zero_testBit i
  rw [Nat.testBit_and] at hi
  rw [Nat.testBit_and, Nat.testBit_or, Nat.testBit_and]
  revert hi
  cases a.testBit i <;> cases t.testBit i <;> cases m.testBit i <;> simp

theorem b2UpdateContact_speculative_props (env : b2Env) (world : b2World) (cs : b2ContactSim) :
    (b2UpdateContact_speculative env world cs.manifold.pointCount cs).2.simFlags = cs.simFlags ∧
    (b2UpdateContact_speculative env world cs.manifold.pointCount cs).1 =
      (b2UpdateContact_speculative env world cs.manifold.pointCount cs).2.manifold.pointCount ∧
    (0 < (b2UpdateContact_speculative env world cs.manifold.pointCount cs).1 ↔
      0 < cs.manifold.pointCount) := by
  unfold b2UpdateContact_speculative
  split_ifs with h1 h2
  · refine ⟨rfl, rfl, ?_⟩
    dsimp only
    rw [h1.2]
    decide
  · exact ⟨rfl, rfl, Iff.rfl⟩
  · exact ⟨rfl, rfl, Iff.rfl⟩

theorem b2UpdateContact_hitFlag_simFlags (env : b2Env) (touching : Bool) (pointCount : Int)
    (old : b2Manifold) (shapeA shapeB : b2Shape) (cs : b2ContactSim) :
    (b2UpdateContact_hitFlag env touching pointCount old shapeA shapeB cs).simFlags =
      if touching = true ∧ (shapeA.enableHitEvents = true ∨ shapeB.enableHitEvents = true) then
        cs.simFlags ||| env.b2_simEnableHitEvent
      else cs.simFlags &&& b2Not32 env.b2_simEnableHitEvent := by
  unfold b2UpdateContact_hitFlag
  split_ifs <;> rfl

/-- The flags and the point count that `b2UpdateContact` leaves, in terms of the contact sim
`cs` that leaves the speculative block. -/
theorem b2UpdateContact_result (env : b2Env)
    (regs : b2ShapeType → b2ShapeType → b2ContactRegister) (world : b2World)
    (contactSim : b2ContactSim) (shapeA : b2Shape) (transformA : b2Transform)
    (centerOffsetA : b2Vec2) (shapeB : b2Shape) (transformB : b2Transform)
    (centerOffsetB : b2Vec2) (touching : Bool) (sim' : b2ContactSim)
    (h : b2UpdateContact env regs world contactSim shapeA transformA centerOffsetA shapeB
      transformB centerOffsetB = some (touching, sim')) :
    (touching = true ↔ 0 < sim'.manifold.pointCount) ∧
    sim'.simFlags = b2UpdateContact_touchingFlag_flags env touching
      (if touching = true ∧ (shapeA.enableHitEvents = true ∨ shapeB.enableHitEvents = true) then
        contactSim.simFlags ||| env.b2_simEnableHitEvent
      else contactSim.simFlags &&& b2Not32 env.b2_simEnableHitEvent) := by
  obtain ⟨fcn, r, m, -, hr, hm, ht, hsim⟩ := b2UpdateContact_steps env regs world contactSim
    shapeA transformA centerOffsetA shapeB transformB centerOffsetB touching sim' h
  obtain ⟨hman, hflags⟩ := b2UpdateContact_refresh_manifold env world fcn contactSim shapeA
    transformA shapeB transformB
  have hpc := b2UpdateContact_warmStart_pointCount _ _ _ _ _ _ _ hm
  rw [b2UpdateContact_hitFlag_manifold] at hpc
  have hfin : sim'.manifold.pointCount =
      (b2UpdateContact_speculative env world r.2.1 r.2.2).2.manifold.pointCount := by
    rw [hsim, b2UpdateContact_touchingFlag_manifold]
    exact hpc
  have hsf : sim'.simFlags = b2UpdateContact_touchingFlag_flags env r.1
      (b2UpdateContact_hitFlag env r.1 (b2UpdateContact_speculative env world r.2.1 r.2.2).1
        contactSim.manifold shapeA shapeB
        (b2UpdateContact_speculative env world r.2.1 r.2.2).2).simFlags := by
    rw [hsim]
    unfold b2UpdateContact_touchingFlag b2UpdateContact_touchingFlag_flags
    split_ifs <;> rfl
  rw [b2UpdateContact_hitFlag_simFlags] at hsf
  rcases b2UpdateContact_preSolve_cases _ _ _ _ _ _ _ _ hr with hc | ⟨ht0, hc⟩
  · rw [hc] at hfin hsf ht
    dsimp only at hfin hsf ht
    obtain ⟨p1, p2, p3⟩ := b2UpdateContact_speculative_props env world
      (b2UpdateContact_refresh env world fcn contactSim shapeA transformA shapeB transformB)
    rw [p1, hflags, ← ht] at hsf
    refine ⟨?_, hsf⟩
    rw [hfin, ← p2, p3, ht]
    simp
  · rw [hc] at hfin hsf ht
    dsimp only at hfin hsf ht
    have hsp : ∀ cs : b2ContactSim, b2UpdateContact_speculative env world 0 cs = (0, cs) := by
      intro cs
      unfold b2UpdateContact_speculative
      rw [if_neg]
      intro hh
      exact absurd hh.2 (by decide)
    rw [hsp] at hfin hsf
    dsimp only at hfin hsf
    rw [hflags, ← ht] at hsf
    refine ⟨?_, hsf⟩
    rw [hfin, ht]
    simp

theorem b2UpdateContact_speculative_le (env : b2Env) (world : b2World) (cs : b2ContactSim)
    (h : cs.manifold.pointCount ≤ 2) :
    (b2UpdateContact_speculative env world cs.manifold.pointCount cs).1 ≤ 2 := by
  unfold b2UpdateContact_speculative
  split_ifs with h1 h2
  · dsimp only
    decide
  · exact h
  · exact h

theorem b2UpdateContact_preSolve_returns (env : b2Env) (world : b2World) (cs : b2ContactSim)
    (shapeA shapeB : b2Shape) (hle : cs.manifold.pointCount ≤ 2) :
    ∃ r, b2UpdateContact_preSolve env world cs shapeA shapeB
      (decide (cs.manifold.pointCount > 0)) cs.manifold.pointCount = some r := by
  unfold b2UpdateContact_preSolve
  split_ifs with hc
  · obtain ⟨hpos, hsome, -⟩ := hc
    have hpos' : 0 < cs.manifold.pointCount := by simpa using hpos
    obtain ⟨f, hf⟩ := Option.isSome_iff_exists.mp hsome
    obtain ⟨best, hbest⟩ := b2UpdateContact_deepest_of_le cs.manifold hpos' hle
      (cs.manifold.points0.separation, cs.manifold.points0.point)
    simp only [hf, hbest, Option.bind_eq_bind, Option.some_bind, Option.pure_def]
    split_ifs <;> exact ⟨_, rfl⟩
  · exact ⟨_, rfl⟩

/-- `b2UpdateContact` returns when the pair is registered and neither the stored manifold nor
the one the manifold function returns claims more than two points. -/
theorem b2UpdateContact_returns (env : b2Env)
    (regs : b2ShapeType → b2ShapeType → b2ContactRegister) (world : b2World)
    (contactSim : b2ContactSim) (shapeA : b2Shape) (transformA : b2Transform)
    (centerOffsetA : b2Vec2) (shapeB : b2Shape) (transformB : b2Transform)
    (centerOffsetB : b2Vec2) (fcn : b2ManifoldFcn)
    (hfcn : (regs shapeA.type shapeB.type).fcn = some fcn)
    (hold : contactSim.manifold.pointCount ≤ 2)
    (hle : (env.collide fcn shapeA transformA shapeB transformB contactSim.cache).1.pointCount ≤ 2) :
    ∃ touching sim', b2UpdateContact env regs world contactSim shapeA transformA centerOffsetA
      shapeB transformB centerOffsetB = some (touching, sim') := by
  obtain ⟨hman, -⟩ := b2UpdateContact_refresh_manifold env world fcn contactSim shapeA
    transformA shapeB transformB
  have hle1 : (b2UpdateContact_refresh env world fcn contactSim shapeA transformA shapeB
      transformB).manifold.pointCount ≤ 2 := by rw [hman]; exact hle
  obtain ⟨r, hr⟩ := b2UpdateContact_preSolve_returns env world _ shapeA shapeB hle1
  have hsync1 := b2UpdateContact_preSolve_sync env world _ shapeA shapeB _ r hr
  have hr2 : r.2.2.manifold.pointCount ≤ 2 := by
    rcases b2UpdateContact_preSolve_cases _ _ _ _ _ _ _ _ hr with hc | ⟨-, hc⟩
    · rw [hc]; exact hle1
    · rw [hc]
      show (0 : Int) ≤ 2
      decide
  obtain ⟨-, p2, -⟩ := b2UpdateContact_speculative_props env world r.2.2
  have p4 := b2UpdateContact_speculative_le env world r.2.2 hr2
  rw [← hsync1] at p2 p4
  have hsync3 := b2UpdateContact_hitFlag_manifold env r.1
    (b2UpdateContact_speculative env world r.2.1 r.2.2).1 contactSim.manifold shapeA shapeB
    (b2UpdateContact_speculative env world r.2.1 r.2.2).2
  have hw : ∃ m, b2UpdateContact_warmStart centerOffsetA centerOffsetB
      (b2UpdateContact_speculative env world r.2.1 r.2.2).1.toNat 0 contactSim.manifold
      (b2UpdateContact_hitFlag env r.1 (b2UpdateContact_speculative env world r.2.1 r.2.2).1
        contactSim.manifold shapeA shapeB
        (b2UpdateContact_speculative env world r.2.1 r.2.2).2).manifold = some m := by
    generalize (b2UpdateContact_hitFlag env r.1
      (b2UpdateContact_speculative env world r.2.1 r.2.2).1
      contactSim.manifold shapeA shapeB
      (b2UpdateContact_speculative env world r.2.1 r.2.2).2).manifold = m1 at hsync3
    have e : (b2UpdateContact_speculative env world r.2.1 r.2.2).1 = m1.pointCount :=
      p2.trans hsync3.symm
    rw [e] at p4 ⊢
    rw [b2UpdateContact_warmStart_eq _ _ _ _ hold]
    split_ifs with h0 h1 h2
    · exact ⟨_, rfl⟩
    · exact ⟨_, rfl⟩
    · exact ⟨_, rfl⟩
    · omega
  obtain ⟨m, hm⟩ := hw
  unfold b2UpdateContact
  simp only [hfcn, hr, hm, Option.bind_eq_bind, Option.some_bind, Option.pure_def]
  exact ⟨_, _, rfl⟩

/-- C27. Touching is equivalent to having points: whatever the pre-solve callback and the
speculative switch, a call of `b2UpdateContact` that returns `touching` and leaves `sim'`
has `touching` true iff the manifold of `sim'` has `pointCount > 0` iff `b2_simTouchingFlag`
is set in its `simFlags`, and `b2_simEnableHitEvent` is set iff `touching` is true and
`shapeA.enableHitEvents` or `shapeB.enableHitEvents`; the two masks are non-zero disjoint
32-bit values.  The call returns when the pair is registered and no manifold claims more
than two points. -/
theorem b2UpdateContact_touching_iff_points (env : b2Env)
    (regs : b2ShapeType → b2ShapeType → b2ContactRegister) (world : b2World)
    (contactSim : b2ContactSim) (shapeA : b2Shape) (transformA : b2Transform)
    (centerOffsetA : b2Vec2) (shapeB : b2Shape) (transformB : b2Transform)
    (centerOffsetB : b2Vec2)
    (ht0 : env.b2_simTouchingFlag ≠ 0) (ht : env.b2_simTouchingFlag ≤ 4294967295)
    (hh0 : env.b2_simEnableHitEvent ≠ 0) (hh : env.b2_simEnableHitEvent ≤ 4294967295)
    (hd : env.b2_simTouchingFlag &&& env.b2_simEnableHitEvent = 0) :
    (∀ fcn, (regs shapeA.type shapeB.type).fcn = some fcn →
      contactSim.manifold.pointCount ≤ 2 →
      (env.collide fcn shapeA transformA shapeB transformB contactSim.cache).1.pointCount ≤ 2 →
      ∃ touching sim', b2UpdateContact env regs world contactSim shapeA transformA
        centerOffsetA shapeB transformB centerOffsetB = some (touching, sim')) ∧
    (∀ touching sim', b2UpdateContact env regs world contactSim shapeA transformA
        centerOffsetA shapeB transformB centerOffsetB = some (touching, sim') →
      (touching = true ↔ 0 < sim'.manifold.pointCount) ∧
      (touching = true ↔ sim'.simFlags &&& env.b2_simTouchingFlag ≠ 0) ∧
      (sim'.simFlags &&& env.b2_simEnableHitEvent ≠ 0 ↔
        touching = true ∧
          (shapeA.enableHitEvents = true ∨ shapeB.enableHitEvents = true))) := by
  refine ⟨fun fcn hfcn hold hle => b2UpdateContact_returns env regs world contactSim shapeA
    transformA centerOffsetA shapeB transformB centerOffsetB fcn hfcn hold hle, ?_⟩
  intro touching sim' h
  obtain ⟨h1, h2⟩ := b2UpdateContact_result env regs world contactSim shapeA transformA
    centerOffsetA shapeB transformB centerOffsetB touching sim' h
  refine ⟨h1, ?_, ?_⟩
  · rw [h2]
    unfold b2UpdateContact_touchingFlag_flags
    cases touching
    · simp only [Bool.false_eq_true, if_false, false_iff, not_not]
      exact b2And_not32_and _ _ ht
    · simp only [if_true, true_iff]
      rw [b2Nat_or_and_self]
      exact ht0
  · rw [h2]
    unfold b2UpdateContact_touchingFlag_flags
    have hd' : b2Not32 env.b2_simTouchingFlag &&& env.b2_simEnableHitEvent =
        b2Not32 env.b2_simTouchingFlag &&& env.b2_simEnableHitEvent := rfl
    cases touching
    · simp only [Bool.false_eq_true, if_false, false_and, iff_false, not_not]
      rw [Nat.land_assoc, Nat.land_comm (b2Not32 env.b2_simTouchingFlag), ← Nat.land_assoc,
        b2And_not32_and _ _ hh, Nat.zero_and]
    · simp only [if_true, true_and]
      rw [b2Nat_or_and_disjoint _ _ _ hd]
      by_cases hev : shapeA.enableHitEvents = true ∨ shapeB.enableHitEvents = true
      · rw [if_pos hev, b2Nat_or_and_self]
        exact ⟨fun _ => hev, fun _ => hh0⟩
      · rw [if_neg hev, b2And_not32_and _ _ hh]
        exact ⟨fun hne => absurd rfl hne, fun hc => absurd hc hev⟩

theorem b2UpdateContact_touching_iff_points_witness :
    ∃ touching sim',
      b2UpdateContact b2Env_twoPoints s_registers b2World_noSpeculative b2ContactSim_warm
        b2Shape_polygon b2Transform_identity ⟨0, 0⟩ b2Shape_circle b2Transform_identity
        ⟨0, 0⟩ = some (touching, sim') ∧
      (touching = true ↔ 0 < sim'.manifold.pointCount) ∧
      (touching = true ↔ sim'.simFlags &&& b2Env_twoPoints.b2_simTouchingFlag ≠ 0) ∧
      (sim'.simFlags &&& b2Env_twoPoints.b2_simEnableHitEvent ≠ 0 ↔
        touching = true ∧
          (b2Shape_polygon.enableHitEvents = true ∨ b2Shape_circle.enableHitEvents = true)) := by
  have hthm := b2UpdateContact_touching_iff_points b2Env_twoPoints s_registers
    b2World_noSpeculative b2ContactSim_warm b2Shape_polygon b2Transform_identity ⟨0, 0⟩
    b2Shape_circle b2Transform_identity ⟨0, 0⟩ (by decide) (by decide) (by decide) (by decide)
    (by decide)
  obtain ⟨touching, sim', hr⟩ := hthm.1 b2ManifoldFcn.b2PolygonAndCircleManifold rfl
    (by decide) (by decide)
  exact ⟨touching, sim', hr, hthm.2 touching sim' hr⟩

theorem b2UpdateContact_speculative_manifold (env : b2Env) (world : b2World)
    (cs : b2ContactSim) :
    (b2UpdateContact_speculative env world cs.manifold.pointCount cs).2.manifold =
      b2TrimmedManifold env world cs.manifold := by
  unfold b2UpdateContact_speculative b2TrimmedManifold
  by_cases h1 : world.enableSpeculative = false ∧ cs.manifold.pointCount = 2
  · rw [if_pos h1]
    by_cases h2 : cs.manifold.points0.separation > 3 / 2 * env.B2_LINEAR_SLOP
    · rw [if_pos h2, if_pos ⟨h1.1, h1.2, h2⟩]
    · rw [if_neg h2, if_neg h2, if_neg (fun hh => h2 hh.2.2)]
  · rw [if_neg h1, if_neg (fun hh => h1 ⟨hh.1, hh.2.1⟩)]

theorem b2UpdateContact_hitFlag_manifold_eq (env : b2Env) (touching : Bool) (pointCount : Int)
    (old : b2Manifold) (shapeA shapeB : b2Shape) (cs : b2ContactSim) :
    (b2UpdateContact_hitFlag env touching pointCount old shapeA shapeB cs).manifold =
      if pointCount > 0 then { cs.manifold with rollingImpulse := old.rollingImpulse }
      else cs.manifold := by
  unfold b2UpdateContact_hitFlag
  split_ifs <;> rfl

/-- The manifold `b2UpdateContact` leaves, for an old manifold of at most two points: the
manifold of the pre-solve result `r`, trimmed by the speculative block and warm started.
The pre-solve step either keeps the manifold that the manifold function returned or sets its
point count to 0. -/
theorem b2UpdateContact_manifold (env : b2Env)
    (regs : b2ShapeType → b2ShapeType → b2ContactRegister) (world : b2World)
    (contactSim : b2ContactSim) (shapeA : b2Shape) (transformA : b2Transform)
    (centerOffsetA : b2Vec2) (shapeB : b2Shape) (transformB : b2Transform)
    (centerOffsetB : b2Vec2) (touching : Bool) (sim' : b2ContactSim) (fcn : b2ManifoldFcn)
    (hfcn : (regs shapeA.type shapeB.type).fcn = some fcn)
    (hold : contactSim.manifold.pointCount ≤ 2)
    (h : b2UpdateContact env regs world contactSim shapeA transformA centerOffsetA shapeB
      transformB centerOffsetB = some (touching, sim')) :
    ∃ r,
      b2UpdateContact_preSolve env world
        (b2UpdateContact_refresh env world fcn contactSim shapeA transformA shapeB transformB)
        shapeA shapeB
        (decide ((b2UpdateContact_refresh env world fcn contactSim shapeA transformA shapeB
          transformB).manifold.pointCount > 0))
        (b2UpdateContact_refresh env world fcn contactSim shapeA transformA shapeB
          transformB).manifold.pointCount = some r ∧
      r.2.1 = r.2.2.manifold.pointCount ∧
      (r.2.2.manifold = (env.collide fcn shapeA transformA shapeB transformB
          contactSim.cache).1 ∨
        r.2.2.manifold = { (env.collide fcn shapeA transformA shapeB transformB
          contactSim.cache).1 with pointCount := 0 }) ∧
      (b2TrimmedManifold env world r.2.2.manifold).pointCount ≤ 2 ∧
      sim'.manifold = b2WarmStartedManifold centerOffsetA centerOffsetB contactSim.manifold
        (b2TrimmedManifold env world r.2.2.manifold) := by
  obtain ⟨fcn', r, m, hfcn', hr, hm, -, hsim⟩ := b2UpdateContact_steps env regs world
    contactSim shapeA transformA centerOffsetA shapeB transformB centerOffsetB touching sim' h
  rw [hfcn] at hfcn'
  cases hfcn'
  obtain ⟨hman, -⟩ := b2UpdateContact_refresh_manifold env world fcn contactSim shapeA
    transformA shapeB transformB
  have hsync1 := b2UpdateContact_preSolve_sync env world _ shapeA shapeB _ r hr
  have hcase : r.2.2.manifold = (env.collide fcn shapeA transformA shapeB transformB
        contactSim.cache).1 ∨
      r.2.2.manifold = { (env.collide fcn shapeA transformA shapeB transformB
        contactSim.cache).1 with pointCount := 0 } := by
    rcases b2UpdateContact_preSolve_cases _ _ _ _ _ _ _ _ hr with hc | ⟨-, hc⟩
    · left
      rw [hc]
      exact hman
    · right
      rw [hc]
      dsimp only
      rw [hman]
  have hsim' : sim'.manifold = m.2 := by
    rw [hsim, b2UpdateContact_touchingFlag_manifold]
  rw [hsync1] at hm
  obtain ⟨-, p2, -⟩ := b2UpdateContact_speculative_props env world r.2.2
  have p5 := b2UpdateContact_speculative_manifold env world r.2.2
  rw [b2UpdateContact_hitFlag_manifold_eq, p2, p5] at hm
  suffices hkey : (b2TrimmedManifold env world r.2.2.manifold).pointCount ≤ 2 ∧
      m.2 = b2WarmStartedManifold centerOffsetA centerOffsetB contactSim.manifold
        (b2TrimmedManifold env world r.2.2.manifold) from
    ⟨r, hr, hsync1, hcase, hkey.1, hsim'.trans hkey.2⟩
  generalize b2TrimmedManifold env world r.2.2.manifold = ms at hm ⊢
  have hms : ms.pointCount ≤ 2 := by
    by_contra hgt
    have hpos : ms.pointCount > 0 := by omega
    rw [if_pos hpos] at hm
    have e : ms.pointCount =
        ({ ms with rollingImpulse := contactSim.manifold.rollingImpulse } : b2Manifold).pointCount :=
      rfl
    rw [e, b2UpdateContact_warmStart_eq _ _ _ _ hold] at hm
    dsimp only at hm
    rw [if_neg (by omega), if_neg (by omega), if_neg (by omega)] at hm
    cases hm
  refine ⟨hms, ?_⟩
  unfold b2WarmStartedManifold
  by_cases hpos : ms.pointCount > 0
  · rw [if_pos hpos] at hm
    have e : ms.pointCount =
        ({ ms with rollingImpulse := contactSim.manifold.rollingImpulse } : b2Manifold).pointCount :=
      rfl
    rw [e, b2UpdateContact_warmStart_eq _ _ _ _ hold] at hm
    dsimp only at hm
    rw [if_neg (by omega)] at hm ⊢
    by_cases h1 : ms.pointCount = 1
    · rw [if_pos h1] at hm ⊢
      cases hm
      rfl
    · rw [if_neg h1, if_pos (by omega)] at hm
      rw [if_neg h1]
      cases hm
      rfl
  · rw [if_neg hpos] at hm
    have h0 : ms.pointCount ≤ 0 := by omega
    rw [if_pos h0]
    have hn : ms.pointCount.toNat = 0 := by omega
    rw [hn] at hm
    unfold b2UpdateContact_warmStart at hm
    cases hm
    rfl

theorem b2TrimmedManifold_fields (env : b2Env) (world : b2World) (m : b2Manifold) :
    (b2TrimmedManifold env world m).rollingImpulse = m.rollingImpulse ∧
    (b2TrimmedManifold env world m).points1 = m.points1 ∧
    (2 ≤ (b2TrimmedManifold env world m).pointCount → b2TrimmedManifold env world m = m) ∧
    ((b2TrimmedManifold env world m).pointCount ≤ 0 → b2TrimmedManifold env world m = m) := by
  unfold b2TrimmedManifold
  split_ifs with h
  · refine ⟨rfl, rfl, fun hh => ?_, fun hh => ?_⟩
    · dsimp only at hh
      omega
    · dsimp only at hh
      omega
  · exact ⟨rfl, rfl, fun _ => rfl, fun _ => rfl⟩

theorem b2MatchStep_keeps (old : b2Manifold) (p : b2ManifoldPoint) :
    (b2MatchStep old p).2.anchorA = p.anchorA ∧ (b2MatchStep old p).2.anchorB = p.anchorB ∧
    (b2MatchStep old p).2.separation = p.separation ∧ (b2MatchStep old p).2.point = p.point ∧
    (b2MatchStep old p).2.id = p.id := by
  unfold b2MatchStep
  split_ifs <;> exact ⟨rfl, rfl, rfl, rfl, rfl⟩

theorem b2WarmStartedManifold_fields (cA cB : b2Vec2) (old ms : b2Manifold) :
    (b2WarmStartedManifold cA cB old ms).pointCount = ms.pointCount ∧
    (1 ≤ ms.pointCount →
      (b2WarmStartedManifold cA cB old ms).rollingImpulse = old.rollingImpulse ∧
      (b2WarmStartedManifold cA cB old ms).points0 =
        (b2MatchStep old (b2ResetPoint cA cB ms.points0)).2) ∧
    (2 ≤ ms.pointCount →
      (b2WarmStartedManifold cA cB old ms).points1 =
        (b2MatchStep (b2MatchStep old (b2ResetPoint cA cB ms.points0)).1
          (b2ResetPoint cA cB ms.points1)).2) ∧
    (ms.pointCount ≤ 0 → b2WarmStartedManifold cA cB old ms = ms) := by
  unfold b2WarmStartedManifold
  split_ifs with h0 h1
  · exact ⟨rfl, fun hh => by omega, fun hh => by omega, fun _ => rfl⟩
  · exact ⟨rfl, fun _ => ⟨rfl, rfl⟩, fun hh => by omega, fun hh => by omega⟩
  · exact ⟨rfl, fun _ => ⟨rfl, rfl⟩, fun _ => rfl, fun hh => by omega⟩

/-- C25. Rolling impulse and anchors in `b2UpdateContact`, for a registered pair and an old
manifold of at most two points; `ret` is the manifold that the manifold function returned.
If the manifold left in `contactSim` has at least one point, its `rollingImpulse` is the
`rollingImpulse` of the manifold stored on entry and its point 0 has the anchors of the
returned point it was kept from (returned point 1 after a speculative trim, else returned
point 0) minus `centerOffsetA`, `centerOffsetB`; with two points, point 1 has the anchors of
the returned point 1 minus the offsets; with no point the `rollingImpulse` is the one the
manifold function returned. -/
theorem b2UpdateContact_rolling_and_anchors (env : b2Env)
    (regs : b2ShapeType → b2ShapeType → b2ContactRegister) (world : b2World)
    (contactSim : b2ContactSim) (shapeA : b2Shape) (transformA : b2Transform)
    (centerOffsetA : b2Vec2) (shapeB : b2Shape) (transformB : b2Transform)
    (centerOffsetB : b2Vec2) (touching : Bool) (sim' : b2ContactSim) (fcn : b2ManifoldFcn)
    (hfcn : (regs shapeA.type shapeB.type).fcn = some fcn)
    (hold : contactSim.manifold.pointCount ≤ 2)
    (h : b2UpdateContact env regs world contactSim shapeA transformA centerOffsetA shapeB
      transformB centerOffsetB = some (touching, sim')) :
    (1 ≤ sim'.manifold.pointCount →
      sim'.manifold.rollingImpulse = contactSim.manifold.rollingImpulse ∧
      sim'.manifold.points0.anchorA =
        b2Sub (b2TrimmedManifold env world (env.collide fcn shapeA transformA shapeB transformB
          contactSim.cache).1).points0.anchorA centerOffsetA ∧
      sim'.manifold.points0.anchorB =
        b2Sub (b2TrimmedManifold env world (env.collide fcn shapeA transformA shapeB transformB
          contactSim.cache).1).points0.anchorB centerOffsetB) ∧
    (2 ≤ sim'.manifold.pointCount →
      sim'.manifold.points1.anchorA =
        b2Sub (env.collide fcn shapeA transformA shapeB transformB
          contactSim.cache).1.points1.anchorA centerOffsetA ∧
      sim'.manifold.points1.anchorB =
        b2Sub (env.collide fcn shapeA transformA shapeB transformB
          contactSim.cache).1.points1.anchorB centerOffsetB) ∧
    (sim'.manifold.pointCount ≤ 0 →
      sim'.manifold.rollingImpulse =
        (env.collide fcn shapeA transformA shapeB transformB
          contactSim.cache).1.rollingImpulse) := by
  obtain ⟨r, -, -, hcase, -, hsim⟩ := b2UpdateContact_manifold env regs world contactSim shapeA
    transformA centerOffsetA shapeB transformB centerOffsetB touching sim' fcn hfcn hold h
  rw [hsim]
  obtain ⟨w1, w2, w3, w4⟩ := b2WarmStartedManifold_fields centerOffsetA centerOffsetB
    contactSim.manifold (b2TrimmedManifold env world r.2.2.manifold)
  obtain ⟨t1, t2, t3, t4⟩ := b2TrimmedManifold_fields env world r.2.2.manifold
  rw [w1]
  rcases hcase with hc | hc
  · rw [hc] at w1 w2 w3 w4 t1 t2 t3 t4 ⊢
    refine ⟨fun h1 => ?_, fun h2 => ?_, fun h0 => ?_⟩
    · obtain ⟨a, b⟩ := w2 h1
      rw [a, b]
      exact ⟨rfl, (b2MatchStep_keeps _ _).1, (b2MatchStep_keeps _ _).2.1⟩
    · rw [w3 h2, t2]
      exact ⟨(b2MatchStep_keeps _ _).1, (b2MatchStep_keeps _ _).2.1⟩
    · rw [w4 h0, t1]
  · have ht : b2TrimmedManifold env world r.2.2.manifold = r.2.2.manifold := by
      unfold b2TrimmedManifold
      rw [if_neg]
      intro hh
      rw [hc] at hh
      have h2 := hh.2.1
      dsimp only at h2
      omega
    rw [ht] at w4 ⊢
    have hz : r.2.2.manifold.pointCount = 0 := by rw [hc]
    refine ⟨fun h1 => by omega, fun h2 => by omega, fun h0 => ?_⟩
    rw [w4 h0, hc]

theorem b2UpdateContact_rolling_and_anchors_witness :
    ∃ touching sim',
      b2UpdateContact b2Env_twoPoints s_registers b2World_sample b2ContactSim_warm
        b2Shape_polygon b2Transform_identity ⟨1, 2⟩ b2Shape_circle b2Transform_identity
        ⟨3, 4⟩ = some (touching, sim') ∧
      sim'.manifold.pointCount = 2 ∧
      sim'.manifold.rollingImpulse = b2ContactSim_warm.manifold.rollingImpulse ∧
      sim'.manifold.points0.anchorA = b2Sub b2ManifoldPoint_seven.anchorA ⟨1, 2⟩ ∧
      sim'.manifold.points1.anchorB = b2Sub b2ManifoldPoint_seven.anchorB ⟨3, 4⟩ := by
  have hrun : ∃ r, b2UpdateContact b2Env_twoPoints s_registers b2World_sample b2ContactSim_warm
      b2Shape_polygon b2Transform_identity ⟨1, 2⟩ b2Shape_circle b2Transform_identity
      ⟨3, 4⟩ = some r ∧ r.2.manifold.pointCount = 2 := ⟨_, rfl, rfl⟩
  obtain ⟨⟨touching, sim'⟩, hr, hpc⟩ := hrun
  have hthm := b2UpdateContact_rolling_and_anchors b2Env_twoPoints s_registers b2World_sample
    b2ContactSim_warm b2Shape_polygon b2Transform_identity ⟨1, 2⟩ b2Shape_circle
    b2Transform_identity ⟨3, 4⟩ touching sim' b2ManifoldFcn.b2PolygonAndCircleManifold rfl
    (by decide) hr
  have h1 : 1 ≤ sim'.manifold.pointCount := by rw [hpc]; decide
  have h2 : 2 ≤ sim'.manifold.pointCount := by rw [hpc]
  exact ⟨touching, sim', hr, hpc, (hthm.1 h1).1, (hthm.1 h1).2.1, (hthm.2.1 h2).2⟩

/-- C21 (counterexample). Speculative points are off, there is no pre-solve callback and the
manifold function returns point 0 with separation 1 and point 1 with separation 2, both
above `1.5 * B2_LINEAR_SLOP`: `b2UpdateContact` leaves one point, the former point 1 (id 2,
separation 2), so the point it dropped (separation 1) is the deeper of the two, not the
shallower. -/
theorem b2UpdateContact_trim_drops_deeper :
    b2World_noSpeculative.enableSpeculative = false ∧
    b2World_noSpeculative.preSolveFcn = none ∧
    (b2Env_speculative.collide b2ManifoldFcn.b2PolygonAndCircleManifold b2Shape_polygon
      b2Transform_identity b2Shape_circle b2Transform_identity
      b2ContactSim_zero.cache).1.points0.separation = 1 ∧
    (1 : ℚ) > 3 / 2 * b2Env_speculative.B2_LINEAR_SLOP ∧
    (b2UpdateContact b2Env_speculative s_registers b2World_noSpeculative b2ContactSim_zero
        b2Shape_polygon b2Transform_identity ⟨0, 0⟩ b2Shape_circle b2Transform_identity
        ⟨0, 0⟩).map
      (fun r => (r.2.manifold.pointCount, r.2.manifold.points0.id,
        r.2.manifold.points0.separation)) = some (1, 2, 2) ∧
    ¬ ((2 : ℚ) ≤ 1) := by
  have hthr : (1 : ℚ) > 3 / 2 * b2Env_speculative.B2_LINEAR_SLOP := by
    norm_num [b2Env_speculative, b2Env_sample]
  refine ⟨rfl, rfl, rfl, hthr, ?_, by norm_num⟩
  obtain ⟨touching, sim', hr⟩ := b2UpdateContact_returns b2Env_speculative s_registers
    b2World_noSpeculative b2ContactSim_zero b2Shape_polygon b2Transform_identity ⟨0, 0⟩
    b2Shape_circle b2Transform_identity ⟨0, 0⟩ b2ManifoldFcn.b2PolygonAndCircleManifold rfl
    (by decide) (by decide)
  obtain ⟨r, hpre, -, -, -, hsim⟩ := b2UpdateContact_manifold b2Env_speculative s_registers
    b2World_noSpeculative b2ContactSim_zero b2Shape_polygon b2Transform_identity ⟨0, 0⟩
    b2Shape_circle b2Transform_identity ⟨0, 0⟩ touching sim'
    b2ManifoldFcn.b2PolygonAndCircleManifold rfl (by decide) hr
  have hpre' : b2UpdateContact_preSolve b2Env_speculative b2World_noSpeculative
      (b2UpdateContact_refresh b2Env_speculative b2World_noSpeculative
        b2ManifoldFcn.b2PolygonAndCircleManifold b2ContactSim_zero b2Shape_polygon
        b2Transform_identity b2Shape_circle b2Transform_identity)
      b2Shape_polygon b2Shape_circle
      (decide ((b2UpdateContact_refresh b2Env_speculative b2World_noSpeculative
        b2ManifoldFcn.b2PolygonAndCircleManifold b2ContactSim_zero b2Shape_polygon
        b2Transform_identity b2Shape_circle b2Transform_identity).manifold.pointCount > 0))
      (b2UpdateContact_refresh b2Env_speculative b2World_noSpeculative
        b2ManifoldFcn.b2PolygonAndCircleManifold b2ContactSim_zero b2Shape_polygon
        b2Transform_identity b2Shape_circle b2Transform_identity).manifold.pointCount =
      some (true, 2, b2UpdateContact_refresh b2Env_speculative b2World_noSpeculative
        b2ManifoldFcn.b2PolygonAndCircleManifold b2ContactSim_zero b2Shape_polygon
        b2Transform_identity b2Shape_circle b2Transform_identity) := rfl
  rw [hpre'] at hpre
  cases hpre
  have hman := (b2UpdateContact_refresh_manifold b2Env_speculative b2World_noSpeculative
    b2ManifoldFcn.b2PolygonAndCircleManifold b2ContactSim_zero b2Shape_polygon
    b2Transform_identity b2Shape_circle b2Transform_identity).1
  dsimp only at hsim
  rw [hman] at hsim
  have ht : b2TrimmedManifold b2Env_speculative b2World_noSpeculative
      (b2Env_speculative.collide b2ManifoldFcn.b2PolygonAndCircleManifold b2Shape_polygon
        b2Transform_identity b2Shape_circle b2Transform_identity b2ContactSim_zero.cache).1 =
      { b2Manifold_zero with
        points0 := { b2ManifoldPoint_zero with id := 2, separation := 2 }
        points1 := { b2ManifoldPoint_zero with id := 2, separation := 2 }
        pointCount := 1 } := by
    unfold b2TrimmedManifold
    rw [if_pos ⟨rfl, rfl, hthr⟩]
    rfl
  rw [ht] at hsim
  rw [hr]
  simp only [Option.map_some', hsim, Option.some.injEq, Prod.mk.injEq]
  exact ⟨rfl, rfl, rfl⟩

/-- C21 (amended). Speculative trimming: when `world.enableSpeculative` is false and the
manifold has two points after the pre-solve step (`r` is the result of that step), then if
point 0 has separation above `1.5 * B2_LINEAR_SLOP`, `b2UpdateContact` leaves exactly one
point, the former point 1 (its id, position and separation), and the dropped point 0 is the
shallower of the two whenever point 1 does not exceed the threshold; if neither point
exceeds the threshold both points are kept. -/
theorem b2UpdateContact_speculative_trimming (env : b2Env)
    (regs : b2ShapeType → b2ShapeType → b2ContactRegister) (world : b2World)
    (contactSim : b2ContactSim) (shapeA : b2Shape) (transformA : b2Transform)
    (centerOffsetA : b2Vec2) (shapeB : b2Shape) (transformB : b2Transform)
    (centerOffsetB : b2Vec2) (touching : Bool) (sim' : b2ContactSim) (fcn : b2ManifoldFcn)
    (r : Bool × Int × b2ContactSim)
    (hfcn : (regs shapeA.type shapeB.type).fcn = some fcn)
    (hold : contactSim.manifold.pointCount ≤ 2)
    (hspec : world.enableSpeculative = false)
    (hpre : b2UpdateContact_preSolve env world
      (b2UpdateContact_refresh env world fcn contactSim shapeA transformA shapeB transformB)
      shapeA shapeB
      (decide ((b2UpdateContact_refresh env world fcn contactSim shapeA transformA shapeB
        transformB).manifold.pointCount > 0))
      (b2UpdateContact_refresh env world fcn contactSim shapeA transformA shapeB
        transformB).manifold.pointCount = some r)
    (htwo : r.2.1 = 2)
    (h : b2UpdateContact env regs world contactSim shapeA transformA centerOffsetA shapeB
      transformB centerOffsetB = some (touching, sim')) :
    ((env.collide fcn shapeA transformA shapeB transformB contactSim.cache).1.points0.separation >
        3 / 2 * env.B2_LINEAR_SLOP →
      sim'.manifold.pointCount = 1 ∧
      sim'.manifold.points0.id =
        (env.collide fcn shapeA transformA shapeB transformB contactSim.cache).1.points1.id ∧
      sim'.manifold.points0.point =
        (env.collide fcn shapeA transformA shapeB transformB contactSim.cache).1.points1.point ∧
      sim'.manifold.points0.separation =
        (env.collide fcn shapeA transformA shapeB transformB
          contactSim.cache).1.points1.separation ∧
      ((env.collide fcn shapeA transformA shapeB transformB
          contactSim.cache).1.points1.separation ≤ 3 / 2 * env.B2_LINEAR_SLOP →
        sim'.manifold.points0.separation ≤
          (env.collide fcn shapeA transformA shapeB transformB
            contactSim.cache).1.points0.separation)) ∧
    ((env.collide fcn shapeA transformA shapeB transformB contactSim.cache).1.points0.separation ≤
        3 / 2 * env.B2_LINEAR_SLOP →
      (env.collide fcn shapeA transformA shapeB transformB contactSim.cache).1.points1.separation ≤
        3 / 2 * env.B2_LINEAR_SLOP →
      sim'.manifold.pointCount = 2 ∧
      sim'.manifold.points0.id =
        (env.collide fcn shapeA transformA shapeB transformB contactSim.cache).1.points0.id ∧
      sim'.manifold.points0.separation =
        (env.collide fcn shapeA transformA shapeB transformB
          contactSim.cache).1.points0.separation ∧
      sim'.manifold.points1.id =
        (env.collide fcn shapeA transformA shapeB transformB contactSim.cache).1.points1.id ∧
      sim'.manifold.points1.separation =
        (env.collide fcn shapeA transformA shapeB transformB
          contactSim.cache).1.points1.separation) := by
  obtain ⟨r', hr', hsync, hcase, -, hsim⟩ := b2UpdateContact_manifold env regs world contactSim
    shapeA transformA centerOffsetA shapeB transformB centerOffsetB touching sim' fcn hfcn hold h
  rw [hpre] at hr'
  cases hr'
  rw [htwo] at hsync
  have hret : r.2.2.manifold =
      (env.collide fcn shapeA transformA shapeB transformB contactSim.cache).1 := by
    rcases hcase with hc | hc
    · exact hc
    · rw [hc] at hsync
      dsimp only at hsync
      omega
  rw [hret] at hsim hsync
  rw [hsim]
  generalize (env.collide fcn shapeA transformA shapeB transformB contactSim.cache).1 = ret
    at hsync ⊢
  obtain ⟨k1, k2, k3, k4, k5⟩ := b2MatchStep_keeps contactSim.manifold
    (b2ResetPoint centerOffsetA centerOffsetB ret.points1)
  constructor
  · intro hgt
    have ht : b2TrimmedManifold env world ret =
        { ret with points0 := ret.points1, pointCount := 1 } := by
      unfold b2TrimmedManifold
      rw [if_pos ⟨hspec, hsync.symm, hgt⟩]
    rw [ht]
    obtain ⟨w1, w2, -, -⟩ := b2WarmStartedManifold_fields centerOffsetA centerOffsetB
      contactSim.manifold { ret with points0 := ret.points1, pointCount := 1 }
    obtain ⟨-, w0⟩ := w2 (le_refl 1)
    rw [w0]
    dsimp only
    rw [k3, k4, k5]
    refine ⟨w1, rfl, rfl, rfl, fun hle => ?_⟩
    exact le_of_lt (lt_of_le_of_lt hle hgt)
  · intro h0 _
    have ht : b2TrimmedManifold env world ret = ret := by
      unfold b2TrimmedManifold
      rw [if_neg]
      intro hh
      exact absurd hh.2.2 (not_lt.mpr h0)
    rw [ht]
    obtain ⟨w1, w2, w3, -⟩ := b2WarmStartedManifold_fields centerOffsetA centerOffsetB
      contactSim.manifold ret
    obtain ⟨-, w0⟩ := w2 (by omega)
    rw [w0, w3 (by omega), w1]
    obtain ⟨-, -, j3, -, j5⟩ := b2MatchStep_keeps
      (b2MatchStep contactSim.manifold (b2ResetPoint centerOffsetA centerOffsetB ret.points0)).1
      (b2ResetPoint centerOffsetA centerOffsetB ret.points1)
    obtain ⟨-, -, i3, -, i5⟩ := b2MatchStep_keeps contactSim.manifold
      (b2ResetPoint centerOffsetA centerOffsetB ret.points0)
    rw [j3, j5, i3, i5]
    exact ⟨hsync.symm, rfl, rfl, rfl, rfl⟩

theorem b2UpdateContact_speculative_trimming_witness :
    ∃ touching sim',
      b2UpdateContact b2Env_speculative s_registers b2World_noSpeculative b2ContactSim_zero
        b2Shape_polygon b2Transform_identity ⟨0, 0⟩ b2Shape_circle b2Transform_identity
        ⟨0, 0⟩ = some (touching, sim') ∧
      sim'.manifold.pointCount = 1 ∧ sim'.manifold.points0.id = 2 ∧
      sim'.manifold.points0.separation = 2 := by
  obtain ⟨touching, sim', hr⟩ := b2UpdateContact_returns b2Env_speculative s_registers
    b2World_noSpeculative b2ContactSim_zero b2Shape_polygon b2Transform_identity ⟨0, 0⟩
    b2Shape_circle b2Transform_identity ⟨0, 0⟩ b2ManifoldFcn.b2PolygonAndCircleManifold rfl
    (by decide) (by decide)
  have hthm := (b2UpdateContact_speculative_trimming b2Env_speculative s_registers
    b2World_noSpeculative b2ContactSim_zero b2Shape_polygon b2Transform_identity ⟨0, 0⟩
    b2Shape_circle b2Transform_identity ⟨0, 0⟩ touching sim'
    b2ManifoldFcn.b2PolygonAndCircleManifold
    (true, 2, b2UpdateContact_refresh b2Env_speculative b2World_noSpeculative
      b2ManifoldFcn.b2PolygonAndCircleManifold b2ContactSim_zero b2Shape_polygon
      b2Transform_identity b2Shape_circle b2Transform_identity)
    rfl (by decide) rfl rfl rfl hr).1
    (by norm_num [b2Env_speculative, b2Env_sample])
  exact ⟨touching, sim', hr, hthm.1, hthm.2.1, hthm.2.2.2.1⟩

theorem b2MatchStep_first_inherits (cA cB : b2Vec2) (old : b2Manifold) (p : b2ManifoldPoint) :
    b2InheritsFrom old (b2MatchIndex old p.id) (b2MatchStep old (b2ResetPoint cA cB p)).2 := by
  unfold b2InheritsFrom b2MatchIndex b2MatchStep b2ResetPoint
  split_ifs with h1 h2
  · simp [b2Manifold.getPoint, h1.2]
    omega
  · simp [b2Manifold.getPoint, h2.2]
    omega
  · simp

theorem b2MatchStep_second_inherits (cA cB : b2Vec2) (old : b2Manifold)
    (p0 p : b2ManifoldPoint) :
    b2InheritsFrom old (if p.id = p0.id then none else b2MatchIndex old p.id)
      (b2MatchStep (b2MatchStep old (b2ResetPoint cA cB p0)).1 (b2ResetPoint cA cB p)).2 := by
  unfold b2InheritsFrom b2MatchIndex b2MatchStep b2ResetPoint
  by_cases hid : p.id = p0.id
  · rw [if_pos hid]
    split_ifs <;> simp_all
  · rw [if_neg hid]
    split_ifs <;> simp_all [b2Manifold.getPoint] <;> omega

theorem b2MatchIndex_injective (old : b2Manifold) (a b : Nat) (j : Int)
    (ha : b2MatchIndex old a = some j) (hb : b2MatchIndex old b = some j) : a = b := by
  unfold b2MatchIndex at ha hb
  by_cases p : 1 ≤ old.pointCount ∧ old.points0.id = a
  · rw [if_pos p] at ha
    by_cases q : 1 ≤ old.pointCount ∧ old.points0.id = b
    · exact p.2.symm.trans q.2
    · rw [if_neg q] at hb
      split_ifs at hb
      rw [← ha] at hb
      exact absurd (Option.some.inj hb) (by decide)
  · rw [if_neg p] at ha
    split_ifs at ha with p2
    by_cases q : 1 ≤ old.pointCount ∧ old.points0.id = b
    · rw [if_pos q, ← ha] at hb
      exact absurd (Option.some.inj hb) (by decide)
    · rw [if_neg q] at hb
      split_ifs at hb with q2
      exact p2.2.symm.trans q2.2

theorem b2MatchStep_sum_le (cA cB : b2Vec2) (old : b2Manifold) (p0 p1 : b2ManifoldPoint)
    (h0 : 1 ≤ old.pointCount → 0 ≤ old.points0.normalImpulse)
    (h1 : 2 ≤ old.pointCount → 0 ≤ old.points1.normalImpulse) :
    0 ≤ b2NormalImpulseSum old ∧
    (b2MatchStep old (b2ResetPoint cA cB p0)).2.normalImpulse ≤ b2NormalImpulseSum old ∧
    (b2MatchStep old (b2ResetPoint cA cB p0)).2.normalImpulse +
      (b2MatchStep (b2MatchStep old (b2ResetPoint cA cB p0)).1
        (b2ResetPoint cA cB p1)).2.normalImpulse ≤ b2NormalImpulseSum old := by
  unfold b2NormalImpulseSum b2MatchStep b2ResetPoint
  by_cases c1 : 1 ≤ old.pointCount
  · have n0 := h0 c1
    by_cases c2 : 2 ≤ old.pointCount
    · have n1 := h1 c2
      simp only [c1, c2, true_and, if_true]
      refine ⟨by linarith, ?_, ?_⟩
      · split_ifs <;> dsimp only <;> linarith
      · split_ifs <;> dsimp only <;> simp_all <;> linarith
    · simp only [c1, c2, true_and, false_and, if_true, if_false, add_zero]
      refine ⟨n0, ?_, ?_⟩
      · split_ifs <;> dsimp only <;> linarith
      · split_ifs <;> dsimp only <;> simp_all
  · have c2 : ¬ 2 ≤ old.pointCount := by omega
    simp only [c1, c2, false_and, if_false, add_zero]
    exact ⟨le_refl 0, le_refl 0, le_refl 0⟩

/-- C28. Old impulses are never duplicated by warm-start matching, for a registered pair and
an old manifold of at most two points: point 0 of the manifold that `b2UpdateContact` leaves
holds the impulses of the first old point with its id, or zeros when there is none; point 1
holds the impulses of the first old point with its id only when its id differs from point
0's, else zeros; the two sources are never the same old point; when both new points carry
the same id and an old point has it, the second is marked persisted with zero impulses; and
for non-negative old normal impulses the sum of the new points' `normalImpulse` is at most
the sum over the old points. -/
theorem b2UpdateContact_impulses_not_duplicated (env : b2Env)
    (regs : b2ShapeType → b2ShapeType → b2ContactRegister) (world : b2World)
    (contactSim : b2ContactSim) (shapeA : b2Shape) (transformA : b2Transform)
    (centerOffsetA : b2Vec2) (shapeB : b2Shape) (transformB : b2Transform)
    (centerOffsetB : b2Vec2) (touching : Bool) (sim' : b2ContactSim) (fcn : b2ManifoldFcn)
    (hfcn : (regs shapeA.type shapeB.type).fcn = some fcn)
    (hold : contactSim.manifold.pointCount ≤ 2)
    (h : b2UpdateContact env regs world contactSim shapeA transformA centerOffsetA shapeB
      transformB centerOffsetB = some (touching, sim')) :
    (1 ≤ sim'.manifold.pointCount →
      b2InheritsFrom contactSim.manifold
        (b2MatchIndex contactSim.manifold sim'.manifold.points0.id) sim'.manifold.points0) ∧
    (2 ≤ sim'.manifold.pointCount →
      b2InheritsFrom contactSim.manifold
        (if sim'.manifold.points1.id = sim'.manifold.points0.id then none
          else b2MatchIndex contactSim.manifold sim'.manifold.points1.id)
        sim'.manifold.points1) ∧
    (∀ j, b2MatchIndex contactSim.manifold sim'.manifold.points0.id = some j →
      (if sim'.manifold.points1.id = sim'.manifold.points0.id then none
        else b2MatchIndex contactSim.manifold sim'.manifold.points1.id) ≠ some j) ∧
    (2 ≤ sim'.manifold.pointCount →
      sim'.manifold.points1.id = sim'.manifold.points0.id →
      b2MatchIndex contactSim.manifold sim'.manifold.points0.id ≠ none →
      sim'.manifold.points1.persisted = true ∧ sim'.manifold.points1.normalImpulse = 0 ∧
        sim'.manifold.points1.tangentImpulse = 0) ∧
    ((1 ≤ contactSim.manifold.pointCount → 0 ≤ contactSim.manifold.points0.normalImpulse) →
      (2 ≤ contactSim.manifold.pointCount → 0 ≤ contactSim.manifold.points1.normalImpulse) →
      b2NormalImpulseSum sim'.manifold ≤ b2NormalImpulseSum contactSim.manifold) := by
  obtain ⟨r, -, -, -, hms, hsim⟩ := b2UpdateContact_manifold env regs world contactSim shapeA
    transformA centerOffsetA shapeB transformB centerOffsetB touching sim' fcn hfcn hold h
  generalize b2TrimmedManifold env world r.2.2.manifold = ms at hms hsim
  obtain ⟨w1, w2, w3, -⟩ := b2WarmStartedManifold_fields centerOffsetA centerOffsetB
    contactSim.manifold ms
  rw [← hsim] at w1 w2 w3
  have i0 := (b2MatchStep_keeps contactSim.manifold
    (b2ResetPoint centerOffsetA centerOffsetB ms.points0)).2.2.2.2
  have i1 := (b2MatchStep_keeps
    (b2MatchStep contactSim.manifold (b2ResetPoint centerOffsetA centerOffsetB ms.points0)).1
    (b2ResetPoint centerOffsetA centerOffsetB ms.points1)).2.2.2.2
  have r0 : (b2ResetPoint centerOffsetA centerOffsetB ms.points0).id = ms.points0.id := rfl
  have r1 : (b2ResetPoint centerOffsetA centerOffsetB ms.points1).id = ms.points1.id := rfl
  rw [r0] at i0
  rw [r1] at i1
  have c0 : 1 ≤ sim'.manifold.pointCount →
      b2InheritsFrom contactSim.manifold
        (b2MatchIndex contactSim.manifold sim'.manifold.points0.id) sim'.manifold.points0 := by
    intro h1
    rw [w1] at h1
    rw [(w2 h1).2, i0]
    exact b2MatchStep_first_inherits _ _ _ _
  have c1 : 2 ≤ sim'.manifold.pointCount →
      b2InheritsFrom contactSim.manifold
        (if sim'.manifold.points1.id = sim'.manifold.points0.id then none
          else b2MatchIndex contactSim.manifold sim'.manifold.points1.id)
        sim'.manifold.points1 := by
    intro h2
    rw [w1] at h2
    rw [(w2 (by omega)).2, w3 h2, i0, i1]
    exact b2MatchStep_second_inherits _ _ _ _ _
  refine ⟨c0, c1, ?_, ?_, ?_⟩
  · intro j hj
    by_cases hid : sim'.manifold.points1.id = sim'.manifold.points0.id
    · rw [if_pos hid]
      exact fun hh => Option.noConfusion hh
    · rw [if_neg hid]
      intro hh
      exact hid (b2MatchIndex_injective _ _ _ _ hh hj)
  · intro h2 hid hne
    have hc := c1 h2
    rw [if_pos hid] at hc
    refine ⟨?_, hc.1, hc.2⟩
    rw [w1] at h2
    rw [w3 h2]
    rw [(w2 (by omega)).2, w3 h2, i0, i1] at hid
    unfold b2MatchIndex at hne
    rw [(w2 (by omega)).2, i0] at hne
    unfold b2MatchStep b2ResetPoint
    split_ifs at hne ⊢ <;> simp_all
  · intro n0 n1
    obtain ⟨s0, s1, s2⟩ := b2MatchStep_sum_le centerOffsetA centerOffsetB contactSim.manifold
      ms.points0 ms.points1 n0 n1
    unfold b2NormalImpulseSum at s0 s1 s2 ⊢
    by_cases h1 : 1 ≤ sim'.manifold.pointCount
    · by_cases h2 : 2 ≤ sim'.manifold.pointCount
      · rw [if_pos h1, if_pos h2]
        rw [w1] at h1 h2
        rw [(w2 h1).2, w3 h2]
        exact s2
      · rw [if_pos h1, if_neg h2, add_zero]
        rw [w1] at h1
        rw [(w2 h1).2]
        exact s1
    · have h2 : ¬ 2 ≤ sim'.manifold.pointCount := by omega
      rw [if_neg h1, if_neg h2, add_zero]
      exact s0

theorem b2UpdateContact_impulses_not_duplicated_witness :
    ∃ touching sim',
      b2UpdateContact b2Env_twoPoints s_registers b2World_sample b2ContactSim_warm
        b2Shape_polygon b2Transform_identity ⟨0, 0⟩ b2Shape_circle b2Transform_identity
        ⟨0, 0⟩ = some (touching, sim') ∧
      sim'.manifold.pointCount = 2 ∧
      b2InheritsFrom b2ContactSim_warm.manifold
        (b2MatchIndex b2ContactSim_warm.manifold sim'.manifold.points0.id)
        sim'.manifold.points0 ∧
      (sim'.manifold.points1.persisted = true ∧ sim'.manifold.points1.normalImpulse = 0 ∧
        sim'.manifold.points1.tangentImpulse = 0) ∧
      b2NormalImpulseSum sim'.manifold ≤ b2NormalImpulseSum b2ContactSim_warm.manifold := by
  have hrun : ∃ r, b2UpdateContact b2Env_twoPoints s_registers b2World_sample b2ContactSim_warm
      b2Shape_polygon b2Transform_identity ⟨0, 0⟩ b2Shape_circle b2Transform_identity
      ⟨0, 0⟩ = some r ∧ r.2.manifold.pointCount = 2 ∧
      r.2.manifold.points1.id = r.2.manifold.points0.id ∧
      b2MatchIndex b2ContactSim_warm.manifold r.2.manifold.points0.id ≠ none :=
    ⟨_, rfl, rfl, rfl, by decide⟩
  obtain ⟨⟨touching, sim'⟩, hr, hpc, hid, hne⟩ := hrun
  have hthm := b2UpdateContact_impulses_not_duplicated b2Env_twoPoints s_registers
    b2World_sample b2ContactSim_warm b2Shape_polygon b2Transform_identity ⟨0, 0⟩
    b2Shape_circle b2Transform_identity ⟨0, 0⟩ touching sim'
    b2ManifoldFcn.b2PolygonAndCircleManifold rfl (by decide) hr
  have h1 : 1 ≤ sim'.manifold.pointCount := by rw [hpc]; decide
  have h2 : 2 ≤ sim'.manifold.pointCount := by rw [hpc]
  exact ⟨touching, sim', hr, hpc, hthm.1 h1, hthm.2.2.2.1 h2 hid hne,
    hthm.2.2.2.2 (fun _ => by norm_num [b2ContactSim_warm, b2ManifoldPoint_seven])
      (fun hh => absurd hh (by decide))⟩

/-- The slot that `b2CreateContact` takes and the other slots: the taken slot is live with an
incremented generation, every other slot keeps contactId and generation. -/
theorem b2CreateContact_slot (env : b2Env) (w w' : b2World) (a b : b2Shape) (fuel : Nat)
    (hreg : (s_registers a.type b.type).fcn ≠ none)
    (h : b2CreateContact env s_registers (fuel + 2) w a b = some w') :
    (∃ c', b2Array_Get w'.contacts (b2AllocId w.contactIdPool).1 = some c' ∧
      c'.contactId = (b2AllocId w.contactIdPool).1 ∧
      c'.generation =
        (((b2Array_Get w.contacts (b2AllocId w.contactIdPool).1).map
          (fun c => c.generation)).getD 0 + 1) % 2 ^ env.generationBits) ∧
    (∀ i c, i ≠ (b2AllocId w.contactIdPool).1 → b2Array_Get w.contacts i = some c →
      ∃ c', b2Array_Get w'.contacts i = some c' ∧ c'.generation = c.generation ∧
        c'.contactId = c.contactId) := by
  obtain ⟨A, B, -, -, hrun⟩ := b2CreateContact_primary_order env w a b fuel hreg
  rw [hrun] at h
  obtain ⟨bodyA, bodyB, set, c0, c', -, -, -, hc0, hc', hcore, -, hother⟩ :=
    b2CreateContactPrimary_created env w w' A B h
  obtain ⟨s1, s2⟩ := b2CreateContact_slots_get w
  constructor
  · refine ⟨c', hc', ?_, ?_⟩
    · rw [(b2Contact_core_fields _ _ hcore).1,
        (b2CreateContact_contact_fields env c0 _ _ _ A B).1]
    · rw [(b2Contact_core_fields _ _ hcore).2.2.2.2.2.2.2.1,
        (b2CreateContact_contact_fields env c0 _ _ _ A B).2.2.2.2.2.2.2.1, s1 c0 hc0]
  · intro i c hi hc
    have := hother i hi
    rw [s2 i c hc] at this
    cases hg : b2Array_Get w'.contacts i with
    | none => rw [hg] at this; cases this
    | some c' =>
      rw [hg] at this
      simp only [Option.map_some', Option.some.injEq] at this
      exact ⟨c', rfl, (b2Contact_core_fields _ _ this).2.2.2.2.2.2.2.1,
        (b2Contact_core_fields _ _ this).1⟩

theorem b2LifecycleKept_get (w w' : b2World) (h : b2LifecycleKept w w') (i : Int)
    (c : b2Contact) (hc : b2Array_Get w.contacts i = some c) :
    ∃ c', b2Array_Get w'.contacts i = some c' ∧ c'.identity = c.identity :=
  b2Array_Get_of_map_eq b2Contact.identity _ _ i c h.2.2.2.2.2.2.2 hc

/-- The slot of a destroyed contact is free afterwards: its `contactId` is
`B2_NULL_INDEX`. -/
theorem b2DestroyContact_freed (env : b2Env) (henv : b2EnvFrame env) (w w' : b2World)
    (contact : Int) (wake : Bool) (h : b2DestroyContact env w contact wake = some w') :
    ∃ c', b2Array_Get w'.contacts contact = some c' ∧ c'.contactId = B2_NULL_INDEX := by
  obtain ⟨c, bodyA, bodyB, w1, w2, w3, c3, w4, w5, -, -, -, -, -, -, -, -, hw5, rfl⟩ :=
    b2DestroyContact_steps env w w' contact wake h
  obtain ⟨c4, hc4, e5⟩ := b2DestroyContact_free_frame _ _ _ _ hw5
  have g5 : b2Array_Get w5.contacts contact = some
      { c4 with contactId := B2_NULL_INDEX, setIndex := B2_NULL_INDEX,
                colorIndex := B2_NULL_INDEX, localIndex := B2_NULL_INDEX } := by
    rw [e5]
    exact b2Array_Get_Set_self _ _ _ _ hc4
  split_ifs
  · have k := b2LifecycleKept_trans _ _ _ (henv.2.2 w5 c.edges0.bodyId)
      (henv.2.2 (env.b2WakeBody w5 c.edges0.bodyId) c.edges1.bodyId)
    obtain ⟨c', hc', hid⟩ := b2LifecycleKept_get _ _ k contact _ g5
    refine ⟨c', hc', ?_⟩
    have := congrArg (fun p : b2ContactEdge × b2ContactEdge × Int × Int × Int × Nat × Nat =>
      p.2.2.2.2.1) hid
    exact this
  · exact ⟨_, g5, rfl⟩

theorem b2KeepsGenerations_get (w w' : b2World) (h : b2KeepsGenerations w w') (i : Int)
    (c : b2Contact) (hc : b2Array_Get w.contacts i = some c) :
    ∃ c', b2Array_Get w'.contacts i = some c' ∧ c'.generation = c.generation := by
  unfold b2KeepsGenerations at h
  exact b2Array_Get_of_map_eq (fun c : b2Contact => c.generation) _ _ i c h hc

/-- After `k` reuses the generation of a slot has advanced by `k` modulo
`2 ^ generationBits`. -/
theorem b2SlotReused_generation (env : b2Env) (henv : b2EnvFrame env) (slot : Int) (k : Nat)
    (w w' : b2World) (hr : b2SlotReused env slot k w w') (c : b2Contact)
    (hc : b2Array_Get w.contacts slot = some c) (hg : c.generation < 2 ^ env.generationBits) :
    ∃ c', b2Array_Get w'.contacts slot = some c' ∧
      c'.generation = (c.generation + k) % 2 ^ env.generationBits := by
  induction hr with
  | start w => exact ⟨c, hc, by rw [Nat.add_zero, Nat.mod_eq_of_lt hg]⟩
  | destroy k w w1 w2 contact wake _ hd ih =>
    obtain ⟨c1, hc1, hg1⟩ := ih hc
    obtain ⟨c2, hc2, hg2⟩ := b2KeepsGenerations_get _ _
      (b2DestroyContact_generations env henv w1 w2 contact wake hd) slot c1 hc1
    exact ⟨c2, hc2, hg2.trans hg1⟩
  | createOther k w w1 w2 a b fuel _ hreg hcr hne ih =>
    obtain ⟨c1, hc1, hg1⟩ := ih hc
    obtain ⟨c2, hc2, hg2, -⟩ := (b2CreateContact_slot env w1 w2 a b fuel hreg hcr).2 slot c1
      (Ne.symm hne) hc1
    exact ⟨c2, hc2, hg2.trans hg1⟩
  | createSlot k w w1 w2 a b fuel _ hreg hcr heq ih =>
    obtain ⟨c1, hc1, hg1⟩ := ih hc
    obtain ⟨c2, hc2, -, hg2⟩ := (b2CreateContact_slot env w1 w2 a b fuel hreg hcr).1
    rw [heq] at hc2 hg2
    rw [hc1] at hg2
    refine ⟨c2, hc2, ?_⟩
    rw [hg2]
    simp only [Option.map_some', Option.getD_some]
    rw [hg1, Nat.add_mod, Nat.mod_mod, ← Nat.add_mod, Nat.add_assoc]

theorem b2World_cycleFree_create (g : Nat) :
    b2CreateContact b2Env_sample s_registers 2 (b2World_cycleFree g) b2Shape_circle
      b2Shape_polygon = some (b2World_cycleLive ((g + 1) % 2 ^ 32)) := rfl

theorem b2World_sample_create :
    b2CreateContact b2Env_sample s_registers 2 b2World_sample b2Shape_circle
      b2Shape_polygon = some (b2World_cycleLive 1) := rfl

theorem b2DestroyContact_event_not_touching (env : b2Env) (w : b2World) (c : b2Contact)
    (h : c.flags &&& env.b2_contactTouchingFlag = 0) :
    b2DestroyContact_event env w c = some w := by
  unfold b2DestroyContact_event
  simp only [h, ne_eq, not_true_eq_false, decide_False, Bool.false_eq_true, false_and, if_false,
    Option.pure_def]

theorem b2World_cycleLive_destroy (g : Nat) :
    b2DestroyContact b2Env_sample (b2World_cycleLive g) 0 false =
      some (b2World_cycleFree g) := by
  have e : b2RemoveKey (b2AddKey ∅ (B2_SHAPE_PAIR_KEY 1 0)) (B2_SHAPE_PAIR_KEY 1 0) = ∅ := by
    simp [b2RemoveKey, b2AddKey]
  have hget : b2Array_Get (b2World_cycleLive g).contacts 0 = some
      { edges0 := ⟨1, -1, -1⟩, edges1 := ⟨0, -1, -1⟩, islandId := -1, islandPrev := -1,
        islandNext := -1, setIndex := 2, colorIndex := -1, localIndex := 0, shapeIdA := 1,
        shapeIdB := 0, contactId := 0, flags := 0 ||| 4, generation := g, isMarked := false } :=
    rfl
  unfold b2DestroyContact
  simp only [Option.bind_eq_bind, Option.pure_def]
  rw [hget]
  simp only [Option.some_bind]
  rw [b2DestroyContact_event_not_touching]
  · have hpair : b2RemoveKey (b2World_cycleLive g).broadPhase.pairSet
        (B2_SHAPE_PAIR_KEY 1 0) = ∅ := e
    rw [hpair]
    rfl
  · show (0 ||| 4) &&& 1 = 0
    decide

theorem b2ReuseCycle_free (g : Nat) :
    b2ReuseCycle (b2World_cycleFree g) = some (b2World_cycleFree ((g + 1) % 2 ^ 32)) := by
  unfold b2ReuseCycle
  rw [b2World_cycleFree_create]
  exact b2World_cycleLive_destroy _

theorem b2ReuseCycle_iterate (n g : Nat) :
    Nat.iterate (fun o : Option b2World => o.bind b2ReuseCycle) n
      (some (b2World_cycleFree g)) = some (b2World_cycleFree ((g + n) % 2 ^ 32)) ∨
    2 ^ 32 ≤ g := by
  by_cases hg : g < 2 ^ 32
  · left
    induction n with
    | zero =>
      rw [Nat.add_zero, Nat.mod_eq_of_lt hg]
      rfl
    | succ k ih =>
      rw [Function.iterate_succ_apply', ih, Option.some_bind, b2ReuseCycle_free, Nat.add_mod,
        Nat.mod_mod, ← Nat.add_mod, Nat.add_assoc]
  · right
    omega

/-- C3 (counterexample). With 32-bit generations: the contact created in slot 0 of the sample
world gets generation 1 and its handle passes the check; after it is destroyed the handle
fails; after `2 ^ 32 - 1` further create/destroy cycles and one more `b2CreateContact` that
reuses the slot, the slot is live with generation 1 again and the handle of the contact
destroyed long ago passes the check. -/
theorem b2GetContactFullId_stale_handle_passes :
    ∃ w1 w2 w3 w4,
      b2CreateContact b2Env_sample s_registers 2 b2World_sample b2Shape_circle
        b2Shape_polygon = some w1 ∧
      b2GetContactFullId_check w1 ⟨1, 0, 0, 1⟩ = some true ∧
      b2DestroyContact b2Env_sample w1 0 false = some w2 ∧
      b2GetContactFullId_check w2 ⟨1, 0, 0, 1⟩ = some false ∧
      Nat.iterate (fun o : Option b2World => o.bind b2ReuseCycle) (2 ^ 32 - 1) (some w2) =
        some w3 ∧
      b2CreateContact b2Env_sample s_registers 2 w3 b2Shape_circle b2Shape_polygon = some w4 ∧
      b2GetContactFullId_check w4 ⟨1, 0, 0, 1⟩ = some true := by
  refine ⟨b2World_cycleLive 1, b2World_cycleFree 1, b2World_cycleFree 0, b2World_cycleLive 1,
    b2World_sample_create, rfl, b2World_cycleLive_destroy 1, rfl, ?_, rfl, rfl⟩
  rcases b2ReuseCycle_iterate (2 ^ 32 - 1) 1 with h | h
  · rw [h]
    norm_num
  · norm_num at h

/-- C3 (amended). The check in `b2GetContactFullId` (`slot.contactId == index1 - 1` and
`slot.generation == handle.generation`) holds for the handle of the contact that
`b2CreateContact` has just created; it fails for every handle of a slot that
`b2DestroyContact` has just freed (its `contactId` is `B2_NULL_INDEX`); and for a handle
that carries the generation the slot had in `w`, it fails in every world reached from `w` by
destroys and creates in which the slot was taken `k` times, provided `k` is not a multiple of
`2 ^ generationBits`: the generation is stored modulo that number. -/
theorem b2GetContactFullId_detects (env : b2Env) (henv : b2EnvFrame env) :
    (∀ (w w' : b2World) (a b : b2Shape) (fuel : Nat),
      (s_registers a.type b.type).fcn ≠ none →
      b2CreateContact env s_registers (fuel + 2) w a b = some w' →
      ∃ c', b2Array_Get w'.contacts (b2AllocId w.contactIdPool).1 = some c' ∧
        ∀ world0 padding, b2GetContactFullId_check w'
          ⟨(b2AllocId w.contactIdPool).1 + 1, world0, padding, c'.generation⟩ = some true) ∧
    (∀ (w w' : b2World) (contact : Int) (wake : Bool),
      b2DestroyContact env w contact wake = some w' →
      ∀ handle : b2ContactId, handle.index1 - 1 = contact →
        b2GetContactFullId_check w' handle = some false) ∧
    (∀ (slot : Int) (k : Nat) (w w' : b2World) (c : b2Contact),
      b2SlotReused env slot k w w' → b2Array_Get w.contacts slot = some c →
      c.generation < 2 ^ env.generationBits → k % 2 ^ env.generationBits ≠ 0 →
      ∀ handle : b2ContactId, handle.index1 - 1 = slot → handle.generation = c.generation →
        b2GetContactFullId_check w' handle = some false) := by
  refine ⟨?_, ?_, ?_⟩
  · intro w w' a b fuel hreg h
    obtain ⟨c', hc', hid, -⟩ := (b2CreateContact_slot env w w' a b fuel hreg h).1
    refine ⟨c', hc', fun world0 padding => ?_⟩
    unfold b2GetContactFullId_check
    simp only [add_sub_cancel_right, hc', Option.bind_eq_bind, Option.some_bind, Option.pure_def,
      hid, and_self, decide_True]
  · intro w w' contact wake h handle hidx
    obtain ⟨c', hc', hnull⟩ := b2DestroyContact_freed env henv w w' contact wake h
    obtain ⟨h0, -⟩ := b2Array_Get_toNat _ _ _ hc'
    unfold b2GetContactFullId_check
    rw [hidx]
    simp only [hc', Option.bind_eq_bind, Option.some_bind, Option.pure_def, Option.some.injEq,
      decide_eq_false_iff_not, not_and]
    intro hcid
    rw [hnull] at hcid
    unfold B2_NULL_INDEX at hcid
    omega
  · intro slot k w w' c hr hc hg hk handle hidx hgen
    obtain ⟨c', hc', hg'⟩ := b2SlotReused_generation env henv slot k w w' hr c hc hg
    unfold b2GetContactFullId_check
    rw [hidx]
    simp only [hc', Option.bind_eq_bind, Option.some_bind, Option.pure_def, Option.some.injEq,
      decide_eq_false_iff_not, not_and]
    intro _ hcg
    rw [hg', hgen] at hcg
    apply hk
    have h1 : (c.generation + k) % 2 ^ env.generationBits =
        (c.generation + 0) % 2 ^ env.generationBits := by
      rw [hcg, Nat.add_zero, Nat.mod_eq_of_lt hg]
    have h2 : k % 2 ^ env.generationBits = 0 % 2 ^ env.generationBits :=
      Nat.ModEq.add_left_cancel' c.generation h1
    rw [h2, Nat.zero_mod]

theorem b2GetContactFullId_detects_witness :
    (∃ c', b2Array_Get (b2World_cycleLive 1).contacts 0 = some c' ∧
      ∀ world0 padding, b2GetContactFullId_check (b2World_cycleLive 1)
        ⟨0 + 1, world0, padding, c'.generation⟩ = some true) ∧
    b2GetContactFullId_check (b2World_cycleFree 1) ⟨1, 0, 0, 1⟩ = some false ∧
    b2GetContactFullId_check (b2World_cycleLive 2) ⟨1, 0, 0, 1⟩ = some false := by
  have hthm := b2GetContactFullId_detects b2Env_sample b2Env_sample_frame
  refine ⟨?_, ?_, ?_⟩
  · exact hthm.1 b2World_sample (b2World_cycleLive 1) b2Shape_circle b2Shape_polygon 0
      (by decide) b2World_sample_create
  · exact hthm.2.1 (b2World_cycleLive 1) (b2World_cycleFree 1) 0 false
      (b2World_cycleLive_destroy 1) ⟨1, 0, 0, 1⟩ rfl
  · exact hthm.2.2 0 1 (b2World_cycleLive 1) (b2World_cycleLive 2)
      { edges0 := ⟨1, -1, -1⟩, edges1 := ⟨0, -1, -1⟩, islandId := -1, islandPrev := -1,
        islandNext := -1, setIndex := 2, colorIndex := -1, localIndex := 0, shapeIdA := 1,
        shapeIdB := 0, contactId := 0, flags := 0 ||| 4, generation := 1, isMarked := false }
      (b2SlotReused.createSlot 0 _ (b2World_cycleFree 1) _ b2Shape_circle b2Shape_polygon 0
        (b2SlotReused.destroy 0 _ (b2World_cycleLive 1) _ 0 false
          (b2SlotReused.start _) (b2World_cycleLive_destroy 1))
        (by decide) rfl rfl)
      rfl (by decide) (by decide) ⟨1, 0, 0, 1⟩ rfl rfl

theorem b2KeyContact_eq (k : Int) : b2KeyContact k = k / 2 := by
  unfold b2KeyContact
  rw [Int.shiftRight_eq_div_pow]
  simp

theorem b2KeySide_eq (k : Int) (h : 0 ≤ k) : b2KeySide k = k % 2 := by
  unfold b2KeySide
  obtain ⟨n, rfl⟩ := Int.eq_ofNat_of_zero_le h
  show ((n &&& 1 : Nat) : Int) = _
  rw [Nat.and_one_is_mod]
  simp

theorem b2EdgeKey_eq (id side : Int) (h : 0 ≤ id) (hs : side = 0 ∨ side = 1) :
    b2EdgeKey id side = 2 * id + side := by
  unfold b2EdgeKey
  obtain ⟨n, rfl⟩ := Int.eq_ofNat_of_zero_le h
  have h1 : ((n : Int) <<< (1 : Int)) = ((2 * n : Nat) : Int) := by
    have := Int.shiftLeft_eq_mul_pow (n : Int) 1
    simp only [Nat.cast_one, pow_one, Nat.cast_ofNat] at this
    rw [this]
    push_cast
    ring
  rw [h1]
  rcases hs with rfl | rfl
  · show (((2 * n) ||| 0 : Nat) : Int) = _
    simp
  · show (((2 * n) ||| 1 : Nat) : Int) = _
    have := Nat.mul_add_lt_is_or (by decide : 1 < 2 ^ 1) n
    simp at this
    rw [← this]
    push_cast
    ring

/-- A key decodes to the contact and side it was made of. -/
theorem b2EdgeKey_decode (id side : Int) (h : 0 ≤ id) (hs : side = 0 ∨ side = 1) :
    0 ≤ b2EdgeKey id side ∧ b2KeyContact (b2EdgeKey id side) = id ∧
      b2KeySide (b2EdgeKey id side) = side := by
  have hk := b2EdgeKey_eq id side h hs
  have h0 : 0 ≤ b2EdgeKey id side := by rw [hk]; rcases hs with rfl | rfl <;> omega
  refine ⟨h0, ?_, ?_⟩
  · rw [b2KeyContact_eq, hk]
    rcases hs with rfl | rfl <;> omega
  · rw [b2KeySide_eq _ h0, hk]
    rcases hs with rfl | rfl <;> omega

/-- A non-negative key is the key of its contact and side. -/
theorem b2EdgeKey_encode (k : Int) (h : 0 ≤ k) :
    0 ≤ b2KeyContact k ∧ (b2KeySide k = 0 ∨ b2KeySide k = 1) ∧
      b2EdgeKey (b2KeyContact k) (b2KeySide k) = k := by
  have h1 : 0 ≤ b2KeyContact k := by rw [b2KeyContact_eq]; omega
  have h2 : b2KeySide k = 0 ∨ b2KeySide k = 1 := by rw [b2KeySide_eq k h]; omega
  refine ⟨h1, h2, ?_⟩
  rw [b2EdgeKey_eq _ _ h1 h2, b2KeyContact_eq, b2KeySide_eq k h]
  omega

theorem b2KeyContact_nonneg (k : Int) (h : 0 ≤ b2KeyContact k) : 0 ≤ k := by
  rw [b2KeyContact_eq] at h
  omega

theorem b2Contact_setEdge_get (c c' : b2Contact) (side : Int) (e : b2ContactEdge)
    (h : c.setEdge side e = some c') :
    (side = 0 ∨ side = 1) ∧ c'.edges side = some e ∧
      ∀ s, s ≠ side → c'.edges s = c.edges s := by
  unfold b2Contact.setEdge at h
  unfold b2Contact.edges
  split_ifs at h with h0 h1
  · cases h
    subst h0
    refine ⟨Or.inl rfl, by simp, fun s hs => ?_⟩
    simp [hs]
  · cases h
    subst h1
    refine ⟨Or.inr rfl, by simp, fun s hs => ?_⟩
    simp [hs]

/-- A store to the edge `(id, side)` changes the edge of that key and no other. -/
theorem b2EdgeAt_setEdge (contacts : List b2Contact) (id side : Int) (c c' : b2Contact)
    (e : b2ContactEdge) (hc : b2Array_Get contacts id = some c)
    (hs : c.setEdge side e = some c') (q : Int) :
    b2EdgeAt (b2Array_Set contacts id c') q =
      if q = b2EdgeKey id side then some e else b2EdgeAt contacts q := by
  obtain ⟨h0, -⟩ := b2Array_Get_toNat _ _ _ hc
  obtain ⟨hside, hget, hother⟩ := b2Contact_setEdge_get c c' side e hs
  obtain ⟨d0, d1, d2⟩ := b2EdgeKey_decode id side h0 hside
  unfold b2EdgeAt
  by_cases hq : q = b2EdgeKey id side
  · rw [if_pos hq, hq, d1, d2, b2Array_Get_Set_self _ _ _ _ hc]
    exact hget
  · rw [if_neg hq]
    by_cases hk : b2KeyContact q = id
    · rw [hk, b2Array_Get_Set_self _ _ _ _ hc, hc]
      simp only [Option.bind_eq_bind, Option.some_bind]
      apply hother
      intro hsq
      apply hq
      have hq0 : 0 ≤ q := b2KeyContact_nonneg q (by rw [hk]; exact h0)
      obtain ⟨-, -, e3⟩ := b2EdgeKey_encode q hq0
      rw [← e3, hk, hsq]
    · rw [b2Array_Get_Set_other _ _ _ _ _ hc hk]

theorem b2Chain_mem (contacts : List b2Contact) (body : Int) :
    ∀ (ks : List Int) (prev nxt k : Int), b2Chain contacts body prev ks nxt → k ∈ ks →
      0 ≤ k ∧ ∃ e, b2EdgeAt contacts k = some e ∧ e.bodyId = body := by
  intro ks
  induction ks with
  | nil => intro prev nxt k _ hk; cases hk
  | cons a as ih =>
    intro prev nxt k h hk
    obtain ⟨h0, e, he, hb, -, -, hrest⟩ := h
    rcases List.mem_cons.mp hk with rfl | hk'
    · exact ⟨h0, e, he, hb⟩
    · exact ih _ _ _ hrest hk'

theorem b2Chain_congr (contacts contacts' : List b2Contact) (body : Int) :
    ∀ (ks : List Int) (prev nxt : Int),
      (∀ k, k ∈ ks → b2EdgeAt contacts' k = b2EdgeAt contacts k) →
      b2Chain contacts body prev ks nxt → b2Chain contacts' body prev ks nxt := by
  intro ks
  induction ks with
  | nil => intro prev nxt _ _; trivial
  | cons a as ih =>
    intro prev nxt hsame h
    obtain ⟨h0, e, he, hb, hp, hn, hrest⟩ := h
    refine ⟨h0, e, ?_, hb, hp, hn, ih _ _ (fun k hk => hsame k (List.mem_cons_of_mem _ hk)) hrest⟩
    rw [hsame a (List.mem_cons_self _ _)]
    exact he

/-- A chain of two segments is a chain of each, joined at the seam. -/
theorem b2Chain_append (contacts : List b2Contact) (body : Int) :
    ∀ (xs ys : List Int) (prev nxt : Int),
      b2Chain contacts body prev (xs ++ ys) nxt ↔
        b2Chain contacts body prev xs (ys.headD nxt) ∧
          b2Chain contacts body (xs.getLastD prev) ys nxt := by
  intro xs
  induction xs with
  | nil =>
    intro ys prev nxt
    simp [b2Chain]
  | cons a as ih =>
    intro ys prev nxt
    have hl : (a :: as).getLastD prev = as.getLastD a := by
      cases as <;> rfl
    have hh : (as ++ ys).headD nxt = as.headD (ys.headD nxt) := by
      cases as <;> rfl
    rw [hl]
    show (0 ≤ a ∧ ∃ e, b2EdgeAt contacts a = some e ∧ e.bodyId = body ∧ e.prevKey = prev ∧
        e.nextKey = (as ++ ys).headD nxt ∧ b2Chain contacts body a (as ++ ys) nxt) ↔
      (0 ≤ a ∧ ∃ e, b2EdgeAt contacts a = some e ∧ e.bodyId = body ∧ e.prevKey = prev ∧
        e.nextKey = as.headD (ys.headD nxt) ∧ b2Chain contacts body a as (ys.headD nxt)) ∧
      b2Chain contacts body (as.getLastD a) ys nxt
    rw [hh]
    constructor
    · rintro ⟨h0, e, he, hb, hp, hn, hrest⟩
      obtain ⟨r1, r2⟩ := (ih ys a nxt).mp hrest
      exact ⟨⟨h0, e, he, hb, hp, hn, r1⟩, r2⟩
    · rintro ⟨⟨h0, e, he, hb, hp, hn, r1⟩, r2⟩
      exact ⟨h0, e, he, hb, hp, hn, (ih ys a nxt).mpr ⟨r1, r2⟩⟩

/-- Storing a new `prevKey` into the first edge of a chain re-anchors the chain. -/
theorem b2Chain_set_prev (contacts contacts' : List b2Contact) (body : Int) (k : Int)
    (ks : List Int) (prev prev' nxt : Int) (e : b2ContactEdge)
    (he : b2EdgeAt contacts k = some e)
    (he' : b2EdgeAt contacts' k = some { e with prevKey := prev' })
    (hsame : ∀ q, q ∈ ks → b2EdgeAt contacts' q = b2EdgeAt contacts q)
    (h : b2Chain contacts body prev (k :: ks) nxt) :
    b2Chain contacts' body prev' (k :: ks) nxt := by
  obtain ⟨h0, e1, he1, hb, -, hn, hrest⟩ := h
  rw [he] at he1
  cases he1
  exact ⟨h0, _, he', hb, rfl, hn, b2Chain_congr _ _ _ _ _ _ hsame hrest⟩

/-- Storing a new `nextKey` into the last edge of a chain re-anchors its end. -/
theorem b2Chain_set_next (contacts contacts' : List b2Contact) (body : Int) :
    ∀ (xs : List Int) (l prev nxt nxt' : Int) (e : b2ContactEdge),
      b2EdgeAt contacts l = some e →
      b2EdgeAt contacts' l = some { e with nextKey := nxt' } →
      (∀ q, q ∈ xs → b2EdgeAt contacts' q = b2EdgeAt contacts q) →
      b2Chain contacts body prev (xs ++ [l]) nxt →
      b2Chain contacts' body prev (xs ++ [l]) nxt' := by
  intro xs
  induction xs with
  | nil =>
    intro l prev nxt nxt' e he he' _ h
    obtain ⟨h0, e1, he1, hb, hp, -, -⟩ := h
    rw [he] at he1
    cases he1
    exact ⟨h0, _, he', hb, hp, rfl, trivial⟩
  | cons a as ih =>
    intro l prev nxt nxt' e he he' hsame h
    obtain ⟨h0, e1, he1, hb, hp, hn, hrest⟩ := h
    have hh : ∀ n : Int, (as ++ [l]).headD n = (as ++ [l]).headD 0 := by
      intro n
      cases as <;> rfl
    refine ⟨h0, e1, ?_, hb, hp, ?_, ih l a nxt nxt' e he he'
      (fun q hq => hsame q (List.mem_cons_of_mem _ hq)) hrest⟩
    · rw [hsame a (List.mem_cons_self _ _)]
      exact he1
    · rw [hn]
      exact (hh nxt).trans (hh nxt').symm

theorem b2LiveAt_of_core (contacts contacts' : List b2Contact)
    (h : contacts'.map b2Contact.core = contacts.map b2Contact.core) (i : Int) :
    b2LiveAt contacts' i ↔ b2LiveAt contacts i := by
  unfold b2LiveAt
  constructor
  · rintro ⟨c, hc, hid⟩
    obtain ⟨c', hc', hcore⟩ := b2Array_Get_of_map_eq b2Contact.core _ _ i c h.symm hc
    exact ⟨c', hc', by rw [(b2Contact_core_fields _ _ hcore).1]; exact hid⟩
  · rintro ⟨c, hc, hid⟩
    obtain ⟨c', hc', hcore⟩ := b2Array_Get_of_map_eq b2Contact.core _ _ i c h hc
    exact ⟨c', hc', by rw [(b2Contact_core_fields _ _ hcore).1]; exact hid⟩

/-- What `b2ConnectToBody` does to the edges and the body, when the old head of the body's
list is not the new key. -/
theorem b2ConnectToBody_effect (w w' : b2World) (id side b : Int) (body : b2Body)
    (hbody : b2Array_Get w.bodies b = some body)
    (hne : body.headContactKey ≠ b2EdgeKey id side)
    (h : b2ConnectToBody w id side b = some w') :
    (side = 0 ∨ side = 1) ∧ 0 ≤ id ∧
    b2EdgeAt w'.contacts (b2EdgeKey id side) =
      some ⟨b, B2_NULL_INDEX, body.headContactKey⟩ ∧
    (body.headContactKey ≠ B2_NULL_INDEX →
      0 ≤ body.headContactKey ∧
      ∃ e, b2EdgeAt w.contacts body.headContactKey = some e ∧
        b2EdgeAt w'.contacts body.headContactKey =
          some { e with prevKey := b2EdgeKey id side }) ∧
    (∀ q, q ≠ b2EdgeKey id side → q ≠ body.headContactKey →
      b2EdgeAt w'.contacts q = b2EdgeAt w.contacts q) ∧
    w'.bodies = b2Array_Set w.bodies b
      { body with headContactKey := b2EdgeKey id side,
                  contactCount := body.contactCount + 1 } := by
  unfold b2ConnectToBody at h
  simp only [Option.bind_eq_bind, Option.bind_eq_some, Option.pure_def, Option.some.injEq] at h
  obtain ⟨body', hbody', c, hc, c1, hc1, w1, hw1, rfl⟩ := h
  rw [hbody] at hbody'
  cases hbody'
  obtain ⟨h0, -⟩ := b2Array_Get_toNat _ _ _ hc
  obtain ⟨hside, -, -⟩ := b2Contact_setEdge_get _ _ _ _ hc1
  have e1 := b2EdgeAt_setEdge w.contacts id side c c1 _ hc hc1
  split_ifs at hw1 with hhead
  · simp only [Option.bind_eq_bind, Option.bind_eq_some, Option.pure_def,
      Option.some.injEq] at hw1
    obtain ⟨hcn, hhc, he, hhe, hc2, hhc2, rfl⟩ := hw1
    dsimp only at hhc ⊢
    obtain ⟨hk0, -⟩ := b2Array_Get_toNat _ _ _ hhc
    have hh0 : 0 ≤ body.headContactKey := b2KeyContact_nonneg _ hk0
    obtain ⟨-, -, enc⟩ := b2EdgeKey_encode _ hh0
    have e2 := b2EdgeAt_setEdge (b2Array_Set w.contacts id c1) _ _ hcn hc2 _ hhc hhc2
    rw [enc] at e2
    have hhe' : b2EdgeAt (b2Array_Set w.contacts id c1) body.headContactKey = some he := by
      unfold b2EdgeAt
      rw [hhc]
      exact hhe
    rw [e1, if_neg hne] at hhe'
    refine ⟨hside, h0, ?_, fun _ => ⟨hh0, he, hhe', ?_⟩, fun q hq1 hq2 => ?_, rfl⟩
    · rw [e2, if_neg (Ne.symm hne), e1, if_pos rfl]
    · rw [e2, if_pos rfl]
    · rw [e2, if_neg hq2, e1, if_neg hq1]
  · simp only [Option.pure_def, Option.some.injEq] at hw1
    subst hw1
    dsimp only
    refine ⟨hside, h0, ?_, fun hh => absurd hh hhead, fun q hq1 _ => ?_, rfl⟩
    · rw [e1, if_pos rfl]
    · rw [e1, if_neg hq1]

theorem b2ListsInv_mem (bodies : List b2Body) (contacts : List b2Contact) (L : Int → List Int)
    (P : Int → Prop) (hinv : b2ListsInv bodies contacts L P) (b k : Int) (hk : k ∈ L b) :
    0 ≤ k ∧ ¬ P k ∧ b2LiveAt contacts (b2KeyContact k) ∧
      (∃ body, b2Array_Get bodies b = some body) ∧
      ∃ e, b2EdgeAt contacts k = some e ∧ e.bodyId = b := by
  obtain ⟨h1, h2, -, h4⟩ := hinv
  have hb : ∃ body, b2Array_Get bodies b = some body := by
    cases hg : b2Array_Get bodies b with
    | none => rw [h2 b hg] at hk; cases hk
    | some body => exact ⟨body, rfl⟩
  obtain ⟨body, hbody⟩ := hb
  obtain ⟨body', -, -, -, -, hchain⟩ := h1 b body hbody
  obtain ⟨h0, e, he, heb⟩ := b2Chain_mem _ _ _ _ _ _ hchain hk
  exact ⟨h0, (h4 b k hk).1, (h4 b k hk).2, ⟨body, hbody⟩, e, he, heb⟩

theorem b2ConnectToBody_side (w w' : b2World) (id side b : Int)
    (h : b2ConnectToBody w id side b = some w') :
    (side = 0 ∨ side = 1) ∧ 0 ≤ id ∧ ∃ body, b2Array_Get w.bodies b = some body := by
  unfold b2ConnectToBody at h
  simp only [Option.bind_eq_bind, Option.bind_eq_some, Option.pure_def, Option.some.injEq] at h
  obtain ⟨body, hbody, c, hc, c1, hc1, -⟩ := h
  exact ⟨(b2Contact_setEdge_get _ _ _ _ hc1).1, (b2Array_Get_toNat _ _ _ hc).1, body, hbody⟩

theorem b2List_headD_mem (L : List Int) (d : Int) (h : L.headD d ≠ d) : L.headD d ∈ L := by
  cases L with
  | nil => exact absurd rfl h
  | cons a as => exact List.mem_cons_self _ _

/-- Linking the pending key `(id, side)` at the head of the list of body `b` keeps the lists
well formed: the list of `b` gets the key in front. -/
theorem b2ConnectToBody_inv (w w' : b2World) (id side b : Int) (L : Int → List Int)
    (P : Int → Prop) (hinv : b2ListsInv w.bodies w.contacts L P)
    (hk : P (b2EdgeKey id side)) (hlive : b2LiveAt w.contacts id)
    (h : b2ConnectToBody w id side b = some w') :
    b2ListsInv w'.bodies w'.contacts
      (Function.update L b (b2EdgeKey id side :: L b))
      (fun q => P q ∧ q ≠ b2EdgeKey id side) := by
  obtain ⟨hside, hid0, body, hbody⟩ := b2ConnectToBody_side w w' id side b h
  obtain ⟨k0, kc, ks⟩ := b2EdgeKey_decode id side hid0 hside
  obtain ⟨hb1, hb2, hb3, hb4⟩ := hinv
  have hinv : b2ListsInv w.bodies w.contacts L P := ⟨hb1, hb2, hb3, hb4⟩
  obtain ⟨body', hbody', hhead, hcount, hnodup, hchain⟩ := hb1 b body hbody
  rw [hbody] at hbody'
  cases hbody'
  have hkL : ∀ b', b2EdgeKey id side ∉ L b' := fun b' hm => (hb4 b' _ hm).1 hk
  have hne : body.headContactKey ≠ b2EdgeKey id side := by
    intro heq
    by_cases hnull : (L b).headD B2_NULL_INDEX = B2_NULL_INDEX
    · rw [hhead, hnull] at heq
      rw [← heq] at k0
      exact absurd k0 (by decide)
    · exact hkL b (by rw [← heq, hhead]; exact b2List_headD_mem _ _ hnull)
  obtain ⟨-, -, eK, eH, eO, eB⟩ := b2ConnectToBody_effect w w' id side b body hbody hne h
  have hcore := (b2ConnectToBody_frame w w' id side b h).2.1
  have hliv := b2LiveAt_of_core w.contacts w'.contacts hcore
  have hgetb : b2Array_Get w'.bodies b = some
      { body with headContactKey := b2EdgeKey id side,
                  contactCount := body.contactCount + 1 } := by
    rw [eB]
    exact b2Array_Get_Set_self _ _ _ _ hbody
  have hgeto : ∀ b', b' ≠ b → b2Array_Get w'.bodies b' = b2Array_Get w.bodies b' := by
    intro b' hb'
    rw [eB]
    exact b2Array_Get_Set_other _ _ _ _ _ hbody hb'
  -- edges of keys in old lists other than the old head are unchanged
  have hsame : ∀ b' q, q ∈ L b' → q ≠ body.headContactKey →
      b2EdgeAt w'.contacts q = b2EdgeAt w.contacts q :=
    fun b' q hq hqh => eO q (fun heq => hkL b' (heq ▸ hq)) hqh
  have hheadmem : body.headContactKey ≠ B2_NULL_INDEX → body.headContactKey ∈ L b := by
    intro hnn
    rw [hhead] at hnn ⊢
    exact b2List_headD_mem _ _ hnn
  refine ⟨?_, ?_, ?_, ?_⟩
  · intro b' body1 hbody1
    by_cases hbb : b' = b
    · subst hbb
      rw [Function.update_same]
      rw [hgetb] at hbody1
      refine ⟨_, hgetb, rfl, ?_, List.nodup_cons.mpr ⟨hkL b', hnodup⟩, ?_⟩
      · dsimp only
        rw [hcount]
        simp
      · refine ⟨k0, _, eK, rfl, rfl, hhead, ?_⟩
        cases hL : L b' with
        | nil => trivial
        | cons a as =>
          rw [hL] at hchain hhead hnodup
          have ha : body.headContactKey = a := hhead
          have hnn : body.headContactKey ≠ B2_NULL_INDEX := by
            rw [ha]
            obtain ⟨h0, -⟩ := hchain
            unfold B2_NULL_INDEX
            omega
          obtain ⟨-, e, he, he'⟩ := eH hnn
          rw [ha] at he he'
          refine b2Chain_set_prev _ _ _ _ _ _ _ _ e he he' (fun q hq => ?_) hchain
          apply hsame b' q (by rw [hL]; exact List.mem_cons_of_mem _ hq)
          rw [ha]
          intro hqa
          exact (List.nodup_cons.mp hnodup).1 (hqa ▸ hq)
    · rw [Function.update_noteq hbb]
      rw [hgeto b' hbb] at hbody1
      obtain ⟨body2, hbody2, hh2, hc2, hn2, hch2⟩ := hb1 b' body1 hbody1
      refine ⟨body2, by rw [hgeto b' hbb]; exact hbody2, hh2, hc2, hn2, ?_⟩
      refine b2Chain_congr _ _ _ _ _ _ (fun q hq => ?_) hch2
      apply hsame b' q hq
      intro hqh
      by_cases hnn : body.headContactKey = B2_NULL_INDEX
      · obtain ⟨q0, -⟩ := b2ListsInv_mem _ _ _ _ hinv b' q hq
        rw [hqh, hnn] at q0
        exact absurd q0 (by decide)
      · obtain ⟨-, -, -, -, e1, he1, hb1'⟩ := b2ListsInv_mem _ _ _ _ hinv b' q hq
        obtain ⟨-, -, -, -, e2, he2, hb2'⟩ := b2ListsInv_mem _ _ _ _ hinv b _ (hheadmem hnn)
        rw [hqh, he2] at he1
        cases he1
        exact hbb (hb1'.symm.trans hb2')
  · intro b' hnone
    have hbb : b' ≠ b := by
      intro heq
      rw [heq, hgetb] at hnone
      cases hnone
    rw [Function.update_noteq hbb]
    rw [hgeto b' hbb] at hnone
    exact hb2 b' hnone
  · intro q e hq0 hlq heq
    rw [hliv] at hlq
    by_cases hqk : q = b2EdgeKey id side
    · right
      rw [hqk] at heq ⊢
      rw [eK] at heq
      cases heq
      dsimp only
      rw [Function.update_same]
      exact List.mem_cons_self _ _
    · by_cases hqh : q = body.headContactKey
      · right
        have hnn : body.headContactKey ≠ B2_NULL_INDEX := by
          rw [← hqh]
          unfold B2_NULL_INDEX
          omega
        obtain ⟨-, e0, he0, he0'⟩ := eH hnn
        rw [hqh, he0'] at heq
        cases heq
        dsimp only
        obtain ⟨-, -, -, -, e2, he2, hb2'⟩ := b2ListsInv_mem _ _ _ _ hinv b _ (hheadmem hnn)
        rw [he0] at he2
        cases he2
        rw [hb2', Function.update_same, hqh]
        exact List.mem_cons_of_mem _ (hheadmem hnn)
      · rw [eO q hqk hqh] at heq
        rcases hb3 q e hq0 hlq heq with hp | hm
        · exact Or.inl ⟨hp, hqk⟩
        · right
          by_cases hbb : e.bodyId = b
          · rw [hbb, Function.update_same]
            exact List.mem_cons_of_mem _ (hbb ▸ hm)
          · rw [Function.update_noteq hbb]
            exact hm
  · intro b' q hq
    by_cases hbb : b' = b
    · subst hbb
      rw [Function.update_same] at hq
      rcases List.mem_cons.mp hq with hqk | hq'
      · rw [hqk]
        refine ⟨fun hp => hp.2 rfl, ?_⟩
        rw [hliv, kc]
        exact hlive
      · exact ⟨fun hp => (hb4 b' q hq').1 hp.1, (hliv _).mpr (hb4 b' q hq').2⟩
    · rw [Function.update_noteq hbb] at hq
      exact ⟨fun hp => (hb4 b' q hq).1 hp.1, (hliv _).mpr (hb4 b' q hq).2⟩

/-- The guarded store to one field of the edge a key names, the block that `b2ConnectToBody`
uses once and `b2DisconnectFromBody` twice. -/
theorem b2EdgeWrite (world w1 : b2World) (key : Int) (f : b2ContactEdge → b2ContactEdge)
    (h : (if key ≠ B2_NULL_INDEX then do
        let headContact ← b2Array_Get world.contacts (b2KeyContact key)
        let headEdge ← headContact.edges (b2KeySide key)
        let headContact ← headContact.setEdge (b2KeySide key) (f headEdge)
        pure { world with
          contacts := b2Array_Set world.contacts (b2KeyContact key) headContact }
      else pure world) = some w1) :
    w1 = { world with contacts := w1.contacts } ∧
    w1.contacts.map b2Contact.core = world.contacts.map b2Contact.core ∧
    (key ≠ B2_NULL_INDEX → 0 ≤ key ∧ ∃ e, b2EdgeAt world.contacts key = some e ∧
      b2EdgeAt w1.contacts key = some (f e)) ∧
    (∀ q, q ≠ key → b2EdgeAt w1.contacts q = b2EdgeAt world.contacts q) := by
  split_ifs at h with hkey
  · simp only [Option.bind_eq_bind, Option.bind_eq_some, Option.pure_def,
      Option.some.injEq] at h
    obtain ⟨hc, hhc, he, hhe, hc2, hhc2, rfl⟩ := h
    obtain ⟨hk0, -⟩ := b2Array_Get_toNat _ _ _ hhc
    have hh0 : 0 ≤ key := b2KeyContact_nonneg _ hk0
    obtain ⟨-, -, enc⟩ := b2EdgeKey_encode _ hh0
    have e2 := b2EdgeAt_setEdge world.contacts _ _ hc hc2 _ hhc hhc2
    rw [enc] at e2
    have hhe' : b2EdgeAt world.contacts key = some he := by
      unfold b2EdgeAt
      rw [hhc]
      exact hhe
    refine ⟨rfl, b2Array_Set_map_of_eq _ _ _ _ _ hhc (b2Contact_setEdge_core _ _ _ _ hhc2),
      fun _ => ⟨hh0, he, hhe', ?_⟩, fun q hq => ?_⟩
    · dsimp only
      rw [e2, if_pos rfl]
    · dsimp only
      rw [e2, if_neg hq]
  · simp only [Option.pure_def, Option.some.injEq] at h
    subst h
    exact ⟨rfl, rfl, fun hh => absurd hh hkey, fun _ _ => rfl⟩

theorem b2Contact_edges_side (c : b2Contact) (side : Int) (e : b2ContactEdge)
    (h : c.edges side = some e) : side = 0 ∨ side = 1 := by
  unfold b2Contact.edges at h
  split_ifs at h with h0 h1
  · exact Or.inl h0
  · exact Or.inr h1

theorem b2EdgeAt_key (contacts : List b2Contact) (contact side : Int) (c : b2Contact)
    (hc : b2Array_Get contacts contact = some c) (hs : side = 0 ∨ side = 1) :
    b2EdgeAt contacts (b2EdgeKey contact side) = c.edges side := by
  obtain ⟨h0, -⟩ := b2Array_Get_toNat _ _ _ hc
  obtain ⟨-, d1, d2⟩ := b2EdgeKey_decode contact side h0 hs
  unfold b2EdgeAt
  rw [d1, d2, hc]
  rfl

/-- What `b2DisconnectFromBody` does to the edges and the body, when the neighbours of the
edge are other edges and differ from each other. -/
theorem b2DisconnectFromBody_effect (w w' : b2World) (contact side b : Int) (c : b2Contact)
    (edge : b2ContactEdge) (body : b2Body)
    (hc : b2Array_Get w.contacts contact = some c) (hedge : c.edges side = some edge)
    (hlive : c.contactId = contact) (hbody : b2Array_Get w.bodies b = some body)
    (hp : edge.prevKey ≠ b2EdgeKey contact side) (hn : edge.nextKey ≠ b2EdgeKey contact side)
    (hpn : edge.prevKey = B2_NULL_INDEX ∨ edge.prevKey ≠ edge.nextKey)
    (h : b2DisconnectFromBody w contact side b = some w') :
    (edge.prevKey ≠ B2_NULL_INDEX → 0 ≤ edge.prevKey ∧
      ∃ e, b2EdgeAt w.contacts edge.prevKey = some e ∧
        b2EdgeAt w'.contacts edge.prevKey = some { e with nextKey := edge.nextKey }) ∧
    (edge.nextKey ≠ B2_NULL_INDEX → 0 ≤ edge.nextKey ∧
      ∃ e, b2EdgeAt w.contacts edge.nextKey = some e ∧
        b2EdgeAt w'.contacts edge.nextKey = some { e with prevKey := edge.prevKey }) ∧
    (∀ q, q ≠ edge.prevKey → q ≠ edge.nextKey →
      b2EdgeAt w'.contacts q = b2EdgeAt w.contacts q) ∧
    w'.bodies = b2Array_Set w.bodies b
      { headContactKey :=
          if body.headContactKey = b2EdgeKey contact side then edge.nextKey
          else body.headContactKey
        contactCount := body.contactCount - 1
        setIndex := body.setIndex
        localIndex := body.localIndex } := by
  have hside := b2Contact_edges_side c side edge hedge
  have hk : b2EdgeAt w.contacts (b2EdgeKey contact side) = some edge := by
    rw [b2EdgeAt_key _ _ _ c hc hside]
    exact hedge
  unfold b2DisconnectFromBody at h
  simp only [Option.bind_eq_bind, Option.bind_eq_some, Option.pure_def, Option.some.injEq] at h
  obtain ⟨c', hc', edge', hedge', w1, hw1, c2, hc2, edge2, hedge2, w2, hw2, c3, hc3, edge3,
    hedge3, body', hbody', rfl⟩ := h
  rw [hc] at hc'
  cases hc'
  rw [hedge] at hedge'
  cases hedge'
  obtain ⟨f1, m1, p1, o1⟩ := b2EdgeWrite w w1 edge.prevKey
    (fun e => { e with nextKey := edge.nextKey }) hw1
  have hk1 : b2EdgeAt w1.contacts (b2EdgeKey contact side) = some edge := by
    rw [o1 _ (Ne.symm hp)]
    exact hk
  have he2 : edge2 = edge := by
    rw [b2EdgeAt_key _ _ _ c2 hc2 hside, hedge2] at hk1
    exact Option.some.inj hk1
  subst he2
  obtain ⟨f2, m2, p2, o2⟩ := b2EdgeWrite w1 w2 edge2.nextKey
    (fun e => { e with prevKey := edge2.prevKey }) hw2
  have hk2 : b2EdgeAt w2.contacts (b2EdgeKey contact side) = some edge2 := by
    rw [o2 _ (Ne.symm hn)]
    exact hk1
  have he3 : edge3 = edge2 := by
    rw [b2EdgeAt_key _ _ _ c3 hc3 hside, hedge3] at hk2
    exact Option.some.inj hk2
  subst he3
  have hid3 : c3.contactId = contact := by
    obtain ⟨c4, hc4, hcore⟩ := b2Array_Get_of_map_eq b2Contact.core _ _ contact c3
      (m2.trans m1).symm hc3
    rw [hc] at hc4
    cases hc4
    rw [← (b2Contact_core_fields _ _ hcore).1]
    exact hlive
  have hb2 : w2.bodies = w.bodies := by rw [f2, f1]
  rw [hb2, hbody] at hbody'
  cases hbody'
  refine ⟨fun hh => ?_, fun hh => ?_, fun q hq1 hq2 => ?_, ?_⟩
  · obtain ⟨h0, e, he, he'⟩ := p1 hh
    refine ⟨h0, e, he, ?_⟩
    dsimp only
    rw [o2 _ (hpn.resolve_left hh)]
    exact he'
  · obtain ⟨h0, e, he, he'⟩ := p2 hh
    refine ⟨h0, e, ?_, he'⟩
    have hnp : edge3.nextKey ≠ edge3.prevKey := by
      rcases hpn with hnull | hne
      · rw [hnull]
        exact hh
      · exact Ne.symm hne
    rw [← o1 _ hnp]
    exact he
  · dsimp only
    rw [o2 _ hq2, o1 _ hq1]
  · dsimp only
    rw [hb2, hid3]
    split_ifs <;> rfl

theorem b2List_getLastD_concat (xs : List Int) (l d : Int) : (xs ++ [l]).getLastD d = l := by
  simp [List.getLastD_eq_getLast?]

theorem b2List_nil_or_concat (xs : List Int) : xs = [] ∨ ∃ ys l, xs = ys ++ [l] := by
  rcases List.eq_nil_or_concat xs with h | ⟨ys, l, h⟩
  · exact Or.inl h
  · exact Or.inr ⟨ys, l, by rw [h, List.concat_eq_append]⟩

theorem b2List_headD_append (xs ys : List Int) (d : Int) :
    (xs ++ ys).headD d = xs.headD (ys.headD d) := by
  cases xs <;> rfl

/-- Unlinking the key `(contact, side)` of a live contact from the list of the body its edge
names keeps the lists well formed: that list loses the key, which becomes pending. -/
theorem b2DisconnectFromBody_inv (w w' : b2World) (contact side : Int) (c : b2Contact)
    (edge : b2ContactEdge) (L : Int → List Int) (P : Int → Prop)
    (hinv : b2ListsInv w.bodies w.contacts L P)
    (hc : b2Array_Get w.contacts contact = some c) (hlive : c.contactId = contact)
    (hedge : c.edges side = some edge) (hk : ¬ P (b2EdgeKey contact side))
    (h : b2DisconnectFromBody w contact side edge.bodyId = some w') :
    b2ListsInv w'.bodies w'.contacts
      (Function.update L edge.bodyId ((L edge.bodyId).erase (b2EdgeKey contact side)))
      (fun q => P q ∨ q = b2EdgeKey contact side) := by
  have hside := b2Contact_edges_side c side edge hedge
  obtain ⟨hid0, -⟩ := b2Array_Get_toNat _ _ _ hc
  obtain ⟨k0, kc, ks⟩ := b2EdgeKey_decode contact side hid0 hside
  have hkE : b2EdgeAt w.contacts (b2EdgeKey contact side) = some edge := by
    rw [b2EdgeAt_key _ _ _ c hc hside]
    exact hedge
  obtain ⟨hb1, hb2, hb3, hb4⟩ := hinv
  have hinv : b2ListsInv w.bodies w.contacts L P := ⟨hb1, hb2, hb3, hb4⟩
  have hkmem : b2EdgeKey contact side ∈ L edge.bodyId :=
    (hb3 _ edge k0 (by rw [kc]; exact ⟨c, hc, hlive⟩) hkE).resolve_left hk
  obtain ⟨-, -, -, ⟨body, hbody⟩, -⟩ := b2ListsInv_mem _ _ _ _ hinv _ _ hkmem
  obtain ⟨body', hbody', hhead, hcount, hnodup, hchain⟩ := hb1 _ body hbody
  rw [hbody] at hbody'
  cases hbody'
  generalize hkdef : b2EdgeKey contact side = k at *
  generalize hbdef : edge.bodyId = b at *
  obtain ⟨xs, ys, hL⟩ := List.append_of_mem hkmem
  rw [hL] at hhead hcount hnodup hchain
  obtain ⟨nxs, nkys, hdisj⟩ := List.nodup_append.mp hnodup
  obtain ⟨hkys, nys⟩ := List.nodup_cons.mp nkys
  have hkxs : k ∉ xs := fun hm => hdisj hm (List.mem_cons_self _ _)
  have hxy : ∀ q, q ∈ xs → q ∉ ys := fun q hq hq' => hdisj hq (List.mem_cons_of_mem _ hq')
  obtain ⟨hch1, hch2⟩ := (b2Chain_append _ _ xs (k :: ys) _ _).mp hchain
  obtain ⟨-, e1, he1, -, hprev, hnext, hch3⟩ := hch2
  rw [hkE] at he1
  cases he1
  have hLmem : ∀ q, q ∈ L b → 0 ≤ q ∧ ∃ e, b2EdgeAt w.contacts q = some e ∧ e.bodyId = b := by
    intro q hq
    obtain ⟨q0, -, -, -, e, he, hb⟩ := b2ListsInv_mem _ _ _ _ hinv b q hq
    exact ⟨q0, e, he, hb⟩
  have hxsL : ∀ q, q ∈ xs → q ∈ L b := fun q hq => by rw [hL]; exact List.mem_append_left _ hq
  have hysL : ∀ q, q ∈ ys → q ∈ L b :=
    fun q hq => by rw [hL]; exact List.mem_append_right _ (List.mem_cons_of_mem _ hq)
  -- the neighbours
  have hprevmem : edge.prevKey ≠ B2_NULL_INDEX → edge.prevKey ∈ xs := by
    intro hnn
    rw [hprev] at hnn ⊢
    rcases b2List_nil_or_concat xs with hx | ⟨xs', l, hx⟩
    · rw [hx] at hnn
      exact absurd rfl hnn
    · rw [hx, b2List_getLastD_concat]
      simp
  have hnextmem : edge.nextKey ≠ B2_NULL_INDEX → edge.nextKey ∈ ys := by
    intro hnn
    rw [hnext] at hnn ⊢
    exact b2List_headD_mem _ _ hnn
  have hnull : ∀ q, 0 ≤ q → q ≠ B2_NULL_INDEX := by
    intro q hq
    unfold B2_NULL_INDEX
    omega
  have hp : edge.prevKey ≠ k := by
    intro heq
    exact hkxs (heq ▸ hprevmem (heq ▸ hnull k k0))
  have hn : edge.nextKey ≠ k := by
    intro heq
    exact hkys (heq ▸ hnextmem (heq ▸ hnull k k0))
  have hpn : edge.prevKey = B2_NULL_INDEX ∨ edge.prevKey ≠ edge.nextKey := by
    by_cases hnn : edge.prevKey = B2_NULL_INDEX
    · exact Or.inl hnn
    · right
      intro heq
      exact hxy _ (hprevmem hnn) (heq ▸ hnextmem (heq ▸ hnn))
  obtain ⟨eP, eN, eO, eB⟩ := b2DisconnectFromBody_effect w w' contact side b c edge body hc hedge
    hlive hbody (hkdef ▸ hp) (hkdef ▸ hn) hpn h
  rw [hkdef] at eB
  have hcore := (b2DisconnectFromBody_frame w w' contact side b h).2.1
  have hliv := b2LiveAt_of_core w.contacts w'.contacts hcore
  have herase : (L b).erase k = xs ++ ys := by
    rw [hL, List.erase_append_right _ hkxs, List.erase_cons_head]
  have hgetb : b2Array_Get w'.bodies b = some
      { headContactKey := if body.headContactKey = k then edge.nextKey else body.headContactKey
        contactCount := body.contactCount - 1
        setIndex := body.setIndex
        localIndex := body.localIndex } := by
    rw [eB]
    exact b2Array_Get_Set_self _ _ _ _ hbody
  have hgeto : ∀ b', b' ≠ b → b2Array_Get w'.bodies b' = b2Array_Get w.bodies b' := by
    intro b' hb'
    rw [eB]
    exact b2Array_Get_Set_other _ _ _ _ _ hbody hb'
  -- keys of other lists are not neighbours
  have hother : ∀ b' q, b' ≠ b → q ∈ L b' → q ≠ edge.prevKey ∧ q ≠ edge.nextKey ∧ q ≠ k := by
    intro b' q hbb hq
    obtain ⟨q0, -, -, -, e, he, hb⟩ := b2ListsInv_mem _ _ _ _ hinv b' q hq
    have hnot : q ∉ L b := by
      intro hq'
      obtain ⟨-, e', he', hb'⟩ := hLmem q hq'
      rw [he] at he'
      cases he'
      exact hbb (hb.symm.trans hb')
    refine ⟨fun heq => ?_, fun heq => ?_, fun heq => hnot (heq ▸ hkmem)⟩
    · exact hnot (heq ▸ hxsL _ (hprevmem (heq ▸ hnull q q0)))
    · exact hnot (heq ▸ hysL _ (hnextmem (heq ▸ hnull q q0)))
  refine ⟨?_, ?_, ?_, ?_⟩
  · intro b' body1 hbody1
    by_cases hbb : b' = b
    · subst hbb
      rw [Function.update_same, herase]
      refine ⟨_, hgetb, ?_, ?_, ?_, ?_⟩
      · dsimp only
        rw [hhead]
        cases xs with
        | nil =>
          rw [List.nil_append, List.nil_append, List.headD_cons, if_pos rfl, hnext]
        | cons x xs' =>
          have hxk : x ≠ k := fun heq => hkxs (heq ▸ List.mem_cons_self _ _)
          rw [List.cons_append, List.headD_cons, if_neg hxk]
          rfl
      · dsimp only
        rw [hcount]
        simp only [List.length_append, List.length_cons]
        push_cast
        ring
      · exact List.nodup_append.mpr ⟨nxs, nys, fun q hq hq' => hxy q hq hq'⟩
      · rw [b2Chain_append]
        constructor
        · rcases b2List_nil_or_concat xs with hx | ⟨xs', l, hx⟩
          · rw [hx]
            trivial
          · rw [hx] at hch1 hprev nxs hkxs hxy hprevmem
            rw [hx]
            rw [b2List_getLastD_concat] at hprev
            have hl0 : l ∈ L b' := hxsL l (by rw [hx]; simp)
            have hlnn : edge.prevKey ≠ B2_NULL_INDEX := by
              rw [hprev]
              exact hnull l (hLmem l hl0).1
            obtain ⟨-, e, he, he'⟩ := eP hlnn
            rw [hprev] at he he'
            rw [← hnext]
            have hch1' : b2Chain w.contacts b' B2_NULL_INDEX (xs' ++ [l]) k := hch1
            refine b2Chain_set_next _ _ _ xs' l _ _ _ e he he' (fun q hq => ?_) hch1'
            have hq1 : q ∈ xs' ++ [l] := List.mem_append_left _ hq
            apply eO
            · rw [hprev]
              intro heq
              have := (List.nodup_append.mp nxs).2.2 hq
              exact this (by rw [heq]; simp)
            · intro heq
              exact hxy q hq1 (heq ▸ hnextmem (heq ▸ hnull q (hLmem q (hxsL q (hx ▸ hq1))).1))
        · cases ys with
          | nil => trivial
          | cons a as =>
            have ha : edge.nextKey = a := hnext
            have hann : edge.nextKey ≠ B2_NULL_INDEX := by
              rw [ha]
              exact hnull a (hLmem a (hysL a (List.mem_cons_self _ _))).1
            obtain ⟨-, e, he, he'⟩ := eN hann
            rw [ha] at he he'
            rw [← hprev]
            refine b2Chain_set_prev _ _ _ _ _ _ _ _ e he he' (fun q hq => ?_) hch3
            have hq1 : q ∈ a :: as := List.mem_cons_of_mem _ hq
            apply eO
            · intro heq
              exact hxy q (heq ▸ hprevmem (heq ▸ hnull q (hLmem q (hysL q hq1)).1)) hq1
            · rw [ha]
              intro heq
              exact (List.nodup_cons.mp nys).1 (heq ▸ hq)
    · rw [Function.update_noteq hbb]
      rw [hgeto b' hbb] at hbody1
      obtain ⟨body2, hbody2, hh2, hc2, hn2, hch2'⟩ := hb1 b' body1 hbody1
      refine ⟨body2, by rw [hgeto b' hbb]; exact hbody2, hh2, hc2, hn2, ?_⟩
      refine b2Chain_congr _ _ _ _ _ _ (fun q hq => ?_) hch2'
      obtain ⟨o1, o2, -⟩ := hother b' q hbb hq
      exact eO q o1 o2
  · intro b' hnone
    have hbb : b' ≠ b := by
      intro heq
      rw [heq, hgetb] at hnone
      cases hnone
    rw [Function.update_noteq hbb]
    rw [hgeto b' hbb] at hnone
    exact hb2 b' hnone
  · intro q e hq0 hlq heq
    rw [hliv] at hlq
    by_cases hqk : q = k
    · exact Or.inl (Or.inr hqk)
    · have hkeep : ∀ e0 : b2ContactEdge, b2EdgeAt w.contacts q = some e0 → e0.bodyId = e.bodyId →
          (P q ∨ q = k) ∨ q ∈ Function.update L b ((L b).erase k) e.bodyId := by
        intro e0 he0 hbid
        rcases hb3 q e0 hq0 hlq he0 with hp' | hm
        · exact Or.inl (Or.inl hp')
        · right
          rw [hbid] at hm
          by_cases hbb : e.bodyId = b
          · rw [hbb, Function.update_same]
            exact (List.mem_erase_of_ne hqk).mpr (hbb ▸ hm)
          · rw [Function.update_noteq hbb]
            exact hm
      by_cases hqp : q = edge.prevKey
      · obtain ⟨-, e0, he0, he0'⟩ := eP (hqp ▸ hnull q hq0)
        rw [← hqp] at he0 he0'
        rw [he0'] at heq
        cases heq
        exact hkeep e0 he0 rfl
      · by_cases hqn : q = edge.nextKey
        · obtain ⟨-, e0, he0, he0'⟩ := eN (hqn ▸ hnull q hq0)
          rw [← hqn] at he0 he0'
          rw [he0'] at heq
          cases heq
          exact hkeep e0 he0 rfl
        · rw [eO q hqp hqn] at heq
          exact hkeep e heq rfl
  · intro b' q hq
    by_cases hbb : b' = b
    · subst hbb
      rw [Function.update_same] at hq
      have hq' : q ∈ L b' := List.mem_of_mem_erase hq
      have hqk : q ≠ k := fun heq => by
        rw [heq, herase] at hq
        rcases List.mem_append.mp hq with h1 | h2
        · exact hkxs h1
        · exact hkys h2
      exact ⟨fun hp' => hp'.elim (hb4 b' q hq').1 hqk, (hliv _).mpr (hb4 b' q hq').2⟩
    · rw [Function.update_noteq hbb] at hq
      exact ⟨fun hp' => hp'.elim (hb4 b' q hq).1 (hother b' q hbb hq).2.2,
        (hliv _).mpr (hb4 b' q hq).2⟩

/-- Moving the invariant to other arrays and other pending keys: the bodies keep head and
count, the edges of keys that are not pending afterwards are the same, and liveness of
their contacts is kept in the directions needed. -/
theorem b2ListsInv_transfer (bodies bodies' : List b2Body) (contacts contacts' : List b2Contact)
    (L : Int → List Int) (P P' : Int → Prop)
    (hb : bodies'.map (fun b => (b.headContactKey, b.contactCount)) =
      bodies.map (fun b => (b.headContactKey, b.contactCount)))
    (he : ∀ q, 0 ≤ q → ¬ P' q → b2EdgeAt contacts' q = b2EdgeAt contacts q)
    (hl : ∀ q, 0 ≤ q → ¬ P' q → b2LiveAt contacts' (b2KeyContact q) →
      b2LiveAt contacts (b2KeyContact q))
    (h3 : ∀ q, 0 ≤ q → b2LiveAt contacts' (b2KeyContact q) → P q → P' q)
    (h4 : ∀ q, 0 ≤ q → ¬ P q → b2LiveAt contacts (b2KeyContact q) → (∃ b, q ∈ L b) →
      ¬ P' q ∧ b2LiveAt contacts' (b2KeyContact q))
    (hinv : b2ListsInv bodies contacts L P) : b2ListsInv bodies' contacts' L P' := by
  obtain ⟨hb1, hb2, hb3, hb4⟩ := hinv
  have hinv : b2ListsInv bodies contacts L P := ⟨hb1, hb2, hb3, hb4⟩
  have hlist : ∀ b q, q ∈ L b → 0 ≤ q ∧ ¬ P' q ∧ b2LiveAt contacts' (b2KeyContact q) := by
    intro b q hq
    obtain ⟨q0, np, lv, -, -⟩ := b2ListsInv_mem _ _ _ _ hinv b q hq
    exact ⟨q0, h4 q q0 np lv ⟨b, hq⟩⟩
  have hget : ∀ b, (b2Array_Get bodies' b).map (fun b => (b.headContactKey, b.contactCount)) =
      (b2Array_Get bodies b).map (fun b => (b.headContactKey, b.contactCount)) := by
    intro b
    rw [← b2Array_Get_map, hb, b2Array_Get_map]
  refine ⟨?_, ?_, ?_, ?_⟩
  · intro b body' hbody'
    have := hget b
    rw [hbody'] at this
    cases hg : b2Array_Get bodies b with
    | none => rw [hg] at this; cases this
    | some body =>
      rw [hg] at this
      simp only [Option.map_some', Option.some.injEq, Prod.mk.injEq] at this
      obtain ⟨body1, hbody1, hh, hc, hn, hch⟩ := hb1 b body hg
      rw [hg] at hbody1
      cases hbody1
      refine ⟨body', hbody', this.1.trans hh, this.2.trans hc, hn, ?_⟩
      exact b2Chain_congr _ _ _ _ _ _
        (fun q hq => he q (hlist b q hq).1 (hlist b q hq).2.1) hch
  · intro b hnone
    have := hget b
    rw [hnone] at this
    cases hg : b2Array_Get bodies b with
    | none => exact hb2 b hg
    | some body => rw [hg] at this; cases this
  · intro q e q0 hlq heq
    by_cases hp : P' q
    · exact Or.inl hp
    · rw [he q q0 hp] at heq
      rcases hb3 q e q0 (hl q q0 hp hlq) heq with h | h
      · exact Or.inl (h3 q q0 hlq h)
      · exact Or.inr h
  · intro b q hq
    exact (hlist b q hq).2

/-- The edge a key names depends on the edges of the records only. -/
theorem b2EdgeAt_of_edges (contacts contacts' : List b2Contact)
    (h : contacts'.map (fun c => (c.edges0, c.edges1)) =
      contacts.map (fun c => (c.edges0, c.edges1))) (q : Int) :
    b2EdgeAt contacts' q = b2EdgeAt contacts q := by
  unfold b2EdgeAt
  have hm : (b2Array_Get contacts' (b2KeyContact q)).map (fun c => (c.edges0, c.edges1)) =
      (b2Array_Get contacts (b2KeyContact q)).map (fun c => (c.edges0, c.edges1)) := by
    rw [← b2Array_Get_map, h, b2Array_Get_map]
  cases h1 : b2Array_Get contacts' (b2KeyContact q) with
  | none =>
    cases h2 : b2Array_Get contacts (b2KeyContact q) with
    | none => rfl
    | some c => rw [h1, h2] at hm; cases hm
  | some c' =>
    cases h2 : b2Array_Get contacts (b2KeyContact q) with
    | none => rw [h1, h2] at hm; cases hm
    | some c =>
      rw [h1, h2] at hm
      simp only [Option.map_some', Option.some.injEq, Prod.mk.injEq] at hm
      simp only [Option.some_bind]
      unfold b2Contact.edges
      rw [hm.1, hm.2]

/-- Liveness of a slot depends on the `contactId` fields only. -/
theorem b2LiveAt_of_ids (contacts contacts' : List b2Contact)
    (h : contacts'.map (fun c => c.contactId) = contacts.map (fun c => c.contactId)) (i : Int) :
    b2LiveAt contacts' i ↔ b2LiveAt contacts i := by
  unfold b2LiveAt
  constructor
  · rintro ⟨c, hc, hid⟩
    obtain ⟨c', hc', hcid⟩ := b2Array_Get_of_map_eq (fun c : b2Contact => c.contactId) _ _ i c
      h.symm hc
    exact ⟨c', hc', hcid.trans hid⟩
  · rintro ⟨c, hc, hid⟩
    obtain ⟨c', hc', hcid⟩ := b2Array_Get_of_map_eq (fun c : b2Contact => c.contactId) _ _ i c
      h hc
    exact ⟨c', hc', hcid.trans hid⟩

theorem b2Contact_identity_edges (contacts contacts' : List b2Contact)
    (h : contacts'.map b2Contact.identity = contacts.map b2Contact.identity) :
    contacts'.map (fun c => (c.edges0, c.edges1)) =
      contacts.map (fun c => (c.edges0, c.edges1)) := by
  have := congrArg (List.map
    (fun p : b2ContactEdge × b2ContactEdge × Int × Int × Int × Nat × Nat => (p.1, p.2.1))) h
  simpa [List.map_map, Function.comp_def, b2Contact.identity] using this

theorem b2Contact_identity_ids (contacts contacts' : List b2Contact)
    (h : contacts'.map b2Contact.identity = contacts.map b2Contact.identity) :
    contacts'.map (fun c => c.contactId) = contacts.map (fun c => c.contactId) := by
  have := congrArg (List.map
    (fun p : b2ContactEdge × b2ContactEdge × Int × Int × Int × Nat × Nat => p.2.2.2.2.1)) h
  simpa [List.map_map, Function.comp_def, b2Contact.identity] using this

theorem b2Contact_core_ids (contacts contacts' : List b2Contact)
    (h : contacts'.map b2Contact.core = contacts.map b2Contact.core) :
    contacts'.map (fun c => c.contactId) = contacts.map (fun c => c.contactId) := by
  have := congrArg (List.map (fun c : b2Contact => c.contactId)) h
  simpa [List.map_map, Function.comp_def, b2Contact.core] using this

/-- The invariant is kept by a step that keeps the lifecycle fields. -/
theorem b2ListsInv_of_kept (w w' : b2World) (L : Int → List Int) (P : Int → Prop)
    (h : b2LifecycleKept w w') (hinv : b2ListsInv w.bodies w.contacts L P) :
    b2ListsInv w'.bodies w'.contacts L P := by
  obtain ⟨-, -, -, -, -, -, hb, hc⟩ := h
  have hl := b2LiveAt_of_ids _ _ (b2Contact_identity_ids _ _ hc)
  refine b2ListsInv_transfer _ _ _ _ L P P hb
    (fun q _ _ => b2EdgeAt_of_edges _ _ (b2Contact_identity_edges _ _ hc) q)
    (fun q _ _ hq => (hl _).mp hq) (fun q _ _ hp => hp)
    (fun q _ hp hq _ => ⟨hp, (hl _).mpr hq⟩) hinv

theorem b2PoolInv_congr (contacts contacts' : List b2Contact) (pool : b2IdPool)
    (h : contacts'.map (fun c => c.contactId) = contacts.map (fun c => c.contactId))
    (hinv : b2PoolInv contacts pool) : b2PoolInv contacts' pool := by
  obtain ⟨h1, h2, h3⟩ := hinv
  refine ⟨h1, ?_, ?_⟩
  · have := congrArg List.length h
    simp only [List.length_map] at this
    rw [h2, this]
  · intro id hid
    obtain ⟨c, hc, hne⟩ := h3 id hid
    obtain ⟨c', hc', hcid⟩ := b2Array_Get_of_map_eq (fun c : b2Contact => c.contactId) _ _ id c
      h hc
    exact ⟨c', hc', by rw [hcid]; exact hne⟩

theorem b2Array_Get_lt {α : Type} (a : List α) (i : Int) (v : α)
    (h : b2Array_Get a i = some v) : 0 ≤ i ∧ i < (a.length : Int) := by
  obtain ⟨h0, hv⟩ := b2Array_Get_toNat a i v h
  rcases List.getElem?_eq_some.mp hv with ⟨hlt, -⟩
  exact ⟨h0, by omega⟩

theorem b2CreateContact_slots_other (w : b2World) (i : Int)
    (hi : i ≠ (b2AllocId w.contactIdPool).1) :
    b2Array_Get (b2CreateContact_slots w) i = b2Array_Get w.contacts i := by
  unfold b2CreateContact_slots
  split_ifs with hid
  · rw [hid] at hi
    unfold b2Array_Get
    by_cases h0 : 0 ≤ i
    · rw [if_pos h0, if_pos h0]
      by_cases hlt : i.toNat < w.contacts.length
      · rw [List.getElem?_append_left hlt]
      · have h1 : w.contacts.length < i.toNat := by omega
        have h2 : (w.contacts ++ [b2Contact_zero]).length ≤ i.toNat := by
          simp only [List.length_append, List.length_singleton]
          omega
        rw [List.getElem?_eq_none h2, List.getElem?_eq_none (by omega)]
    · rw [if_neg h0, if_neg h0]
  · rfl

/-- The id that `b2AllocId` hands out names a slot without a live contact, and the pool
left agrees with the array in which that slot is taken. -/
theorem b2AllocId_inv (w : b2World) (c' : b2Contact)
    (hinv : b2PoolInv w.contacts w.contactIdPool) :
    ¬ b2LiveAt w.contacts (b2AllocId w.contactIdPool).1 ∧
    (∃ c0, b2Array_Get (b2CreateContact_slots w) (b2AllocId w.contactIdPool).1 = some c0) ∧
    b2PoolInv (b2Array_Set (b2CreateContact_slots w) (b2AllocId w.contactIdPool).1 c')
      (b2AllocId w.contactIdPool).2 := by
  obtain ⟨h1, h2, h3⟩ := hinv
  cases hmin : w.contactIdPool.freeArray.min? with
  | none =>
    have hnil : w.contactIdPool.freeArray = [] := List.min?_eq_none_iff.mp hmin
    have hid : (b2AllocId w.contactIdPool).1 = (w.contacts.length : Int) := by
      unfold b2AllocId
      rw [hmin]
      exact h2
    have hp : (b2AllocId w.contactIdPool).2 =
        { w.contactIdPool with nextIndex := w.contactIdPool.nextIndex + 1 } := by
      unfold b2AllocId
      rw [hmin]
    have hslots : b2CreateContact_slots w = w.contacts ++ [b2Contact_zero] := by
      unfold b2CreateContact_slots
      rw [if_pos hid]
    obtain ⟨n1, n2⟩ := b2Array_Get_length w.contacts b2Contact_zero
    refine ⟨?_, ?_, ?_⟩
    · rintro ⟨c, hc, -⟩
      rw [hid, n1] at hc
      cases hc
    · rw [hslots, hid]
      exact ⟨_, n2⟩
    · rw [hp, hslots]
      refine ⟨?_, ?_, ?_⟩
      · dsimp only
        rw [hnil]
        exact List.nodup_nil
      · dsimp only
        rw [h2]
        simp [b2Array_Set]
      · intro id hmem
        dsimp only at hmem
        rw [hnil] at hmem
        cases hmem
  | some id =>
    have hmem : id ∈ w.contactIdPool.freeArray := List.min?_mem (fun a b => min_choice a b) hmin
    have hid : (b2AllocId w.contactIdPool).1 = id := by
      unfold b2AllocId
      rw [hmin]
    have hp : (b2AllocId w.contactIdPool).2 =
        { w.contactIdPool with freeArray := w.contactIdPool.freeArray.erase id } := by
      unfold b2AllocId
      rw [hmin]
    obtain ⟨c, hc, hne⟩ := h3 id hmem
    obtain ⟨-, hlt⟩ := b2Array_Get_lt _ _ _ hc
    have hslots : b2CreateContact_slots w = w.contacts := by
      unfold b2CreateContact_slots
      rw [if_neg]
      rw [hid]
      omega
    refine ⟨?_, ?_, ?_⟩
    · rintro ⟨d, hd, hdid⟩
      rw [hid] at hd hdid
      rw [hc] at hd
      cases hd
      exact hne hdid
    · rw [hslots, hid]
      exact ⟨c, hc⟩
    · rw [hp, hslots, hid]
      refine ⟨h1.erase id, ?_, ?_⟩
      · dsimp only
        rw [h2]
        simp [b2Array_Set]
      · intro j hj
        dsimp only at hj
        have hji : j ≠ id := fun heq => by
          rw [heq] at hj
          exact (List.Nodup.not_mem_erase h1) hj
        obtain ⟨d, hd, hdne⟩ := h3 j (List.mem_of_mem_erase hj)
        exact ⟨d, by rw [b2Array_Get_Set_other _ _ _ _ _ hc hji]; exact hd, hdne⟩

/-- The pool after `b2FreeId` of a live contact's id agrees with the array in which that
slot is marked free. -/
theorem b2FreeId_inv (contacts : List b2Contact) (pool : b2IdPool) (contact : Int)
    (c c' : b2Contact) (hinv : b2PoolInv contacts pool)
    (hc : b2Array_Get contacts contact = some c) (hlive : c.contactId = contact)
    (hc' : c'.contactId = B2_NULL_INDEX) :
    b2PoolInv (b2Array_Set contacts contact c') (b2FreeId pool contact) := by
  obtain ⟨h1, h2, h3⟩ := hinv
  obtain ⟨h0, -⟩ := b2Array_Get_lt _ _ _ hc
  have hnot : contact ∉ pool.freeArray := by
    intro hmem
    obtain ⟨d, hd, hdne⟩ := h3 contact hmem
    rw [hc] at hd
    cases hd
    exact hdne hlive
  unfold b2FreeId
  refine ⟨?_, ?_, ?_⟩
  · dsimp only
    rw [List.nodup_append]
    refine ⟨h1, List.nodup_singleton _, ?_⟩
    intro x hx hx'
    rw [List.mem_singleton] at hx'
    exact hnot (hx' ▸ hx)
  · dsimp only
    rw [h2]
    simp [b2Array_Set]
  · intro j hj
    dsimp only at hj
    rcases List.mem_append.mp hj with hj | hj
    · have hji : j ≠ contact := fun heq => hnot (heq ▸ hj)
      obtain ⟨d, hd, hdne⟩ := h3 j hj
      exact ⟨d, by rw [b2Array_Get_Set_other _ _ _ _ _ hc hji]; exact hd, hdne⟩
    · rw [List.mem_singleton] at hj
      subst hj
      refine ⟨c', b2Array_Get_Set_self _ _ _ _ hc, ?_⟩
      rw [hc']
      unfold B2_NULL_INDEX
      omega

theorem b2EdgeKey_sides (id : Int) (q : Int) (hq : 0 ≤ q)
    (hk : b2KeyContact q = id) : q = b2EdgeKey id 0 ∨ q = b2EdgeKey id 1 := by
  obtain ⟨-, hs, he⟩ := b2EdgeKey_encode q hq
  rw [hk] at he
  rcases hs with hs | hs
  · rw [hs] at he
    exact Or.inl he.symm
  · rw [hs] at he
    exact Or.inr he.symm

theorem b2EdgeKey_side_ne (id : Int) (h : 0 ≤ id) : b2EdgeKey id 1 ≠ b2EdgeKey id 0 := by
  rw [b2EdgeKey_eq id 1 h (Or.inr rfl), b2EdgeKey_eq id 0 h (Or.inl rfl)]
  omega

/-- Taking the slot `id` for a new contact: its two keys become pending. -/
theorem b2CreateContact_slot_inv (w : b2World) (c0 c' : b2Contact) (L : Int → List Int)
    (hinv : b2ListsInv w.bodies w.contacts L (fun _ => False))
    (hfree : ¬ b2LiveAt w.contacts (b2AllocId w.contactIdPool).1)
    (hc0 : b2Array_Get (b2CreateContact_slots w) (b2AllocId w.contactIdPool).1 = some c0) :
    b2ListsInv w.bodies
      (b2Array_Set (b2CreateContact_slots w) (b2AllocId w.contactIdPool).1 c') L
      (fun q => b2KeyContact q = (b2AllocId w.contactIdPool).1) := by
  have hget : ∀ i, i ≠ (b2AllocId w.contactIdPool).1 →
      b2Array_Get (b2Array_Set (b2CreateContact_slots w) (b2AllocId w.contactIdPool).1 c') i =
        b2Array_Get w.contacts i := by
    intro i hi
    rw [b2Array_Get_Set_other _ _ _ _ _ hc0 hi, b2CreateContact_slots_other w i hi]
  refine b2ListsInv_transfer _ _ _ _ L _ _ rfl ?_ ?_ ?_ ?_ hinv
  · intro q _ hq
    unfold b2EdgeAt
    rw [hget _ hq]
  · intro q _ hq hl
    unfold b2LiveAt at hl ⊢
    rw [hget _ hq] at hl
    exact hl
  · intro q _ _ hf
    exact hf.elim
  · intro q _ _ hl _
    have hq : b2KeyContact q ≠ (b2AllocId w.contactIdPool).1 := by
      intro heq
      rw [heq] at hl
      exact hfree hl
    refine ⟨hq, ?_⟩
    unfold b2LiveAt at hl ⊢
    rw [hget _ hq]
    exact hl

/-- After `b2CreateContact` (registered pair, primary order) the lists are well formed again:
the new keys stand at the heads of the lists of the two bodies. -/
theorem b2CreateContactPrimary_lists (env : b2Env) (w w' : b2World) (a b : b2Shape)
    (L : Int → List Int) (hinv : b2ContactListsInv w L)
    (h : b2CreateContactPrimary env w a b = some w') :
    b2ContactListsInv w' (b2CreateContact_lists w a b L) := by
  obtain ⟨hlists, hpool⟩ := hinv
  obtain ⟨_, _, _, _, _, _, _, _, hwspec, hmcore⟩ := b2CreateContactPrimary_spec env w w' a b h
  have hp : w'.contactIdPool = (b2AllocId w.contactIdPool).2 := by rw [hwspec]
  have hpoolW : b2PoolInv w'.contacts w'.contactIdPool := by
    rw [hp]
    exact b2PoolInv_congr _ _ _ (b2Contact_core_ids _ _ hmcore) (b2AllocId_inv w _ hpool).2.2
  clear hwspec hmcore hp
  unfold b2CreateContactPrimary at h
  simp only [Option.bind_eq_bind, Option.bind_eq_some, Option.pure_def, Option.some.injEq] at h
  obtain ⟨bodyA, hA, bodyB, hB, set, hset, c0, hc0, w1, hw1, w2, hw2, set2, hset2, rfl⟩ := h
  have hc0' : b2Array_Get (b2CreateContact_slots w) (b2AllocId w.contactIdPool).1 = some c0 :=
    hc0
  obtain ⟨hfree, -, -⟩ := b2AllocId_inv w
    (b2CreateContact_contact env c0 (b2AllocId w.contactIdPool).1
      (b2CreateContact_setIndex bodyA bodyB) (set.contactSims.length : Int) a b) hpool
  obtain ⟨hid0, -⟩ := b2Array_Get_lt _ _ _ hc0'
  have inv0 := b2CreateContact_slot_inv w c0
    (b2CreateContact_contact env c0 (b2AllocId w.contactIdPool).1
      (b2CreateContact_setIndex bodyA bodyB) (set.contactSims.length : Int) a b) L hlists hfree hc0'
  obtain ⟨-, d0, -⟩ := b2EdgeKey_decode _ 0 hid0 (Or.inl rfl)
  obtain ⟨-, d1, -⟩ := b2EdgeKey_decode _ 1 hid0 (Or.inr rfl)
  have hlive0 : b2LiveAt (b2Array_Set (b2CreateContact_slots w) (b2AllocId w.contactIdPool).1
      (b2CreateContact_contact env c0 (b2AllocId w.contactIdPool).1
        (b2CreateContact_setIndex bodyA bodyB) (set.contactSims.length : Int) a b))
      (b2AllocId w.contactIdPool).1 :=
    ⟨_, b2Array_Get_Set_self _ _ _ _ hc0', (b2CreateContact_contact_fields env c0 _ _ _ a b).1⟩
  have inv1 : b2ListsInv w1.bodies w1.contacts
      (Function.update L a.bodyId (b2EdgeKey (b2AllocId w.contactIdPool).1 0 :: L a.bodyId))
      (fun q => b2KeyContact q = (b2AllocId w.contactIdPool).1 ∧
        q ≠ b2EdgeKey (b2AllocId w.contactIdPool).1 0) := by
    refine b2ConnectToBody_inv _ w1 _ 0 a.bodyId L
      (fun q => b2KeyContact q = (b2AllocId w.contactIdPool).1) ?_ ?_ ?_ hw1
    · exact inv0
    · exact d0
    · exact hlive0
  have hlive1 : b2LiveAt w1.contacts (b2AllocId w.contactIdPool).1 :=
    (b2LiveAt_of_core _ _ (b2ConnectToBody_frame _ _ _ _ _ hw1).2.1 _).mpr hlive0
  have inv2 := b2ConnectToBody_inv w1 w2 _ 1 b.bodyId _ _ inv1
    ⟨d1, b2EdgeKey_side_ne _ hid0⟩ hlive1 hw2
  constructor
  · refine b2ListsInv_transfer _ _ _ _ _ _ _ rfl (fun q _ _ => rfl) (fun q _ _ hl => hl) ?_
      (fun q _ _ hl _ => ⟨fun hf => hf, hl⟩) inv2
    intro q hq0 _ hp
    obtain ⟨⟨hk, hn0⟩, hn1⟩ := hp
    rcases b2EdgeKey_sides _ q hq0 hk with h0 | h1
    · exact hn0 h0
    · exact hn1 h1
  · exact hpoolW

theorem b2DisconnectFromBody_edgeBodies (w w' : b2World) (contact side bodyId : Int)
    (h : b2DisconnectFromBody w contact side bodyId = some w') :
    w'.contacts.map b2Contact.edgeBodies = w.contacts.map b2Contact.edgeBodies := by
  unfold b2DisconnectFromBody at h
  simp only [Option.bind_eq_bind, Option.bind_eq_some, Option.pure_def, Option.some.injEq] at h
  obtain ⟨c, hc, edge, hedge, w1, hw1, c2, hc2, edge2, hedge2, w2, hw2, c3, hc3, edge3, hedge3,
    body, hbody, rfl⟩ := h
  have h1 : w1.contacts.map b2Contact.edgeBodies = w.contacts.map b2Contact.edgeBodies := by
    split_ifs at hw1
    · simp only [Option.bind_eq_bind, Option.bind_eq_some, Option.pure_def,
        Option.some.injEq] at hw1
      obtain ⟨pc, hpc, pe, hpe, pc', hpc', rfl⟩ := hw1
      exact b2Array_Set_map_of_eq _ _ _ _ _ hpc
        (b2Contact_setEdge_edgeBodies _ _ _ _ _ hpe hpc' rfl)
    · simp only [Option.pure_def, Option.some.injEq] at hw1
      subst hw1
      rfl
  have h2 : w2.contacts.map b2Contact.edgeBodies = w1.contacts.map b2Contact.edgeBodies := by
    split_ifs at hw2
    · simp only [Option.bind_eq_bind, Option.bind_eq_some, Option.pure_def,
        Option.some.injEq] at hw2
      obtain ⟨pc, hpc, pe, hpe, pc', hpc', rfl⟩ := hw2
      exact b2Array_Set_map_of_eq _ _ _ _ _ hpc
        (b2Contact_setEdge_edgeBodies _ _ _ _ _ hpe hpc' rfl)
    · simp only [Option.pure_def, Option.some.injEq] at hw2
      subst hw2
      rfl
  dsimp only
  rw [h2, h1]

/-- Marking the slot of a contact free: its two pending keys are dropped. -/
theorem b2DestroyContact_free_inv (bodies : List b2Body) (contacts : List b2Contact)
    (contact : Int) (c4 c4' : b2Contact) (L : Int → List Int)
    (hc4 : b2Array_Get contacts contact = some c4)
    (he0 : c4'.edges0 = c4.edges0) (he1 : c4'.edges1 = c4.edges1)
    (hid : c4'.contactId = B2_NULL_INDEX)
    (hinv : b2ListsInv bodies contacts L
      (fun q => (False ∨ q = b2EdgeKey contact 0) ∨ q = b2EdgeKey contact 1)) :
    b2ListsInv bodies (b2Array_Set contacts contact c4') L (fun _ => False) := by
  obtain ⟨h0, -⟩ := b2Array_Get_lt _ _ _ hc4
  obtain ⟨-, d0, -⟩ := b2EdgeKey_decode contact 0 h0 (Or.inl rfl)
  obtain ⟨-, d1, -⟩ := b2EdgeKey_decode contact 1 h0 (Or.inr rfl)
  have hdead : ¬ b2LiveAt (b2Array_Set contacts contact c4') contact := by
    rintro ⟨d, hd, hdid⟩
    rw [b2Array_Get_Set_self _ _ _ _ hc4] at hd
    cases hd
    rw [hid] at hdid
    unfold B2_NULL_INDEX at hdid
    omega
  have hother : ∀ i, i ≠ contact →
      (b2LiveAt (b2Array_Set contacts contact c4') i ↔ b2LiveAt contacts i) := by
    intro i hi
    unfold b2LiveAt
    rw [b2Array_Get_Set_other _ _ _ _ _ hc4 hi]
  refine b2ListsInv_transfer _ _ _ _ L _ _ rfl ?_ ?_ ?_ ?_ hinv
  · intro q _ _
    refine b2EdgeAt_of_edges _ _ ?_ q
    exact b2Array_Set_map_of_eq _ _ _ _ _ hc4 (by rw [he0, he1])
  · intro q _ _ hl
    by_cases hq : b2KeyContact q = contact
    · rw [hq] at hl
      exact (hdead hl).elim
    · exact (hother _ hq).mp hl
  · intro q _ hl hp
    apply hdead
    rcases hp with (hf | hp) | hp
    · exact hf.elim
    · rw [hp, d0] at hl
      exact hl
    · rw [hp, d1] at hl
      exact hl
  · intro q hq0 hp hl _
    refine ⟨fun hf => hf, ?_⟩
    have hq : b2KeyContact q ≠ contact := by
      intro heq
      rcases b2EdgeKey_sides _ q hq0 heq with h | h
      · exact hp (Or.inl (Or.inr h))
      · exact hp (Or.inr h)
    exact (hother _ hq).mpr hl

theorem b2PoolInv_of_kept (w w' : b2World) (h : b2LifecycleKept w w')
    (hinv : b2PoolInv w.contacts w.contactIdPool) : b2PoolInv w'.contacts w'.contactIdPool := by
  rw [h.2.2.1]
  exact b2PoolInv_congr _ _ _ (b2Contact_identity_ids _ _ h.2.2.2.2.2.2.2) hinv

/-- After `b2DestroyContact` of a live contact the lists are well formed again, the two keys
of the contact are gone from the lists and the slot is free, whenever the removal of the
contact from the array that owns it and the waking keep the lifecycle fields. -/
theorem b2DestroyContact_inv_of_kept (env : b2Env) (w w' : b2World)
    (contact : Int) ( wake : Bool) (L : Int → List Int) (hinv : b2ContactListsInv w L)
    (hlive : b2LiveAt w.contacts contact)
    (hrem : ∀ w3 w4 : b2World,
      w3.contacts.map b2Contact.core = w.contacts.map b2Contact.core →
      w3.solverSets = w.solverSets → ∀ bodyIdA bodyIdB,
      b2DestroyContact_remove env w3 contact bodyIdA bodyIdB = some w4 →
      b2LifecycleKept w3 w4)
    (hwake : wake = false ∨ ∀ w5 body, b2LifecycleKept w5 (env.b2WakeBody w5 body))
    (h : b2DestroyContact env w contact wake = some w') :
    ∃ c, b2Array_Get w.contacts contact = some c ∧
      b2ContactListsInv w' (b2DestroyContact_lists c contact L) ∧
      ¬ b2LiveAt w'.contacts contact := by
  obtain ⟨c, bodyA, bodyB, w1, w2, w3, c3, w4, w5, hc, hA, hB, hw1, hw2, hw3, hc3, hw4, hw5,
    hw'⟩ := b2DestroyContact_steps env w w' contact wake h
  obtain ⟨cl, hcl, hclid⟩ := hlive
  rw [hc] at hcl
  cases hcl
  obtain ⟨h0, -⟩ := b2Array_Get_lt _ _ _ hc
  have e1 := b2DestroyContact_event_frame _ _ _ _ hw1
  have b1 : w1.bodies = w.bodies := by rw [e1]
  have c1 : w1.contacts = w.contacts := by rw [e1]
  have p1 : w1.contactIdPool = w.contactIdPool := by rw [e1]
  have s1 : w1.solverSets = w.solverSets := by rw [e1]
  obtain ⟨hlists, hpool⟩ := hinv
  have inv1 : b2ListsInv w1.bodies w1.contacts L (fun _ => False) := by
    rw [b1, c1]
    exact hlists
  have hc1 : b2Array_Get w1.contacts contact = some c := by
    rw [c1]
    exact hc
  have inv2 := b2DisconnectFromBody_inv w1 w2 contact 0 c c.edges0 L (fun _ => False) inv1 hc1
    hclid rfl (fun hf => hf) hw2
  obtain ⟨f2, m2, -⟩ := b2DisconnectFromBody_frame _ _ _ _ _ hw2
  obtain ⟨c2, hc2, hcore2⟩ := b2Array_Get_of_map_eq b2Contact.core _ w2.contacts contact c m2 hc1
  obtain ⟨c2', hc2', heb2⟩ := b2Array_Get_of_map_eq b2Contact.edgeBodies _ w2.contacts contact c
    (b2DisconnectFromBody_edgeBodies _ _ _ _ _ hw2) hc1
  rw [hc2] at hc2'
  cases hc2'
  have hb2 : c2.edges1.bodyId = c.edges1.bodyId := congrArg Prod.snd heb2
  have hid2 : c2.contactId = contact := (b2Contact_core_fields _ _ hcore2).1.trans hclid
  rw [← hb2] at hw3
  have inv3 := b2DisconnectFromBody_inv w2 w3 contact 1 c2 c2.edges1 _ _ inv2 hc2 hid2 rfl
    (fun hp => hp.elim (fun hf => hf) (b2EdgeKey_side_ne contact h0)) hw3
  rw [hb2] at inv3 hw3
  obtain ⟨f3, m3, -⟩ := b2DisconnectFromBody_frame _ _ _ _ _ hw3
  have m13 : w3.contacts.map b2Contact.core = w.contacts.map b2Contact.core := by
    rw [m3, m2, c1]
  have s3 : w3.solverSets = w.solverSets := by
    rw [f3, f2]
    exact s1
  have kept4 := hrem w3 w4 m13 s3 _ _ hw4
  have inv4 := b2ListsInv_of_kept w3 w4 _ _ kept4 inv3
  obtain ⟨c4, hc4, e5⟩ := b2DestroyContact_free_frame _ _ _ _ hw5
  have hid3 : c3.contactId = contact := by
    obtain ⟨x, hx, hxc⟩ := b2Array_Get_of_map_eq b2Contact.core _ w3.contacts contact c2 m3 hc2
    rw [hc3] at hx
    cases hx
    exact (b2Contact_core_fields _ _ hxc).1.trans hid2
  have hid4 : c4.contactId = contact := by
    obtain ⟨x, hx, hxi⟩ := b2LifecycleKept_get _ _ kept4 contact c3 hc3
    rw [hc4] at hx
    cases hx
    have := congrArg (fun p : b2ContactEdge × b2ContactEdge × Int × Int × Int × Nat × Nat =>
      p.2.2.2.2.1) hxi
    exact Eq.trans this hid3
  have p3 : w3.contactIdPool = w.contactIdPool := by
    rw [f3, f2]
    exact p1
  have ids3 : w3.contacts.map (fun c => c.contactId) = w.contacts.map (fun c => c.contactId) :=
    b2Contact_core_ids _ _ m13
  have pool3 : b2PoolInv w3.contacts w3.contactIdPool := by
    rw [p3]
    exact b2PoolInv_congr _ _ _ ids3 hpool
  have pool4 := b2PoolInv_of_kept _ _ kept4 pool3
  have inv5 : b2ContactListsInv w5 (b2DestroyContact_lists c contact L) := by
    rw [e5, hid3]
    exact ⟨b2DestroyContact_free_inv w4.bodies w4.contacts contact c4 _ _ hc4 rfl rfl rfl inv4,
      b2FreeId_inv w4.contacts w4.contactIdPool contact c4 _ pool4 hc4 hid4 rfl⟩
  have dead5 : ¬ b2LiveAt w5.contacts contact := by
    rw [e5]
    rintro ⟨d, hd, hdid⟩
    rw [b2Array_Get_Set_self _ _ _ _ hc4] at hd
    cases hd
    have hnull : B2_NULL_INDEX = contact := hdid
    unfold B2_NULL_INDEX at hnull
    omega
  have keptW : b2LifecycleKept w5 w' := by
    rw [hw']
    rcases hwake with hwake | hwake
    · rw [if_neg (by rw [hwake]; simp)]
      exact b2LifecycleKept_refl w5
    · split_ifs
      · exact b2LifecycleKept_trans _ _ _ (hwake w5 c.edges0.bodyId)
          (hwake (env.b2WakeBody w5 c.edges0.bodyId) c.edges1.bodyId)
      · exact b2LifecycleKept_refl w5
  refine ⟨c, hc, ⟨b2ListsInv_of_kept _ _ _ _ keptW inv5.1, b2PoolInv_of_kept _ _ keptW inv5.2⟩,
    ?_⟩
  intro hl
  exact dead5 ((b2LiveAt_of_ids _ _
    (b2Contact_identity_ids _ _ keptW.2.2.2.2.2.2.2) contact).mp hl)

/-- After `b2DestroyContact` of a live contact the lists are well formed again: the two keys
of the contact are gone from the lists and the slot is free. -/
theorem b2DestroyContact_inv (env : b2Env) (henv : b2EnvFrame env) (w w' : b2World)
    (contact : Int) ( wake : Bool) (L : Int → List Int) (hinv : b2ContactListsInv w L)
    (hlive : b2LiveAt w.contacts contact)
    (h : b2DestroyContact env w contact wake = some w') :
    ∃ c, b2Array_Get w.contacts contact = some c ∧
      b2ContactListsInv w' (b2DestroyContact_lists c contact L) ∧
      ¬ b2LiveAt w'.contacts contact :=
  b2DestroyContact_inv_of_kept env w w' contact wake L hinv hlive
    (fun w3 w4 _ _ bodyIdA bodyIdB h34 =>
      b2DestroyContact_remove_kept env henv w3 w4 contact bodyIdA bodyIdB h34)
    (Or.inr henv.2.2) h

/-- In a world with well-formed lists the key of a live contact is listed exactly once, in
the list of the body its edge names, and in no other list. -/
theorem b2ContactListsInv_count (w : b2World) (L : Int → List Int)
    (hinv : b2ContactListsInv w L) (k : Int) (e : b2ContactEdge) (hk0 : 0 ≤ k)
    (hl : b2LiveAt w.contacts (b2KeyContact k)) (he : b2EdgeAt w.contacts k = some e)
    (b : Int) : (L b).count k = if b = e.bodyId then 1 else 0 := by
  obtain ⟨hb1, hb2, hb3, hb4⟩ := hinv.1
  have hmem : k ∈ L e.bodyId := (hb3 k e hk0 hl he).resolve_left (fun hf => hf)
  split_ifs with hb
  · subst hb
    obtain ⟨-, -, -, ⟨body, hbody⟩, -⟩ := b2ListsInv_mem _ _ _ _ hinv.1 _ _ hmem
    obtain ⟨_, -, -, -, hn, -⟩ := hb1 _ body hbody
    exact List.count_eq_one_of_mem hn hmem
  · apply List.count_eq_zero_of_not_mem
    intro hm
    obtain ⟨-, -, -, -, e', he', hb'⟩ := b2ListsInv_mem _ _ _ _ hinv.1 _ _ hm
    rw [he] at he'
    cases he'
    exact hb hb'.symm

/-- No key of a slot without a live contact is listed. -/
theorem b2ContactListsInv_dead (w : b2World) (L : Int → List Int)
    (hinv : b2ContactListsInv w L) (contact : Int) (h0 : 0 ≤ contact)
    (hdead : ¬ b2LiveAt w.contacts contact) (b : Int) :
    b2EdgeKey contact 0 ∉ L b ∧ b2EdgeKey contact 1 ∉ L b := by
  obtain ⟨-, d0, -⟩ := b2EdgeKey_decode contact 0 h0 (Or.inl rfl)
  obtain ⟨-, d1, -⟩ := b2EdgeKey_decode contact 1 h0 (Or.inr rfl)
  constructor
  · intro hm
    obtain ⟨-, -, hl, -, -⟩ := b2ListsInv_mem _ _ _ _ hinv.1 _ _ hm
    rw [d0] at hl
    exact hdead hl
  · intro hm
    obtain ⟨-, -, hl, -, -⟩ := b2ListsInv_mem _ _ _ _ hinv.1 _ _ hm
    rw [d1] at hl
    exact hdead hl

theorem b2World_sample_lists : b2ContactListsInv b2World_sample (fun _ => []) := by
  refine ⟨⟨?_, ?_, ?_, ?_⟩, List.nodup_nil, rfl, ?_⟩
  · intro b body hb
    refine ⟨body, hb, ?_, ?_, List.nodup_nil, trivial⟩
    · obtain ⟨h0, h1⟩ := b2Array_Get_lt _ _ _ hb
      have h2 : b = 0 ∨ b = 1 := by
        have : (b2World_sample.bodies.length : Int) = 2 := rfl
        omega
      rcases h2 with rfl | rfl
      · cases hb
        rfl
      · cases hb
        rfl
    · obtain ⟨h0, h1⟩ := b2Array_Get_lt _ _ _ hb
      have h2 : b = 0 ∨ b = 1 := by
        have : (b2World_sample.bodies.length : Int) = 2 := rfl
        omega
      rcases h2 with rfl | rfl
      · cases hb
        rfl
      · cases hb
        rfl
  · intro b _
    rfl
  · intro k e _ hl _
    obtain ⟨c, hc, -⟩ := hl
    obtain ⟨h0, h1⟩ := b2Array_Get_lt _ _ _ hc
    have : (b2World_sample.contacts.length : Int) = 0 := rfl
    omega
  · intro b k hk
    cases hk
  · intro id hid
    cases hid

/-- C1. Body contact lists stay well formed.  In a world with well-formed lists (`L b` is
the sequence of keys that following `nextKey` from `headContactKey` of body `b` visits: no
key twice, every visited edge names body `b`, `prevKey` mirrors `nextKey` with a null
`prevKey` at the head, `contactCount` is the number of keys, every key of a live contact is
listed in the list of the body its edge names and only keys of live contacts are listed;
the id pool agrees with the contact array), the lists are well formed again after
`b2CreateContact` on two shapes of a registered type pair and after `b2DestroyContact` of a
live contact; afterwards every key of a live contact is listed exactly once in the list of
the body `edges[s].bodyId` and in no other list, and the keys of the destroyed contact are
in no list. -/
theorem b2ContactLists_stay_well_formed (env : b2Env) (henv : b2EnvFrame env) (w : b2World)
    (L : Int → List Int) (hinv : b2ContactListsInv w L) :
    (∀ (a b : b2Shape) (fuel : Nat) (w' : b2World), (s_registers a.type b.type).fcn ≠ none →
      b2CreateContact env s_registers (fuel + 2) w a b = some w' →
      ∃ L', b2ContactListsInv w' L' ∧
        ∀ k e, 0 ≤ k → b2LiveAt w'.contacts (b2KeyContact k) →
          b2EdgeAt w'.contacts k = some e →
          ∀ body, (L' body).count k = if body = e.bodyId then 1 else 0) ∧
    (∀ (contact : Int) ( wake : Bool) (w' : b2World), b2LiveAt w.contacts contact →
      b2DestroyContact env w contact wake = some w' →
      ∃ L', b2ContactListsInv w' L' ∧
        (∀ k e, 0 ≤ k → b2LiveAt w'.contacts (b2KeyContact k) →
          b2EdgeAt w'.contacts k = some e →
          ∀ body, (L' body).count k = if body = e.bodyId then 1 else 0) ∧
        ∀ body, b2EdgeKey contact 0 ∉ L' body ∧ b2EdgeKey contact 1 ∉ L' body) := by
  constructor
  · intro a b fuel w' hreg h
    obtain ⟨A, B, -, -, hrun⟩ := b2CreateContact_primary_order env w a b fuel hreg
    rw [hrun] at h
    have hinv' := b2CreateContactPrimary_lists env w w' A B L hinv h
    exact ⟨_, hinv', fun k e hk hl he body => b2ContactListsInv_count w' _ hinv' k e hk hl he body⟩
  · intro contact wake w' hlive h
    obtain ⟨c, hc, hinv', hdead⟩ := b2DestroyContact_inv env henv w w' contact wake L hinv hlive h
    obtain ⟨h0, -⟩ := b2Array_Get_lt _ _ _ hc
    exact ⟨_, hinv', fun k e hk hl he body => b2ContactListsInv_count w' _ hinv' k e hk hl he body,
      fun body => b2ContactListsInv_dead w' _ hinv' contact h0 hdead body⟩

theorem b2ContactLists_stay_well_formed_witness :
    b2EnvFrame b2Env_sample ∧ b2ContactListsInv b2World_sample (fun _ => []) ∧
    ∃ L1 L2,
      b2CreateContact b2Env_sample s_registers 2 b2World_sample b2Shape_circle
        b2Shape_polygon = some (b2World_cycleLive 1) ∧
      b2ContactListsInv (b2World_cycleLive 1) L1 ∧
      b2LiveAt (b2World_cycleLive 1).contacts 0 ∧
      b2DestroyContact b2Env_sample (b2World_cycleLive 1) 0 false =
        some (b2World_cycleFree 1) ∧
      b2ContactListsInv (b2World_cycleFree 1) L2 ∧
      ∀ body, b2EdgeKey 0 0 ∉ L2 body ∧ b2EdgeKey 0 1 ∉ L2 body := by
  refine ⟨b2Env_sample_frame, b2World_sample_lists, ?_⟩
  obtain ⟨L1, h1, -⟩ := (b2ContactLists_stay_well_formed b2Env_sample b2Env_sample_frame
    b2World_sample (fun _ => []) b2World_sample_lists).1 b2Shape_circle b2Shape_polygon 0 _
    (by decide) b2World_sample_create
  have hlive : b2LiveAt (b2World_cycleLive 1).contacts 0 := ⟨_, rfl, rfl⟩
  obtain ⟨L2, h2, -, h3⟩ := (b2ContactLists_stay_well_formed b2Env_sample b2Env_sample_frame
    (b2World_cycleLive 1) L1 h1).2 0 false _ hlive (b2World_cycleLive_destroy 1)
  exact ⟨L1, L2, b2World_sample_create, h1, hlive, b2World_cycleLive_destroy 1, h2, h3⟩

theorem b2CreateContact_primary (env : b2Env) (w : b2World) (a b : b2Shape) (fuel : Nat)
    (hreg : (s_registers a.type b.type).fcn ≠ none)
    (hprim : (s_registers a.type b.type).primary = true) :
    b2CreateContact env s_registers (fuel + 1) w a b = b2CreateContactPrimary env w a b := by
  unfold b2CreateContact
  simp only [hreg, if_false, hprim, Bool.true_eq_false]

/-- The head of a well-formed list and its edge. -/
theorem b2BodyList_head (bodies : List b2Body) (contacts : List b2Contact) (b k : Int)
    (ks : List Int) (h : b2BodyList bodies contacts b (k :: ks)) :
    (∃ body, b2Array_Get bodies b = some body ∧ body.headContactKey = k) ∧
    b2EdgeAt contacts k = some ⟨b, B2_NULL_INDEX, ks.headD B2_NULL_INDEX⟩ ∧
    (ks.headD B2_NULL_INDEX ≠ B2_NULL_INDEX →
      ∃ e, b2EdgeAt contacts (ks.headD B2_NULL_INDEX) = some e ∧ e.prevKey = k) := by
  obtain ⟨body, hbody, hh, -, -, hch⟩ := h
  obtain ⟨-, e, he, hb, hp, hn, hrest⟩ := hch
  refine ⟨⟨body, hbody, hh⟩, ?_, ?_⟩
  · obtain ⟨eb, ep, en⟩ := e
    dsimp only at hb hp hn
    rw [he, hb, hp, hn]
  · intro hne
    cases ks with
    | nil => exact absurd rfl hne
    | cons x xs =>
      obtain ⟨-, e', he', -, hp', -, -⟩ := hrest
      exact ⟨e', he', hp'⟩

/-- C24. Head insertion fixes list order.  In a world with well-formed contact lists, when
`b2CreateContact` creates the contact `c` (the id the pool hands out) for primary-ordered
shapes on distinct bodies A and B: afterwards `A.headContactKey == (c<<1)|0` and
`B.headContactKey == (c<<1)|1`, each new edge has `prevKey == B2_NULL_INDEX` and `nextKey`
equal to the body's previous head key, the previous head edge's `prevKey` is the new key, and
the lists are those before with the new key put in front (every other list is unchanged):
a list enumerates its contacts in reverse order of creation. -/
theorem b2CreateContact_head_insertion (env : b2Env) (w w' : b2World) (a b : b2Shape)
    (fuel : Nat) (L : Int → List Int) (bodyA bodyB : b2Body)
    (hinv : b2ContactListsInv w L)
    (hreg : (s_registers a.type b.type).fcn ≠ none)
    (hprim : (s_registers a.type b.type).primary = true)
    (hAB : a.bodyId ≠ b.bodyId)
    (hA : b2Array_Get w.bodies a.bodyId = some bodyA)
    (hB : b2Array_Get w.bodies b.bodyId = some bodyB)
    (h : b2CreateContact env s_registers (fuel + 1) w a b = some w') :
    (∃ bodyA', b2Array_Get w'.bodies a.bodyId = some bodyA' ∧
      bodyA'.headContactKey = b2EdgeKey (b2AllocId w.contactIdPool).1 0) ∧
    (∃ bodyB', b2Array_Get w'.bodies b.bodyId = some bodyB' ∧
      bodyB'.headContactKey = b2EdgeKey (b2AllocId w.contactIdPool).1 1) ∧
    b2EdgeAt w'.contacts (b2EdgeKey (b2AllocId w.contactIdPool).1 0) =
      some ⟨a.bodyId, B2_NULL_INDEX, bodyA.headContactKey⟩ ∧
    b2EdgeAt w'.contacts (b2EdgeKey (b2AllocId w.contactIdPool).1 1) =
      some ⟨b.bodyId, B2_NULL_INDEX, bodyB.headContactKey⟩ ∧
    (bodyA.headContactKey ≠ B2_NULL_INDEX →
      ∃ e, b2EdgeAt w'.contacts bodyA.headContactKey = some e ∧
        e.prevKey = b2EdgeKey (b2AllocId w.contactIdPool).1 0) ∧
    (bodyB.headContactKey ≠ B2_NULL_INDEX →
      ∃ e, b2EdgeAt w'.contacts bodyB.headContactKey = some e ∧
        e.prevKey = b2EdgeKey (b2AllocId w.contactIdPool).1 1) ∧
    ∃ L', b2ContactListsInv w' L' ∧
      L' a.bodyId = b2EdgeKey (b2AllocId w.contactIdPool).1 0 :: L a.bodyId ∧
      L' b.bodyId = b2EdgeKey (b2AllocId w.contactIdPool).1 1 :: L b.bodyId ∧
      ∀ body, body ≠ a.bodyId → body ≠ b.bodyId → L' body = L body := by
  rw [b2CreateContact_primary env w a b fuel hreg hprim] at h
  have hinv' := b2CreateContactPrimary_lists env w w' a b L hinv h
  have hLA : b2CreateContact_lists w a b L a.bodyId =
      b2EdgeKey (b2AllocId w.contactIdPool).1 0 :: L a.bodyId := by
    unfold b2CreateContact_lists
    rw [Function.update_noteq hAB, Function.update_same]
  have hLB : b2CreateContact_lists w a b L b.bodyId =
      b2EdgeKey (b2AllocId w.contactIdPool).1 1 :: L b.bodyId := by
    unfold b2CreateContact_lists
    rw [Function.update_same, Function.update_noteq (Ne.symm hAB)]
  have hLo : ∀ body, body ≠ a.bodyId → body ≠ b.bodyId →
      b2CreateContact_lists w a b L body = L body := by
    intro body h1 h2
    unfold b2CreateContact_lists
    rw [Function.update_noteq h2, Function.update_noteq h1]
  obtain ⟨bodyA0, hA0, hhA, -⟩ := hinv.1.1 _ bodyA hA
  rw [hA] at hA0
  cases hA0
  obtain ⟨bodyB0, hB0, hhB, -⟩ := hinv.1.1 _ bodyB hB
  rw [hB] at hB0
  cases hB0
  obtain ⟨bodyA', hA'⟩ : ∃ x, b2Array_Get w'.bodies a.bodyId = some x := by
    cases hg : b2Array_Get w'.bodies a.bodyId with
    | none =>
      have := hinv'.1.2.1 _ hg
      rw [hLA] at this
      cases this
    | some x => exact ⟨x, rfl⟩
  obtain ⟨bodyB', hB'⟩ : ∃ x, b2Array_Get w'.bodies b.bodyId = some x := by
    cases hg : b2Array_Get w'.bodies b.bodyId with
    | none =>
      have := hinv'.1.2.1 _ hg
      rw [hLB] at this
      cases this
    | some x => exact ⟨x, rfl⟩
  have lA := hinv'.1.1 _ bodyA' hA'
  rw [hLA] at lA
  have lB := hinv'.1.1 _ bodyB' hB'
  rw [hLB] at lB
  obtain ⟨a1, a2, a3⟩ := b2BodyList_head _ _ _ _ _ lA
  obtain ⟨b1, b2, b3⟩ := b2BodyList_head _ _ _ _ _ lB
  rw [← hhA] at a2 a3
  rw [← hhB] at b2 b3
  exact ⟨a1, b1, a2, b2, a3, b3, _, hinv', hLA, hLB, hLo⟩

theorem b2World_cycleLive_lists :
    b2ContactListsInv (b2World_cycleLive 1)
      (b2CreateContact_lists b2World_sample b2Shape_polygon b2Shape_circle (fun _ => [])) :=
  b2CreateContactPrimary_lists b2Env_sample b2World_sample (b2World_cycleLive 1)
    b2Shape_polygon b2Shape_circle (fun _ => []) b2World_sample_lists rfl

theorem b2CreateContact_head_insertion_witness :
    ∃ w2 L1, b2ContactListsInv (b2World_cycleLive 1) L1 ∧
      b2CreateContact b2Env_sample s_registers 1 (b2World_cycleLive 1) b2Shape_polygon
        b2Shape_circle = some w2 ∧
      (∃ bodyA', b2Array_Get w2.bodies 1 = some bodyA' ∧ bodyA'.headContactKey = 2) ∧
      (∃ bodyB', b2Array_Get w2.bodies 0 = some bodyB' ∧ bodyB'.headContactKey = 3) ∧
      b2EdgeAt w2.contacts 2 = some ⟨1, -1, 0⟩ ∧
      b2EdgeAt w2.contacts 3 = some ⟨0, -1, 1⟩ ∧
      (∃ e, b2EdgeAt w2.contacts 0 = some e ∧ e.prevKey = 2) ∧
      (∃ e, b2EdgeAt w2.contacts 1 = some e ∧ e.prevKey = 3) := by
  have hrun : ∃ r, b2CreateContact b2Env_sample s_registers 1 (b2World_cycleLive 1)
      b2Shape_polygon b2Shape_circle = some r := ⟨_, rfl⟩
  obtain ⟨w2, hw2⟩ := hrun
  obtain ⟨a1, b1, a2, b2, a3, b3, -⟩ :=
    b2CreateContact_head_insertion b2Env_sample (b2World_cycleLive 1) w2
      b2Shape_polygon b2Shape_circle 0 _ ⟨0, 0, 0, 1⟩ ⟨2, 0, 1, 1⟩
      b2World_cycleLive_lists (by decide) (by decide) (by decide) rfl rfl hw2
  exact ⟨w2, _, b2World_cycleLive_lists, hw2, a1, b1, a2, b2, a3 (by decide), b3 (by decide)⟩

theorem b2Array_RemoveSwap_last {α : Type} (a : List α) (x : α) :
    b2Array_RemoveSwap (a ++ [x]) (a.length : Int) = some (B2_NULL_INDEX, a) := by
  unfold b2Array_RemoveSwap
  rw [(b2Array_Get_length a x).2]
  simp

theorem b2Array_Set_Get_self {α : Type} (a : List α) (i : Int) (v : α)
    (h : b2Array_Get a i = some v) : b2Array_Set a i v = a := by
  obtain ⟨h0, hv⟩ := b2Array_Get_toNat a i v h
  unfold b2Array_Set
  apply List.ext_getElem?
  intro n
  by_cases hn : i.toNat = n
  · subst hn
    rcases List.getElem?_eq_some.mp hv with ⟨hlt, hv'⟩
    simp [List.getElem?_set, hlt, hv']
  · simp [List.getElem?_set, hn]

theorem b2Array_Set_Set {α : Type} (a : List α) (i : Int) (v v' : α) :
    b2Array_Set (b2Array_Set a i v) i v' = b2Array_Set a i v' := by
  unfold b2Array_Set
  rw [List.set_set]

/-- The block "Remove contact from the array that owns it" for a contact outside islands and
graph whose sim is the last of its set: the sim is dropped, nothing moves. -/
theorem b2DestroyContact_remove_last (env : b2Env) (w3 w4 : b2World)
    (contact bodyIdA bodyIdB : Int) (c3 : b2Contact) (set : b2SolverSet)
    (sims : List b2ContactSim) (sim : b2ContactSim)
    (hc3 : b2Array_Get w3.contacts contact = some c3)
    (hisl : c3.islandId = B2_NULL_INDEX) (hcol : c3.colorIndex = B2_NULL_INDEX)
    (hset : b2Array_Get w3.solverSets c3.setIndex = some set)
    (hsims : set.contactSims = sims ++ [sim]) (hloc : c3.localIndex = (sims.length : Int))
    (h : b2DestroyContact_remove env w3 contact bodyIdA bodyIdB = some w4) :
    w4 = { w3 with
      solverSets := b2Array_Set w3.solverSets c3.setIndex { set with contactSims := sims } } := by
  unfold b2DestroyContact_remove at h
  simp only [Option.bind_eq_bind, Option.bind_eq_some, Option.pure_def, Option.some.injEq] at h
  obtain ⟨c, hc, c2, hc2, h⟩ := h
  rw [hc3] at hc
  cases hc
  have hni : ¬ (c3.islandId ≠ B2_NULL_INDEX) := fun hn => hn hisl
  have hnc : ¬ (c3.colorIndex ≠ B2_NULL_INDEX) := fun hn => hn hcol
  have hnn : ¬ (B2_NULL_INDEX ≠ B2_NULL_INDEX) := fun hn => hn rfl
  rw [if_neg hni] at hc2 h
  rw [hc3] at hc2
  cases hc2
  rw [if_neg hnc] at h
  simp only [Option.bind_eq_some] at h
  obtain ⟨set', hset', ⟨mi, sims'⟩, hrs, h⟩ := h
  rw [hset] at hset'
  cases hset'
  rw [hsims, hloc, b2Array_RemoveSwap_last] at hrs
  cases hrs
  dsimp only at h
  rw [if_neg hnn] at h
  simp only [Option.some.injEq] at h
  exact h.symm

/-- `b2DestroyContact` without waking, of a live contact outside islands and graph whose sim
is the last of its set: what is left of the world. -/
theorem b2DestroyContact_last (env : b2Env) (w w' : b2World) (contact : Int) (c : b2Contact)
    (set : b2SolverSet) (sims : List b2ContactSim) (sim : b2ContactSim)
    (hc : b2Array_Get w.contacts contact = some c) (hlive : c.contactId = contact)
    (hisl : c.islandId = B2_NULL_INDEX) (hcol : c.colorIndex = B2_NULL_INDEX)
    (hset : b2Array_Get w.solverSets c.setIndex = some set)
    (hsims : set.contactSims = sims ++ [sim]) (hloc : c.localIndex = (sims.length : Int))
    (h : b2DestroyContact env w contact false = some w') :
    w'.solverSets = b2Array_Set w.solverSets c.setIndex { set with contactSims := sims } ∧
    w'.contactIdPool = b2FreeId w.contactIdPool contact ∧
    w'.broadPhase.pairSet =
      b2RemoveKey w.broadPhase.pairSet (B2_SHAPE_PAIR_KEY c.shapeIdA c.shapeIdB) ∧
    w'.bodies.length = w.bodies.length ∧
    ∃ c', b2Array_Get w'.contacts contact = some c' ∧ c'.contactId = B2_NULL_INDEX ∧
      c'.generation = c.generation ∧ c'.shapeIdA = c.shapeIdA ∧ c'.shapeIdB = c.shapeIdB ∧
      c'.flags = c.flags := by
  obtain ⟨c0, bodyA, bodyB, w1, w2, w3, c3, w4, w5, hc0, -, -, hw1, hw2, hw3, hc3, hw4, hw5,
    hw'⟩ := b2DestroyContact_steps env w w' contact false h
  rw [hc] at hc0
  cases hc0
  have e1 := b2DestroyContact_event_frame _ _ _ _ hw1
  obtain ⟨f2, m2, l2⟩ := b2DisconnectFromBody_frame _ _ _ _ _ hw2
  obtain ⟨f3, m3, l3⟩ := b2DisconnectFromBody_frame _ _ _ _ _ hw3
  have c1 : w1.contacts = w.contacts := by rw [e1]
  have m13 : w3.contacts.map b2Contact.core = w.contacts.map b2Contact.core := by
    rw [m3, m2, c1]
  have s3 : w3.solverSets = w.solverSets := by
    rw [f3, f2, e1]
  have p3 : w3.contactIdPool = w.contactIdPool := by
    rw [f3, f2, e1]
  have q3 : w3.broadPhase.pairSet =
      b2RemoveKey w.broadPhase.pairSet (B2_SHAPE_PAIR_KEY c.shapeIdA c.shapeIdB) := by
    rw [f3, f2, e1]
  have l13 : w3.bodies.length = w.bodies.length := by
    rw [l3, l2, e1]
  obtain ⟨x, hx, hxc⟩ := b2Array_Get_of_map_eq b2Contact.core _ w3.contacts contact c m13 hc
  rw [hc3] at hx
  cases hx
  obtain ⟨g1, g2, g3, g4, g5, g6, g7, g8, g9⟩ := b2Contact_core_fields _ _ hxc
  have e4 := b2DestroyContact_remove_last env w3 w4 contact _ _ c3 set sims sim hc3
    (g5.trans hisl) (g4.trans hcol) (by rw [s3, g2]; exact hset) hsims (g3.trans hloc) hw4
  obtain ⟨c4, hc4, e5⟩ := b2DestroyContact_free_frame _ _ _ _ hw5
  have hc4' : b2Array_Get w3.contacts contact = some c4 := by
    rw [e4] at hc4
    exact hc4
  rw [hc3] at hc4'
  cases hc4'
  have hw5' : w' = w5 := by
    rw [hw']
    simp
  subst hw5'
  refine ⟨?_, ?_, ?_, ?_, ?_⟩
  · rw [e5]
    dsimp only
    rw [e4]
    dsimp only
    rw [s3, g2]
  · rw [e5]
    dsimp only
    rw [e4]
    dsimp only
    rw [p3, g1, hlive]
  · rw [e5]
    dsimp only
    rw [e4]
    dsimp only
    exact q3
  · rw [e5]
    dsimp only
    rw [e4]
    dsimp only
    exact l13
  · refine ⟨{ c3 with contactId := B2_NULL_INDEX, setIndex := B2_NULL_INDEX,
                      colorIndex := B2_NULL_INDEX, localIndex := B2_NULL_INDEX }, ?_, ?_⟩
    · rw [e5]
      exact b2Array_Get_Set_self _ _ _ _ hc4
    · exact ⟨rfl, g8, g6, g7, g9⟩

/-- The removal of such a contact keeps the lifecycle fields, whatever the island and graph
functions do: none of them is called. -/
theorem b2DestroyContact_remove_last_kept (env : b2Env) (w : b2World) (contact : Int)
    (c : b2Contact) (set : b2SolverSet) (sims : List b2ContactSim) (sim : b2ContactSim)
    (hc : b2Array_Get w.contacts contact = some c)
    (hisl : c.islandId = B2_NULL_INDEX) (hcol : c.colorIndex = B2_NULL_INDEX)
    (hset : b2Array_Get w.solverSets c.setIndex = some set)
    (hsims : set.contactSims = sims ++ [sim]) (hloc : c.localIndex = (sims.length : Int))
    (w3 w4 : b2World)
    (m13 : w3.contacts.map b2Contact.core = w.contacts.map b2Contact.core)
    (s3 : w3.solverSets = w.solverSets) (bodyIdA bodyIdB : Int)
    (h : b2DestroyContact_remove env w3 contact bodyIdA bodyIdB = some w4) :
    b2LifecycleKept w3 w4 := by
  obtain ⟨c3, hc3, hxc⟩ := b2Array_Get_of_map_eq b2Contact.core _ w3.contacts contact c m13 hc
  obtain ⟨g1, g2, g3, g4, g5, g6, g7, g8, g9⟩ := b2Contact_core_fields _ _ hxc
  have e4 := b2DestroyContact_remove_last env w3 w4 contact _ _ c3 set sims sim hc3
    (g5.trans hisl) (g4.trans hcol) (by rw [s3, g2]; exact hset) hsims (g3.trans hloc) h
  rw [e4]
  exact ⟨rfl, rfl, rfl, rfl, rfl, rfl, rfl, rfl⟩

/-- Two chains over the same keys have the same edges. -/
theorem b2Chain_determines (contacts contacts' : List b2Contact) (body : Int) :
    ∀ (ks : List Int) (prev nxt : Int), b2Chain contacts body prev ks nxt →
      b2Chain contacts' body prev ks nxt →
      ∀ q, q ∈ ks → b2EdgeAt contacts' q = b2EdgeAt contacts q := by
  intro ks
  induction ks with
  | nil => intro _ _ _ _ q hq; cases hq
  | cons a as ih =>
    intro prev nxt h h' q hq
    obtain ⟨-, e, he, hb, hp, hn, hrest⟩ := h
    obtain ⟨-, e', he', hb', hp', hn', hrest'⟩ := h'
    rcases List.mem_cons.mp hq with rfl | hq
    · rw [he, he']
      obtain ⟨x1, x2, x3⟩ := e
      obtain ⟨y1, y2, y3⟩ := e'
      dsimp only at hb hp hn hb' hp' hn'
      rw [hb, hp, hn, hb', hp', hn']
    · exact ih _ _ hrest hrest' q hq

/-- Two worlds with well-formed lists over the same keys have the same heads and counts
and the same linked edges. -/
theorem b2ContactListsInv_same (w w' : b2World) (L : Int → List Int)
    (h : b2ContactListsInv w L) (h' : b2ContactListsInv w' L)
    (hlen : w'.bodies.length = w.bodies.length) :
    w'.bodies.map (fun x => (x.headContactKey, x.contactCount)) =
      w.bodies.map (fun x => (x.headContactKey, x.contactCount)) ∧
    ∀ body q, q ∈ L body → b2EdgeAt w'.contacts q = b2EdgeAt w.contacts q := by
  constructor
  · apply List.ext_getElem?
    intro n
    simp only [List.getElem?_map]
    by_cases hn : n < w.bodies.length
    · have hn' : n < w'.bodies.length := by omega
      have g : b2Array_Get w.bodies (n : Int) = some w.bodies[n] := by
        unfold b2Array_Get
        simp [hn]
      have g' : b2Array_Get w'.bodies (n : Int) = some w'.bodies[n] := by
        unfold b2Array_Get
        simp [hn']
      obtain ⟨x, hx, x1, x2, -⟩ := h.1.1 _ _ g
      obtain ⟨y, hy, y1, y2, -⟩ := h'.1.1 _ _ g'
      rw [g] at hx
      rw [g'] at hy
      cases hx
      cases hy
      rw [List.getElem?_eq_getElem hn, List.getElem?_eq_getElem hn']
      simp only [Option.map_some', Option.some.injEq, Prod.mk.injEq]
      exact ⟨y1.trans x1.symm, y2.trans x2.symm⟩
    · rw [List.getElem?_eq_none (by omega), List.getElem?_eq_none (by omega)]
  · intro body q hq
    obtain ⟨-, -, -, ⟨x, hx⟩, -⟩ := b2ListsInv_mem _ _ _ _ h.1 _ _ hq
    obtain ⟨-, -, -, ⟨y, hy⟩, -⟩ := b2ListsInv_mem _ _ _ _ h'.1 _ _ hq
    obtain ⟨_, -, -, -, -, ch⟩ := h.1.1 _ x hx
    obtain ⟨_, -, -, -, -, ch'⟩ := h'.1.1 _ y hy
    exact b2Chain_determines _ _ _ _ _ _ ch ch' q hq

/-- Unlinking the two keys that were linked last gives the lists back. -/
theorem b2DestroyContact_lists_create (w : b2World) (a b : b2Shape) (c : b2Contact)
    (L : Int → List Int) (h0 : 0 ≤ (b2AllocId w.contactIdPool).1)
    (hA : c.edges0.bodyId = a.bodyId) (hB : c.edges1.bodyId = b.bodyId) :
    b2DestroyContact_lists c (b2AllocId w.contactIdPool).1 (b2CreateContact_lists w a b L) =
      L := by
  have hne := b2EdgeKey_side_ne _ h0
  unfold b2DestroyContact_lists b2CreateContact_lists
  rw [hA, hB]
  funext x
  by_cases hab : a.bodyId = b.bodyId
  · rw [hab]
    by_cases hx : x = b.bodyId
    · subst hx
      simp [Function.update_same, List.erase_cons_head, List.erase_cons_tail, hne]
    · simp [Function.update_noteq hx]
  · by_cases hx : x = b.bodyId
    · subst hx
      simp [Function.update_same, Function.update_noteq, hab, Ne.symm hab,
        List.erase_cons_head]
    · by_cases hx' : x = a.bodyId
      · subst hx'
        simp [Function.update_same, Function.update_noteq, hab, Ne.symm hab,
          List.erase_cons_head]
      · simp [Function.update_noteq hx, Function.update_noteq hx']

theorem b2CreateContactPrimary_bodies_length (env : b2Env) (w w' : b2World) (a b : b2Shape)
    (h : b2CreateContactPrimary env w a b = some w') : w'.bodies.length = w.bodies.length := by
  unfold b2CreateContactPrimary at h
  simp only [Option.bind_eq_bind, Option.bind_eq_some, Option.pure_def, Option.some.injEq] at h
  obtain ⟨bodyA, hA, bodyB, hB, set, hset, c0, hc0, w1, hw1, w2, hw2, set2, hset2, rfl⟩ := h
  obtain ⟨-, -, x, -, e1⟩ := b2ConnectToBody_frame _ _ _ _ _ hw1
  obtain ⟨-, -, y, -, e2⟩ := b2ConnectToBody_frame _ _ _ _ _ hw2
  have l1 : w1.bodies.length = w.bodies.length := by
    rw [e1]
    simp [b2Array_Set]
  have l2 : w2.bodies.length = w1.bodies.length := by
    rw [e2]
    simp [b2Array_Set]
  exact l2.trans l1

theorem b2World_usedSlot_lists : b2ContactListsInv b2World_usedSlot (fun _ => []) := by
  have hdead : ∀ i, ¬ b2LiveAt b2World_usedSlot.contacts i := by
    rintro i ⟨c, hc, hid⟩
    obtain ⟨h0, h1⟩ := b2Array_Get_lt _ _ _ hc
    have h2 : i = 0 := by
      have : (b2World_usedSlot.contacts.length : Int) = 1 := rfl
      omega
    subst h2
    cases hc
    exact absurd hid (by decide)
  refine ⟨⟨b2World_sample_lists.1.1, fun _ _ => rfl, ?_, ?_⟩, ?_, rfl, ?_⟩
  · intro k e _ hl _
    exact (hdead _ hl).elim
  · intro b k hk
    cases hk
  · exact List.nodup_singleton 0
  · intro id hid
    have h2 : id = 0 := List.mem_singleton.mp hid
    subst h2
    exact ⟨_, rfl, by decide⟩

/-- C2 (counterexample). In the sample world whose free slot 0 was last used by a contact
between the shapes 1 and 4 (its contact lists are well formed), `b2CreateContact` for the circle and the polygon followed by
`b2DestroyContact` of the contact just created leaves more than a generation bump in the
slot: `shapeIdB` is 0 instead of 4, `flags` is 4 instead of 0, `edges[1].bodyId` is 0
instead of 1, and the generation is 0 after 4294967295, not one higher. -/
theorem b2Contact_round_trip_slot_differs :
    b2ContactListsInv b2World_usedSlot (fun _ => []) ∧
    ∃ w2 c c2,
      (b2CreateContact b2Env_sample s_registers 2 b2World_usedSlot b2Shape_circle
        b2Shape_polygon).bind (fun w1 => b2DestroyContact b2Env_sample w1 0 false) = some w2 ∧
      b2Array_Get b2World_usedSlot.contacts 0 = some c ∧
      b2Array_Get w2.contacts 0 = some c2 ∧
      c.contactId = B2_NULL_INDEX ∧ c2.contactId = B2_NULL_INDEX ∧
      c.shapeIdB = 4 ∧ c2.shapeIdB = 0 ∧ c.flags = 0 ∧ c2.flags = 4 ∧
      c.edges1.bodyId = 1 ∧ c2.edges1.bodyId = 0 ∧
      c.generation = 4294967295 ∧ c2.generation = 0 ∧
      c2 ≠ { c with generation := c.generation + 1 } :=
  ⟨b2World_usedSlot_lists,
    _, _, _, rfl, rfl, rfl, rfl, rfl, rfl, rfl, rfl, rfl, rfl, rfl, rfl, rfl, by decide⟩

/-- C2. Create/destroy round trip.  In a world with well-formed contact lists, for two shapes
of a registered type pair, `b2CreateContact` followed immediately by `b2DestroyContact` of
the contact just created (`wakeBodies = false`) restores every body's `headContactKey` and
`contactCount`, every linked edge (so the `prevKey` of each former head edge), the solver
sets (so the count of the set's `contactSims`) and, when the pair key was absent before, the
pair set; the lists are well formed again with the same keys; the contact id is among the
freed ids of the pool; the slot is free again (`contactId == B2_NULL_INDEX`), its
generation is one higher modulo `2 ^ generationBits` than before (0 for a new slot), and its
shape ids and flags are those of the contact just destroyed. -/
theorem b2Contact_create_destroy_round_trip (env : b2Env) (w w1 w2 : b2World) (a b : b2Shape)
    (fuel : Nat) (L : Int → List Int) (hinv : b2ContactListsInv w L)
    (hreg : (s_registers a.type b.type).fcn ≠ none)
    (hcreate : b2CreateContact env s_registers (fuel + 2) w a b = some w1)
    (hdestroy : b2DestroyContact env w1 (b2AllocId w.contactIdPool).1 false = some w2) :
    w2.bodies.map (fun x => (x.headContactKey, x.contactCount)) =
      w.bodies.map (fun x => (x.headContactKey, x.contactCount)) ∧
    (∀ body q, q ∈ L body → b2EdgeAt w2.contacts q = b2EdgeAt w.contacts q) ∧
    b2ContactListsInv w2 L ∧
    w2.solverSets = w.solverSets ∧
    (B2_SHAPE_PAIR_KEY a.id b.id ∉ w.broadPhase.pairSet →
      w2.broadPhase.pairSet = w.broadPhase.pairSet) ∧
    (b2AllocId w.contactIdPool).1 ∈ w2.contactIdPool.freeArray ∧
    ∃ c2, b2Array_Get w2.contacts (b2AllocId w.contactIdPool).1 = some c2 ∧
      c2.contactId = B2_NULL_INDEX ∧
      c2.generation =
        (((b2Array_Get w.contacts (b2AllocId w.contactIdPool).1).map
          (fun c => c.generation)).getD 0 + 1) % 2 ^ env.generationBits ∧
      ((c2.shapeIdA = a.id ∧ c2.shapeIdB = b.id) ∨ (c2.shapeIdA = b.id ∧ c2.shapeIdB = a.id)) ∧
      c2.flags = (if a.enableContactEvents = true ∨ b.enableContactEvents = true then
        env.b2_contactEnableContactEvents else 0) := by
  obtain ⟨A, B, hAB, -, hrun⟩ := b2CreateContact_primary_order env w a b fuel hreg
  rw [hrun] at hcreate
  have inv1 := b2CreateContactPrimary_lists env w w1 A B L hinv hcreate
  have len1 := b2CreateContactPrimary_bodies_length env w w1 A B hcreate
  obtain ⟨bodyA, bodyB, set, c0, hA, hB, hset, hc0, hwspec, hmcore⟩ :=
    b2CreateContactPrimary_spec env w w1 A B hcreate
  obtain ⟨c1, hc1, hcore1⟩ := b2Array_Get_of_map_eq b2Contact.core _ w1.contacts
    (b2AllocId w.contactIdPool).1 _ hmcore (b2Array_Get_Set_self _ _ _ _ hc0)
  obtain ⟨ce, hce, hce0, hce1⟩ := b2CreateContactPrimary_edges env w w1 A B hcreate
  rw [hc1] at hce
  cases hce
  obtain ⟨f1, f2, f3, f4, f5, f6, f7, f8, f9⟩ := b2CreateContact_contact_fields env c0
    (b2AllocId w.contactIdPool).1 (b2CreateContact_setIndex bodyA bodyB)
    (set.contactSims.length : Int) A B
  obtain ⟨g1, g2, g3, g4, g5, g6, g7, g8, g9⟩ := b2Contact_core_fields _ _ hcore1
  obtain ⟨h0, -⟩ := b2Array_Get_lt _ _ _ hc1
  have hs1 : w1.solverSets = b2Array_Set w.solverSets (b2CreateContact_setIndex bodyA bodyB)
      { set with contactSims := set.contactSims ++
          [b2CreateContact_sim env w (b2AllocId w.contactIdPool).1 A B] } := by
    rw [hwspec]
  have hp1 : w1.contactIdPool = (b2AllocId w.contactIdPool).2 := by
    rw [hwspec]
  have hq1 : w1.broadPhase.pairSet =
      b2AddKey w.broadPhase.pairSet (B2_SHAPE_PAIR_KEY A.id B.id) := by
    rw [hwspec]
  have hset1 : b2Array_Get w1.solverSets c1.setIndex = some
      { set with contactSims := set.contactSims ++
          [b2CreateContact_sim env w (b2AllocId w.contactIdPool).1 A B] } := by
    rw [hs1, g2, f2]
    exact b2Array_Get_Set_self _ _ _ _ hset
  obtain ⟨l1, l2, l3, l4, c2, hc2, k1, k2, k3, k4, k5⟩ := b2DestroyContact_last env w1 w2
    (b2AllocId w.contactIdPool).1 c1 _ set.contactSims _ hc1 (g1.trans f1) (g5.trans f5)
    (g4.trans f4) hset1 rfl (g3.trans f3) hdestroy
  obtain ⟨c1', hc1', inv2, -⟩ := b2DestroyContact_inv_of_kept env w1 w2
    (b2AllocId w.contactIdPool).1 false _ inv1 ⟨c1, hc1, g1.trans f1⟩
    (b2DestroyContact_remove_last_kept env w1 _ c1 _ set.contactSims _ hc1 (g5.trans f5)
      (g4.trans f4) hset1 rfl (g3.trans f3))
    (Or.inl rfl) hdestroy
  rw [hc1] at hc1'
  cases hc1'
  rw [b2DestroyContact_lists_create w A B c1 L h0 hce0 hce1] at inv2
  obtain ⟨same1, same2⟩ := b2ContactListsInv_same w w2 L hinv inv2 (l4.trans len1)
  have hkey : B2_SHAPE_PAIR_KEY A.id B.id = B2_SHAPE_PAIR_KEY a.id b.id := by
    rcases hAB with ⟨rfl, rfl⟩ | ⟨rfl, rfl⟩
    · rfl
    · exact B2_SHAPE_PAIR_KEY_comm _ _
  refine ⟨same1, same2, inv2, ?_, ?_, ?_, c2, hc2, k1, ?_, ?_, ?_⟩
  · rw [l1, hs1, g2, f2, b2Array_Set_Set]
    exact b2Array_Set_Get_self _ _ _ hset
  · intro hnot
    rw [l3, hq1, g6, f6, g7, f7, hkey]
    unfold b2RemoveKey b2AddKey
    exact Finset.erase_insert hnot
  · rw [l2, hp1]
    unfold b2FreeId
    simp
  · rw [k2, g8, f8, (b2CreateContact_slots_get w).1 c0 hc0]
  · rw [k3, k4, g6, f6, g7, f7]
    rcases hAB with ⟨rfl, rfl⟩ | ⟨rfl, rfl⟩
    · exact Or.inl ⟨rfl, rfl⟩
    · exact Or.inr ⟨rfl, rfl⟩
  · rw [k5, g9, f9]
    rcases hAB with ⟨rfl, rfl⟩ | ⟨rfl, rfl⟩
    · rfl
    · simp only [or_comm]

theorem b2Contact_create_destroy_round_trip_witness :
    b2ContactListsInv b2World_sample (fun _ => []) ∧
    b2CreateContact b2Env_sample s_registers 2 b2World_sample b2Shape_circle
      b2Shape_polygon = some (b2World_cycleLive 1) ∧
    b2DestroyContact b2Env_sample (b2World_cycleLive 1) 0 false = some (b2World_cycleFree 1) ∧
    (b2World_cycleFree 1).solverSets = b2World_sample.solverSets ∧
    (0 : Int) ∈ (b2World_cycleFree 1).contactIdPool.freeArray ∧
    ∃ c2, b2Array_Get (b2World_cycleFree 1).contacts 0 = some c2 ∧
      c2.contactId = B2_NULL_INDEX ∧ c2.generation = 1 := by
  obtain ⟨-, -, -, h4, -, h6, c2, hc2, h7, h8, -⟩ :=
    b2Contact_create_destroy_round_trip b2Env_sample b2World_sample (b2World_cycleLive 1)
      (b2World_cycleFree 1) b2Shape_circle b2Shape_polygon 0 (fun _ => [])
      b2World_sample_lists (by decide) b2World_sample_create (b2World_cycleLive_destroy 1)
  exact ⟨b2World_sample_lists, b2World_sample_create, b2World_cycleLive_destroy 1, h4, h6,
    c2, hc2, h7, h8⟩

theorem b2Array_Get_dropLast {α : Type} (a : List α) (j : Int) :
    b2Array_Get a.dropLast j =
      if j = (a.length : Int) - 1 then none else b2Array_Get a j := by
  unfold b2Array_Get
  by_cases h0 : 0 ≤ j
  · rw [if_pos h0]
    rw [List.dropLast_eq_take, List.getElem?_take]
    by_cases hj : j = (a.length : Int) - 1
    · rw [if_pos hj, if_neg (by omega)]
    · rw [if_neg hj]
      by_cases hlt : j.toNat < a.length - 1
      · rw [if_pos hlt, if_pos h0]
      · rw [if_neg hlt, if_pos h0, List.getElem?_eq_none (by omega)]
  · rw [if_neg h0]
    split_ifs <;> rfl

theorem b2Array_Get_Set {α : Type} (a : List α) (i j : Int) (v : α) (h0 : 0 ≤ i)
    (hlt : i < (a.length : Int)) :
    b2Array_Get (b2Array_Set a i v) j = if j = i then some v else b2Array_Get a j := by
  unfold b2Array_Get b2Array_Set
  by_cases hj : j = i
  · subst hj
    rw [if_pos h0, if_pos rfl, List.getElem?_set_self (by omega)]
  · rw [if_neg hj]
    by_cases hj0 : 0 ≤ j
    · rw [if_pos hj0, if_pos hj0, List.getElem?_set_ne (by omega)]
    · rw [if_neg hj0, if_neg hj0]

/-- What `b2Array_RemoveSwap` leaves: the array is one shorter, the last element stands at
`index` (unless `index` was the last position) and every other element stays. -/
theorem b2Array_RemoveSwap_get {α : Type} (a a' : List α) (i mi : Int)
    (h : b2Array_RemoveSwap a i = some (mi, a')) :
    0 ≤ i ∧ i < (a.length : Int) ∧ (a'.length : Int) = (a.length : Int) - 1 ∧
    mi = (if i ≠ (a.length : Int) - 1 then (a.length : Int) - 1 else B2_NULL_INDEX) ∧
    ∀ j, b2Array_Get a' j =
      if j = (a.length : Int) - 1 then none
      else if j = i then b2Array_Get a ((a.length : Int) - 1) else b2Array_Get a j := by
  unfold b2Array_RemoveSwap at h
  cases hg : b2Array_Get a i with
  | none => rw [hg] at h; cases h
  | some x =>
    cases hl : a.getLast? with
    | none => rw [hg, hl] at h; cases h
    | some last =>
      rw [hg, hl] at h
      dsimp only at h
      have hi0 : 0 ≤ i := by
        unfold b2Array_Get at hg
        split_ifs at hg with h0
        exact h0
      have hilt : i < (a.length : Int) := by
        unfold b2Array_Get at hg
        rw [if_pos hi0] at hg
        rcases List.getElem?_eq_some.mp hg with ⟨hlt, -⟩
        omega
      have hlast : b2Array_Get a ((a.length : Int) - 1) = some last := by
        unfold b2Array_Get
        rw [if_pos (by omega)]
        rw [List.getLast?_eq_getElem?] at hl
        have : ((a.length : Int) - 1).toNat = a.length - 1 := by omega
        rw [this]
        exact hl
      refine ⟨hi0, hilt, ?_⟩
      split_ifs at h with hne
      · simp only [Option.some.injEq, Prod.mk.injEq] at h
        obtain ⟨rfl, rfl⟩ := h
        refine ⟨?_, ?_, ?_⟩
        · simp only [List.length_dropLast, b2Array_Set, List.length_set]
          omega
        · rw [if_pos hne]
        · intro j
          rw [b2Array_Get_dropLast]
          have hlen : (b2Array_Set a i last).length = a.length := by
            simp [b2Array_Set]
          rw [hlen]
          by_cases hj : j = (a.length : Int) - 1
          · rw [if_pos hj, if_pos hj]
          · rw [if_neg hj, if_neg hj, b2Array_Get_Set a i j last hi0 hilt, hlast]
      · simp only [Option.some.injEq, Prod.mk.injEq] at h
        obtain ⟨rfl, rfl⟩ := h
        have hie : i = (a.length : Int) - 1 := by
          by_contra hc
          exact hne hc
        refine ⟨?_, ?_, ?_⟩
        · simp only [List.length_dropLast]
          omega
        · rw [if_neg hne]
        · intro j
          rw [b2Array_Get_dropLast]
          by_cases hj : j = (a.length : Int) - 1
          · rw [if_pos hj, if_pos hj]
          · rw [if_neg hj, if_neg hj, if_neg (by rw [hie]; exact hj)]

/-- Removing the sim of the live contact `d` from its set by swap-remove, with the locator of
the contact of the moved sim updated and `d` no longer live, keeps the locator and the
ownership of the sims. -/
theorem b2Locator_swap_remove (contacts contacts' : List b2Contact)
    (sets sets' : List b2SolverSet) (d : Int) (cd : b2Contact) (set : b2SolverSet)
    (hH1 : b2Located contacts sets) (hH2 : b2SimsOwned contacts sets)
    (hd : b2Array_Get contacts d = some cd) (hlive : cd.contactId = d)
    (hcol : cd.colorIndex = B2_NULL_INDEX)
    (hset : b2Array_Get sets cd.setIndex = some set)
    (hS : ∀ s j, b2SimAt sets' s j =
      if s = cd.setIndex then
        (if j = (set.contactSims.length : Int) - 1 then none
         else if j = cd.localIndex then
           b2Array_Get set.contactSims ((set.contactSims.length : Int) - 1)
         else b2Array_Get set.contactSims j)
      else b2SimAt sets s j)
    (hC : ∀ i c, b2Array_Get contacts i = some c → c.contactId = i → i ≠ d →
      ∃ c', b2Array_Get contacts' i = some c' ∧ c'.contactId = c.contactId ∧
        c'.colorIndex = c.colorIndex ∧ c'.setIndex = c.setIndex ∧
        c'.localIndex =
          (if c.setIndex = cd.setIndex ∧ c.colorIndex = B2_NULL_INDEX ∧
              c.localIndex = (set.contactSims.length : Int) - 1 then cd.localIndex
           else c.localIndex))
    (hL : ∀ i c', b2Array_Get contacts' i = some c' → c'.contactId = i →
      i ≠ d ∧ ∃ c, b2Array_Get contacts i = some c ∧ c.contactId = i) :
    b2Located contacts' sets' ∧ b2SimsOwned contacts' sets' := by
  have hsim : ∀ j, b2SimAt sets cd.setIndex j = b2Array_Get set.contactSims j := by
    intro j
    unfold b2SimAt
    rw [hset]
    rfl
  -- two live contacts outside the graph at one position are one contact
  have huniq : ∀ i c, b2Array_Get contacts i = some c → c.contactId = i →
      c.colorIndex = B2_NULL_INDEX → c.setIndex = cd.setIndex → c.localIndex = cd.localIndex →
      i = d := by
    intro i c hc hid hci hs hl
    obtain ⟨sim, h1, h2⟩ := hH1 i c hc hid hci
    obtain ⟨sim', h1', h2'⟩ := hH1 d cd hd hlive hcol
    rw [hs, hl, h1'] at h1
    cases h1
    rw [← hid, ← hlive, ← h2, ← h2']
  constructor
  · intro i c' hc' hid' hcol'
    obtain ⟨hne, c, hc, hid⟩ := hL i c' hc' hid'
    obtain ⟨c'', hc'', e1, e2, e3, e4⟩ := hC i c hc hid hne
    rw [hc'] at hc''
    cases hc''
    have hcolc : c.colorIndex = B2_NULL_INDEX := e2.symm.trans hcol'
    obtain ⟨sim, h1, h2⟩ := hH1 i c hc hid hcolc
    refine ⟨sim, ?_, h2.trans e1.symm⟩
    by_cases hs : c.setIndex = cd.setIndex
    · rw [hs, hsim] at h1
      by_cases hl : c.localIndex = (set.contactSims.length : Int) - 1
      · have e4' : c'.localIndex = cd.localIndex := e4.trans (if_pos ⟨hs, hcolc, hl⟩)
        have hne' : cd.localIndex ≠ (set.contactSims.length : Int) - 1 := by
          intro heq
          exact hne (huniq i c hc hid hcolc hs (hl.trans heq.symm))
        rw [hS, e3, e4', if_pos hs, if_neg hne', if_pos rfl, ← hl]
        exact h1
      · have e4' : c'.localIndex = c.localIndex := e4.trans (if_neg (fun h => hl h.2.2))
        have hne' : c.localIndex ≠ cd.localIndex := by
          intro heq
          exact hne (huniq i c hc hid hcolc hs heq)
        rw [hS, e3, e4', if_pos hs, if_neg hl, if_neg hne']
        exact h1
    · have e4' : c'.localIndex = c.localIndex := e4.trans (if_neg (fun h => hs h.1))
      rw [hS, e3, e4', if_neg hs]
      exact h1
  · intro s j sim hsj
    rw [hS] at hsj
    by_cases hs : s = cd.setIndex
    · rw [if_pos hs] at hsj
      by_cases hj : j = (set.contactSims.length : Int) - 1
      · rw [if_pos hj] at hsj
        cases hsj
      · rw [if_neg hj] at hsj
        by_cases hji : j = cd.localIndex
        · rw [if_pos hji] at hsj
          rw [← hsim] at hsj
          obtain ⟨c, hc, o1, o2, o3, o4⟩ := hH2 _ _ _ hsj
          have hne : sim.contactId ≠ d := by
            intro heq
            rw [heq, hd] at hc
            cases hc
            exact hj (hji.trans o4)
          obtain ⟨c', hc', e1, e2, e3, e4⟩ := hC _ c hc o1 hne
          refine ⟨c', hc', e1.trans o1, e2.trans o2, e3.trans (o3.trans hs.symm), ?_⟩
          rw [e4.trans (if_pos ⟨o3, o2, o4⟩)]
          exact hji.symm
        · rw [if_neg hji, ← hsim] at hsj
          obtain ⟨c, hc, o1, o2, o3, o4⟩ := hH2 _ _ _ hsj
          have hne : sim.contactId ≠ d := by
            intro heq
            rw [heq, hd] at hc
            cases hc
            exact hji o4.symm
          obtain ⟨c', hc', e1, e2, e3, e4⟩ := hC _ c hc o1 hne
          refine ⟨c', hc', e1.trans o1, e2.trans o2, e3.trans (o3.trans hs.symm), ?_⟩
          rw [e4.trans (if_neg (fun h => hj (o4.symm.trans h.2.2)))]
          exact o4
    · rw [if_neg hs] at hsj
      obtain ⟨c, hc, o1, o2, o3, o4⟩ := hH2 _ _ _ hsj
      have hne : sim.contactId ≠ d := by
        intro heq
        rw [heq, hd] at hc
        cases hc
        exact hs o3.symm
      obtain ⟨c', hc', e1, e2, e3, e4⟩ := hC _ c hc o1 hne
      refine ⟨c', hc', e1.trans o1, e2.trans o2, e3.trans o3, ?_⟩
      rw [e4.trans (if_neg (fun h => hs (o3.symm.trans h.1)))]
      exact o4

theorem b2Contact_core_locator (contacts contacts' : List b2Contact)
    (h : contacts'.map b2Contact.core = contacts.map b2Contact.core) :
    contacts'.map b2Contact.locator = contacts.map b2Contact.locator := by
  have := congrArg (List.map b2Contact.locator) h
  simpa [List.map_map, Function.comp_def, b2Contact.core, b2Contact.locator] using this

theorem b2Contact_locator_ids (contacts contacts' : List b2Contact)
    (h : contacts'.map b2Contact.locator = contacts.map b2Contact.locator) :
    contacts'.map (fun c => c.contactId) = contacts.map (fun c => c.contactId) := by
  have := congrArg (List.map (fun p : Int × Int × Int × Int => p.1)) h
  simpa [List.map_map, Function.comp_def, b2Contact.locator] using this

theorem b2Contact_locator_fields (c c' : b2Contact) (h : c'.locator = c.locator) :
    c'.contactId = c.contactId ∧ c'.setIndex = c.setIndex ∧ c'.colorIndex = c.colorIndex ∧
      c'.localIndex = c.localIndex := by
  unfold b2Contact.locator at h
  simp only [Prod.mk.injEq] at h
  exact h

/-- The block "Remove contact from the array that owns it" for a contact outside the graph:
the sim is swap-removed from its set and the contact of the moved sim gets the vacated
index. -/
theorem b2DestroyContact_remove_swap (env : b2Env) (hU : b2UnlinkKeepsLocator env)
    (w3 w4 : b2World) (contact bodyIdA bodyIdB : Int) (c3 : b2Contact)
    (hc3 : b2Array_Get w3.contacts contact = some c3)
    (hcol : c3.colorIndex = B2_NULL_INDEX)
    (h : b2DestroyContact_remove env w3 contact bodyIdA bodyIdB = some w4) :
    ∃ (wU : b2World) (set : b2SolverSet) (mi : Int) (sims' : List b2ContactSim),
      wU.contacts.map b2Contact.locator = w3.contacts.map b2Contact.locator ∧
      b2Array_Get w3.solverSets c3.setIndex = some set ∧
      b2Array_RemoveSwap set.contactSims c3.localIndex = some (mi, sims') ∧
      w4.solverSets = b2Array_Set w3.solverSets c3.setIndex { set with contactSims := sims' } ∧
      w4.contactIdPool = w3.contactIdPool ∧
      ((mi = B2_NULL_INDEX ∧ w4.contacts = wU.contacts) ∨
       (mi ≠ B2_NULL_INDEX ∧ ∃ msim mc, b2Array_Get sims' c3.localIndex = some msim ∧
          b2Array_Get wU.contacts msim.contactId = some mc ∧
          w4.contacts = b2Array_Set wU.contacts msim.contactId
            { mc with localIndex := c3.localIndex })) := by
  unfold b2DestroyContact_remove at h
  simp only [Option.bind_eq_bind, Option.bind_eq_some, Option.pure_def, Option.some.injEq] at h
  obtain ⟨c, hc, c2, hc2, h⟩ := h
  rw [hc3] at hc
  cases hc
  have h1 : (if c3.islandId ≠ B2_NULL_INDEX then env.b2UnlinkContact w3 contact
        else w3).solverSets = w3.solverSets ∧
      (if c3.islandId ≠ B2_NULL_INDEX then env.b2UnlinkContact w3 contact
        else w3).contactIdPool = w3.contactIdPool ∧
      (if c3.islandId ≠ B2_NULL_INDEX then env.b2UnlinkContact w3 contact
        else w3).contacts.map b2Contact.locator = w3.contacts.map b2Contact.locator := by
    split_ifs
    · exact hU w3 contact
    · exact ⟨rfl, rfl, rfl⟩
  generalize (if c3.islandId ≠ B2_NULL_INDEX then env.b2UnlinkContact w3 contact else w3) = wU
    at h h1 hc2
  obtain ⟨u1, u2, u3⟩ := h1
  obtain ⟨x, hx, hxl⟩ := b2Array_Get_of_map_eq b2Contact.locator _ wU.contacts contact c3 u3 hc3
  rw [hc2] at hx
  cases hx
  obtain ⟨g1, g2, g3, g4⟩ := b2Contact_locator_fields _ _ hxl
  have hnc : ¬ (c2.colorIndex ≠ B2_NULL_INDEX) := fun hn => hn (g3.trans hcol)
  rw [if_neg hnc] at h
  simp only [Option.bind_eq_some] at h
  obtain ⟨set, hset, ⟨mi, sims'⟩, hrs, h⟩ := h
  dsimp only at h
  rw [u1, g2] at hset
  rw [g4] at hrs
  refine ⟨wU, set, mi, sims', u3, hset, hrs, ?_⟩
  by_cases hmoved : mi ≠ B2_NULL_INDEX
  · rw [if_pos hmoved] at h
    simp only [Option.bind_eq_some, Option.some.injEq] at h
    obtain ⟨ms, hms, mc, hmc, rfl⟩ := h
    dsimp only
    rw [u1, u2, g2, g4]
    rw [g4] at hms
    exact ⟨rfl, rfl, Or.inr ⟨hmoved, ms, mc, hms, hmc, rfl⟩⟩
  · rw [if_neg hmoved] at h
    simp only [Option.some.injEq] at h
    subst h
    dsimp only
    rw [u1, u2, g2]
    have hm : mi = B2_NULL_INDEX := by
      by_contra hc
      exact hmoved hc
    exact ⟨rfl, rfl, Or.inl ⟨hm, rfl⟩⟩

/-- `b2DestroyContact` of a live contact outside the graph, up to the waking of the bodies:
the world `w5` before the waking has a sound locator, the set of the contact is one sim
shorter, the contact of the moved sim points at the vacated index and every other contact
keeps its locator fields. -/
theorem b2DestroyContact_locator (env : b2Env) (hU : b2UnlinkKeepsLocator env)
    (w w' : b2World) (contact : Int) ( wake : Bool) (c : b2Contact)
    (hH1 : b2Located w.contacts w.solverSets) (hH2 : b2SimsOwned w.contacts w.solverSets)
    (hpool : b2PoolInv w.contacts w.contactIdPool)
    (hc : b2Array_Get w.contacts contact = some c) (hlive : c.contactId = contact)
    (hcol : c.colorIndex = B2_NULL_INDEX)
    (h : b2DestroyContact env w contact wake = some w') :
    ∃ (w5 : b2World) (set set5 : b2SolverSet),
      w' = (if wake = true ∧ decide ((c.flags &&& env.b2_contactTouchingFlag) ≠ 0) = true then
        env.b2WakeBody (env.b2WakeBody w5 c.edges0.bodyId) c.edges1.bodyId else w5) ∧
      b2Located w5.contacts w5.solverSets ∧ b2SimsOwned w5.contacts w5.solverSets ∧
      b2PoolInv w5.contacts w5.contactIdPool ∧
      b2Array_Get w.solverSets c.setIndex = some set ∧
      b2Array_Get w5.solverSets c.setIndex = some set5 ∧
      (set5.contactSims.length : Int) = (set.contactSims.length : Int) - 1 ∧
      (c.localIndex ≠ (set.contactSims.length : Int) - 1 →
        ∃ msim mc', b2Array_Get set.contactSims ((set.contactSims.length : Int) - 1) =
            some msim ∧
          b2Array_Get set5.contactSims c.localIndex = some msim ∧
          b2Array_Get w5.contacts msim.contactId = some mc' ∧
          mc'.localIndex = c.localIndex) ∧
      (∀ i ci, b2Array_Get w.contacts i = some ci → i ≠ contact →
        (∀ msim, b2Array_Get set.contactSims ((set.contactSims.length : Int) - 1) =
            some msim → c.localIndex ≠ (set.contactSims.length : Int) - 1 →
          msim.contactId ≠ i) →
        ∃ ci', b2Array_Get w5.contacts i = some ci' ∧ ci'.locator = ci.locator) := by
  obtain ⟨c0, bodyA, bodyB, w1, w2, w3, c3, w4, w5, hc0, -, -, hw1, hw2, hw3, hc3, hw4, hw5,
    hw'⟩ := b2DestroyContact_steps env w w' contact wake h
  rw [hc] at hc0
  cases hc0
  obtain ⟨d0, -⟩ := b2Array_Get_lt _ _ _ hc
  have e1 := b2DestroyContact_event_frame _ _ _ _ hw1
  obtain ⟨f2, m2, -⟩ := b2DisconnectFromBody_frame _ _ _ _ _ hw2
  obtain ⟨f3, m3, -⟩ := b2DisconnectFromBody_frame _ _ _ _ _ hw3
  have cc1 : w1.contacts = w.contacts := by rw [e1]
  have m13 : w3.contacts.map b2Contact.core = w.contacts.map b2Contact.core := by
    rw [m3, m2, cc1]
  have s3 : w3.solverSets = w.solverSets := by
    rw [f3, f2, e1]
  have p3 : w3.contactIdPool = w.contactIdPool := by
    rw [f3, f2, e1]
  have loc13 := b2Contact_core_locator _ _ m13
  obtain ⟨x, hx, hxl⟩ := b2Array_Get_of_map_eq b2Contact.locator _ w3.contacts contact c loc13 hc
  rw [hc3] at hx
  cases hx
  obtain ⟨g1, g2, g3, g4⟩ := b2Contact_locator_fields _ _ hxl
  obtain ⟨wU, set, mi, sims', u3, hset, hrs, e4s, e4p, hcase⟩ :=
    b2DestroyContact_remove_swap env hU w3 w4 contact _ _ c3 hc3 (g3.trans hcol) hw4
  rw [g2, s3] at hset e4s
  rw [g4] at hrs hcase
  obtain ⟨r0, r1, rlen, rmi, rget⟩ := b2Array_RemoveSwap_get _ _ _ _ hrs
  have locU : wU.contacts.map b2Contact.locator = w.contacts.map b2Contact.locator :=
    u3.trans loc13
  obtain ⟨c4, hc4, e5⟩ := b2DestroyContact_free_frame _ _ _ _ hw5
  have hs5 : w5.solverSets = b2Array_Set w.solverSets c.setIndex
      { set with contactSims := sims' } := by
    rw [e5]
    exact e4s
  have hfree5 : ∀ i, i ≠ contact → b2Array_Get w5.contacts i = b2Array_Get w4.contacts i := by
    intro i hi
    rw [e5]
    exact b2Array_Get_Set_other _ _ _ _ _ hc4 hi
  have hd5 : ∀ c', b2Array_Get w5.contacts contact = some c' → c'.contactId ≠ contact := by
    intro c' hc'
    rw [e5] at hc'
    have := b2Array_Get_Set_self w4.contacts contact c4
      { c4 with contactId := B2_NULL_INDEX, setIndex := B2_NULL_INDEX,
                colorIndex := B2_NULL_INDEX, localIndex := B2_NULL_INDEX } hc4
    rw [this] at hc'
    cases hc'
    show B2_NULL_INDEX ≠ contact
    unfold B2_NULL_INDEX
    omega
  have hsimS : ∀ j, b2SimAt w.solverSets c.setIndex j = b2Array_Get set.contactSims j := by
    intro j
    unfold b2SimAt
    rw [hset]
    rfl
  -- description of the contacts before the slot is freed
  have hU4 : ∀ i ci, b2Array_Get w.contacts i = some ci →
      (∀ msim, b2Array_Get set.contactSims ((set.contactSims.length : Int) - 1) =
          some msim → c.localIndex ≠ (set.contactSims.length : Int) - 1 →
        msim.contactId ≠ i) →
      ∃ ci', b2Array_Get w4.contacts i = some ci' ∧ ci'.locator = ci.locator := by
    intro i ci hci hnm
    obtain ⟨cU, hcU, hcUl⟩ := b2Array_Get_of_map_eq b2Contact.locator _ wU.contacts i ci locU hci
    rcases hcase with ⟨-, e4c⟩ | ⟨hmi, msim, mc, hms, hmc, e4c⟩
    · rw [e4c]
      exact ⟨cU, hcU, hcUl⟩
    · have hne : c.localIndex ≠ (set.contactSims.length : Int) - 1 := by
        intro heq
        rw [rmi, if_neg (fun hn => hn heq)] at hmi
        exact hmi rfl
      have hms' : b2Array_Get set.contactSims ((set.contactSims.length : Int) - 1) =
          some msim := by
        rw [rget, if_neg hne, if_pos rfl] at hms
        exact hms
      have him : i ≠ msim.contactId := fun heq => hnm msim hms' hne heq.symm
      rw [e4c, b2Array_Get_Set_other _ _ _ _ _ hmc him]
      exact ⟨cU, hcU, hcUl⟩
  have hM4 : c.localIndex ≠ (set.contactSims.length : Int) - 1 →
      ∃ msim cm mc', b2Array_Get set.contactSims ((set.contactSims.length : Int) - 1) =
          some msim ∧
        b2Array_Get sims' c.localIndex = some msim ∧
        b2Array_Get w.contacts msim.contactId = some cm ∧
        cm.contactId = msim.contactId ∧ cm.colorIndex = B2_NULL_INDEX ∧
        cm.setIndex = c.setIndex ∧ cm.localIndex = (set.contactSims.length : Int) - 1 ∧
        msim.contactId ≠ contact ∧
        b2Array_Get w4.contacts msim.contactId = some mc' ∧
        mc'.contactId = cm.contactId ∧ mc'.colorIndex = cm.colorIndex ∧
        mc'.setIndex = cm.setIndex ∧ mc'.localIndex = c.localIndex := by
    intro hne
    rcases hcase with ⟨hmi, -⟩ | ⟨hmi, msim, mc, hms, hmc, e4c⟩
    · rw [rmi, if_pos hne] at hmi
      unfold B2_NULL_INDEX at hmi
      omega
    · have hms' : b2Array_Get set.contactSims ((set.contactSims.length : Int) - 1) =
          some msim := by
        rw [rget, if_neg hne, if_pos rfl] at hms
        exact hms
      have hsa : b2SimAt w.solverSets c.setIndex ((set.contactSims.length : Int) - 1) =
          some msim := by
        rw [hsimS]
        exact hms'
      obtain ⟨cm, hcm, o1, o2, o3, o4⟩ := hH2 _ _ _ hsa
      have hmd : msim.contactId ≠ contact := by
        intro heq
        rw [heq, hc] at hcm
        cases hcm
        exact hne o4
      obtain ⟨cU, hcU, hcUl⟩ := b2Array_Get_of_map_eq b2Contact.locator _ wU.contacts _ cm locU
        hcm
      rw [hmc] at hcU
      cases hcU
      obtain ⟨q1, q2, q3, q4⟩ := b2Contact_locator_fields _ _ hcUl
      refine ⟨msim, cm, { mc with localIndex := c.localIndex }, hms', hms, hcm, o1, o2, o3, o4,
        hmd, ?_, q1, q3, q2, rfl⟩
      rw [e4c]
      exact b2Array_Get_Set_self _ _ _ _ hmc
  have hback : ∀ i c', b2Array_Get w4.contacts i = some c' → c'.contactId = i →
      ∃ ci, b2Array_Get w.contacts i = some ci ∧ ci.contactId = i := by
    intro i c' hc' hid'
    have hfromU : ∀ cU, b2Array_Get wU.contacts i = some cU → cU.contactId = i →
        ∃ ci, b2Array_Get w.contacts i = some ci ∧ ci.contactId = i := by
      intro cU hcU hcUid
      obtain ⟨ci, hci, hcil⟩ := b2Array_Get_of_map_eq b2Contact.locator _ w.contacts i cU
        locU.symm hcU
      exact ⟨ci, hci, (b2Contact_locator_fields _ _ hcil).1.trans hcUid⟩
    rcases hcase with ⟨-, e4c⟩ | ⟨hmi, msim, mc, hms, hmc, e4c⟩
    · rw [e4c] at hc'
      exact hfromU c' hc' hid'
    · by_cases him : i = msim.contactId
      · rw [e4c, him, b2Array_Get_Set_self _ _ _ _ hmc] at hc'
        cases hc'
        exact hfromU mc (him ▸ hmc) hid'
      · rw [e4c, b2Array_Get_Set_other _ _ _ _ _ hmc him] at hc'
        exact hfromU c' hc' hid'
  have hloc := b2Locator_swap_remove w.contacts w5.contacts w.solverSets w5.solverSets contact c
    set hH1 hH2 hc hlive hcol hset
    (by
      intro s j
      unfold b2SimAt
      rw [hs5]
      by_cases hs : s = c.setIndex
      · rw [if_pos hs, hs, b2Array_Get_Set_self _ _ _ _ hset]
        exact rget j
      · rw [if_neg hs, b2Array_Get_Set_other _ _ _ _ _ hset hs])
    (by
      intro i ci hci hid hne
      by_cases hcond : ci.setIndex = c.setIndex ∧ ci.colorIndex = B2_NULL_INDEX ∧
          ci.localIndex = (set.contactSims.length : Int) - 1
      · rw [if_pos hcond]
        obtain ⟨k1, k2, k3⟩ := hcond
        obtain ⟨sim, hsim1, hsim2⟩ := hH1 i ci hci hid k2
        rw [k1, k3, hsimS] at hsim1
        by_cases hl : c.localIndex = (set.contactSims.length : Int) - 1
        · obtain ⟨ci', hci', hcil'⟩ := hU4 i ci hci (fun _ _ hn => (hn hl).elim)
          obtain ⟨q1, q2, q3, q4⟩ := b2Contact_locator_fields _ _ hcil'
          exact ⟨ci', by rw [hfree5 i hne]; exact hci', q1, q3, q2, by rw [q4, k3, hl]⟩
        · obtain ⟨msim, cm, mc', a1, a2, a3, a4, a5, a6, a7, a8, a9, a10, a11, a12, a13⟩ :=
            hM4 hl
          rw [a1] at hsim1
          cases hsim1
          have him : sim.contactId = i := hsim2.trans hid
          rw [him] at a3 a9
          rw [hci] at a3
          cases a3
          exact ⟨mc', by rw [hfree5 i hne]; exact a9, a10, a11, a12, a13⟩
      · rw [if_neg hcond]
        have hnm : ∀ msim, b2Array_Get set.contactSims ((set.contactSims.length : Int) - 1) =
            some msim → c.localIndex ≠ (set.contactSims.length : Int) - 1 →
            msim.contactId ≠ i := by
          intro msim hms hl heq
          obtain ⟨ms2, cm, mc', a1, a2, a3, a4, a5, a6, a7, a8, a9, a10, a11, a12, a13⟩ :=
            hM4 hl
          rw [hms] at a1
          cases a1
          rw [heq, hci] at a3
          cases a3
          exact hcond ⟨a6, a5, a7⟩
        obtain ⟨ci', hci', hcil'⟩ := hU4 i ci hci hnm
        obtain ⟨q1, q2, q3, q4⟩ := b2Contact_locator_fields _ _ hcil'
        exact ⟨ci', by rw [hfree5 i hne]; exact hci', q1, q3, q2, q4⟩)
    (by
      intro i c' hc' hid'
      have hne : i ≠ contact := by
        intro heq
        rw [heq] at hc' hid'
        exact hd5 c' hc' hid'
      rw [hfree5 i hne] at hc'
      exact ⟨hne, hback i c' hc' hid'⟩)
  have ids4 : w4.contacts.map (fun c => c.contactId) = w.contacts.map (fun c => c.contactId) := by
    rcases hcase with ⟨-, e4c⟩ | ⟨hmi, msim, mc, hms, hmc, e4c⟩
    · rw [e4c]
      exact b2Contact_locator_ids _ _ locU
    · rw [e4c, b2Array_Set_map_of_eq (fun c : b2Contact => c.contactId) _ _ mc
        { mc with localIndex := c.localIndex } hmc rfl]
      exact b2Contact_locator_ids _ _ locU
  have pool4 : b2PoolInv w4.contacts w4.contactIdPool := by
    rw [e4p, p3]
    exact b2PoolInv_congr _ _ _ ids4 hpool
  have hid4 : c4.contactId = contact := by
    obtain ⟨y, hy, hyc⟩ := b2Array_Get_of_map_eq (fun c : b2Contact => c.contactId) _
      w4.contacts contact c ids4 hc
    rw [hc4] at hy
    cases hy
    exact Eq.trans hyc hlive
  have pool5 : b2PoolInv w5.contacts w5.contactIdPool := by
    rw [e5, g1, hlive]
    exact b2FreeId_inv w4.contacts w4.contactIdPool contact c4 _ pool4 hc4 hid4 rfl
  refine ⟨w5, set, { set with contactSims := sims' }, hw', hloc.1, hloc.2, pool5, hset, ?_, rlen,
    ?_, ?_⟩
  · rw [hs5]
    exact b2Array_Get_Set_self _ _ _ _ hset
  · intro hl
    obtain ⟨msim, cm, mc', a1, a2, a3, a4, a5, a6, a7, a8, a9, a10, a11, a12, a13⟩ := hM4 hl
    exact ⟨msim, mc', a1, a2, by rw [hfree5 _ a8]; exact a9, a13⟩
  · intro i ci hci hne hnm
    obtain ⟨ci', hci', hcil'⟩ := hU4 i ci hci hnm
    exact ⟨ci', by rw [hfree5 i hne]; exact hci', hcil'⟩

theorem b2CreateContact_sim_contactId (env : b2Env) (w : b2World) (id : Int) (a b : b2Shape) :
    (b2CreateContact_sim env w id a b).contactId = id := by
  unfold b2CreateContact_sim
  split_ifs <;> rfl

theorem b2Array_Get_append_ne {α : Type} (a : List α) (x v : α) (j : Int)
    (h : b2Array_Get (a ++ [x]) j = some v) (hj : j ≠ (a.length : Int)) :
    b2Array_Get a j = some v := by
  obtain ⟨h0, hlt⟩ := b2Array_Get_lt _ _ _ h
  simp only [List.length_append, List.length_singleton] at hlt
  unfold b2Array_Get at h ⊢
  rw [if_pos h0] at h ⊢
  rw [List.getElem?_append_left (by push_cast at hlt; omega)] at h
  exact h

/-- After `b2CreateContact` (registered pair, primary order) the locator is sound again: the
new sim is appended to its set and no other contact's locator fields change. -/
theorem b2CreateContactPrimary_locator (env : b2Env) (w w' : b2World) (a b : b2Shape)
    (hinv : b2LocatorInv w) (h : b2CreateContactPrimary env w a b = some w') :
    b2LocatorInv w' ∧
    ∃ (s : Int) (set set' : b2SolverSet),
      b2Array_Get w.solverSets s = some set ∧ b2Array_Get w'.solverSets s = some set' ∧
      set'.contactSims.length = set.contactSims.length + 1 ∧
      (∀ i ci, b2Array_Get w.contacts i = some ci → i ≠ (b2AllocId w.contactIdPool).1 →
        ∃ ci', b2Array_Get w'.contacts i = some ci' ∧ ci'.locator = ci.locator) := by
  obtain ⟨hH1, hH2, hpool⟩ := hinv
  obtain ⟨bodyA, bodyB, set, c0, hA, hB, hset, hc0, hwspec, hmcore⟩ :=
    b2CreateContactPrimary_spec env w w' a b h
  obtain ⟨c1, hc1, hcore1⟩ := b2Array_Get_of_map_eq b2Contact.core _ w'.contacts
    (b2AllocId w.contactIdPool).1 _ hmcore (b2Array_Get_Set_self _ _ _ _ hc0)
  obtain ⟨f1, f2, f3, f4, -⟩ := b2CreateContact_contact_fields env c0
    (b2AllocId w.contactIdPool).1 (b2CreateContact_setIndex bodyA bodyB)
    (set.contactSims.length : Int) a b
  obtain ⟨g1, g2, g3, g4, -⟩ := b2Contact_core_fields _ _ hcore1
  have hs' : w'.solverSets = b2Array_Set w.solverSets (b2CreateContact_setIndex bodyA bodyB)
      { set with contactSims := set.contactSims ++
          [b2CreateContact_sim env w (b2AllocId w.contactIdPool).1 a b] } := by
    rw [hwspec]
  have hp' : w'.contactIdPool = (b2AllocId w.contactIdPool).2 := by
    rw [hwspec]
  obtain ⟨hfree, -, hpool'⟩ := b2AllocId_inv w
    (b2CreateContact_contact env c0 (b2AllocId w.contactIdPool).1
      (b2CreateContact_setIndex bodyA bodyB) (set.contactSims.length : Int) a b) hpool
  have hother : ∀ i, i ≠ (b2AllocId w.contactIdPool).1 →
      (b2Array_Get w'.contacts i).map b2Contact.core =
        (b2Array_Get w.contacts i).map b2Contact.core := by
    intro i hi
    rw [← b2Array_Get_map, hmcore, b2Array_Get_map, b2Array_Get_Set_other _ _ _ _ _ hc0 hi,
      b2CreateContact_slots_other w i hi]
  have hfwd : ∀ i ci, b2Array_Get w.contacts i = some ci → i ≠ (b2AllocId w.contactIdPool).1 →
      ∃ ci', b2Array_Get w'.contacts i = some ci' ∧ ci'.locator = ci.locator := by
    intro i ci hci hi
    have := hother i hi
    rw [hci] at this
    cases hg : b2Array_Get w'.contacts i with
    | none => rw [hg] at this; cases this
    | some ci' =>
      rw [hg] at this
      simp only [Option.map_some', Option.some.injEq] at this
      obtain ⟨q1, q2, q3, q4, -⟩ := b2Contact_core_fields _ _ this
      refine ⟨ci', rfl, ?_⟩
      unfold b2Contact.locator
      rw [q1, q2, q3, q4]
  have hbwd : ∀ i ci', b2Array_Get w'.contacts i = some ci' →
      i ≠ (b2AllocId w.contactIdPool).1 →
      ∃ ci, b2Array_Get w.contacts i = some ci ∧ ci'.locator = ci.locator := by
    intro i ci' hci' hi
    have := hother i hi
    rw [hci'] at this
    cases hg : b2Array_Get w.contacts i with
    | none => rw [hg] at this; cases this
    | some ci =>
      rw [hg] at this
      simp only [Option.map_some', Option.some.injEq] at this
      obtain ⟨q1, q2, q3, q4, -⟩ := b2Contact_core_fields _ _ this
      refine ⟨ci, rfl, ?_⟩
      unfold b2Contact.locator
      rw [q1, q2, q3, q4]
  have hsimNew : b2SimAt w'.solverSets (b2CreateContact_setIndex bodyA bodyB)
      (set.contactSims.length : Int) =
        some (b2CreateContact_sim env w (b2AllocId w.contactIdPool).1 a b) := by
    unfold b2SimAt
    rw [hs', b2Array_Get_Set_self _ _ _ _ hset]
    exact (b2Array_Get_length _ _).2
  have hsimOld : ∀ s j sim, b2SimAt w.solverSets s j = some sim →
      b2SimAt w'.solverSets s j = some sim := by
    intro s j sim hsj
    unfold b2SimAt at hsj ⊢
    rw [hs']
    by_cases hs : s = b2CreateContact_setIndex bodyA bodyB
    · rw [hs, b2Array_Get_Set_self _ _ _ _ hset]
      rw [hs, hset] at hsj
      exact b2Array_Get_append_of_some _ _ _ _ hsj
    · rw [b2Array_Get_Set_other _ _ _ _ _ hset hs]
      exact hsj
  have hsimBack : ∀ s j sim, b2SimAt w'.solverSets s j = some sim →
      (s = b2CreateContact_setIndex bodyA bodyB ∧ j = (set.contactSims.length : Int) ∧
        sim = b2CreateContact_sim env w (b2AllocId w.contactIdPool).1 a b) ∨
      b2SimAt w.solverSets s j = some sim := by
    intro s j sim hsj
    by_cases hs : s = b2CreateContact_setIndex bodyA bodyB
    · by_cases hj : j = (set.contactSims.length : Int)
      · left
        rw [hs, hj, hsimNew] at hsj
        exact ⟨hs, hj, (Option.some.inj hsj).symm⟩
      · right
        unfold b2SimAt at hsj ⊢
        rw [hs', hs, b2Array_Get_Set_self _ _ _ _ hset] at hsj
        rw [hs, hset]
        exact b2Array_Get_append_ne _ _ _ _ hsj hj
    · right
      unfold b2SimAt at hsj ⊢
      rw [hs', b2Array_Get_Set_other _ _ _ _ _ hset hs] at hsj
      exact hsj
  refine ⟨⟨?_, ?_, ?_⟩, b2CreateContact_setIndex bodyA bodyB, set,
    { set with contactSims := set.contactSims ++
        [b2CreateContact_sim env w (b2AllocId w.contactIdPool).1 a b] }, hset, ?_, ?_, hfwd⟩
  · intro i c' hc' hid' hcol'
    by_cases hi : i = (b2AllocId w.contactIdPool).1
    · rw [hi, hc1] at hc'
      cases hc'
      refine ⟨b2CreateContact_sim env w (b2AllocId w.contactIdPool).1 a b, ?_, ?_⟩
      · rw [g2, f2, g3, f3]
        exact hsimNew
      · rw [b2CreateContact_sim_contactId, g1, f1]
    · obtain ⟨ci, hci, hl⟩ := hbwd i c' hc' hi
      obtain ⟨q1, q2, q3, q4⟩ := b2Contact_locator_fields _ _ hl
      obtain ⟨sim, h1, h2⟩ := hH1 i ci hci (q1.symm.trans hid') (q3.symm.trans hcol')
      refine ⟨sim, ?_, h2.trans q1.symm⟩
      rw [q2, q4]
      exact hsimOld _ _ _ h1
  · intro s j sim hsj
    rcases hsimBack s j sim hsj with ⟨rfl, rfl, rfl⟩ | hold
    · rw [b2CreateContact_sim_contactId]
      exact ⟨c1, hc1, g1.trans f1, g4.trans f4, g2.trans f2, g3.trans f3⟩
    · obtain ⟨c, hc, o1, o2, o3, o4⟩ := hH2 s j sim hold
      have hne : sim.contactId ≠ (b2AllocId w.contactIdPool).1 := by
        intro heq
        rw [heq] at hc o1
        exact hfree ⟨c, hc, o1⟩
      obtain ⟨c', hc', hl⟩ := hfwd _ c hc hne
      obtain ⟨q1, q2, q3, q4⟩ := b2Contact_locator_fields _ _ hl
      exact ⟨c', hc', q1.trans o1, q3.trans o2, q2.trans o3, q4.trans o4⟩
  · rw [hp']
    exact b2PoolInv_congr _ _ _ (b2Contact_core_ids _ _ hmcore) hpool'
  · rw [hs']
    exact b2Array_Get_Set_self _ _ _ _ hset
  · simp

theorem b2GetContactSim_of_null (w : b2World) (c : b2Contact)
    (hcol : c.colorIndex = B2_NULL_INDEX) :
    b2GetContactSim w c = b2SimAt w.solverSets c.setIndex c.localIndex := by
  unfold b2GetContactSim b2SimAt
  rw [if_neg (fun h => h.2 hcol)]
  rfl

theorem b2LocatorInv_getContactSim (w : b2World) (hinv : b2LocatorInv w) (i : Int)
    (c : b2Contact) (hc : b2Array_Get w.contacts i = some c) (hid : c.contactId = i)
    (hcol : c.colorIndex = B2_NULL_INDEX) :
    ∃ sim, b2GetContactSim w c = some sim ∧ sim.contactId = c.contactId := by
  rw [b2GetContactSim_of_null w c hcol]
  exact hinv.1 i c hc hid hcol

theorem b2World_twoContacts_create :
    b2CreateContactPrimary b2Env_sample (b2World_cycleLive 1) b2Shape_polygon b2Shape_circle =
      some b2World_twoContacts := rfl

theorem b2World_sample_locator : b2LocatorInv b2World_sample := by
  refine ⟨?_, ?_, List.nodup_nil, rfl, ?_⟩
  · intro i c hc
    obtain ⟨h0, h1⟩ := b2Array_Get_lt _ _ _ hc
    have : (b2World_sample.contacts.length : Int) = 0 := rfl
    omega
  · intro s j sim hsj
    unfold b2SimAt at hsj
    cases hg : b2Array_Get b2World_sample.solverSets s with
    | none => rw [hg] at hsj; cases hsj
    | some set =>
      rw [hg] at hsj
      obtain ⟨h0, h1⟩ := b2Array_Get_lt _ _ _ hg
      have h2 : s = 0 ∨ s = 1 ∨ s = 2 := by
        have : (b2World_sample.solverSets.length : Int) = 3 := rfl
        omega
      rcases h2 with rfl | rfl | rfl <;> cases hg <;>
        · obtain ⟨h3a, h3⟩ := b2Array_Get_lt _ _ _ hsj
          have h5 : j < 0 := h3
          omega
  · intro id hid
    cases hid

theorem b2World_twoContacts_locator : b2LocatorInv b2World_twoContacts :=
  (b2CreateContactPrimary_locator b2Env_sample (b2World_cycleLive 1) b2World_twoContacts
    b2Shape_polygon b2Shape_circle
    (b2CreateContactPrimary_locator b2Env_sample b2World_sample (b2World_cycleLive 1)
      b2Shape_polygon b2Shape_circle b2World_sample_locator rfl).1
    b2World_twoContacts_create).1

/-- C22. Contact locator survives swap-remove.  In a world with a sound locator (every live
contact `c` with `colorIndex == B2_NULL_INDEX` satisfies
`solverSets[c.setIndex].contactSims[c.localIndex].contactId == c.contactId`, every sim of a
solver set belongs to the live contact that points at it, the id pool agrees with the
contact array) the locator is sound again after `b2CreateContact` on a registered pair and
after `b2DestroyContact` of a live contact with `colorIndex == B2_NULL_INDEX`, and
`b2GetContactSim` finds for every live contact outside the graph a sim with its id.
`b2CreateContact` makes one set one sim longer and changes no other contact's `localIndex`.
When `b2DestroyContact` does not wake the bodies, the set of the contact is one sim shorter,
the sim that the swap-remove moves into the vacated index has its contact's `localIndex` set
to that index, and no other contact's `localIndex` changes. -/
theorem b2Contact_locator_survives (env : b2Env) (hU : b2UnlinkKeepsLocator env)
    (hW : ∀ w body, b2LocatorInv w → b2LocatorInv (env.b2WakeBody w body))
    (w : b2World) (hinv : b2LocatorInv w) :
    (∀ (a b : b2Shape) (fuel : Nat) (w' : b2World), (s_registers a.type b.type).fcn ≠ none →
      b2CreateContact env s_registers (fuel + 2) w a b = some w' →
      b2LocatorInv w' ∧
      (∀ i c, b2Array_Get w'.contacts i = some c → c.contactId = i →
        c.colorIndex = B2_NULL_INDEX →
        ∃ sim, b2GetContactSim w' c = some sim ∧ sim.contactId = c.contactId) ∧
      ∃ (s : Int) (set set' : b2SolverSet),
        b2Array_Get w.solverSets s = some set ∧ b2Array_Get w'.solverSets s = some set' ∧
        set'.contactSims.length = set.contactSims.length + 1 ∧
        ∀ i ci, b2Array_Get w.contacts i = some ci → i ≠ (b2AllocId w.contactIdPool).1 →
          ∃ ci', b2Array_Get w'.contacts i = some ci' ∧ ci'.localIndex = ci.localIndex) ∧
    (∀ (contact : Int) ( wake : Bool) (w' : b2World) (c : b2Contact),
      b2Array_Get w.contacts contact = some c → c.contactId = contact →
      c.colorIndex = B2_NULL_INDEX →
      b2DestroyContact env w contact wake = some w' →
      b2LocatorInv w' ∧
      (∀ i c, b2Array_Get w'.contacts i = some c → c.contactId = i →
        c.colorIndex = B2_NULL_INDEX →
        ∃ sim, b2GetContactSim w' c = some sim ∧ sim.contactId = c.contactId) ∧
      ((wake = false ∨ c.flags &&& env.b2_contactTouchingFlag = 0) →
        ∃ (set set' : b2SolverSet),
          b2Array_Get w.solverSets c.setIndex = some set ∧
          b2Array_Get w'.solverSets c.setIndex = some set' ∧
          (set'.contactSims.length : Int) = (set.contactSims.length : Int) - 1 ∧
          (c.localIndex ≠ (set.contactSims.length : Int) - 1 →
            ∃ msim mc', b2Array_Get set.contactSims ((set.contactSims.length : Int) - 1) =
                some msim ∧
              b2Array_Get set'.contactSims c.localIndex = some msim ∧
              b2Array_Get w'.contacts msim.contactId = some mc' ∧
              mc'.localIndex = c.localIndex) ∧
          (∀ i ci, b2Array_Get w.contacts i = some ci → i ≠ contact →
            (∀ msim, b2Array_Get set.contactSims ((set.contactSims.length : Int) - 1) =
                some msim → c.localIndex ≠ (set.contactSims.length : Int) - 1 →
              msim.contactId ≠ i) →
            ∃ ci', b2Array_Get w'.contacts i = some ci' ∧
              ci'.localIndex = ci.localIndex))) := by
  constructor
  · intro a b fuel w' hreg h
    obtain ⟨A, B, -, -, hrun⟩ := b2CreateContact_primary_order env w a b fuel hreg
    rw [hrun] at h
    obtain ⟨hinv', s, set, set', h1, h2, h3, h4⟩ :=
      b2CreateContactPrimary_locator env w w' A B hinv h
    refine ⟨hinv', b2LocatorInv_getContactSim w' hinv', s, set, set', h1, h2, h3, ?_⟩
    intro i ci hci hi
    obtain ⟨ci', hci', hl⟩ := h4 i ci hci hi
    exact ⟨ci', hci', (b2Contact_locator_fields _ _ hl).2.2.2⟩
  · intro contact wake w' c hc hlive hcol h
    obtain ⟨w5, set, set5, hw', h1, h2, h3, hset, hset5, hlen, hmoved, hothers⟩ :=
      b2DestroyContact_locator env hU w w' contact wake c hinv.1 hinv.2.1 hinv.2.2 hc hlive
        hcol h
    have hinv5 : b2LocatorInv w5 := ⟨h1, h2, h3⟩
    have hinv' : b2LocatorInv w' := by
      rw [hw']
      split_ifs
      · exact hW _ _ (hW _ _ hinv5)
      · exact hinv5
    refine ⟨hinv', b2LocatorInv_getContactSim w' hinv', ?_⟩
    intro hnowake
    have hw5 : w' = w5 := by
      rw [hw']
      rcases hnowake with hwk | hfl
      · rw [if_neg (by rw [hwk]; simp)]
      · rw [if_neg (by rw [hfl]; simp)]
    rw [hw5]
    refine ⟨set, set5, hset, hset5, hlen, hmoved, ?_⟩
    intro i ci hci hi hnm
    obtain ⟨ci', hci', hl⟩ := hothers i ci hci hi hnm
    exact ⟨ci', hci', (b2Contact_locator_fields _ _ hl).2.2.2⟩

theorem b2Contact_locator_survives_witness :
    b2UnlinkKeepsLocator b2Env_sample ∧ b2LocatorInv b2World_twoContacts ∧
    ∃ w' mc, b2DestroyContact b2Env_sample b2World_twoContacts 0 false = some w' ∧
      b2LocatorInv w' ∧ b2Array_Get w'.contacts 1 = some mc ∧ mc.localIndex = 0 := by
  have hU : b2UnlinkKeepsLocator b2Env_sample := fun _ _ => ⟨rfl, rfl, rfl⟩
  have hrun : ∃ w', b2DestroyContact b2Env_sample b2World_twoContacts 0 false = some w' :=
    ⟨_, rfl⟩
  obtain ⟨w', hw'⟩ := hrun
  obtain ⟨hinv', -, hdet⟩ := (b2Contact_locator_survives b2Env_sample hU
    (fun _ _ hw => hw) b2World_twoContacts b2World_twoContacts_locator).2 0 false w' _
    rfl rfl rfl hw'
  obtain ⟨set, set', hset, -, -, hmoved, -⟩ := hdet (Or.inl rfl)
  cases hset
  obtain ⟨msim, mc', h1, -, h3, h4⟩ := hmoved (by decide)
  cases h1
  exact ⟨hU, b2World_twoContacts_locator, w', mc', hw', hinv', h3, h4⟩

/-- C30 (counterexample). With assertions compiled out, `b2RevoluteJoint_SetLimits(id, 0.5,
NaN)` on a joint with stored limits 0 and 0 changes the joint and stores NaN in both
`lowerAngle` and `upperAngle`, so the stored pair is not ordered: `lowerAngle <= upperAngle`
is false.  The same holds for `b2RevoluteJoint_SetLimits(id, NaN, NaN)`. -/
theorem b2RevoluteJoint_SetLimits_ieee_nan :
    b2RevoluteJoint_SetLimits_ieee b2RevoluteJointLimits_sample (b2Float.num (1 / 2))
        b2Float.nan ≠ b2RevoluteJointLimits_sample ∧
    b2RevoluteJoint_GetLowerLimit_ieee (b2RevoluteJoint_SetLimits_ieee
      b2RevoluteJointLimits_sample (b2Float.num (1 / 2)) b2Float.nan) = b2Float.nan ∧
    b2RevoluteJoint_GetUpperLimit_ieee (b2RevoluteJoint_SetLimits_ieee
      b2RevoluteJointLimits_sample (b2Float.num (1 / 2)) b2Float.nan) = b2Float.nan ∧
    b2Float.le
      (b2RevoluteJoint_GetLowerLimit_ieee (b2RevoluteJoint_SetLimits_ieee
        b2RevoluteJointLimits_sample (b2Float.num (1 / 2)) b2Float.nan))
      (b2RevoluteJoint_GetUpperLimit_ieee (b2RevoluteJoint_SetLimits_ieee
        b2RevoluteJointLimits_sample (b2Float.num (1 / 2)) b2Float.nan)) = false ∧
    b2Float.le
      (b2RevoluteJoint_GetLowerLimit_ieee (b2RevoluteJoint_SetLimits_ieee
        b2RevoluteJointLimits_sample b2Float.nan b2Float.nan))
      (b2RevoluteJoint_GetUpperLimit_ieee (b2RevoluteJoint_SetLimits_ieee
        b2RevoluteJointLimits_sample b2Float.nan b2Float.nan)) = false := by
  have e1 : b2RevoluteJoint_SetLimits_ieee b2RevoluteJointLimits_sample (b2Float.num (1 / 2))
      b2Float.nan =
      { lowerAngle := b2Float.nan, upperAngle := b2Float.nan,
        lowerImpulse := b2Float.num 0, upperImpulse := b2Float.num 0 } := by
    unfold b2RevoluteJoint_SetLimits_ieee
    have hc : b2Float.ne (b2Float.num (1 / 2)) b2RevoluteJointLimits_sample.lowerAngle = true ∨
        b2Float.ne b2Float.nan b2RevoluteJointLimits_sample.upperAngle = true := Or.inr rfl
    rw [if_pos hc]
    rfl
  have e2 : b2RevoluteJoint_SetLimits_ieee b2RevoluteJointLimits_sample b2Float.nan
      b2Float.nan =
      { lowerAngle := b2Float.nan, upperAngle := b2Float.nan,
        lowerImpulse := b2Float.num 0, upperImpulse := b2Float.num 0 } := by
    unfold b2RevoluteJoint_SetLimits_ieee
    have hc : b2Float.ne b2Float.nan b2RevoluteJointLimits_sample.lowerAngle = true ∨
        b2Float.ne b2Float.nan b2RevoluteJointLimits_sample.upperAngle = true := Or.inr rfl
    rw [if_pos hc]
    rfl
  rw [e1, e2]
  refine ⟨?_, rfl, rfl, rfl, rfl⟩
  intro h
  have := congrArg b2RevoluteJointLimits.lowerAngle h
  cases this

theorem b2Float_lt_irrefl (a : b2Float) : b2Float.lt a a = false := by
  cases a <;> simp [b2Float.lt]

theorem b2Float_le_refl (a : b2Float) (ha : a ≠ b2Float.nan) : b2Float.le a a = true := by
  cases a <;> simp [b2Float.le, b2Float.lt] at ha ⊢

theorem b2Float_le_of_lt (a b : b2Float) (h : b2Float.lt a b = true) :
    b2Float.le a b = true := by
  cases a <;> cases b <;> simp [b2Float.le, b2Float.lt] at h ⊢
  exact le_of_lt h

theorem b2Float_le_of_not_lt (a b : b2Float) (ha : a ≠ b2Float.nan) (hb : b ≠ b2Float.nan)
    (h : b2Float.lt a b = false) : b2Float.le b a = true := by
  cases a <;> cases b <;> simp [b2Float.le, b2Float.lt] at h ha hb ⊢
  exact h

theorem b2Float_ne_self (a : b2Float) (ha : a ≠ b2Float.nan) : b2Float.ne a a = false := by
  cases a <;> simp [b2Float.ne] at ha ⊢

/-- C30 (amended). Stored limits are ordered: for all `lower` and `upper` that are not NaN (finite or
infinite), after `b2RevoluteJoint_SetLimits(id, lower, upper)` changes the joint (`lower` or
`upper` differs from the stored angle), `b2RevoluteJoint_GetLowerLimit` returns
`min(lower, upper)` (one of the two, at most both), `b2RevoluteJoint_GetUpperLimit` returns
`max(lower, upper)` (one of the two, at least both), so the stored `lowerAngle <= upperAngle`,
and `lowerImpulse` and `upperImpulse` are both zero; when `lower` and `upper` equal the stored
`lowerAngle` and `upperAngle`, the call leaves the joint unchanged, including its
accumulated limit impulses. -/
theorem b2RevoluteJoint_SetLimits_ieee_ordered (joint : b2RevoluteJointLimits)
    (lower upper : b2Float) (hl : lower ≠ b2Float.nan) (hu : upper ≠ b2Float.nan) :
    (b2Float.ne lower joint.lowerAngle = true ∨ b2Float.ne upper joint.upperAngle = true →
      (b2RevoluteJoint_GetLowerLimit_ieee (b2RevoluteJoint_SetLimits_ieee joint lower upper) =
          lower ∨
        b2RevoluteJoint_GetLowerLimit_ieee (b2RevoluteJoint_SetLimits_ieee joint lower upper) =
          upper) ∧
      b2Float.le (b2RevoluteJoint_GetLowerLimit_ieee
        (b2RevoluteJoint_SetLimits_ieee joint lower upper)) lower = true ∧
      b2Float.le (b2RevoluteJoint_GetLowerLimit_ieee
        (b2RevoluteJoint_SetLimits_ieee joint lower upper)) upper = true ∧
      (b2RevoluteJoint_GetUpperLimit_ieee (b2RevoluteJoint_SetLimits_ieee joint lower upper) =
          lower ∨
        b2RevoluteJoint_GetUpperLimit_ieee (b2RevoluteJoint_SetLimits_ieee joint lower upper) =
          upper) ∧
      b2Float.le lower (b2RevoluteJoint_GetUpperLimit_ieee
        (b2RevoluteJoint_SetLimits_ieee joint lower upper)) = true ∧
      b2Float.le upper (b2RevoluteJoint_GetUpperLimit_ieee
        (b2RevoluteJoint_SetLimits_ieee joint lower upper)) = true ∧
      b2Float.le
        (b2RevoluteJoint_GetLowerLimit_ieee (b2RevoluteJoint_SetLimits_ieee joint lower upper))
        (b2RevoluteJoint_GetUpperLimit_ieee (b2RevoluteJoint_SetLimits_ieee joint lower upper)) =
          true ∧
      (b2RevoluteJoint_SetLimits_ieee joint lower upper).lowerImpulse = b2Float.num 0 ∧
      (b2RevoluteJoint_SetLimits_ieee joint lower upper).upperImpulse = b2Float.num 0) ∧
    (lower = joint.lowerAngle ∧ upper = joint.upperAngle →
      b2RevoluteJoint_SetLimits_ieee joint lower upper = joint ∧
      (b2RevoluteJoint_SetLimits_ieee joint lower upper).lowerImpulse = joint.lowerImpulse ∧
      (b2RevoluteJoint_SetLimits_ieee joint lower upper).upperImpulse = joint.upperImpulse) := by
  constructor
  · intro h
    unfold b2RevoluteJoint_GetLowerLimit_ieee b2RevoluteJoint_GetUpperLimit_ieee
      b2RevoluteJoint_SetLimits_ieee
    rw [if_pos h]
    dsimp only
    unfold b2MinFloat_ieee b2MaxFloat_ieee
    have hf : ¬ (false = true) := Bool.false_ne_true
    have ht : true = true := rfl
    cases h1 : b2Float.lt lower upper
    · have k1 := b2Float_le_of_not_lt lower upper hl hu h1
      cases h2 : b2Float.lt upper lower
      · have k2 := b2Float_le_of_not_lt upper lower hu hl h2
        rw [if_neg hf]
        exact ⟨Or.inr rfl, k1, b2Float_le_refl _ hu, Or.inr rfl, k2, b2Float_le_refl _ hu,
          b2Float_le_refl _ hu, rfl, rfl⟩
      · rw [if_neg hf, if_pos ht]
        exact ⟨Or.inr rfl, k1, b2Float_le_refl _ hu, Or.inl rfl, b2Float_le_refl _ hl, k1,
          k1, rfl, rfl⟩
    · have k1 := b2Float_le_of_lt lower upper h1
      have h2 : b2Float.lt upper lower = false := by
        cases lower <;> cases upper <;> simp [b2Float.lt] at h1 ⊢
        exact le_of_lt h1
      rw [h2, if_neg hf, if_pos ht]
      exact ⟨Or.inl rfl, b2Float_le_refl _ hl, k1, Or.inr rfl, k1, b2Float_le_refl _ hu, k1,
        rfl, rfl⟩
  · rintro ⟨rfl, rfl⟩
    have e : b2RevoluteJoint_SetLimits_ieee joint joint.lowerAngle joint.upperAngle = joint := by
      unfold b2RevoluteJoint_SetLimits_ieee
      rw [if_neg]
      rw [b2Float_ne_self _ hl, b2Float_ne_self _ hu]
      simp
    rw [e]
    exact ⟨rfl, rfl, rfl⟩

theorem b2RevoluteJoint_SetLimits_ieee_ordered_witness :
    (b2RevoluteJoint_GetLowerLimit_ieee (b2RevoluteJoint_SetLimits_ieee
        b2RevoluteJointLimits_sample (b2Float.num 3) b2Float.negInf) = b2Float.negInf ∧
      b2RevoluteJoint_GetUpperLimit_ieee (b2RevoluteJoint_SetLimits_ieee
        b2RevoluteJointLimits_sample (b2Float.num 3) b2Float.negInf) = b2Float.num 3 ∧
      b2Float.le
        (b2RevoluteJoint_GetLowerLimit_ieee (b2RevoluteJoint_SetLimits_ieee
          b2RevoluteJointLimits_sample (b2Float.num 3) b2Float.negInf))
        (b2RevoluteJoint_GetUpperLimit_ieee (b2RevoluteJoint_SetLimits_ieee
          b2RevoluteJointLimits_sample (b2Float.num 3) b2Float.negInf)) = true ∧
      (b2RevoluteJoint_SetLimits_ieee b2RevoluteJointLimits_sample (b2Float.num 3)
        b2Float.negInf).lowerImpulse = b2Float.num 0 ∧
      (b2RevoluteJoint_SetLimits_ieee b2RevoluteJointLimits_sample (b2Float.num 3)
        b2Float.negInf).upperImpulse = b2Float.num 0) ∧
    (b2RevoluteJoint_SetLimits_ieee b2RevoluteJointLimits_sample (b2Float.num 0)
        (b2Float.num 0) = b2RevoluteJointLimits_sample ∧
      (b2RevoluteJoint_SetLimits_ieee b2RevoluteJointLimits_sample (b2Float.num 0)
        (b2Float.num 0)).lowerImpulse = b2Float.num 1 ∧
      (b2RevoluteJoint_SetLimits_ieee b2RevoluteJointLimits_sample (b2Float.num 0)
        (b2Float.num 0)).upperImpulse = b2Float.num 2) := by
  have h1 := (b2RevoluteJoint_SetLimits_ieee_ordered b2RevoluteJointLimits_sample
    (b2Float.num 3) b2Float.negInf (by simp) (by simp)).1 (Or.inr rfl)
  have h2 := (b2RevoluteJoint_SetLimits_ieee_ordered b2RevoluteJointLimits_sample
    (b2Float.num 0) (b2Float.num 0) (by simp) (by simp)).2 ⟨rfl, rfl⟩
  have e : b2RevoluteJoint_SetLimits_ieee b2RevoluteJointLimits_sample (b2Float.num 3)
      b2Float.negInf =
      { lowerAngle := b2Float.negInf, upperAngle := b2Float.num 3,
        lowerImpulse := b2Float.num 0, upperImpulse := b2Float.num 0 } := by
    unfold b2RevoluteJoint_SetLimits_ieee
    have hc : b2Float.ne (b2Float.num 3) b2RevoluteJointLimits_sample.lowerAngle = true ∨
        b2Float.ne b2Float.negInf b2RevoluteJointLimits_sample.upperAngle = true := Or.inr rfl
    rw [if_pos hc]
    rfl
  refine ⟨⟨?_, ?_, h1.2.2.2.2.2.2.1, h1.2.2.2.2.2.2.2.1, h1.2.2.2.2.2.2.2.2⟩, h2⟩
  · rw [e]
    rfl
  · rw [e]
    rfl

/-- C7 (amended). The contact that `b2CreateContact` has just created is not touching; it
is stored in the disabled set exactly when neither of its two bodies is in the awake set,
and in the awake set (outside the constraint graph: `colorIndex` is `B2_NULL_INDEX`) when
at least one body is awake.  In either case its sim is appended at the end of the
`contactSims` array of the solver set that `setIndex` names, `localIndex` is the index of
that last element, and `b2GetContactSim` returns it. -/
theorem b2CreateContact_nontouching_set (env : b2Env) (w w' : b2World) (a b : b2Shape)
    (fuel : Nat)
    (hbits : env.b2_contactEnableContactEvents &&& env.b2_contactTouchingFlag = 0)
    (hreg : (s_registers a.type b.type).fcn ≠ none)
    (h : b2CreateContact env s_registers (fuel + 2) w a b = some w') :
    ∃ bodyA bodyB c' set sim,
      b2Array_Get w.bodies a.bodyId = some bodyA ∧
      b2Array_Get w.bodies b.bodyId = some bodyB ∧
      b2Array_Get w'.contacts (b2AllocId w.contactIdPool).1 = some c' ∧
      c'.flags &&& env.b2_contactTouchingFlag = 0 ∧
      c'.colorIndex = B2_NULL_INDEX ∧
      (c'.setIndex = b2_disabledSet ↔
        (bodyA.setIndex ≠ b2_awakeSet ∧ bodyB.setIndex ≠ b2_awakeSet)) ∧
      (c'.setIndex = b2_awakeSet ↔
        (bodyA.setIndex = b2_awakeSet ∨ bodyB.setIndex = b2_awakeSet)) ∧
      b2Array_Get w.solverSets c'.setIndex = some set ∧
      b2Array_Get w'.solverSets c'.setIndex =
        some { set with contactSims := set.contactSims ++ [sim] } ∧
      c'.localIndex = (set.contactSims.length : Int) ∧
      sim.contactId = c'.contactId ∧
      b2GetContactSim w' c' = some sim := by
  obtain ⟨A, B, hAB, -, hrun⟩ := b2CreateContact_primary_order env w a b fuel hreg
  rw [hrun] at h
  obtain ⟨bodyA, bodyB, set, c0, c', hA, hB, hset, hc0, hc', hcore, hsets, -⟩ :=
    b2CreateContactPrimary_created env w w' A B h
  obtain ⟨f1, f2, f3, f4, f5, -, -, -, f9⟩ := b2CreateContact_contact_fields env c0
    (b2AllocId w.contactIdPool).1 (b2CreateContact_setIndex bodyA bodyB)
    (set.contactSims.length : Int) A B
  obtain ⟨g1, g2, g3, g4, g5, -, -, -, g9⟩ := b2Contact_core_fields _ _ hcore
  have hflags : c'.flags &&& env.b2_contactTouchingFlag = 0 := by
    rw [g9.trans f9]
    split_ifs
    · exact hbits
    · exact Nat.zero_and _
  have hsi : c'.setIndex = b2CreateContact_setIndex bodyA bodyB := g2.trans f2
  have hci : c'.colorIndex = B2_NULL_INDEX := g4.trans f4
  have hli : c'.localIndex = (set.contactSims.length : Int) := g3.trans f3
  have hd : (c'.setIndex = b2_disabledSet ↔
      (bodyA.setIndex ≠ b2_awakeSet ∧ bodyB.setIndex ≠ b2_awakeSet)) := by
    rw [hsi]
    unfold b2CreateContact_setIndex
    split_ifs with hc
    · constructor
      · intro h2
        exact absurd h2 (by decide)
      · intro h2
        rcases hc with hc | hc
        · exact absurd hc h2.1
        · exact absurd hc h2.2
    · exact ⟨fun _ => ⟨fun h1 => hc (Or.inl h1), fun h1 => hc (Or.inr h1)⟩, fun _ => rfl⟩
  have ha : (c'.setIndex = b2_awakeSet ↔
      (bodyA.setIndex = b2_awakeSet ∨ bodyB.setIndex = b2_awakeSet)) := by
    rw [hsi]
    unfold b2CreateContact_setIndex
    split_ifs with hc
    · exact ⟨fun _ => hc, fun _ => rfl⟩
    · exact ⟨fun h2 => absurd h2 (by decide), fun h2 => absurd h2 hc⟩
  have hset' : b2Array_Get w.solverSets c'.setIndex = some set := by
    rw [hsi]; exact hset
  have hsets' : b2Array_Get w'.solverSets c'.setIndex =
      some { set with contactSims := set.contactSims ++
        [b2CreateContact_sim env w (b2AllocId w.contactIdPool).1 A B] } := by
    rw [hsi]; exact hsets
  have hsimid : (b2CreateContact_sim env w (b2AllocId w.contactIdPool).1 A B).contactId =
      c'.contactId :=
    (b2CreateContact_sim_contactId env w _ A B).trans (g1.trans f1).symm
  have hget : b2GetContactSim w' c' =
      some (b2CreateContact_sim env w (b2AllocId w.contactIdPool).1 A B) := by
    rw [b2GetContactSim_of_null w' c' hci]
    unfold b2SimAt
    rw [hsets', hli]
    simp [b2Array_Get]
  rcases hAB with ⟨rfl, rfl⟩ | ⟨rfl, rfl⟩
  · exact ⟨bodyA, bodyB, c', set, _, hA, hB, hc', hflags, hci, hd, ha, hset', hsets', hli,
      hsimid, hget⟩
  · refine ⟨bodyB, bodyA, c', set, _, hB, hA, hc', hflags, hci, ?_, ?_, hset', hsets', hli,
      hsimid, hget⟩
    · rw [hd]; exact and_comm
    · rw [ha]; exact or_comm

theorem b2CreateContact_nontouching_set_witness :
    ∃ w' bodyA bodyB c' set sim,
      b2CreateContact b2Env_sample s_registers 2 b2World_sample b2Shape_circle
        b2Shape_polygon = some w' ∧
      b2Array_Get b2World_sample.bodies b2Shape_circle.bodyId = some bodyA ∧
      b2Array_Get b2World_sample.bodies b2Shape_polygon.bodyId = some bodyB ∧
      b2Array_Get w'.contacts (b2AllocId b2World_sample.contactIdPool).1 = some c' ∧
      c'.flags &&& b2Env_sample.b2_contactTouchingFlag = 0 ∧
      c'.colorIndex = B2_NULL_INDEX ∧
      (c'.setIndex = b2_disabledSet ↔
        (bodyA.setIndex ≠ b2_awakeSet ∧ bodyB.setIndex ≠ b2_awakeSet)) ∧
      (c'.setIndex = b2_awakeSet ↔
        (bodyA.setIndex = b2_awakeSet ∨ bodyB.setIndex = b2_awakeSet)) ∧
      b2Array_Get b2World_sample.solverSets c'.setIndex = some set ∧
      b2Array_Get w'.solverSets c'.setIndex =
        some { set with contactSims := set.contactSims ++ [sim] } ∧
      c'.localIndex = (set.contactSims.length : Int) ∧
      sim.contactId = c'.contactId ∧
      b2GetContactSim w' c' = some sim := by
  have hrun : ∃ w', b2CreateContact b2Env_sample s_registers 2 b2World_sample b2Shape_circle
      b2Shape_polygon = some w' := ⟨_, rfl⟩
  obtain ⟨w', hw'⟩ := hrun
  obtain ⟨bA, bB, c', set, sim, hh⟩ :=
    b2CreateContact_nontouching_set b2Env_sample b2World_sample w' b2Shape_circle
      b2Shape_polygon 0 (by decide) (by decide) hw'
  exact ⟨w', bA, bB, c', set, sim, hw', hh⟩

end Box2D
